import Mathlib

/-!
# Frame resources and fence synchronisation of the D3D12 samples

A shallow embedding of the per-frame resource and fence code shared by
`d3d12_stenciling/d3d_stenciling.cpp` and `d3d12_tessellation/_d3d_bezier.cpp`:
`update_obj_cbuffers`, `update_mat_cbuffers`, `draw_main`, `move_to_next_frame`,
`flush_command_queue`, `d3d_resize` and the start-up code of `WinMain`.

The CPU side is translated statement by statement.  The GPU side, which the
source only reaches through `ID3D12CommandQueue` and `ID3D12Fence`, is an
explicit part of the state: the commands submitted to `cmd_queue` and not yet
retired, and the value `fence->GetCompletedValue()` returns.  The GPU retires
the queue in submission order; how far it has got when the CPU looks is an
argument (a number of retired commands) of every function that looks.
-/

namespace D3D

/-! ## Constants -/

/-- The macro `NUM_BACKBUFFERS` of both samples. -/
def NUM_BACKBUFFERS : Nat := 2

/-- The macro `NUM_QUEUING_FRAMES` of both samples.  The functions below take
the number of frame slots as an argument `N`; the samples run them at this
value. -/
def NUM_QUEUING_FRAMES : Nat := 3

/-- Number of values of a `UINT`. -/
def UINT_SIZE : Nat := 2 ^ 32

/-- Number of values of a `UINT64`. -/
def UINT64_SIZE : Nat := 2 ^ 64

/-! ## Data model -/

/-- A `float`, kept as its bit pattern: the embedded code only copies floats
and permutes matrix entries. -/
abbrev FloatBits := Nat

/-- The type `XMFLOAT4X4`: rows of entries. -/
abbrev XMFLOAT4X4 := List (List FloatBits)

/-- The function `XMMatrixTranspose` (through `XMLoadFloat4x4` / `XMStoreFloat4x4`). -/
def XMMatrixTranspose (m : XMFLOAT4X4) : XMFLOAT4X4 := m.transpose

/-- The record `ObjectConstants` copied into an object constant buffer.  The
stenciling sample has the first two fields only; there the other two keep the
zero of `ObjectConstants obj_cbuffer = {}`. -/
structure ObjectConstants where
  world : XMFLOAT4X4 := []
  tex_transform : XMFLOAT4X4 := []
  displacement_texel_size : List FloatBits := []
  grid_spatial_step : FloatBits := 0
deriving DecidableEq, Repr

/-- The record `MaterialConstants` copied into a material constant buffer. -/
structure MaterialConstants where
  diffuse_albedo : List FloatBits := []
  fresnel_r0 : List FloatBits := []
  roughness : FloatBits := 0
  mat_transform : XMFLOAT4X4 := []
deriving DecidableEq, Repr

/-- The struct `Material`, with the fields the embedded functions use. -/
structure Material where
  mat_cbuffer_index : Nat := 0
  diffuse_srvheap_index : Nat := 0
  diffuse_albedo : List FloatBits := []
  fresnel_r0 : List FloatBits := []
  roughness : FloatBits := 0
  mat_transform : XMFLOAT4X4 := []
  n_frames_dirty : Int := 0
deriving DecidableEq, Repr

/-- The struct `RenderItem`, with the fields the embedded functions use; `mat`
is the index in `materials` of the material the item points to. -/
structure RenderItem where
  world : XMFLOAT4X4 := []
  tex_transform : XMFLOAT4X4 := []
  displacement_map_texel_size : List FloatBits := []
  grid_spatial_step : FloatBits := 0
  obj_cbuffer_index : Nat := 0
  mat : Nat := 0
  index_count : Nat := 0
  start_index_loc : Nat := 0
  base_vertex_loc : Nat := 0
  n_frames_dirty : Int := 0
  initialized : Bool := false
deriving DecidableEq, Repr

/-- The struct `RenderItemArray`. -/
structure RenderItemArray where
  ritems : List RenderItem := []
  size : Nat := 0
deriving DecidableEq, Repr

/-- A command allocator: `direct_cmd_list_alloc` or the `cmd_list_alloc` of a
frame slot. -/
inductive Allocator where
  | direct
  | frame (slot : Nat)
deriving DecidableEq, Repr

/-- A command submitted to `cmd_queue`. -/
inductive QueueCmd where
  /-- The command list of `ExecuteCommandLists`, recorded with this allocator. -/
  | execute (alloc : Allocator)
  /-- The command of `cmd_queue->Signal(fence, value)`. -/
  | signal (value : Nat)
deriving DecidableEq, Repr

/-- Which constant buffer of a frame slot a `memcpy` writes. -/
inductive CBuffer where
  | obj
  | mat
  | pass
deriving DecidableEq, Repr

/-- The calls the CPU makes, in program order. -/
inductive Event where
  /-- The call `cmd_list_alloc->Reset()` on this allocator. -/
  | alloc_reset (alloc : Allocator)
  /-- The call `direct_cmd_list->Reset(alloc, ..)`: the command list starts
  recording into this allocator. -/
  | list_reset (alloc : Allocator)
  /-- The call `cmd_queue->ExecuteCommandLists`. -/
  | execute (alloc : Allocator)
  /-- The call `cmd_queue->Signal(fence, value)`. -/
  | signal (value : Nat)
  /-- The test `GetCompletedValue() < frame_resources[slot].fence` with the wait
  it guards; `value` is what `frame_resources[slot].fence` holds. -/
  | wait_slot (slot : Nat) (value : Nat)
  /-- The test `GetCompletedValue() < main_current_fence` with the wait it guards. -/
  | wait_main (value : Nat)
  /-- The `memcpy` of one record into a constant buffer of a frame slot. -/
  | memcpy (slot : Nat) (buffer : CBuffer) (index : Nat)
  /-- The call `render_targets[i]->Release()`. -/
  | release_render_target (i : Nat)
  /-- The call `depth_stencil_buffer->Release()`. -/
  | release_depth_stencil
  /-- The call `swapchain->ResizeBuffers`. -/
  | resize_buffers
  /-- The call `swapchain->Present`. -/
  | present
deriving DecidableEq, Repr

/-- The struct `FrameResource`: the slot's fence value and its mapped object
and material constant buffers, one record per index. -/
structure FrameResource where
  fence : Nat := 0
  obj_cb : List ObjectConstants := []
  mat_cb : List MaterialConstants := []
deriving DecidableEq, Repr

/-- The struct `D3DRenderContext`, with the GPU side of the queue and of the
fence made explicit (`cmd_queue`, `fence_completed`) and the history of calls
(`log`). -/
structure D3DRenderContext where
  /-- Whether the pointer `device` is non-null. -/
  device : Bool := false
  /-- Whether the pointer `direct_cmd_list_alloc` is non-null. -/
  direct_cmd_list_alloc : Bool := false
  /-- Whether the pointer `swapchain` is non-null. -/
  swapchain : Bool := false
  all_ritems : RenderItemArray := {}
  materials : List Material := []
  frame_index : Nat := 0
  frame_resources : List FrameResource := []
  main_current_fence : Nat := 0
  backbuffer_index : Nat := 0
  /-- Commands submitted to `cmd_queue` that the GPU has not retired yet, oldest first. -/
  cmd_queue : List QueueCmd := []
  /-- What `fence->GetCompletedValue()` returns. -/
  fence_completed : Nat := 0
  log : List Event := []
deriving DecidableEq, Repr

namespace D3DRenderContext

/-- The value `frame_resources[i].fence`. -/
def fence_of (s : D3DRenderContext) (i : Nat) : Nat :=
  match s.frame_resources[i]? with
  | some fr => fr.fence
  | none => 0

/-- The assignment `frame_resources[i].fence = v`. -/
def set_fence (s : D3DRenderContext) (i : Nat) (v : Nat) : D3DRenderContext :=
  { s with frame_resources := s.frame_resources.modify (fun fr => { fr with fence := v }) i }

/-- The call `cmd_queue->Signal(fence, v)`: the command is appended to the queue. -/
def Signal (s : D3DRenderContext) (v : Nat) : D3DRenderContext :=
  { s with cmd_queue := s.cmd_queue ++ [QueueCmd.signal v], log := s.log ++ [Event.signal v] }

/-- The call `cmd_queue->ExecuteCommandLists` of a list recorded with `a`. -/
def ExecuteCommandLists (s : D3DRenderContext) (a : Allocator) : D3DRenderContext :=
  { s with cmd_queue := s.cmd_queue ++ [QueueCmd.execute a], log := s.log ++ [Event.execute a] }

/-- Append a call to the history. -/
def record (s : D3DRenderContext) (e : Event) : D3DRenderContext :=
  { s with log := s.log ++ [e] }

end D3DRenderContext

/-! ## The GPU -/

/-- The fence value after the GPU retires one command: a command list leaves
it, a `Signal` command updates the fence to the value it carries
(`ID3D12CommandQueue::Signal`; the value is taken as it is, also when it is
below the value the fence holds). -/
def QueueCmd.retire (c : QueueCmd) (completed : Nat) : Nat :=
  match c with
  | QueueCmd.execute _ => completed
  | QueueCmd.signal v => v

/-- The GPU retires the `k` oldest commands of a queue (all of them when there
are fewer): the remaining queue and the fence value. -/
def gpu_steps : Nat → List QueueCmd → Nat → List QueueCmd × Nat
  | 0, queue, completed => (queue, completed)
  | _ + 1, [], completed => ([], completed)
  | k + 1, c :: rest, completed => gpu_steps k rest (c.retire completed)

/-- The context after the GPU has retired the `k` oldest queued commands. -/
def gpu_retire (k : Nat) (s : D3DRenderContext) : D3DRenderContext :=
  { s with
    cmd_queue := (gpu_steps k s.cmd_queue s.fence_completed).1
    fence_completed := (gpu_steps k s.cmd_queue s.fence_completed).2 }

/-- The GPU runs until the fence holds at least `value`: the remaining queue
and the fence value at that moment, or `none` when the queue runs empty first
(`WaitForSingleObject(.., INFINITE)` does not return). -/
def gpu_run_until (value : Nat) : List QueueCmd → Nat → Option (List QueueCmd × Nat)
  | [], completed => if value ≤ completed then some ([], completed) else none
  | c :: rest, completed =>
    if value ≤ completed then some (c :: rest, completed)
    else gpu_run_until value rest (c.retire completed)

/-- The statement
`if (fence->GetCompletedValue() < value) { fence->SetEventOnCompletion(value, event); WaitForSingleObject(event, INFINITE); }`. -/
def wait_for_fence (s : D3DRenderContext) (value : Nat) : Option D3DRenderContext :=
  if s.fence_completed < value then
    match gpu_run_until value s.cmd_queue s.fence_completed with
    | some (queue, completed) => some { s with cmd_queue := queue, fence_completed := completed }
    | none => none
  else some s

/-! ## Functions shared by the two samples -/

/-- The function `flush_command_queue`; `gpu` is the number of commands the
GPU retires between the `Signal` call and the `GetCompletedValue` call. -/
def flush_command_queue (gpu : Nat) (render_ctx : D3DRenderContext) : Option D3DRenderContext :=
  let s1 := { render_ctx with main_current_fence := (render_ctx.main_current_fence + 1) % UINT64_SIZE }
  let s2 := s1.Signal s1.main_current_fence
  let s3 := (gpu_retire gpu s2).record (Event.wait_main s2.main_current_fence)
  wait_for_fence s3 s3.main_current_fence

/-- The function `d3d_resize` (the same in both samples), up to the second
flush; what follows it sets the viewport, the scissor rectangle and the
projection only.  `gpu1` and `gpu2` are the GPU progress of the two flushes. -/
def d3d_resize (gpu1 gpu2 : Nat) (render_ctx : D3DRenderContext) : Option D3DRenderContext :=
  if render_ctx.device && render_ctx.direct_cmd_list_alloc && render_ctx.swapchain then
    match flush_command_queue gpu1 render_ctx with
    | none => none
    | some s1 =>
      let s2 := s1.record (Event.list_reset Allocator.direct)
      let s3 := (List.range NUM_BACKBUFFERS).foldl (fun s i => s.record (Event.release_render_target i)) s2
      let s4 := s3.record Event.release_depth_stencil
      let s5 := s4.record Event.resize_buffers
      let s6 := { s5 with backbuffer_index := 0 }
      let s7 := s6.ExecuteCommandLists Allocator.direct
      flush_command_queue gpu2 s7
  else some render_ctx

/-- One pass of the loop body of `update_obj_cbuffers` for the item at
position `i`; `object_constants` builds the record the sample copies. -/
def update_obj_cbuffers_step (object_constants : RenderItem → ObjectConstants) (frame_index : Nat)
    (s : D3DRenderContext) (i : Nat) : D3DRenderContext :=
  match s.all_ritems.ritems[i]? with
  | none => s
  | some item =>
    if 0 < item.n_frames_dirty ∧ item.initialized = true then
      let obj_index := item.obj_cbuffer_index
      let obj_cbuffer := object_constants item
      { s with
        frame_resources :=
          s.frame_resources.modify (fun fr => { fr with obj_cb := fr.obj_cb.set obj_index obj_cbuffer }) frame_index
        all_ritems :=
          { s.all_ritems with
            ritems := s.all_ritems.ritems.set i { item with n_frames_dirty := item.n_frames_dirty - 1 } }
        log := s.log ++ [Event.memcpy frame_index CBuffer.obj obj_index] }
    else s

/-- The loop of `update_obj_cbuffers` over `i < all_ritems.size`. -/
def update_obj_cbuffers_with (object_constants : RenderItem → ObjectConstants)
    (render_ctx : D3DRenderContext) : D3DRenderContext :=
  let frame_index := render_ctx.frame_index
  (List.range render_ctx.all_ritems.size).foldl
    (update_obj_cbuffers_step object_constants frame_index) render_ctx

/-- The record `update_mat_cbuffers` builds from a material. -/
def material_constants (mat : Material) : MaterialConstants :=
  { diffuse_albedo := mat.diffuse_albedo
    fresnel_r0 := mat.fresnel_r0
    roughness := mat.roughness
    mat_transform := XMMatrixTranspose mat.mat_transform }

/-- One pass of the loop body of `update_mat_cbuffers` for `materials[i]`. -/
def update_mat_cbuffers_step (frame_index : Nat) (s : D3DRenderContext) (i : Nat) : D3DRenderContext :=
  match s.materials[i]? with
  | none => s
  | some mat =>
    if 0 < mat.n_frames_dirty then
      let mat_constants := material_constants mat
      { s with
        frame_resources :=
          s.frame_resources.modify
            (fun fr => { fr with mat_cb := fr.mat_cb.set mat.mat_cbuffer_index mat_constants }) frame_index
        materials := s.materials.set i { mat with n_frames_dirty := mat.n_frames_dirty - 1 }
        log := s.log ++ [Event.memcpy frame_index CBuffer.mat mat.mat_cbuffer_index] }
    else s

/-- The function `update_mat_cbuffers` (the same in both samples);
`count_material` is the sample's `_COUNT_MATERIAL`. -/
def update_mat_cbuffers (count_material : Nat) (render_ctx : D3DRenderContext) : D3DRenderContext :=
  let frame_index := render_ctx.frame_index
  (List.range count_material).foldl (update_mat_cbuffers_step frame_index) render_ctx

/-- The synchronisation skeleton of `draw_main` (both samples): the slot's
allocator is reset, the commands are recorded, the list is executed and the
backbuffer presented. -/
def draw_main (render_ctx : D3DRenderContext) : D3DRenderContext :=
  let frame_index := render_ctx.frame_index
  let s1 := render_ctx.record (Event.alloc_reset (Allocator.frame frame_index))
  let s2 := s1.record (Event.list_reset (Allocator.frame frame_index))
  let s3 := s2.ExecuteCommandLists (Allocator.frame frame_index)
  s3.record Event.present

/-- The start-up state of `RenderContext_Init` (`memset` to zero) with `N`
frame slots whose constant buffers hold `n_obj` and `n_mat` records. -/
def RenderContext_Init (N n_obj n_mat : Nat) : D3DRenderContext :=
  { frame_resources :=
      List.replicate N { obj_cb := List.replicate n_obj {}, mat_cb := List.replicate n_mat {} } }

/-- The end of the set-up in `WinMain` (both samples): the set-up command list
is executed, then the region `Create fence`: `CreateFence` with the slot's
fence value as initial value, the increment of that value, and the first
flush. -/
def WinMain_create_fence (gpu : Nat) (render_ctx : D3DRenderContext) : Option D3DRenderContext :=
  let s0 := render_ctx.ExecuteCommandLists Allocator.direct
  let frame_index := s0.frame_index
  let s1 := { s0 with fence_completed := s0.fence_of frame_index }
  let s2 := s1.set_fence frame_index ((s1.fence_of frame_index + 1) % UINT64_SIZE)
  flush_command_queue gpu s2

/-- The state in which the main loop starts: the zeroed context, the device
objects created, the fence created and the first flush done.  The scene
(render items, materials) is left empty here; creating it touches neither the
fence values nor the queue beyond the set-up command list. -/
def startup (N n_obj n_mat gpu : Nat) : Option D3DRenderContext :=
  WinMain_create_fence gpu
    { RenderContext_Init N n_obj n_mat with device := true, direct_cmd_list_alloc := true, swapchain := true }

/-- Run a list of loop iterations, each with its GPU progress. -/
def run_frames (frame : Nat × Nat → D3DRenderContext → Option D3DRenderContext) :
    List (Nat × Nat) → D3DRenderContext → Option D3DRenderContext
  | [], s => some s
  | g :: gs, s =>
    match frame g s with
    | none => none
    | some s1 => run_frames frame gs s1

/-- What the main loop does in one turn: a frame, or a resize dispatched from
the window procedure between two frames. -/
inductive LoopOp where
  | frame (gpu1 gpu2 : Nat)
  | resize (gpu1 gpu2 : Nat)
deriving DecidableEq, Repr

/-- Run a list of frames and resizes. -/
def run_loop (frame : Nat × Nat → D3DRenderContext → Option D3DRenderContext) :
    List LoopOp → D3DRenderContext → Option D3DRenderContext
  | [], s => some s
  | LoopOp.frame g1 g2 :: ops, s =>
    match frame (g1, g2) s with
    | none => none
    | some s1 => run_loop frame ops s1
  | LoopOp.resize g1 g2 :: ops, s =>
    match d3d_resize g1 g2 s with
    | none => none
    | some s1 => run_loop frame ops s1

/-! ## The stenciling sample -/

namespace Stenciling

/-- The enumerator `_COUNT_RENDERITEM`. -/
def _COUNT_RENDERITEM : Nat := 8

/-- The enumerator `_COUNT_MATERIAL`. -/
def _COUNT_MATERIAL : Nat := 5

/-- The record `update_obj_cbuffers` builds from a render item. -/
def object_constants (item : RenderItem) : ObjectConstants :=
  { world := XMMatrixTranspose item.world
    tex_transform := XMMatrixTranspose item.tex_transform }

/-- The function `update_obj_cbuffers`. -/
def update_obj_cbuffers (render_ctx : D3DRenderContext) : D3DRenderContext :=
  update_obj_cbuffers_with object_constants render_ctx

/-- The functions `update_main_pass_cbuffers` and `update_reflected_pass_cbuffers`:
records 0 and 1 of the slot's pass buffer are written. -/
def update_pass_cbuffers (render_ctx : D3DRenderContext) : D3DRenderContext :=
  (render_ctx.record (Event.memcpy render_ctx.frame_index CBuffer.pass 0)).record
    (Event.memcpy render_ctx.frame_index CBuffer.pass 1)

/-- The constant-buffer updates of one turn of the main loop, in its order:
`update_obj_cbuffers`, `update_mat_cbuffers`, `update_main_pass_cbuffers`,
`update_reflected_pass_cbuffers`. -/
def update_cbuffers (render_ctx : D3DRenderContext) : D3DRenderContext :=
  update_pass_cbuffers (update_mat_cbuffers _COUNT_MATERIAL (update_obj_cbuffers render_ctx))

/-- The function `move_to_next_frame`, called with `&render_ctx->frame_index`
and `&render_ctx->backbuffer_index`; `gpu` is the number of commands the GPU
retires between the `Signal` call and the `GetCompletedValue` call.  The
result is the new context and the returned `current_fence_value`. -/
def move_to_next_frame (N : Nat) (gpu : Nat) (render_ctx : D3DRenderContext) :
    Option (D3DRenderContext × Nat) :=
  let frame_index := render_ctx.frame_index
  -- 1. schedule a signal command in the queue
  let current_fence_value := render_ctx.fence_of frame_index
  let s1 := render_ctx.Signal current_fence_value
  -- 2. update frame index
  let s2 := { s1 with backbuffer_index := (s1.backbuffer_index + 1) % UINT_SIZE % NUM_BACKBUFFERS }
  let s3 := { s2 with frame_index := (s2.frame_index + 1) % UINT_SIZE % N }
  -- 3. the wait
  let s4 := (gpu_retire gpu s3).record (Event.wait_slot frame_index (s3.fence_of frame_index))
  match wait_for_fence s4 (s4.fence_of frame_index) with
  | none => none
  | some s5 =>
    -- 4. set the fence value
    let current_fence_value := (current_fence_value + 1) % UINT64_SIZE
    some (s5.set_fence frame_index current_fence_value, current_fence_value)

/-- The body of the main loop of `WinMain` from `update_obj_cbuffers` on (the
input handling before it is not part); `g.1` is the number of commands the GPU
retires before this turn, `g.2` its progress inside `move_to_next_frame`. -/
def frame (N : Nat) (g : Nat × Nat) (render_ctx : D3DRenderContext) : Option D3DRenderContext :=
  let s0 := gpu_retire g.1 render_ctx
  let s3 := update_cbuffers s0
  let s4 := draw_main s3
  match move_to_next_frame N g.2 s4 with
  | none => none
  | some (s5, current_fence_value) => some { s5 with main_current_fence := current_fence_value }

end Stenciling

/-! ## The tessellation sample -/

namespace Bezier

/-- The enumerator `_COUNT_RENDERITEM`. -/
def _COUNT_RENDERITEM : Nat := 2

/-- The enumerator `_COUNT_MATERIAL`. -/
def _COUNT_MATERIAL : Nat := 1

/-- The record `update_obj_cbuffers` builds from a render item. -/
def object_constants (item : RenderItem) : ObjectConstants :=
  { world := XMMatrixTranspose item.world
    tex_transform := XMMatrixTranspose item.tex_transform
    displacement_texel_size := item.displacement_map_texel_size
    grid_spatial_step := item.grid_spatial_step }

/-- The function `update_obj_cbuffers`. -/
def update_obj_cbuffers (render_ctx : D3DRenderContext) : D3DRenderContext :=
  update_obj_cbuffers_with object_constants render_ctx

/-- The function `update_pass_cbuffers`: record 0 of the slot's pass buffer is written. -/
def update_pass_cbuffers (render_ctx : D3DRenderContext) : D3DRenderContext :=
  render_ctx.record (Event.memcpy render_ctx.frame_index CBuffer.pass 0)

/-- The constant-buffer updates of one turn of the main loop, in its order:
`update_obj_cbuffers`, `update_mat_cbuffers`, `update_pass_cbuffers`. -/
def update_cbuffers (render_ctx : D3DRenderContext) : D3DRenderContext :=
  update_pass_cbuffers (update_mat_cbuffers _COUNT_MATERIAL (update_obj_cbuffers render_ctx))

/-- The function `move_to_next_frame`, called with `&render_ctx->frame_index`
and `&render_ctx->backbuffer_index`; it returns an `HRESULT`, so the result is
the new context only.  The calls are taken to succeed. -/
def move_to_next_frame (N : Nat) (gpu : Nat) (render_ctx : D3DRenderContext) :
    Option D3DRenderContext :=
  let frame_index := render_ctx.frame_index
  -- 1. schedule a signal command in the queue
  let current_fence_value := render_ctx.fence_of frame_index
  let s1 := render_ctx.Signal current_fence_value
  -- 2. update frame index
  let s2 := { s1 with backbuffer_index := (s1.backbuffer_index + 1) % UINT_SIZE % NUM_BACKBUFFERS }
  let s3 := { s2 with frame_index := (s2.frame_index + 1) % UINT_SIZE % N }
  -- 3. the wait
  let s4 := (gpu_retire gpu s3).record (Event.wait_slot frame_index (s3.fence_of frame_index))
  match wait_for_fence s4 (s4.fence_of frame_index) with
  | none => none
  | some s5 =>
    -- 3. set the fence value
    some (s5.set_fence frame_index ((current_fence_value + 1) % UINT64_SIZE))

/-- The body of the main loop of `WinMain` when not paused; `g.1` is the
number of commands the GPU retires before this turn, `g.2` its progress inside
`move_to_next_frame`. -/
def frame (N : Nat) (g : Nat × Nat) (render_ctx : D3DRenderContext) : Option D3DRenderContext :=
  let s0 := gpu_retire g.1 render_ctx
  let s3 := update_cbuffers s0
  let s4 := draw_main s3
  move_to_next_frame N g.2 s4

end Bezier

/-! ## Definitions used to state the results -/

/-- The fence value once the GPU has retired the whole queue. -/
def final_value (queue : List QueueCmd) (completed : Nat) : Nat :=
  queue.foldl (fun c cmd => cmd.retire c) completed

/-- The context `move_to_next_frame` leaves when the GPU retires nothing
during the call: what the CPU side of the call does. -/
def move_to_next_frame_effect (N : Nat) (s : D3DRenderContext) : D3DRenderContext :=
  { s with
    backbuffer_index := (s.backbuffer_index + 1) % UINT_SIZE % NUM_BACKBUFFERS
    frame_index := (s.frame_index + 1) % UINT_SIZE % N
    frame_resources :=
      s.frame_resources.modify
        (fun fr => { fr with fence := (s.fence_of s.frame_index + 1) % UINT64_SIZE }) s.frame_index
    cmd_queue := s.cmd_queue ++ [QueueCmd.signal (s.fence_of s.frame_index)]
    log := s.log ++ [Event.signal (s.fence_of s.frame_index),
      Event.wait_slot s.frame_index (s.fence_of s.frame_index)] }

/-- The context `flush_command_queue` leaves when the GPU retires nothing
during the call. -/
def flush_command_queue_effect (s : D3DRenderContext) : D3DRenderContext :=
  { s with
    main_current_fence := (s.main_current_fence + 1) % UINT64_SIZE
    cmd_queue := s.cmd_queue ++ [QueueCmd.signal ((s.main_current_fence + 1) % UINT64_SIZE)]
    log := s.log ++ [Event.signal ((s.main_current_fence + 1) % UINT64_SIZE),
      Event.wait_main ((s.main_current_fence + 1) % UINT64_SIZE)] }

/-- The context in which the main loop starts (the value of `startup`): the
set-up list and the first `Signal` are retired, the fence holds 1. -/
def startup_state (N n_obj n_mat : Nat) : D3DRenderContext :=
  let s0 : D3DRenderContext :=
    { RenderContext_Init N n_obj n_mat with device := true, direct_cmd_list_alloc := true, swapchain := true }
  let s1 := s0.ExecuteCommandLists Allocator.direct
  let s2 := { s1 with fence_completed := s1.fence_of s1.frame_index }
  let s3 := s2.set_fence s2.frame_index ((s2.fence_of s2.frame_index + 1) % UINT64_SIZE)
  gpu_retire 2 (flush_command_queue_effect s3)

/-- The context a turn of the stenciling main loop leaves when the GPU retires
nothing during the turn. -/
def Stenciling.frame_effect (N : Nat) (s : D3DRenderContext) : D3DRenderContext :=
  let s4 := draw_main (Stenciling.update_cbuffers s)
  { move_to_next_frame_effect N s4 with
    main_current_fence := (s4.fence_of s4.frame_index + 1) % UINT64_SIZE }

/-- The context a turn of the tessellation main loop leaves when the GPU
retires nothing during the turn. -/
def Bezier.frame_effect (N : Nat) (s : D3DRenderContext) : D3DRenderContext :=
  move_to_next_frame_effect N (draw_main (Bezier.update_cbuffers s))

/-- The values of the `Signal` calls of a history, in order. -/
def signaled_values : List Event → List Nat
  | [] => []
  | Event.signal v :: rest => v :: signaled_values rest
  | _ :: rest => signaled_values rest

/-- The stenciling context after start-up and `n` turns of the main loop when
the GPU retires nothing after start-up. -/
def Stenciling.after_frames (n : Nat) : D3DRenderContext :=
  Nat.iterate (Stenciling.frame_effect NUM_QUEUING_FRAMES) n
    (startup_state NUM_QUEUING_FRAMES Stenciling._COUNT_RENDERITEM Stenciling._COUNT_MATERIAL)

/-- The tessellation context after start-up and `n` turns of the main loop
when the GPU retires nothing after start-up. -/
def Bezier.after_frames (n : Nat) : D3DRenderContext :=
  Nat.iterate (Bezier.frame_effect NUM_QUEUING_FRAMES) n
    (startup_state NUM_QUEUING_FRAMES Bezier._COUNT_RENDERITEM Bezier._COUNT_MATERIAL)

/-- The object constant buffer of a frame slot. -/
def obj_cb_of (s : D3DRenderContext) (slot : Nat) : Option (List ObjectConstants) :=
  (s.frame_resources[slot]?).map (fun fr => fr.obj_cb)

/-- The material constant buffer of a frame slot. -/
def mat_cb_of (s : D3DRenderContext) (slot : Nat) : Option (List MaterialConstants) :=
  (s.frame_resources[slot]?).map (fun fr => fr.mat_cb)

/-- The record at `index` of the object constant buffer of a frame slot. -/
def obj_record (s : D3DRenderContext) (slot index : Nat) : Option ObjectConstants :=
  (obj_cb_of s slot).bind (fun cb => cb[index]?)

/-- The record at `index` of the material constant buffer of a frame slot. -/
def mat_record (s : D3DRenderContext) (slot index : Nat) : Option MaterialConstants :=
  (mat_cb_of s slot).bind (fun cb => cb[index]?)

/-- What a constant-buffer update of one kind leaves alone in going from `t`
to `u`: the frame index, the sizes, the slots' fence values, the constant
buffer indices of items and materials, and the length of every buffer. -/
def UpdateKeeps (t u : D3DRenderContext) : Prop :=
  u.frame_index = t.frame_index
    ∧ u.all_ritems.size = t.all_ritems.size
    ∧ (∀ j : Nat, (u.all_ritems.ritems[j]?).map RenderItem.obj_cbuffer_index
        = (t.all_ritems.ritems[j]?).map RenderItem.obj_cbuffer_index)
    ∧ (∀ j : Nat, (u.materials[j]?).map Material.mat_cbuffer_index
        = (t.materials[j]?).map Material.mat_cbuffer_index)
    ∧ (∀ slot : Nat, u.fence_of slot = t.fence_of slot)
    ∧ (∀ slot : Nat, (obj_cb_of u slot).map List.length = (obj_cb_of t slot).map List.length)
    ∧ (∀ slot : Nat, (mat_cb_of u slot).map List.length = (mat_cb_of t slot).map List.length)

/-- The two constant-buffer updates of a turn of the main loop that the claims
on dirty counters are about: `update_obj_cbuffers`, then `update_mat_cbuffers`. -/
def cbuffer_updates (object_constants : RenderItem → ObjectConstants) (count_material : Nat)
    (t : D3DRenderContext) : D3DRenderContext :=
  update_mat_cbuffers count_material (update_obj_cbuffers_with object_constants t)

/-- A turn `F` of a main loop, seen from the render items, the materials and
the constant buffers: it does to them what the two updates do, and moves
`frame_index` to the next slot. -/
def TurnLike (N : Nat) (object_constants : RenderItem → ObjectConstants) (count_material : Nat)
    (F : D3DRenderContext → D3DRenderContext) : Prop :=
  ∀ t : D3DRenderContext,
    (F t).all_ritems = (cbuffer_updates object_constants count_material t).all_ritems
    ∧ (F t).materials = (cbuffer_updates object_constants count_material t).materials
    ∧ (∀ slot : Nat,
        obj_cb_of (F t) slot = obj_cb_of (cbuffer_updates object_constants count_material t) slot)
    ∧ (∀ slot : Nat,
        mat_cb_of (F t) slot = mat_cb_of (cbuffer_updates object_constants count_material t) slot)
    ∧ (F t).frame_index = (t.frame_index + 1) % UINT_SIZE % N

/-- The two samples that share the frame-resource code. -/
inductive Sample where
  | stenciling
  | bezier
deriving DecidableEq, Repr

/-- The sample's turn of the main loop. -/
def Sample.frame : Sample → Nat → Nat × Nat → D3DRenderContext → Option D3DRenderContext
  | Sample.stenciling => Stenciling.frame
  | Sample.bezier => Bezier.frame

/-- The sample's turn of the main loop when the GPU retires nothing. -/
def Sample.frame_effect : Sample → Nat → D3DRenderContext → D3DRenderContext
  | Sample.stenciling => Stenciling.frame_effect
  | Sample.bezier => Bezier.frame_effect

/-- The record the sample's `update_obj_cbuffers` builds from a render item. -/
def Sample.object_constants : Sample → RenderItem → ObjectConstants
  | Sample.stenciling => Stenciling.object_constants
  | Sample.bezier => Bezier.object_constants

/-- The sample's `_COUNT_MATERIAL`. -/
def Sample.count_material : Sample → Nat
  | Sample.stenciling => Stenciling._COUNT_MATERIAL
  | Sample.bezier => Bezier._COUNT_MATERIAL

/-- The start-up context of the stenciling sample with the constant-buffer
indices, material links, dirty counters and `initialized` flags that
`create_materials` and `create_render_items` assign (the array position of an
item is its `ALL_RENDERITEMS` value); matrices and colours are left empty. -/
def Stenciling.scene_state : D3DRenderContext :=
  { startup_state NUM_QUEUING_FRAMES Stenciling._COUNT_RENDERITEM Stenciling._COUNT_MATERIAL with
    materials :=
      [ { mat_cbuffer_index := 0, diffuse_srvheap_index := 0, n_frames_dirty := 3 },
        { mat_cbuffer_index := 1, diffuse_srvheap_index := 1, n_frames_dirty := 3 },
        { mat_cbuffer_index := 2, diffuse_srvheap_index := 2, n_frames_dirty := 3 },
        { mat_cbuffer_index := 3, diffuse_srvheap_index := 3, n_frames_dirty := 3 },
        { mat_cbuffer_index := 4, diffuse_srvheap_index := 3, n_frames_dirty := 3 } ]
    all_ritems :=
      { size := 8
        ritems :=
          [ { obj_cbuffer_index := 0, mat := 1, n_frames_dirty := 3, initialized := true },
            { obj_cbuffer_index := 1, mat := 0, n_frames_dirty := 3, initialized := true },
            { obj_cbuffer_index := 7, mat := 2, n_frames_dirty := 3, initialized := true },
            { obj_cbuffer_index := 2, mat := 3, n_frames_dirty := 3, initialized := true },
            { obj_cbuffer_index := 3, mat := 3, n_frames_dirty := 3, initialized := true },
            { obj_cbuffer_index := 4, mat := 1, n_frames_dirty := 3, initialized := true },
            { obj_cbuffer_index := 6, mat := 4, n_frames_dirty := 3, initialized := true },
            { obj_cbuffer_index := 5, mat := 4, n_frames_dirty := 3, initialized := true } ] } }

end D3D

namespace D3D

/-! ## Resize -/

/-- What `d3d_resize` does between its two flushes. -/
def d3d_resize_body (s1 : D3DRenderContext) : D3DRenderContext :=
  let s2 := s1.record (Event.list_reset Allocator.direct)
  let s3 := (List.range NUM_BACKBUFFERS).foldl (fun s i => s.record (Event.release_render_target i)) s2
  let s4 := s3.record Event.release_depth_stencil
  let s5 := s4.record Event.resize_buffers
  let s6 := { s5 with backbuffer_index := 0 }
  s6.ExecuteCommandLists Allocator.direct

/-- The context `d3d_resize` leaves when the GPU retires nothing during the call. -/
def d3d_resize_effect (s : D3DRenderContext) : D3DRenderContext :=
  if s.device && s.direct_cmd_list_alloc && s.swapchain then
    flush_command_queue_effect (d3d_resize_body (flush_command_queue_effect s))
  else s

/-- Two contexts agree on what the frame loop reads and writes of the slots and
the scene: the frame index, the frame resources, the render items and the
materials. -/
def SameSlots (s t : D3DRenderContext) : Prop :=
  s.frame_index = t.frame_index ∧ s.frame_resources = t.frame_resources
    ∧ s.all_ritems = t.all_ritems ∧ s.materials = t.materials

/-! ## The command list recorded by `draw_main` -/

/-- The values of `sizeof` and of `cbv_srv_uav_descriptor_size` that the
recorded addresses are built from. -/
structure DrawSizes where
  sizeof_ObjectConstants : Nat
  sizeof_MaterialConstants : Nat
  sizeof_PassConstants : Nat
  cbv_srv_uav_descriptor_size : Nat
deriving DecidableEq, Repr

/-- A GPU virtual address inside a constant buffer of a frame resource:
`GetGPUVirtualAddress()` of the buffer `buffer` of `frame_resources[slot]`,
plus `offset` bytes. -/
structure GpuAddress where
  slot : Nat
  buffer : CBuffer
  offset : Nat
deriving DecidableEq, Repr

/-- The calls recorded on `direct_cmd_list` by `draw_main` and
`draw_render_items`.  Pipeline states are named by their index in `psos`,
render targets by their index in `render_targets`; a barrier carries whether
it goes from PRESENT to RENDER_TARGET or back.  The vertex and index buffer
views and the topology are not carried. -/
inductive DrawCmd where
  | Reset (alloc : Allocator) (pso : Nat)
  | RSSetViewports
  | RSSetScissorRects
  | ResourceBarrier (render_target : Nat) (to_render_target : Bool)
  | ClearRenderTargetView (render_target : Nat)
  | ClearDepthStencilView
  | OMSetRenderTargets (render_target : Nat)
  | SetDescriptorHeaps
  | SetGraphicsRootSignature
  | SetGraphicsRootConstantBufferView (root_parameter : Nat) (address : GpuAddress)
  | SetGraphicsRootDescriptorTable (root_parameter : Nat) (descriptor_offset : Nat)
  | OMSetStencilRef (stencil_ref : Nat)
  | SetPipelineState (pso : Nat)
  | IASetVertexBuffers
  | IASetIndexBuffer
  | IASetPrimitiveTopology
  | DrawIndexedInstanced (index_count instance_count start_index_loc base_vertex_loc
      start_instance : Nat)
  | ImGui_ImplDX12_RenderDrawData
  | Close
deriving DecidableEq, Repr

/-- The material a `mat` pointer points to; the pointers the samples create all
point into `materials`. -/
def Material_at (materials : List Material) (mat : Nat) : Material :=
  materials.getD mat {}

/-- The function `draw_render_items` (the same in both samples).
`object_cbuffer` and `mat_cbuffer` are the addresses `GetGPUVirtualAddress()`
of the two resources passed in; the texture handle is given by its byte offset
from the start of the descriptor heap. -/
def draw_render_items (sizes : DrawSizes) (materials : List Material)
    (object_cbuffer mat_cbuffer : GpuAddress) (ritem_array : RenderItemArray)
    (_current_frame_index : Nat) : List DrawCmd :=
  let objcb_byte_size := sizes.sizeof_ObjectConstants % UINT_SIZE
  let matcb_byte_size := sizes.sizeof_MaterialConstants % UINT_SIZE
  (List.range ritem_array.size).flatMap (fun i =>
    match ritem_array.ritems[i]? with
    | none => []
    | some item =>
      if item.initialized then
        let tex := sizes.cbv_srv_uav_descriptor_size
          * (Material_at materials item.mat).diffuse_srvheap_index % UINT64_SIZE
        let objcb_address : GpuAddress :=
          { object_cbuffer with
            offset := object_cbuffer.offset + item.obj_cbuffer_index * objcb_byte_size % UINT64_SIZE }
        let matcb_address : GpuAddress :=
          { mat_cbuffer with
            offset := mat_cbuffer.offset
              + (Material_at materials item.mat).mat_cbuffer_index * matcb_byte_size % UINT64_SIZE }
        [DrawCmd.IASetVertexBuffers, DrawCmd.IASetIndexBuffer, DrawCmd.IASetPrimitiveTopology,
         DrawCmd.SetGraphicsRootDescriptorTable 0 tex,
         DrawCmd.SetGraphicsRootConstantBufferView 1 objcb_address,
         DrawCmd.SetGraphicsRootConstantBufferView 3 matcb_address,
         DrawCmd.DrawIndexedInstanced item.index_count 1 item.start_index_loc
           item.base_vertex_loc 0]
      else [])

namespace Stenciling

/-- The enum `RENDER_LAYER`. -/
def LAYER_OPAQUE : Nat := 0
/-- The enum `RENDER_LAYER`. -/
def LAYER_TRANSPARENT : Nat := 1
/-- The enum `RENDER_LAYER`. -/
def LAYER_ALPHATESTED : Nat := 2
/-- The enum `RENDER_LAYER`. -/
def LAYER_MIRRORS : Nat := 3
/-- The enum `RENDER_LAYER`. -/
def LAYER_REFLECTIONS : Nat := 4
/-- The enum `RENDER_LAYER`. -/
def LAYER_SHADOW : Nat := 5

/-- The render-item arrays of `D3DRenderContext` that `draw_main` draws, one
per layer. -/
structure RenderLayers where
  opaque_ritems : RenderItemArray := {}
  transparent_ritems : RenderItemArray := {}
  alphatested_ritems : RenderItemArray := {}
  mirrors_ritems : RenderItemArray := {}
  reflected_ritems : RenderItemArray := {}
  shadow_ritems : RenderItemArray := {}
  reflected_shadow_ritems : RenderItemArray := {}
deriving DecidableEq, Repr

/-- The calls `draw_main` records on `direct_cmd_list` between the `Reset` of
the list and `ExecuteCommandLists`, in the order of the source. -/
def draw_main_commands (sizes : DrawSizes) (layers : RenderLayers)
    (render_ctx : D3DRenderContext) : List DrawCmd :=
  let frame_index := render_ctx.frame_index
  let backbuffer_index := render_ctx.backbuffer_index
  let pass_cb : GpuAddress := { slot := frame_index, buffer := CBuffer.pass, offset := 0 }
  let obj_cb : GpuAddress := { slot := frame_index, buffer := CBuffer.obj, offset := 0 }
  let mat_cb : GpuAddress := { slot := frame_index, buffer := CBuffer.mat, offset := 0 }
  [DrawCmd.Reset (Allocator.frame frame_index) LAYER_OPAQUE,
   DrawCmd.RSSetViewports, DrawCmd.RSSetScissorRects,
   DrawCmd.ResourceBarrier backbuffer_index true,
   DrawCmd.ClearRenderTargetView backbuffer_index, DrawCmd.ClearDepthStencilView,
   DrawCmd.OMSetRenderTargets backbuffer_index,
   DrawCmd.SetDescriptorHeaps, DrawCmd.SetGraphicsRootSignature,
   -- Bind [default] per-pass constant buffer
   DrawCmd.SetGraphicsRootConstantBufferView 2 pass_cb]
  -- 1. draw opaque objs first (opaque pso is currently used)
  ++ draw_render_items sizes render_ctx.materials obj_cb mat_cb layers.opaque_ritems frame_index
  -- 2. draw mirrors only to stencil buffer
  ++ [DrawCmd.OMSetStencilRef 1, DrawCmd.SetPipelineState LAYER_MIRRORS]
  ++ draw_render_items sizes render_ctx.materials obj_cb mat_cb layers.mirrors_ritems frame_index
  -- 3. draw reflections, only into the mirror
  ++ [DrawCmd.SetGraphicsRootConstantBufferView 2
        { pass_cb with offset := pass_cb.offset + 1 * sizes.sizeof_PassConstants },
      DrawCmd.SetPipelineState LAYER_REFLECTIONS]
  ++ draw_render_items sizes render_ctx.materials obj_cb mat_cb layers.reflected_ritems frame_index
  -- 3.1 draw skull shadow reflection
  ++ [DrawCmd.SetPipelineState LAYER_SHADOW]
  ++ draw_render_items sizes render_ctx.materials obj_cb mat_cb layers.reflected_shadow_ritems
      frame_index
  -- 4. draw mirrors, this time into backbuffer (with transparency blending)
  ++ [DrawCmd.SetGraphicsRootConstantBufferView 2 pass_cb, DrawCmd.OMSetStencilRef 0,
      DrawCmd.SetPipelineState LAYER_TRANSPARENT]
  ++ draw_render_items sizes render_ctx.materials obj_cb mat_cb layers.transparent_ritems
      frame_index
  -- 5. draw skull shadows
  ++ [DrawCmd.SetPipelineState LAYER_SHADOW]
  ++ draw_render_items sizes render_ctx.materials obj_cb mat_cb layers.shadow_ritems frame_index
  ++ [DrawCmd.ImGui_ImplDX12_RenderDrawData, DrawCmd.ResourceBarrier backbuffer_index false,
      DrawCmd.Close]

end Stenciling

namespace Bezier

/-- The enum `RENDER_LAYER`. -/
def LAYER_BASIC_TESS : Nat := 0
/-- The enum `RENDER_LAYER`. -/
def LAYER_BEZIER_TESS : Nat := 1

/-- The render-item arrays of `D3DRenderContext` that `draw_main` draws. -/
structure RenderLayers where
  basictess_ritems : RenderItemArray := {}
  beziersurf_ritems : RenderItemArray := {}
deriving DecidableEq, Repr

/-- The calls `draw_main` records on `direct_cmd_list` between the `Reset` of
the list and `ExecuteCommandLists`, in the order of the source;
`global_tess_switch` and `global_imgui_enabled` are the globals it reads. -/
def draw_main_commands (sizes : DrawSizes) (layers : RenderLayers) (global_tess_switch : Int)
    (global_imgui_enabled : Bool) (render_ctx : D3DRenderContext) : List DrawCmd :=
  let frame_index := render_ctx.frame_index
  let backbuffer_index := render_ctx.backbuffer_index
  let pass_cb : GpuAddress := { slot := frame_index, buffer := CBuffer.pass, offset := 0 }
  let obj_cb : GpuAddress := { slot := frame_index, buffer := CBuffer.obj, offset := 0 }
  let mat_cb : GpuAddress := { slot := frame_index, buffer := CBuffer.mat, offset := 0 }
  [DrawCmd.Reset (Allocator.frame frame_index) LAYER_BASIC_TESS,
   DrawCmd.SetDescriptorHeaps,
   DrawCmd.RSSetViewports, DrawCmd.RSSetScissorRects,
   DrawCmd.ResourceBarrier backbuffer_index true,
   DrawCmd.ClearRenderTargetView backbuffer_index, DrawCmd.ClearDepthStencilView,
   DrawCmd.OMSetRenderTargets backbuffer_index,
   DrawCmd.SetGraphicsRootSignature,
   -- Bind per-pass constant buffer
   DrawCmd.SetGraphicsRootConstantBufferView 2 pass_cb]
  -- 1. basic tessellation
  ++ (if 1 = global_tess_switch then
        DrawCmd.SetPipelineState LAYER_BASIC_TESS
          :: draw_render_items sizes render_ctx.materials obj_cb mat_cb layers.basictess_ritems
              frame_index
      else [])
  -- 2. bezier surface
  ++ (if 2 = global_tess_switch then
        DrawCmd.SetPipelineState LAYER_BEZIER_TESS
          :: draw_render_items sizes render_ctx.materials obj_cb mat_cb layers.beziersurf_ritems
              frame_index
      else [])
  ++ (if global_imgui_enabled then [DrawCmd.ImGui_ImplDX12_RenderDrawData] else [])
  ++ [DrawCmd.ResourceBarrier backbuffer_index false, DrawCmd.Close]

end Bezier

/-! ## The pass constant buffer of the stenciling sample -/

/-- A `memcpy` into a mapped constant buffer: `size` bytes at `offset` bytes
from the start of the buffer `buffer` of `frame_resources[slot]`. -/
structure BufferWrite where
  slot : Nat
  buffer : CBuffer
  offset : Nat
  size : Nat
deriving DecidableEq, Repr

/-- The `memcpy` of `update_main_pass_cbuffers` (stenciling sample). -/
def Stenciling.update_main_pass_cbuffers (sizes : DrawSizes) (render_ctx : D3DRenderContext) :
    BufferWrite :=
  { slot := render_ctx.frame_index, buffer := CBuffer.pass, offset := 0,
    size := sizes.sizeof_PassConstants }

/-- The `memcpy` of `update_reflected_pass_cbuffers` (stenciling sample):
"Reflected pass stored in index 1". -/
def Stenciling.update_reflected_pass_cbuffers (sizes : DrawSizes) (render_ctx : D3DRenderContext) :
    BufferWrite :=
  { slot := render_ctx.frame_index, buffer := CBuffer.pass,
    offset := 1 * sizes.sizeof_PassConstants, size := sizes.sizeof_PassConstants }

/-- The byte count `pass_cb_size * pass_count` that `WinMain` of the stenciling
sample passes to `create_upload_buffer` for the pass buffer of each slot (a
product of two `UINT`s, `pass_count` being 2). -/
def Stenciling.pass_cb_bytes (sizes : DrawSizes) : Nat :=
  let pass_cb_size := sizes.sizeof_PassConstants % UINT_SIZE
  let pass_count := 2
  pass_cb_size * pass_count % UINT_SIZE

/-! ## Reading a command list -/

/-- The state of a command list that decides what a draw call uses: the
pipeline state, the stencil reference value, the constant buffer views at root
parameters 1 (object), 2 (pass) and 3 (material) and the descriptor table at
root parameter 0; `none` is "not set on this list". -/
structure ListState where
  pso : Option Nat := none
  stencil_ref : Option Nat := none
  pass_cb : Option GpuAddress := none
  obj_cb : Option GpuAddress := none
  mat_cb : Option GpuAddress := none
  texture : Option Nat := none
deriving DecidableEq, Repr

/-- A draw call with the state of the list it was recorded in. -/
structure Draw where
  state : ListState
  index_count : Nat
  start_index_loc : Nat
  base_vertex_loc : Nat
deriving DecidableEq, Repr

/-- The state of the list after one more call. -/
def DrawCmd.apply (st : ListState) : DrawCmd → ListState
  | DrawCmd.Reset _ pso => { pso := some pso }
  | DrawCmd.SetPipelineState pso => { st with pso := some pso }
  | DrawCmd.OMSetStencilRef r => { st with stencil_ref := some r }
  | DrawCmd.SetGraphicsRootConstantBufferView p a =>
    if p = 1 then { st with obj_cb := some a }
    else if p = 2 then { st with pass_cb := some a }
    else if p = 3 then { st with mat_cb := some a }
    else st
  | DrawCmd.SetGraphicsRootDescriptorTable p d =>
    if p = 0 then { st with texture := some d } else st
  | _ => st

/-- The state of the list after a sequence of calls. -/
def list_state (st : ListState) (cmds : List DrawCmd) : ListState :=
  cmds.foldl DrawCmd.apply st

/-- The draw calls of a sequence of recorded calls, in order, each with the
state of the list at that call. -/
def executed_draws : ListState → List DrawCmd → List Draw
  | _, [] => []
  | st, DrawCmd.DrawIndexedInstanced index_count _ start_index_loc base_vertex_loc _ :: rest =>
    { state := st, index_count := index_count, start_index_loc := start_index_loc,
      base_vertex_loc := base_vertex_loc } :: executed_draws st rest
  | st, cmd :: rest => executed_draws (cmd.apply st) rest

/-- The frame slots a recorded call names: the slot of the allocator of a
`Reset`, the slot of the buffer of a constant buffer view. -/
def DrawCmd.slots : DrawCmd → List Nat
  | DrawCmd.Reset (Allocator.frame slot) _ => [slot]
  | DrawCmd.SetGraphicsRootConstantBufferView _ address => [address.slot]
  | _ => []

/-- The items of a render-item array that `draw_render_items` draws: the
initialized ones among the first `size`. -/
def drawn_items (ritem_array : RenderItemArray) : List RenderItem :=
  (ritem_array.ritems.take ritem_array.size).filter (fun item => item.initialized)

/-- The draw call `draw_render_items` records for `item` on a list whose
pipeline state, stencil reference and pass buffer are the given ones. -/
def item_draw (sizes : DrawSizes) (materials : List Material)
    (object_cbuffer mat_cbuffer : GpuAddress) (pso stencil_ref : Option Nat)
    (pass_cb : Option GpuAddress) (item : RenderItem) : Draw :=
  { state :=
      { pso := pso, stencil_ref := stencil_ref, pass_cb := pass_cb
        obj_cb := some { object_cbuffer with
          offset := object_cbuffer.offset
            + item.obj_cbuffer_index * (sizes.sizeof_ObjectConstants % UINT_SIZE) % UINT64_SIZE }
        mat_cb := some { mat_cbuffer with
          offset := mat_cbuffer.offset
            + (Material_at materials item.mat).mat_cbuffer_index
                * (sizes.sizeof_MaterialConstants % UINT_SIZE) % UINT64_SIZE }
        texture := some (sizes.cbv_srv_uav_descriptor_size
          * (Material_at materials item.mat).diffuse_srvheap_index % UINT64_SIZE) }
    index_count := item.index_count
    start_index_loc := item.start_index_loc
    base_vertex_loc := item.base_vertex_loc }

/-! ## Reading the history -/

/-- The calls of `draw_main` and `move_to_next_frame` in the history of a turn
of the main loop entered with frame index `slot`, whose stored fence value is
`v`: the allocator and the list are reset, the list is executed, the
backbuffer presented, then `Signal` and the wait. -/
def turn_events (slot v : Nat) : List Event :=
  [Event.alloc_reset (Allocator.frame slot), Event.list_reset (Allocator.frame slot),
   Event.execute (Allocator.frame slot), Event.present,
   Event.signal v, Event.wait_slot slot v]

/-- The value of the latest `Signal` call of a history, `last` when it has none. -/
def last_signaled : Option Nat → List Event → Option Nat
  | last, [] => last
  | _, Event.signal v :: rest => last_signaled (some v) rest
  | last, _ :: rest => last_signaled last rest

/-- The waits of `move_to_next_frame` in a history, in order: the value each
waits for, with the value of the latest `Signal` call before it (`last` is
that value at the start of the history). -/
def slot_waits : Option Nat → List Event → List (Nat × Option Nat)
  | _, [] => []
  | _, Event.signal v :: rest => slot_waits (some v) rest
  | last, Event.wait_slot _ v :: rest => (v, last) :: slot_waits last rest
  | last, _ :: rest => slot_waits last rest

/-- What a list of frames and resizes leaves when the GPU retires nothing. -/
def loop_effect (F : D3DRenderContext → D3DRenderContext) :
    List LoopOp → D3DRenderContext → D3DRenderContext
  | [], s => s
  | LoopOp.frame _ _ :: ops, s => loop_effect F ops (F s)
  | LoopOp.resize _ _ :: ops, s => loop_effect F ops (d3d_resize_effect s)

/-- The batch of the stenciling `draw_main` that a draw call belongs to, read
from the state it runs with: 0 opaque, 1 mirrors, 2 reflected, 3 reflected
shadow (SHADOW with stencil reference 1), 4 transparent, 5 shadow. -/
def Stenciling.batch_of (d : Draw) : Nat :=
  if d.state.pso = some Stenciling.LAYER_OPAQUE then 0
  else if d.state.pso = some Stenciling.LAYER_MIRRORS then 1
  else if d.state.pso = some Stenciling.LAYER_REFLECTIONS then 2
  else if d.state.pso = some Stenciling.LAYER_SHADOW ∧ d.state.stencil_ref = some 1 then 3
  else if d.state.pso = some Stenciling.LAYER_TRANSPARENT then 4
  else 5

/-- Whether a turn of the loop is a frame (and not a resize). -/
def LoopOp.is_frame : LoopOp → Bool
  | LoopOp.frame _ _ => true
  | LoopOp.resize _ _ => false

/-- What the loop body of `update_obj_cbuffers` leaves of a render item: the
counter is lowered when it is positive and the item is initialized. -/
def RenderItem.after_update (item : RenderItem) : RenderItem :=
  if 0 < item.n_frames_dirty ∧ item.initialized = true then
    { item with n_frames_dirty := item.n_frames_dirty - 1 }
  else item

/-- What the loop body of `update_mat_cbuffers` leaves of a material: the
counter is lowered when it is positive. -/
def Material.after_update (mat : Material) : Material :=
  if 0 < mat.n_frames_dirty then { mat with n_frames_dirty := mat.n_frames_dirty - 1 } else mat

end D3D

namespace D3D

/-! ## Definitions used to state the results on `draw_render_items` -/

/-- The calls `draw_render_items` records for one initialized item when no
product wraps: the input assembler calls, the texture table, the object
constants at `obj_cbuffer_index * sizeof(ObjectConstants)` bytes from the start
of the object buffer, the material constants at `mat_cbuffer_index *
sizeof(MaterialConstants)` bytes from the start of the material buffer, and the
draw call. -/
def item_commands (sizes : DrawSizes) (materials : List Material)
    (object_cbuffer mat_cbuffer : GpuAddress) (item : RenderItem) : List DrawCmd :=
  [DrawCmd.IASetVertexBuffers, DrawCmd.IASetIndexBuffer, DrawCmd.IASetPrimitiveTopology,
   DrawCmd.SetGraphicsRootDescriptorTable 0
     (sizes.cbv_srv_uav_descriptor_size
       * (Material_at materials item.mat).diffuse_srvheap_index % UINT64_SIZE),
   DrawCmd.SetGraphicsRootConstantBufferView 1
     { object_cbuffer with
       offset := object_cbuffer.offset + item.obj_cbuffer_index * sizes.sizeof_ObjectConstants },
   DrawCmd.SetGraphicsRootConstantBufferView 3
     { mat_cbuffer with
       offset := mat_cbuffer.offset
         + (Material_at materials item.mat).mat_cbuffer_index * sizes.sizeof_MaterialConstants },
   DrawCmd.DrawIndexedInstanced item.index_count 1 item.start_index_loc item.base_vertex_loc 0]

/-- The draw calls among recorded calls, in order. -/
def draw_calls (cmds : List DrawCmd) : List DrawCmd :=
  cmds.filter (fun c =>
    match c with
    | DrawCmd.DrawIndexedInstanced _ _ _ _ _ => true
    | _ => false)

/-! ## Creation of the materials and the render items -/

/-- A submesh of a `MeshGeometry`, with the fields `create_render_items` reads. -/
structure SubmeshGeometry where
  index_count : Nat := 0
  start_index_location : Nat := 0
  base_vertex_location : Nat := 0
deriving DecidableEq, Repr

/-- The struct `MeshGeometry`, with the field `create_render_items` reads. -/
structure MeshGeometry where
  submesh_geoms : List SubmeshGeometry := []
deriving DecidableEq, Repr

/-- The element `submesh_geoms[i]`. -/
def MeshGeometry.submesh (geom : MeshGeometry) (i : Nat) : SubmeshGeometry :=
  geom.submesh_geoms.getD i {}

/-- An array of `n` zeroed render items with `size = 0`, as `memset` leaves it. -/
def RenderItemArray.zeroed (n : Nat) : RenderItemArray :=
  { ritems := List.replicate n {}, size := 0 }

/-- The element `ritems[i]`. -/
def RenderItemArray.get (a : RenderItemArray) (i : Nat) : RenderItem :=
  a.ritems.getD i {}

/-- The assignment `ritems[i] = item`. -/
def RenderItemArray.put (a : RenderItemArray) (i : Nat) (item : RenderItem) : RenderItemArray :=
  { a with ritems := a.ritems.set i item }

/-- The statement `size++` on the `uint32_t` field. -/
def RenderItemArray.incr_size (a : RenderItemArray) : RenderItemArray :=
  { a with size := (a.size + 1) % UINT_SIZE }

/-- The assignment `mat->n_frames_dirty = NUM_QUEUING_FRAMES` through the
pointer `mat` of a render item. -/
def mark_material_dirty (materials : List Material) (mat : Nat) : List Material :=
  materials.modify (fun m => { m with n_frames_dirty := (NUM_QUEUING_FRAMES : Int) }) mat

namespace Stenciling

/-- The enum `ALL_RENDERITEMS`. -/
def RITEM_FLOOR : Nat := 0
/-- The enum `ALL_RENDERITEMS`. -/
def RITEM_WALL : Nat := 1
/-- The enum `ALL_RENDERITEMS`. -/
def RITEM_MIRROR : Nat := 2
/-- The enum `ALL_RENDERITEMS`. -/
def RITEM_SKULL : Nat := 3
/-- The enum `ALL_RENDERITEMS`. -/
def RITEM_REFLECTED_SKULL : Nat := 4
/-- The enum `ALL_RENDERITEMS`. -/
def RITEM_REFLECTED_FLOOR : Nat := 5
/-- The enum `ALL_RENDERITEMS`. -/
def RITEM_REFLECTED_SHADOW : Nat := 6
/-- The enum `ALL_RENDERITEMS`. -/
def RITEM_SHADOWED_SKULL : Nat := 7

/-- The enum `ROOM_SUBMESH_INDEX`. -/
def ROOM_SUBMESH_FLOOR : Nat := 0
/-- The enum `ROOM_SUBMESH_INDEX`. -/
def ROOM_SUBMESH_WALL : Nat := 1
/-- The enum `ROOM_SUBMESH_INDEX`. -/
def ROOM_SUBMESH_MIRROR : Nat := 2

/-- The enum `MAT_INDEX`. -/
def MAT_BRICKS : Nat := 0
/-- The enum `MAT_INDEX`. -/
def MAT_CHECKER_TILE : Nat := 1
/-- The enum `MAT_INDEX`. -/
def MAT_ICE_MIRROR : Nat := 2
/-- The enum `MAT_INDEX`. -/
def MAT_SKULL : Nat := 3
/-- The enum `MAT_INDEX`. -/
def MAT_SHADOW : Nat := 4

/-- The function `create_materials`; `Identity4x4` is the value of the helper
of that name, floats are given by their bits (`0x3F800000` is `1.0f`), and the
`name` strings are not carried. -/
def create_materials (Identity4x4 : XMFLOAT4X4) (out_materials : List Material) : List Material :=
  let m1 := out_materials.modify (fun m =>
    { m with
      mat_cbuffer_index := 0, diffuse_srvheap_index := 0
      diffuse_albedo := [0x3F800000, 0x3F800000, 0x3F800000, 0x3F800000]
      fresnel_r0 := [0x3D4CCCCD, 0x3D4CCCCD, 0x3D4CCCCD]
      roughness := 0x3E800000
      mat_transform := Identity4x4
      n_frames_dirty := (NUM_QUEUING_FRAMES : Int) }) MAT_BRICKS
  let m2 := m1.modify (fun m =>
    { m with
      mat_cbuffer_index := 1, diffuse_srvheap_index := 1
      diffuse_albedo := [0x3F800000, 0x3F800000, 0x3F800000, 0x3F800000]
      fresnel_r0 := [0x3D8F5C29, 0x3D8F5C29, 0x3D8F5C29]
      roughness := 0x3E99999A
      mat_transform := Identity4x4
      n_frames_dirty := (NUM_QUEUING_FRAMES : Int) }) MAT_CHECKER_TILE
  let m3 := m2.modify (fun m =>
    { m with
      mat_cbuffer_index := 2, diffuse_srvheap_index := 2
      diffuse_albedo := [0x3F800000, 0x3F800000, 0x3F800000, 0x3E99999A]
      fresnel_r0 := [0x3DCCCCCD, 0x3DCCCCCD, 0x3DCCCCCD]
      roughness := 0x3F000000
      mat_transform := Identity4x4
      n_frames_dirty := (NUM_QUEUING_FRAMES : Int) }) MAT_ICE_MIRROR
  let m4 := m3.modify (fun m =>
    { m with
      mat_cbuffer_index := 3, diffuse_srvheap_index := 3
      diffuse_albedo := [0x3F800000, 0x3F800000, 0x3F800000, 0x3F800000]
      fresnel_r0 := [0x3D4CCCCD, 0x3D4CCCCD, 0x3D4CCCCD]
      roughness := 0x3E99999A
      mat_transform := Identity4x4
      n_frames_dirty := (NUM_QUEUING_FRAMES : Int) }) MAT_SKULL
  m4.modify (fun m =>
    { m with
      mat_cbuffer_index := 4, diffuse_srvheap_index := 3
      diffuse_albedo := [0, 0, 0, 0x3F000000]
      fresnel_r0 := [0x3A83126F, 0x3A83126F, 0x3A83126F]
      roughness := 0
      mat_transform := Identity4x4
      n_frames_dirty := (NUM_QUEUING_FRAMES : Int) }) MAT_SHADOW

/-- The assignments `create_render_items` makes to the fields of
`all_ritems->ritems[ritem]` for an item built from scratch (floor, wall, skull,
mirror), up to `initialized = true`; the geometry pointer and the primitive
type are not carried. -/
def fill_item (Identity4x4 : XMFLOAT4X4) (obj_cbuffer_index mat : Nat) (submesh : SubmeshGeometry)
    (item : RenderItem) : RenderItem :=
  { item with
    world := Identity4x4
    tex_transform := Identity4x4
    obj_cbuffer_index := obj_cbuffer_index
    mat := mat
    index_count := submesh.index_count
    start_index_loc := submesh.start_index_location
    base_vertex_loc := submesh.base_vertex_location
    n_frames_dirty := (NUM_QUEUING_FRAMES : Int)
    initialized := true }

/-- The function `create_render_items`: the arrays and the materials after the
call.  `reflected_floor_world` is the value of `floor_world * R`, the world
matrix stored for the reflected floor. -/
def create_render_items (Identity4x4 reflected_floor_world : XMFLOAT4X4)
    (room_geom skull_geom : MeshGeometry)
    (all_ritems : RenderItemArray) (layers : RenderLayers) (materials : List Material) :
    RenderItemArray × RenderLayers × List Material :=
  -- floor
  let a := all_ritems.put RITEM_FLOOR
    (fill_item Identity4x4 0 MAT_CHECKER_TILE (room_geom.submesh ROOM_SUBMESH_FLOOR)
      (all_ritems.get RITEM_FLOOR))
  let materials := mark_material_dirty materials (a.get RITEM_FLOOR).mat
  let a := a.incr_size
  let opaque_ritems := (layers.opaque_ritems.put 0 (a.get RITEM_FLOOR)).incr_size
  -- wall
  let a := a.put RITEM_WALL
    (fill_item Identity4x4 1 MAT_BRICKS (room_geom.submesh ROOM_SUBMESH_WALL) (a.get RITEM_WALL))
  let materials := mark_material_dirty materials (a.get RITEM_WALL).mat
  let a := a.incr_size
  let opaque_ritems := (opaque_ritems.put 1 (a.get RITEM_WALL)).incr_size
  -- skull
  let a := a.put RITEM_SKULL
    (fill_item Identity4x4 2 MAT_SKULL (skull_geom.submesh 0) (a.get RITEM_SKULL))
  let materials := mark_material_dirty materials (a.get RITEM_SKULL).mat
  let a := a.incr_size
  let opaque_ritems := (opaque_ritems.put 2 (a.get RITEM_SKULL)).incr_size
  -- reflected skull will have different world matrix
  let a := a.put RITEM_REFLECTED_SKULL (a.get RITEM_SKULL)
  let a := a.put RITEM_REFLECTED_SKULL { a.get RITEM_REFLECTED_SKULL with obj_cbuffer_index := 3 }
  let a := a.incr_size
  let reflected_ritems := (layers.reflected_ritems.put 0 (a.get RITEM_REFLECTED_SKULL)).incr_size
  -- reflected floor
  let a := a.put RITEM_REFLECTED_FLOOR (a.get RITEM_FLOOR)
  let a := a.put RITEM_REFLECTED_FLOOR { a.get RITEM_REFLECTED_FLOOR with obj_cbuffer_index := 4 }
  let a := a.incr_size
  let a := a.put RITEM_REFLECTED_FLOOR { a.get RITEM_REFLECTED_FLOOR with world := reflected_floor_world }
  let reflected_ritems := (reflected_ritems.put 1 (a.get RITEM_REFLECTED_FLOOR)).incr_size
  -- shadowed skull will have different world matrix
  let a := a.put RITEM_SHADOWED_SKULL (a.get RITEM_SKULL)
  let a := a.put RITEM_SHADOWED_SKULL { a.get RITEM_SHADOWED_SKULL with obj_cbuffer_index := 5 }
  let a := a.put RITEM_SHADOWED_SKULL { a.get RITEM_SHADOWED_SKULL with mat := MAT_SHADOW }
  let a := a.incr_size
  let shadow_ritems := (layers.shadow_ritems.put 0 (a.get RITEM_SHADOWED_SKULL)).incr_size
  -- reflected shadow of the skull
  let a := a.put RITEM_REFLECTED_SHADOW (a.get RITEM_SHADOWED_SKULL)
  let a := a.put RITEM_REFLECTED_SHADOW { a.get RITEM_REFLECTED_SHADOW with obj_cbuffer_index := 6 }
  let a := a.incr_size
  let reflected_shadow_ritems :=
    (layers.reflected_shadow_ritems.put 0 (a.get RITEM_REFLECTED_SHADOW)).incr_size
  -- mirror
  let a := a.put RITEM_MIRROR
    (fill_item Identity4x4 7 MAT_ICE_MIRROR (room_geom.submesh ROOM_SUBMESH_MIRROR)
      (a.get RITEM_MIRROR))
  let materials := mark_material_dirty materials (a.get RITEM_MIRROR).mat
  let a := a.incr_size
  let mirrors_ritems := (layers.mirrors_ritems.put 0 (a.get RITEM_MIRROR)).incr_size
  let transparent_ritems := (layers.transparent_ritems.put 0 (a.get RITEM_MIRROR)).incr_size
  (a,
   { layers with
     opaque_ritems := opaque_ritems
     transparent_ritems := transparent_ritems
     mirrors_ritems := mirrors_ritems
     reflected_ritems := reflected_ritems
     shadow_ritems := shadow_ritems
     reflected_shadow_ritems := reflected_shadow_ritems },
   materials)

/-- The per-layer arrays as `memset` leaves them. -/
def RenderLayers.zeroed : RenderLayers :=
  { opaque_ritems := RenderItemArray.zeroed _COUNT_RENDERITEM
    transparent_ritems := RenderItemArray.zeroed _COUNT_RENDERITEM
    alphatested_ritems := RenderItemArray.zeroed _COUNT_RENDERITEM
    mirrors_ritems := RenderItemArray.zeroed _COUNT_RENDERITEM
    reflected_ritems := RenderItemArray.zeroed _COUNT_RENDERITEM
    shadow_ritems := RenderItemArray.zeroed _COUNT_RENDERITEM
    reflected_shadow_ritems := RenderItemArray.zeroed _COUNT_RENDERITEM }

/-- The scene `WinMain` creates: `create_materials`, then `create_render_items`,
on the zeroed arrays of the context. -/
def created_scene (Identity4x4 reflected_floor_world : XMFLOAT4X4)
    (room_geom skull_geom : MeshGeometry) : RenderItemArray × RenderLayers × List Material :=
  create_render_items Identity4x4 reflected_floor_world room_geom skull_geom
    (RenderItemArray.zeroed _COUNT_RENDERITEM) RenderLayers.zeroed
    (create_materials Identity4x4 (List.replicate _COUNT_MATERIAL {}))

end Stenciling

namespace Bezier

/-- The enum `ALL_RENDERITEMS`. -/
def RITEM_QUAD_PATCH_4CP : Nat := 0
/-- The enum `ALL_RENDERITEMS`. -/
def RITEM_QUAD_PATCH_16CP : Nat := 1
/-- The enum `GEOM_INDEX`. -/
def GEOM_QUAD_PATCH_4CP : Nat := 0
/-- The enum `GEOM_INDEX`. -/
def GEOM_QUAD_PATCH_16CP : Nat := 1
/-- The enum `MAT_INDEX`. -/
def MAT_WHITE : Nat := 0

/-- The function `create_materials`; `Identity4x4` is the value of the helper
of that name, floats are given by their bits. -/
def create_materials (Identity4x4 : XMFLOAT4X4) (out_materials : List Material) : List Material :=
  out_materials.modify (fun m =>
    { m with
      mat_cbuffer_index := 0, diffuse_srvheap_index := 0
      diffuse_albedo := [0x3F800000, 0x3F800000, 0x3F800000, 0x3F800000]
      fresnel_r0 := [0x3D4CCCCD, 0x3D4CCCCD, 0x3D4CCCCD]
      roughness := 0x3E4CCCCD
      mat_transform := Identity4x4
      n_frames_dirty := (NUM_QUEUING_FRAMES : Int) }) MAT_WHITE

/-- The assignments `create_render_items` makes to the fields of one item;
`grid_spatial_step = 1` and `displacement_map_texel_size = {1.0f, 1.0f}` are
given by the bits of `1.0f`. -/
def fill_item (Identity4x4 : XMFLOAT4X4) (obj_cbuffer_index mat : Nat) (submesh : SubmeshGeometry)
    (item : RenderItem) : RenderItem :=
  { item with
    world := Identity4x4
    tex_transform := Identity4x4
    obj_cbuffer_index := obj_cbuffer_index
    mat := mat
    index_count := submesh.index_count
    start_index_loc := submesh.start_index_location
    base_vertex_loc := submesh.base_vertex_location
    n_frames_dirty := (NUM_QUEUING_FRAMES : Int)
    grid_spatial_step := 0x3F800000
    displacement_map_texel_size := [0x3F800000, 0x3F800000]
    initialized := true }

/-- The function `create_render_items`: the arrays and the materials after the
call; `geom` is `render_ctx->geom`. -/
def create_render_items (Identity4x4 : XMFLOAT4X4) (geom : List MeshGeometry)
    (all_ritems : RenderItemArray) (layers : RenderLayers) (materials : List Material) :
    RenderItemArray × RenderLayers × List Material :=
  let a := all_ritems.put RITEM_QUAD_PATCH_4CP
    (fill_item Identity4x4 0 MAT_WHITE ((geom.getD GEOM_QUAD_PATCH_4CP {}).submesh 0)
      (all_ritems.get RITEM_QUAD_PATCH_4CP))
  let materials := mark_material_dirty materials (a.get RITEM_QUAD_PATCH_4CP).mat
  let a := a.incr_size
  let basictess_ritems :=
    (layers.basictess_ritems.put layers.basictess_ritems.size (a.get RITEM_QUAD_PATCH_4CP)).incr_size
  let a := a.put RITEM_QUAD_PATCH_16CP
    (fill_item Identity4x4 1 MAT_WHITE ((geom.getD GEOM_QUAD_PATCH_16CP {}).submesh 0)
      (a.get RITEM_QUAD_PATCH_16CP))
  let materials := mark_material_dirty materials (a.get RITEM_QUAD_PATCH_16CP).mat
  let a := a.incr_size
  let beziersurf_ritems :=
    (layers.beziersurf_ritems.put layers.beziersurf_ritems.size
      (a.get RITEM_QUAD_PATCH_16CP)).incr_size
  (a, { basictess_ritems := basictess_ritems, beziersurf_ritems := beziersurf_ritems }, materials)

/-- The scene `WinMain` creates: `create_materials`, then `create_render_items`,
on the zeroed arrays of the context. -/
def created_scene (Identity4x4 : XMFLOAT4X4) (geom : List MeshGeometry) :
    RenderItemArray × RenderLayers × List Material :=
  create_render_items Identity4x4 geom (RenderItemArray.zeroed _COUNT_RENDERITEM)
    { basictess_ritems := RenderItemArray.zeroed _COUNT_RENDERITEM
      beziersurf_ritems := RenderItemArray.zeroed _COUNT_RENDERITEM }
    (create_materials Identity4x4 (List.replicate _COUNT_MATERIAL {}))

end Bezier

/-- The context in which the main loop starts, with the scene `WinMain` has
created in it: `N` frame slots with constant buffers for `n_obj` and `n_mat`
records, the given render items and materials. -/
def scene_context (N n_obj n_mat : Nat) (all_ritems : RenderItemArray)
    (materials : List Material) : D3DRenderContext :=
  { startup_state N n_obj n_mat with all_ritems := all_ritems, materials := materials }

/-- The record indices of the render items of a context, in array order. -/
def obj_indices (s : D3DRenderContext) : List Nat :=
  s.all_ritems.ritems.map RenderItem.obj_cbuffer_index

/-- The record indices of the materials of a context, in array order. -/
def mat_indices (s : D3DRenderContext) : List Nat :=
  s.materials.map Material.mat_cbuffer_index

/-- Whether a constant buffer write is to an object record below `n_obj` or to
a material record below `n_mat`; every other call passes. -/
def write_within (n_obj n_mat : Nat) : Event → Bool
  | Event.memcpy _ CBuffer.obj k => decide (k < n_obj)
  | Event.memcpy _ CBuffer.mat k => decide (k < n_mat)
  | _ => true

/-- The record indices of a context fit its buffers: every `obj_cbuffer_index`
is below `n_obj`, every `mat_cbuffer_index` below `n_mat`, and the object and
material buffers of every slot hold `n_obj` and `n_mat` records. -/
def CBuffersFit (n_obj n_mat : Nat) (s : D3DRenderContext) : Prop :=
  (∀ k ∈ obj_indices s, k < n_obj) ∧ (∀ k ∈ mat_indices s, k < n_mat)
    ∧ (∀ slot cb, obj_cb_of s slot = some cb → cb.length = n_obj)
    ∧ (∀ slot cb, mat_cb_of s slot = some cb → cb.length = n_mat)

/-! ## The blur filter (`blur_filter.cpp`) -/

/-- The values of `D3D12_RESOURCE_STATES` that `blur_filter.cpp` names. -/
inductive ResourceState where
  | COMMON
  | RENDER_TARGET
  | COPY_SOURCE
  | COPY_DEST
  | GENERIC_READ
  | UNORDERED_ACCESS
deriving DecidableEq, Repr

/-- The resources `BlurFilter_Execute` names in its barriers and its copy. -/
inductive BlurResource where
  | input_tex
  | blur_map0
  | blur_map1
deriving DecidableEq, Repr

/-- The descriptor handles of the filter that `BlurFilter_Execute` binds. -/
inductive BlurDescriptor where
  | blur0_gpu_srv
  | blur0_gpu_uav
  | blur1_gpu_srv
  | blur1_gpu_uav
deriving DecidableEq, Repr

/-- The two pipeline states passed to `BlurFilter_Execute`. -/
inductive BlurPso where
  | hor_blur_pso
  | ver_blur_pso
deriving DecidableEq, Repr

/-- The struct `BlurFilter`, with the fields `blur_filter.cpp` uses.  The
pointer `weights` is kept as a byte offset from the start of the memory block;
each of `blur_map0` and `blur_map1` stands for the texture the pointer
designates, given by the resource state that texture is in. -/
structure BlurFilter where
  weights : Nat := 0
  weight_count : Nat := 0
  blur_radius : Int := 0
  blur_radius_max : Int := 0
  device : Nat := 0
  width : Nat := 0
  height : Nat := 0
  format : Nat := 0
  new_resources_flag : Bool := false
  blur_map0 : ResourceState := ResourceState.COMMON
  blur_map1 : ResourceState := ResourceState.COMMON
deriving DecidableEq, Repr

/-- The range of `size_t`. -/
def SIZE_T_SIZE : Nat := 2 ^ 64

/-- The two assertions at the head of `calc_gauss_weights`:
`weight_count == 2 * r + 1` and `r <= filter->blur_radius_max`. -/
def calc_gauss_weights_asserts {F : Type} [LinearOrderedField F] [FloorRing F]
    (filter : BlurFilter) (sigma : F) (weight_count : Nat) : Bool :=
  let r : Int := Int.ceil (2 * sigma)
  decide ((weight_count : Int) = 2 * r + 1) && decide (r ≤ filter.blur_radius_max)

/-- The function `calc_gauss_weights` in exact arithmetic over an ordered field
`F`; `expf` is the library function.  The first loop writes `out_weights[i + r]`
for `i = -r .. r`, the second `out_weights[i]` for `i < weight_count`; the result
is the array afterwards, or `none` when a loop would write outside the array. -/
def calc_gauss_weights {F : Type} [LinearOrderedField F] [FloorRing F] (expf : F → F)
    (sigma : F) (out_weights : List F) (weight_count : Nat) : Option (List F) :=
  let r : Int := Int.ceil (2 * sigma)
  let two_sigma2 : F := 2 * sigma * sigma
  if (2 * r + 1).toNat ≤ out_weights.length ∧ weight_count ≤ out_weights.length then
    let first := (List.range (2 * r + 1).toNat).foldl
      (fun (acc : List F × F) (j : Nat) =>
        let i : Int := -r + (j : Int)
        let x : F := (i : F)
        let w := acc.1.set (i + r).toNat (expf (-(x * x) / two_sigma2))
        (w, acc.2 + w.getD (i + r).toNat 0))
      (out_weights, 0)
    -- normalize (divide by sum)
    some ((List.range weight_count).foldl (fun w i => w.modify (fun v => v / first.2) i) first.1)
  else none

/-- The function `create_resources_internal`: two new textures, created in the
state `COMMON`, replace the blur maps, and the flag is set. -/
def create_resources_internal (filter : BlurFilter) : BlurFilter :=
  { filter with
    blur_map0 := ResourceState.COMMON
    blur_map1 := ResourceState.COMMON
    new_resources_flag := true }

/-- The function `create_descriptors_internal`: it creates four views on the
device and changes no field of the filter. -/
def create_descriptors_internal (filter : BlurFilter) : BlurFilter := filter

/-- The number of weights both `BlurFilter_CalculateRequiredSize` and
`BlurFilter_Init` compute: `2 * r + 1` for `r = (int)ceilf(2.0f * 2.5f)`; the
two floats and their product are exact, so the rationals give the same `r`. -/
def init_weight_count : Int :=
  let sigma : ℚ := 5 / 2
  let r : Int := Int.ceil (2 * sigma)
  2 * r + 1

/-- The function `BlurFilter_CalculateRequiredSize`; the two `sizeof` values are
parameters. -/
def BlurFilter_CalculateRequiredSize (sizeof_BlurFilter sizeof_float : Nat) : Nat :=
  (sizeof_BlurFilter + (init_weight_count.toNat * sizeof_float) % SIZE_T_SIZE) % SIZE_T_SIZE

/-- What a call of `BlurFilter_Init` leaves: a null return with nothing
written, a write outside the memory block, or the filter and the weight array
it has filled. -/
inductive InitResult (F : Type) where
  | null
  | fault
  | done (ret : BlurFilter) (weights : List F)

/-- The function `BlurFilter_Init`.  The block `memory` is given by the array of
floats that follows the first `sizeof(BlurFilter)` bytes (`none` for a null
pointer); `filter` is what the first bytes hold on entry. -/
def BlurFilter_Init {F : Type} [LinearOrderedField F] [FloorRing F] (expf : F → F)
    (sizeof_BlurFilter : Nat) (filter : BlurFilter) (memory : Option (List F))
    (dev w h format : Nat) : InitResult F :=
  match memory with
  | none => InitResult.null
  | some floats =>
    let ret := { filter with weights := sizeof_BlurFilter }
    -- calculate weights
    let sigma : F := 5 / 2
    let r : Int := Int.ceil (2 * sigma)
    let ret := { ret with weight_count := (2 * r + 1).toNat }
    let ret := { ret with blur_radius := (ret.weight_count : Int) / 2 }
    let ret := { ret with blur_radius_max := 5 }
    match calc_gauss_weights expf sigma floats ret.weight_count with
    | none => InitResult.fault
    | some weights =>
      let ret := { ret with device := dev, width := w, height := h, format := format,
                            new_resources_flag := false }
      InitResult.done (create_resources_internal ret) weights

/-- The function `BlurFilter_Resize`; `none` is a null `filter`.  The result is
the filter afterwards and the returned `bool`. -/
def BlurFilter_Resize (filter : Option BlurFilter) (w h : Nat) : Option BlurFilter × Bool :=
  match filter with
  | none => (none, false)
  | some f =>
    if f.width ≠ w ∨ f.height ≠ h then
      let f := { f with width := w }
      let f := { f with height := h }
      let f := create_resources_internal f
      let f := create_descriptors_internal f
      (some f, true)
    else (some f, false)

/-- The calls `BlurFilter_Execute` makes on the command list. -/
inductive BlurCmd where
  | SetComputeRootSignature
  | SetComputeRoot32BitConstants (root_index num_values dest_offset : Nat)
  | ResourceBarrier (resource : BlurResource) (StateBefore StateAfter : ResourceState)
  | CopyResource (dst src : BlurResource)
  | SetPipelineState (pso : BlurPso)
  | SetComputeRootDescriptorTable (root_index : Nat) (handle : BlurDescriptor)
  | Dispatch (x y z : Nat)
deriving DecidableEq, Repr

/-- One turn of the loop of `BlurFilter_Execute`: the commands it records.
The value of `(UINT)ceilf(n / 256.0f)` is `ngroup n`. -/
def blur_pass (ngroup : Nat → Nat) (filter : BlurFilter) : List BlurCmd :=
  [ -- horizontal blur pass
    BlurCmd.SetPipelineState BlurPso.hor_blur_pso,
    BlurCmd.SetComputeRootDescriptorTable 1 BlurDescriptor.blur0_gpu_srv,
    BlurCmd.SetComputeRootDescriptorTable 2 BlurDescriptor.blur1_gpu_uav,
    BlurCmd.Dispatch (ngroup filter.width) filter.height 1,
    BlurCmd.ResourceBarrier BlurResource.blur_map0
      ResourceState.GENERIC_READ ResourceState.UNORDERED_ACCESS,
    BlurCmd.ResourceBarrier BlurResource.blur_map1
      ResourceState.UNORDERED_ACCESS ResourceState.GENERIC_READ,
    -- vertical blur pass
    BlurCmd.SetPipelineState BlurPso.ver_blur_pso,
    BlurCmd.SetComputeRootDescriptorTable 1 BlurDescriptor.blur1_gpu_srv,
    BlurCmd.SetComputeRootDescriptorTable 2 BlurDescriptor.blur0_gpu_uav,
    BlurCmd.Dispatch filter.width (ngroup filter.height) 1,
    BlurCmd.ResourceBarrier BlurResource.blur_map0
      ResourceState.UNORDERED_ACCESS ResourceState.GENERIC_READ,
    BlurCmd.ResourceBarrier BlurResource.blur_map1
      ResourceState.GENERIC_READ ResourceState.UNORDERED_ACCESS ]

/-- The loop `for (i < blur_count)` of `BlurFilter_Execute`: each turn records
a pass and clears `new_resources_flag`. -/
def blur_loop (ngroup : Nat → Nat) : Nat → BlurFilter × List BlurCmd → BlurFilter × List BlurCmd
  | 0, acc => acc
  | n + 1, (filter, cmds) =>
    blur_loop ngroup n ({ filter with new_resources_flag := false }, cmds ++ blur_pass ngroup filter)

/-- The function `BlurFilter_Execute`: the filter afterwards and the commands
recorded on `cmdlist`, in order.  The fields `blur_map0` and `blur_map1` are not
touched here: the textures change state when the commands run. -/
def BlurFilter_Execute (ngroup : Nat → Nat) (filter : BlurFilter) (blur_count : Nat) :
    BlurFilter × List BlurCmd :=
  let cmds : List BlurCmd :=
    [ BlurCmd.SetComputeRootSignature,
      BlurCmd.SetComputeRoot32BitConstants 0 1 0,
      BlurCmd.SetComputeRoot32BitConstants 0 (filter.weight_count % UINT_SIZE) 1,
      BlurCmd.ResourceBarrier BlurResource.input_tex
        ResourceState.RENDER_TARGET ResourceState.COPY_SOURCE ]
  let cmds := cmds ++
    (if filter.new_resources_flag then
      [BlurCmd.ResourceBarrier BlurResource.blur_map0 ResourceState.COMMON ResourceState.COPY_DEST]
    else
      [BlurCmd.ResourceBarrier BlurResource.blur_map0
        ResourceState.GENERIC_READ ResourceState.COPY_DEST])
  -- copy input (here backbuffer) to blur_map0
  let cmds := cmds ++ [BlurCmd.CopyResource BlurResource.blur_map0 BlurResource.input_tex]
  let cmds := cmds ++
    [BlurCmd.ResourceBarrier BlurResource.blur_map0 ResourceState.COPY_DEST ResourceState.GENERIC_READ]
  let cmds := cmds ++
    (if filter.new_resources_flag then
      [BlurCmd.ResourceBarrier BlurResource.blur_map1
        ResourceState.COMMON ResourceState.UNORDERED_ACCESS]
    else [])
  blur_loop ngroup blur_count (filter, cmds)

/-- The states the three resources are in while a command list runs, and
whether every transition barrier so far named as `StateBefore` the state its
resource was in. -/
structure BarrierCheck where
  input_tex : ResourceState
  blur_map0 : ResourceState
  blur_map1 : ResourceState
  matched : Bool := true
deriving DecidableEq, Repr

/-- The state of a resource. -/
def BarrierCheck.state (c : BarrierCheck) : BlurResource → ResourceState
  | BlurResource.input_tex => c.input_tex
  | BlurResource.blur_map0 => c.blur_map0
  | BlurResource.blur_map1 => c.blur_map1

/-- A resource moves to a state. -/
def BarrierCheck.move (c : BarrierCheck) (r : BlurResource) (s : ResourceState) : BarrierCheck :=
  match r with
  | BlurResource.input_tex => { c with input_tex := s }
  | BlurResource.blur_map0 => { c with blur_map0 := s }
  | BlurResource.blur_map1 => { c with blur_map1 := s }

/-- A command runs: a transition barrier is compared with the state its
resource is in and moves the resource to `StateAfter`. -/
def BlurCmd.run (c : BarrierCheck) : BlurCmd → BarrierCheck
  | BlurCmd.ResourceBarrier r before after =>
    { c.move r after with matched := c.matched && decide (c.state r = before) }
  | _ => c

/-- A call of `BlurFilter_Execute` on an input texture that is in the state
`input_state`, followed by the run of the commands it recorded: the filter
afterwards (its blur maps in the states the run leaves them in) and whether
every barrier of the call matched. -/
def execute_and_run (ngroup : Nat → Nat) (filter : BlurFilter)
    (input_state : ResourceState) (blur_count : Nat) : BlurFilter × Bool :=
  let r := BlurFilter_Execute ngroup filter blur_count
  let c := r.2.foldl BlurCmd.run
    { input_tex := input_state, blur_map0 := filter.blur_map0, blur_map1 := filter.blur_map1 }
  ({ r.1 with blur_map0 := c.blur_map0, blur_map1 := c.blur_map1 }, c.matched)

/-- A sequence of calls of `BlurFilter_Execute`, each with its `blur_count`,
every one on an input texture in the state `RENDER_TARGET`: the filter
afterwards and, for each call, whether every barrier matched. -/
def execute_calls (ngroup : Nat → Nat) : BlurFilter → List Nat → BlurFilter × List Bool
  | filter, [] => (filter, [])
  | filter, blur_count :: rest =>
    let r := execute_and_run ngroup filter ResourceState.RENDER_TARGET blur_count
    let rs := execute_calls ngroup r.1 rest
    (rs.1, r.2 :: rs.2)

/-- The weight named in the description of `calc_gauss_weights`, before the
division: `exp(-i^2 / (2 sigma^2))`. -/
def gauss_term {F : Type} [LinearOrderedField F] (expf : F → F) (sigma : F) (i : Int) : F :=
  expf (-((i : F) ^ 2) / (2 * sigma ^ 2))

/-- The sum `S` of the terms `exp(-i^2 / (2 sigma^2))` for `i = -r .. r`. -/
def gauss_sum {F : Type} [LinearOrderedField F] (expf : F → F) (sigma : F) (r : Int) : F :=
  ((List.range (2 * r + 1).toNat).map (fun j : Nat => gauss_term expf sigma (-r + (j : Int)))).sum

end D3D

set_option maxRecDepth 10000

namespace D3D

/-! ## The GPU model -/

theorem gpu_steps_nil (k c : Nat) : gpu_steps k [] c = ([], c) := by
  cases k <;> rfl

theorem gpu_steps_add (k j : Nat) : ∀ (q : List QueueCmd) (c : Nat),
    gpu_steps j (gpu_steps k q c).1 (gpu_steps k q c).2 = gpu_steps (k + j) q c := by
  induction k with
  | zero => intro q c; simp [gpu_steps]
  | succ k ih =>
    intro q c
    cases q with
    | nil => simp [gpu_steps_nil]
    | cons cmd rest =>
      have h : k + 1 + j = (k + j) + 1 := by omega
      rw [h]
      simp only [gpu_steps]
      exact ih rest (cmd.retire c)

theorem final_value_gpu_steps (k : Nat) : ∀ (q : List QueueCmd) (c : Nat),
    final_value (gpu_steps k q c).1 (gpu_steps k q c).2 = final_value q c := by
  induction k with
  | zero => intro q c; rfl
  | succ k ih =>
    intro q c
    cases q with
    | nil => rfl
    | cons cmd rest =>
      simp only [gpu_steps]
      rw [ih]
      rfl

theorem final_value_append_signal (q : List QueueCmd) (c v : Nat) :
    final_value (q ++ [QueueCmd.signal v]) c = v := by
  simp [final_value, List.foldl_append, QueueCmd.retire]

theorem gpu_run_until_spec (v : Nat) : ∀ (q : List QueueCmd) (c : Nat),
    v ≤ final_value q c →
      ∃ j, gpu_run_until v q c = some (gpu_steps j q c) ∧ v ≤ (gpu_steps j q c).2 := by
  intro q
  induction q with
  | nil =>
    intro c h
    refine ⟨0, ?_, ?_⟩
    · have h1 : v ≤ c := h
      simp [gpu_run_until, gpu_steps, h1]
    · exact h
  | cons cmd rest ih =>
    intro c h
    by_cases hv : v ≤ c
    · exact ⟨0, by simp [gpu_run_until, gpu_steps, hv], hv⟩
    · obtain ⟨j, hj, hle⟩ := ih (cmd.retire c) h
      exact ⟨j + 1, by simp [gpu_run_until, gpu_steps, hv, hj], hle⟩

theorem gpu_retire_zero (s : D3DRenderContext) : gpu_retire 0 s = s := rfl

theorem gpu_retire_add (k j : Nat) (s : D3DRenderContext) :
    gpu_retire j (gpu_retire k s) = gpu_retire (k + j) s := by
  simp [gpu_retire, gpu_steps_add]

theorem wait_for_fence_spec (s : D3DRenderContext) (v : Nat)
    (h : v ≤ final_value s.cmd_queue s.fence_completed) :
    ∃ j, wait_for_fence s v = some (gpu_retire j s) ∧ v ≤ (gpu_retire j s).fence_completed := by
  unfold wait_for_fence
  by_cases hlt : s.fence_completed < v
  · obtain ⟨j, hj, hle⟩ := gpu_run_until_spec v s.cmd_queue s.fence_completed h
    refine ⟨j, ?_, hle⟩
    simp [hlt, hj, gpu_retire]
  · exact ⟨0, by simp [hlt, gpu_retire_zero], by simpa [gpu_retire_zero] using Nat.le_of_not_lt hlt⟩

theorem stenciling_move_to_next_frame_spec (N gpu : Nat) (s : D3DRenderContext) :
    ∃ j, Stenciling.move_to_next_frame N gpu s
        = some (gpu_retire j (move_to_next_frame_effect N s),
            (s.fence_of s.frame_index + 1) % UINT64_SIZE)
      ∧ s.fence_of s.frame_index ≤ (gpu_retire j (move_to_next_frame_effect N s)).fence_completed := by
  obtain ⟨j, hj, hle⟩ := wait_for_fence_spec
    ((gpu_retire gpu { s.Signal (s.fence_of s.frame_index) with
        backbuffer_index := (s.backbuffer_index + 1) % UINT_SIZE % NUM_BACKBUFFERS
        frame_index := (s.frame_index + 1) % UINT_SIZE % N }).record
      (Event.wait_slot s.frame_index (s.fence_of s.frame_index)))
    (s.fence_of s.frame_index)
    (by simp [gpu_retire, D3DRenderContext.record, D3DRenderContext.Signal,
          final_value_gpu_steps, final_value_append_signal])
  refine ⟨gpu + j, ?_, ?_⟩
  · simp only [Stenciling.move_to_next_frame, D3DRenderContext.Signal, D3DRenderContext.record,
      gpu_retire, D3DRenderContext.fence_of] at hj ⊢
    rw [hj]
    simp [gpu_retire, move_to_next_frame_effect, D3DRenderContext.set_fence, gpu_steps_add,
      D3DRenderContext.fence_of]
  · simpa [gpu_retire, move_to_next_frame_effect, D3DRenderContext.record,
      D3DRenderContext.Signal, gpu_steps_add] using hle

theorem bezier_move_to_next_frame_eq (N gpu : Nat) (s : D3DRenderContext) :
    Bezier.move_to_next_frame N gpu s = (Stenciling.move_to_next_frame N gpu s).map Prod.fst := by
  simp only [Bezier.move_to_next_frame, Stenciling.move_to_next_frame]
  split <;> simp_all

theorem bezier_move_to_next_frame_spec (N gpu : Nat) (s : D3DRenderContext) :
    ∃ j, Bezier.move_to_next_frame N gpu s = some (gpu_retire j (move_to_next_frame_effect N s))
      ∧ s.fence_of s.frame_index ≤ (gpu_retire j (move_to_next_frame_effect N s)).fence_completed := by
  obtain ⟨j, hj, hle⟩ := stenciling_move_to_next_frame_spec N gpu s
  exact ⟨j, by simp [bezier_move_to_next_frame_eq, hj], hle⟩

theorem flush_command_queue_spec (gpu : Nat) (s : D3DRenderContext) :
    ∃ j, flush_command_queue gpu s = some (gpu_retire j (flush_command_queue_effect s))
      ∧ (s.main_current_fence + 1) % UINT64_SIZE
          ≤ (gpu_retire j (flush_command_queue_effect s)).fence_completed := by
  obtain ⟨j, hj, hle⟩ := wait_for_fence_spec
    ((gpu_retire gpu ({ s with main_current_fence := (s.main_current_fence + 1) % UINT64_SIZE }.Signal
        ((s.main_current_fence + 1) % UINT64_SIZE))).record
      (Event.wait_main ((s.main_current_fence + 1) % UINT64_SIZE)))
    ((s.main_current_fence + 1) % UINT64_SIZE)
    (by simp [gpu_retire, D3DRenderContext.record, D3DRenderContext.Signal,
          final_value_gpu_steps, final_value_append_signal])
  refine ⟨gpu + j, ?_, ?_⟩
  · simp only [flush_command_queue, D3DRenderContext.Signal, D3DRenderContext.record,
      gpu_retire] at hj ⊢
    rw [hj]
    simp [gpu_retire, flush_command_queue_effect, gpu_steps_add]
  · simpa [gpu_retire, flush_command_queue_effect, D3DRenderContext.record,
      D3DRenderContext.Signal, gpu_steps_add] using hle

theorem gpu_steps_saturate (k : Nat) : ∀ (q : List QueueCmd) (c : Nat),
    q.length ≤ k → gpu_steps k q c = gpu_steps q.length q c := by
  induction k with
  | zero =>
    intro q c h
    have : q = [] := List.length_eq_zero.mp (Nat.le_zero.mp h)
    subst this; rfl
  | succ k ih =>
    intro q c h
    cases q with
    | nil => rfl
    | cons cmd rest =>
      simp only [gpu_steps, List.length_cons]
      exact ih rest _ (by simpa using h)

theorem gpu_steps_min (k : Nat) (q : List QueueCmd) (c : Nat) :
    gpu_steps k q c = gpu_steps (min k q.length) q c := by
  by_cases h : q.length ≤ k
  · rw [Nat.min_eq_right h]; exact gpu_steps_saturate k q c h
  · rw [Nat.min_eq_left (Nat.le_of_lt (Nat.lt_of_not_le h))]

theorem gpu_steps_append (l : List QueueCmd) (k : Nat) : ∀ (q : List QueueCmd) (c : Nat),
    k ≤ q.length →
      gpu_steps k (q ++ l) c = ((gpu_steps k q c).1 ++ l, (gpu_steps k q c).2) := by
  induction k with
  | zero => intro q c _; rfl
  | succ k ih =>
    intro q c h
    cases q with
    | nil => simp at h
    | cons cmd rest =>
      simp only [gpu_steps, List.cons_append]
      exact ih rest _ (by simpa using h)

theorem gpu_steps_le (b : Nat) (k : Nat) : ∀ (q : List QueueCmd) (c : Nat),
    c ≤ b → (∀ cmd ∈ q, cmd.retire 0 ≤ b) → (gpu_steps k q c).2 ≤ b := by
  induction k with
  | zero => intro q c h _; exact h
  | succ k ih =>
    intro q c h hq
    cases q with
    | nil => exact h
    | cons cmd rest =>
      simp only [gpu_steps]
      apply ih
      · cases cmd with
        | execute a => exact h
        | signal v => exact hq (QueueCmd.signal v) (List.mem_cons_self _ _)
      · intro c' hc'
        exact hq c' (List.mem_cons_of_mem _ hc')

theorem gpu_retire_min (k : Nat) (s : D3DRenderContext) :
    gpu_retire k s = gpu_retire (min k s.cmd_queue.length) s := by
  simp only [gpu_retire]
  rw [← gpu_steps_min]

theorem flush_command_queue_fresh (gpu : Nat) (p : D3DRenderContext) (a : Allocator)
    (hm : p.main_current_fence = 0) (hc : p.fence_completed = 0)
    (hq : p.cmd_queue = [QueueCmd.execute a]) :
    flush_command_queue gpu p = some (gpu_retire 2 (flush_command_queue_effect p)) := by
  obtain ⟨j, hj, hle⟩ := flush_command_queue_spec gpu p
  rw [hj]
  have h1 : (p.main_current_fence + 1) % UINT64_SIZE = 1 := by rw [hm]; decide
  rw [h1] at hle
  match j, hle with
  | 0, hle =>
    simp [gpu_retire, flush_command_queue_effect, gpu_steps, hc] at hle
  | 1, hle =>
    simp [gpu_retire, flush_command_queue_effect, gpu_steps, hc, hq, QueueCmd.retire] at hle
  | j + 2, _ =>
    rw [gpu_retire_min (j + 2)]
    have hlen : (flush_command_queue_effect p).cmd_queue.length = 2 := by
      simp [flush_command_queue_effect, hq]
    rw [hlen]
    have : min (j + 2) 2 = 2 := by omega
    rw [this]

theorem RenderContext_Init_fence_of (N n_obj n_mat i : Nat) :
    (RenderContext_Init N n_obj n_mat).fence_of i = 0 := by
  simp only [D3DRenderContext.fence_of, RenderContext_Init, List.getElem?_replicate]
  split <;> simp_all
  rename_i fr h
  rw [← h.2]

theorem startup_eq (N n_obj n_mat gpu : Nat) :
    startup N n_obj n_mat gpu = some (startup_state N n_obj n_mat) := by
  simp only [startup, WinMain_create_fence, startup_state]
  apply flush_command_queue_fresh gpu _ Allocator.direct
  · rfl
  · have := RenderContext_Init_fence_of N n_obj n_mat 0
    simpa [D3DRenderContext.set_fence, D3DRenderContext.ExecuteCommandLists,
      D3DRenderContext.fence_of, RenderContext_Init] using this
  · simp [D3DRenderContext.set_fence, D3DRenderContext.ExecuteCommandLists, RenderContext_Init]

/-! ## GPU progress commutes with the CPU side -/

theorem foldl_commute {σ ι : Type} (g : σ → σ) (step : σ → ι → σ)
    (h : ∀ s i, step (g s) i = g (step s i)) :
    ∀ (l : List ι) (s : σ), l.foldl step (g s) = g (l.foldl step s) := by
  intro l
  induction l with
  | nil => intro s; rfl
  | cons i rest ih => intro s; simp only [List.foldl_cons]; rw [h, ih]

theorem update_obj_cbuffers_step_gpu (f : RenderItem → ObjectConstants) (fi k : Nat)
    (s : D3DRenderContext) (i : Nat) :
    update_obj_cbuffers_step f fi (gpu_retire k s) i
      = gpu_retire k (update_obj_cbuffers_step f fi s i) := by
  simp only [update_obj_cbuffers_step, gpu_retire]
  cases h : s.all_ritems.ritems[i]? with
  | none => simp
  | some item =>
    simp only []
    split <;> rfl

theorem update_obj_cbuffers_with_gpu (f : RenderItem → ObjectConstants) (k : Nat)
    (s : D3DRenderContext) :
    update_obj_cbuffers_with f (gpu_retire k s) = gpu_retire k (update_obj_cbuffers_with f s) := by
  simp only [update_obj_cbuffers_with]
  exact foldl_commute (gpu_retire k) _ (update_obj_cbuffers_step_gpu f _ k) _ s

theorem update_mat_cbuffers_step_gpu (fi k : Nat) (s : D3DRenderContext) (i : Nat) :
    update_mat_cbuffers_step fi (gpu_retire k s) i
      = gpu_retire k (update_mat_cbuffers_step fi s i) := by
  simp only [update_mat_cbuffers_step, gpu_retire]
  cases h : s.materials[i]? with
  | none => simp
  | some mat =>
    simp only []
    split <;> rfl

theorem update_mat_cbuffers_gpu (n k : Nat) (s : D3DRenderContext) :
    update_mat_cbuffers n (gpu_retire k s) = gpu_retire k (update_mat_cbuffers n s) := by
  simp only [update_mat_cbuffers]
  exact foldl_commute (gpu_retire k) _ (update_mat_cbuffers_step_gpu _ k) _ s

theorem stenciling_update_cbuffers_gpu (k : Nat) (s : D3DRenderContext) :
    Stenciling.update_cbuffers (gpu_retire k s) = gpu_retire k (Stenciling.update_cbuffers s) := by
  simp only [Stenciling.update_cbuffers, Stenciling.update_obj_cbuffers,
    update_obj_cbuffers_with_gpu, update_mat_cbuffers_gpu]
  simp [Stenciling.update_pass_cbuffers, D3DRenderContext.record, gpu_retire]

theorem bezier_update_cbuffers_gpu (k : Nat) (s : D3DRenderContext) :
    Bezier.update_cbuffers (gpu_retire k s) = gpu_retire k (Bezier.update_cbuffers s) := by
  simp only [Bezier.update_cbuffers, Bezier.update_obj_cbuffers,
    update_obj_cbuffers_with_gpu, update_mat_cbuffers_gpu]
  simp [Bezier.update_pass_cbuffers, D3DRenderContext.record, gpu_retire]

theorem gpu_retire_fence_of (k : Nat) (s : D3DRenderContext) (i : Nat) :
    (gpu_retire k s).fence_of i = s.fence_of i := rfl

theorem gpu_retire_frame_index (k : Nat) (s : D3DRenderContext) :
    (gpu_retire k s).frame_index = s.frame_index := rfl

theorem draw_main_gpu (k : Nat) (s : D3DRenderContext) :
    draw_main (gpu_retire k s) = gpu_retire (min k s.cmd_queue.length) (draw_main s) := by
  rw [gpu_retire_min k s]
  have h : min k s.cmd_queue.length ≤ s.cmd_queue.length := Nat.min_le_right _ _
  simp [draw_main, D3DRenderContext.record, D3DRenderContext.ExecuteCommandLists, gpu_retire,
    gpu_steps_append _ _ _ _ h]

theorem move_to_next_frame_effect_gpu (N k : Nat) (s : D3DRenderContext) :
    move_to_next_frame_effect N (gpu_retire k s)
      = gpu_retire (min k s.cmd_queue.length) (move_to_next_frame_effect N s) := by
  rw [gpu_retire_min k s]
  have h : min k s.cmd_queue.length ≤ s.cmd_queue.length := Nat.min_le_right _ _
  simp [move_to_next_frame_effect, gpu_retire, gpu_steps_append _ _ _ _ h,
    D3DRenderContext.fence_of]

theorem flush_command_queue_effect_gpu (k : Nat) (s : D3DRenderContext) :
    flush_command_queue_effect (gpu_retire k s)
      = gpu_retire (min k s.cmd_queue.length) (flush_command_queue_effect s) := by
  rw [gpu_retire_min k s]
  have h : min k s.cmd_queue.length ≤ s.cmd_queue.length := Nat.min_le_right _ _
  simp [flush_command_queue_effect, gpu_retire, gpu_steps_append _ _ _ _ h]

theorem stenciling_frame_effect_gpu (N k : Nat) (s : D3DRenderContext) :
    ∃ k1, Stenciling.frame_effect N (gpu_retire k s) = gpu_retire k1 (Stenciling.frame_effect N s) := by
  refine ⟨min (min k (Stenciling.update_cbuffers s).cmd_queue.length)
    (draw_main (Stenciling.update_cbuffers s)).cmd_queue.length, ?_⟩
  simp only [Stenciling.frame_effect, stenciling_update_cbuffers_gpu, draw_main_gpu,
    move_to_next_frame_effect_gpu, gpu_retire_fence_of, gpu_retire_frame_index]
  simp only [gpu_retire]

theorem bezier_frame_effect_gpu (N k : Nat) (s : D3DRenderContext) :
    ∃ k1, Bezier.frame_effect N (gpu_retire k s) = gpu_retire k1 (Bezier.frame_effect N s) := by
  refine ⟨min (min k (Bezier.update_cbuffers s).cmd_queue.length)
    (draw_main (Bezier.update_cbuffers s)).cmd_queue.length, ?_⟩
  simp only [Bezier.frame_effect, bezier_update_cbuffers_gpu, draw_main_gpu,
    move_to_next_frame_effect_gpu]

theorem stenciling_frame_spec (N : Nat) (g : Nat × Nat) (s : D3DRenderContext) :
    ∃ j, Stenciling.frame N g s = some (gpu_retire j (Stenciling.frame_effect N s)) := by
  obtain ⟨j, hj, _⟩ := stenciling_move_to_next_frame_spec N g.2
    (draw_main (Stenciling.update_cbuffers (gpu_retire g.1 s)))
  obtain ⟨k1, hk1⟩ := stenciling_frame_effect_gpu N g.1 s
  refine ⟨k1 + j, ?_⟩
  unfold Stenciling.frame
  simp only []
  rw [hj]
  simp only []
  rw [← gpu_retire_add k1 j, ← hk1]
  simp only [Stenciling.frame_effect, gpu_retire]

theorem bezier_frame_spec (N : Nat) (g : Nat × Nat) (s : D3DRenderContext) :
    ∃ j, Bezier.frame N g s = some (gpu_retire j (Bezier.frame_effect N s)) := by
  obtain ⟨j, hj, _⟩ := bezier_move_to_next_frame_spec N g.2
    (draw_main (Bezier.update_cbuffers (gpu_retire g.1 s)))
  obtain ⟨k1, hk1⟩ := bezier_frame_effect_gpu N g.1 s
  refine ⟨k1 + j, ?_⟩
  unfold Bezier.frame
  simp only []
  rw [hj, ← gpu_retire_add k1 j, ← hk1]
  simp only [Bezier.frame_effect]

theorem iterate_effect_gpu (F : D3DRenderContext → D3DRenderContext)
    (hF : ∀ k s, ∃ k1, F (gpu_retire k s) = gpu_retire k1 (F s)) :
    ∀ (n k : Nat) (s : D3DRenderContext),
      ∃ k1, Nat.iterate F n (gpu_retire k s) = gpu_retire k1 (Nat.iterate F n s) := by
  intro n
  induction n with
  | zero => intro k s; exact ⟨k, rfl⟩
  | succ n ih =>
    intro k s
    obtain ⟨k1, hk1⟩ := hF k s
    obtain ⟨k2, hk2⟩ := ih k1 (F s)
    exact ⟨k2, by simp only [Function.iterate_succ, Function.comp, hk1, hk2]⟩

theorem run_frames_spec (frame : Nat × Nat → D3DRenderContext → Option D3DRenderContext)
    (F : D3DRenderContext → D3DRenderContext)
    (hF : ∀ k s, ∃ k1, F (gpu_retire k s) = gpu_retire k1 (F s))
    (hframe : ∀ g s, ∃ j, frame g s = some (gpu_retire j (F s))) :
    ∀ (gs : List (Nat × Nat)) (s : D3DRenderContext),
      ∃ j, run_frames frame gs s = some (gpu_retire j (Nat.iterate F gs.length s)) := by
  intro gs
  induction gs with
  | nil => intro s; exact ⟨0, rfl⟩
  | cons g gs ih =>
    intro s
    obtain ⟨j, hj⟩ := hframe g s
    obtain ⟨j1, hj1⟩ := ih (gpu_retire j (F s))
    obtain ⟨k1, hk1⟩ := iterate_effect_gpu F hF gs.length j (F s)
    refine ⟨k1 + j1, ?_⟩
    simp only [run_frames, hj, hj1, hk1, gpu_retire_add, List.length_cons,
      Function.iterate_succ, Function.comp]

theorem stenciling_run_frames_spec (N : Nat) (gs : List (Nat × Nat)) (s : D3DRenderContext) :
    ∃ j, run_frames (Stenciling.frame N) gs s
      = some (gpu_retire j (Nat.iterate (Stenciling.frame_effect N) gs.length s)) :=
  run_frames_spec _ _ (stenciling_frame_effect_gpu N) (stenciling_frame_spec N) gs s

theorem bezier_run_frames_spec (N : Nat) (gs : List (Nat × Nat)) (s : D3DRenderContext) :
    ∃ j, run_frames (Bezier.frame N) gs s
      = some (gpu_retire j (Nat.iterate (Bezier.frame_effect N) gs.length s)) :=
  run_frames_spec _ _ (bezier_frame_effect_gpu N) (bezier_frame_spec N) gs s

end D3D

namespace D3D

/-! ## The constant-buffer updates -/

theorem UpdateKeeps.refl (t : D3DRenderContext) : UpdateKeeps t t :=
  ⟨rfl, rfl, fun _ => rfl, fun _ => rfl, fun _ => rfl, fun _ => rfl, fun _ => rfl⟩

theorem UpdateKeeps.trans {t u v : D3DRenderContext} (h1 : UpdateKeeps t u)
    (h2 : UpdateKeeps u v) : UpdateKeeps t v := by
  obtain ⟨a1, a2, a3, a4, a5, a6, a7⟩ := h1
  obtain ⟨b1, b2, b3, b4, b5, b6, b7⟩ := h2
  exact ⟨b1.trans a1, b2.trans a2, fun j => (b3 j).trans (a3 j), fun j => (b4 j).trans (a4 j),
    fun j => (b5 j).trans (a5 j), fun j => (b6 j).trans (a6 j), fun j => (b7 j).trans (a7 j)⟩

theorem update_obj_cbuffers_step_cases (f : RenderItem → ObjectConstants) (fi : Nat)
    (u : D3DRenderContext) (k : Nat) :
    ((∀ it, u.all_ritems.ritems[k]? = some it → ¬ (0 < it.n_frames_dirty ∧ it.initialized = true))
        ∧ update_obj_cbuffers_step f fi u k = u)
    ∨ ∃ it, u.all_ritems.ritems[k]? = some it ∧ 0 < it.n_frames_dirty ∧ it.initialized = true
        ∧ update_obj_cbuffers_step f fi u k =
          { u with
            frame_resources :=
              u.frame_resources.modify
                (fun fr => { fr with obj_cb := fr.obj_cb.set it.obj_cbuffer_index (f it) }) fi
            all_ritems :=
              { u.all_ritems with
                ritems := u.all_ritems.ritems.set k { it with n_frames_dirty := it.n_frames_dirty - 1 } }
            log := u.log ++ [Event.memcpy fi CBuffer.obj it.obj_cbuffer_index] } := by
  unfold update_obj_cbuffers_step
  cases h : u.all_ritems.ritems[k]? with
  | none => left; simp
  | some it =>
    by_cases hc : 0 < it.n_frames_dirty ∧ it.initialized = true
    · right
      exact ⟨it, rfl, hc.1, hc.2, by simp [hc]⟩
    · left
      refine ⟨?_, by simp [hc]⟩
      intro it' hit'
      cases hit'
      exact hc

theorem update_obj_cbuffers_step_keeps (f : RenderItem → ObjectConstants) (fi : Nat)
    (u : D3DRenderContext) (k : Nat) : UpdateKeeps u (update_obj_cbuffers_step f fi u k) := by
  rcases update_obj_cbuffers_step_cases f fi u k with ⟨_, h⟩ | ⟨it, hit, _, _, h⟩
  · rw [h]; exact UpdateKeeps.refl u
  · rw [h]
    refine ⟨rfl, rfl, ?_, fun _ => rfl, ?_, ?_, ?_⟩
    · intro j
      simp only [List.getElem?_set]
      by_cases hkj : k = j
      · subst hkj
        by_cases hlt : k < u.all_ritems.ritems.length
        · simp [hlt, hit]
        · have : u.all_ritems.ritems[k]? = none := List.getElem?_eq_none (Nat.le_of_not_lt hlt)
          simp [this] at hit
      · simp [hkj]
    · intro slot
      simp only [D3DRenderContext.fence_of, List.getElem?_modify]
      cases u.frame_resources[slot]? with
      | none => rfl
      | some fr => by_cases hs : fi = slot <;> simp [hs]
    · intro slot
      simp only [obj_cb_of, List.getElem?_modify]
      cases u.frame_resources[slot]? with
      | none => rfl
      | some fr => by_cases hs : fi = slot <;> simp [hs]
    · intro slot
      simp only [mat_cb_of, List.getElem?_modify]
      cases u.frame_resources[slot]? with
      | none => rfl
      | some fr => by_cases hs : fi = slot <;> simp [hs]

theorem update_obj_cbuffers_step_other (f : RenderItem → ObjectConstants) (fi : Nat)
    (u : D3DRenderContext) (k : Nat) :
    (∀ j, j ≠ k → (update_obj_cbuffers_step f fi u k).all_ritems.ritems[j]?
        = u.all_ritems.ritems[j]?)
    ∧ (∀ slot, slot ≠ fi → obj_cb_of (update_obj_cbuffers_step f fi u k) slot = obj_cb_of u slot)
    ∧ (update_obj_cbuffers_step f fi u k).materials = u.materials
    ∧ (∀ slot, mat_cb_of (update_obj_cbuffers_step f fi u k) slot = mat_cb_of u slot) := by
  rcases update_obj_cbuffers_step_cases f fi u k with ⟨_, h⟩ | ⟨it, hit, _, _, h⟩
  · rw [h]; exact ⟨fun _ _ => rfl, fun _ _ => rfl, rfl, fun _ => rfl⟩
  · rw [h]
    refine ⟨?_, ?_, rfl, ?_⟩
    · intro j hj
      simp only [List.getElem?_set]
      simp [Ne.symm hj]
    · intro slot hs
      simp only [obj_cb_of, List.getElem?_modify]
      cases u.frame_resources[slot]? with
      | none => rfl
      | some fr => simp [Ne.symm hs]
    · intro slot
      simp only [mat_cb_of, List.getElem?_modify]
      cases u.frame_resources[slot]? with
      | none => rfl
      | some fr => by_cases hs : fi = slot <;> simp [hs]

theorem update_obj_cbuffers_step_record_other (f : RenderItem → ObjectConstants) (fi : Nat)
    (u : D3DRenderContext) (k c : Nat)
    (hc : ∀ it, u.all_ritems.ritems[k]? = some it → it.obj_cbuffer_index ≠ c) :
    obj_record (update_obj_cbuffers_step f fi u k) fi c = obj_record u fi c := by
  rcases update_obj_cbuffers_step_cases f fi u k with ⟨_, h⟩ | ⟨it, hit, _, _, h⟩
  · rw [h]
  · rw [h]
    simp only [obj_record, obj_cb_of, List.getElem?_modify]
    cases u.frame_resources[fi]? with
    | none => rfl
    | some fr => simp [List.getElem?_set, hc it hit]

theorem update_obj_cbuffers_step_self (f : RenderItem → ObjectConstants) (fi : Nat)
    (u : D3DRenderContext) (k : Nat) (it : RenderItem)
    (hit : u.all_ritems.ritems[k]? = some it) (hd : 0 < it.n_frames_dirty)
    (hinit : it.initialized = true)
    (hb : (obj_cb_of u fi).map (fun cb => decide (it.obj_cbuffer_index < cb.length)) = some true) :
    (update_obj_cbuffers_step f fi u k).all_ritems.ritems[k]?
        = some { it with n_frames_dirty := it.n_frames_dirty - 1 }
    ∧ obj_record (update_obj_cbuffers_step f fi u k) fi it.obj_cbuffer_index = some (f it) := by
  rcases update_obj_cbuffers_step_cases f fi u k with ⟨hn, _⟩ | ⟨it', hit', _, _, h⟩
  · exact absurd ⟨hd, hinit⟩ (hn it hit)
  · rw [hit] at hit'
    cases hit'
    rw [h]
    have hlt : k < u.all_ritems.ritems.length := by
      by_contra hge
      have : u.all_ritems.ritems[k]? = none := List.getElem?_eq_none (Nat.le_of_not_lt hge)
      simp [this] at hit
    constructor
    · simp [List.getElem?_set, hlt]
    · simp only [obj_cb_of] at hb
      simp only [obj_record, obj_cb_of, List.getElem?_modify]
      cases hfr : u.frame_resources[fi]? with
      | none => simp [hfr] at hb
      | some fr =>
        simp [hfr] at hb
        simp [List.getElem?_set, hb]

theorem bound_of_length_eq {α : Type} (a b : Option (List α)) (c : Nat)
    (h : a.map List.length = b.map List.length)
    (hb : b.map (fun cb => decide (c < cb.length)) = some true) :
    a.map (fun cb => decide (c < cb.length)) = some true := by
  cases a with
  | none => cases b <;> simp_all
  | some la =>
    cases b with
    | none => simp at hb
    | some lb =>
      simp only [Option.map_some', Option.some.injEq] at h hb ⊢
      rw [h]; exact hb

theorem update_obj_cbuffers_fold_item (f : RenderItem → ObjectConstants) (fi : Nat)
    (t : D3DRenderContext) (n i : Nat) (it : RenderItem)
    (hit : t.all_ritems.ritems[i]? = some it) (hd : 0 < it.n_frames_dirty)
    (hinit : it.initialized = true)
    (huniq : ∀ j, j < n → j ≠ i →
      (t.all_ritems.ritems[j]?).map RenderItem.obj_cbuffer_index ≠ some it.obj_cbuffer_index)
    (hb : (obj_cb_of t fi).map (fun cb => decide (it.obj_cbuffer_index < cb.length)) = some true) :
    ∀ k, k ≤ n →
      UpdateKeeps t ((List.range k).foldl (update_obj_cbuffers_step f fi) t)
      ∧ ((List.range k).foldl (update_obj_cbuffers_step f fi) t).materials = t.materials
      ∧ (∀ slot, mat_cb_of ((List.range k).foldl (update_obj_cbuffers_step f fi) t) slot
          = mat_cb_of t slot)
      ∧ (∀ slot, slot ≠ fi →
          obj_cb_of ((List.range k).foldl (update_obj_cbuffers_step f fi) t) slot = obj_cb_of t slot)
      ∧ (∀ j, k ≤ j →
          ((List.range k).foldl (update_obj_cbuffers_step f fi) t).all_ritems.ritems[j]?
            = t.all_ritems.ritems[j]?)
      ∧ (i < k →
          ((List.range k).foldl (update_obj_cbuffers_step f fi) t).all_ritems.ritems[i]?
              = some { it with n_frames_dirty := it.n_frames_dirty - 1 }
          ∧ obj_record ((List.range k).foldl (update_obj_cbuffers_step f fi) t) fi
              it.obj_cbuffer_index = some (f it)) := by
  intro k
  induction k with
  | zero =>
    intro _
    exact ⟨UpdateKeeps.refl t, rfl, fun _ => rfl, fun _ _ => rfl, fun _ _ => rfl,
      fun h => absurd h (Nat.not_lt_zero i)⟩
  | succ k ih =>
    intro hk
    obtain ⟨hkeep, hmat, hmcb, hocb, hrest, hdone⟩ := ih (Nat.le_of_succ_le hk)
    rw [List.range_succ, List.foldl_append]
    simp only [List.foldl_cons, List.foldl_nil]
    generalize (List.range k).foldl (update_obj_cbuffers_step f fi) t = u at *
    obtain ⟨o1, o2, o3, o4⟩ := update_obj_cbuffers_step_other f fi u k
    refine ⟨hkeep.trans (update_obj_cbuffers_step_keeps f fi u k), o3.trans hmat,
      fun slot => (o4 slot).trans (hmcb slot),
      fun slot hs => (o2 slot hs).trans (hocb slot hs), ?_, ?_⟩
    · intro j hj
      rw [o1 j (by omega)]
      exact hrest j (by omega)
    · intro hik
      by_cases hi : i = k
      · subst hi
        have hu : u.all_ritems.ritems[i]? = some it := (hrest i (Nat.le_refl i)).trans hit
        exact update_obj_cbuffers_step_self f fi u i it hu hd hinit
          (bound_of_length_eq _ _ _ (hkeep.2.2.2.2.2.1 fi) hb)
      · have hlt : i < k := by omega
        obtain ⟨h1, h2⟩ := hdone hlt
        refine ⟨(o1 i hi).trans h1, ?_⟩
        rw [update_obj_cbuffers_step_record_other f fi u k it.obj_cbuffer_index]
        · exact h2
        · intro itk hitk heq
          have hk' : t.all_ritems.ritems[k]? = some itk := (hrest k (Nat.le_refl k)).symm.trans hitk
          exact huniq k (by omega) (Ne.symm hi) (by simp [hk', heq])

theorem update_mat_cbuffers_step_cases (fi : Nat) (u : D3DRenderContext) (k : Nat) :
    ((∀ mat, u.materials[k]? = some mat → ¬ 0 < mat.n_frames_dirty)
        ∧ update_mat_cbuffers_step fi u k = u)
    ∨ ∃ mat, u.materials[k]? = some mat ∧ 0 < mat.n_frames_dirty
        ∧ update_mat_cbuffers_step fi u k =
          { u with
            frame_resources :=
              u.frame_resources.modify
                (fun fr => { fr with
                  mat_cb := fr.mat_cb.set mat.mat_cbuffer_index (material_constants mat) }) fi
            materials := u.materials.set k { mat with n_frames_dirty := mat.n_frames_dirty - 1 }
            log := u.log ++ [Event.memcpy fi CBuffer.mat mat.mat_cbuffer_index] } := by
  unfold update_mat_cbuffers_step
  cases h : u.materials[k]? with
  | none => left; simp
  | some mat =>
    by_cases hc : 0 < mat.n_frames_dirty
    · right
      exact ⟨mat, rfl, hc, by simp [hc]⟩
    · left
      refine ⟨?_, by simp [hc]⟩
      intro mat' hmat'
      cases hmat'
      exact hc

theorem update_mat_cbuffers_step_keeps (fi : Nat) (u : D3DRenderContext) (k : Nat) :
    UpdateKeeps u (update_mat_cbuffers_step fi u k) := by
  rcases update_mat_cbuffers_step_cases fi u k with ⟨_, h⟩ | ⟨mat, hmat, _, h⟩
  · rw [h]; exact UpdateKeeps.refl u
  · rw [h]
    refine ⟨rfl, rfl, fun _ => rfl, ?_, ?_, ?_, ?_⟩
    · intro j
      simp only [List.getElem?_set]
      by_cases hkj : k = j
      · subst hkj
        by_cases hlt : k < u.materials.length
        · simp [hlt, hmat]
        · have : u.materials[k]? = none := List.getElem?_eq_none (Nat.le_of_not_lt hlt)
          simp [this] at hmat
      · simp [hkj]
    · intro slot
      simp only [D3DRenderContext.fence_of, List.getElem?_modify]
      cases u.frame_resources[slot]? with
      | none => rfl
      | some fr => by_cases hs : fi = slot <;> simp [hs]
    · intro slot
      simp only [obj_cb_of, List.getElem?_modify]
      cases u.frame_resources[slot]? with
      | none => rfl
      | some fr => by_cases hs : fi = slot <;> simp [hs]
    · intro slot
      simp only [mat_cb_of, List.getElem?_modify]
      cases u.frame_resources[slot]? with
      | none => rfl
      | some fr => by_cases hs : fi = slot <;> simp [hs]

theorem update_mat_cbuffers_step_other (fi : Nat) (u : D3DRenderContext) (k : Nat) :
    (∀ j, j ≠ k → (update_mat_cbuffers_step fi u k).materials[j]? = u.materials[j]?)
    ∧ (∀ slot, slot ≠ fi → mat_cb_of (update_mat_cbuffers_step fi u k) slot = mat_cb_of u slot)
    ∧ (update_mat_cbuffers_step fi u k).all_ritems = u.all_ritems
    ∧ (∀ slot, obj_cb_of (update_mat_cbuffers_step fi u k) slot = obj_cb_of u slot) := by
  rcases update_mat_cbuffers_step_cases fi u k with ⟨_, h⟩ | ⟨mat, hmat, _, h⟩
  · rw [h]; exact ⟨fun _ _ => rfl, fun _ _ => rfl, rfl, fun _ => rfl⟩
  · rw [h]
    refine ⟨?_, ?_, rfl, ?_⟩
    · intro j hj
      simp only [List.getElem?_set]
      simp [Ne.symm hj]
    · intro slot hs
      simp only [mat_cb_of, List.getElem?_modify]
      cases u.frame_resources[slot]? with
      | none => rfl
      | some fr => simp [Ne.symm hs]
    · intro slot
      simp only [obj_cb_of, List.getElem?_modify]
      cases u.frame_resources[slot]? with
      | none => rfl
      | some fr => by_cases hs : fi = slot <;> simp [hs]

theorem update_mat_cbuffers_step_record_other (fi : Nat) (u : D3DRenderContext) (k c : Nat)
    (hc : ∀ mat, u.materials[k]? = some mat → mat.mat_cbuffer_index ≠ c) :
    mat_record (update_mat_cbuffers_step fi u k) fi c = mat_record u fi c := by
  rcases update_mat_cbuffers_step_cases fi u k with ⟨_, h⟩ | ⟨mat, hmat, _, h⟩
  · rw [h]
  · rw [h]
    simp only [mat_record, mat_cb_of, List.getElem?_modify]
    cases u.frame_resources[fi]? with
    | none => rfl
    | some fr => simp [List.getElem?_set, hc mat hmat]

theorem update_mat_cbuffers_step_self (fi : Nat) (u : D3DRenderContext) (k : Nat)
    (mat : Material) (hmat : u.materials[k]? = some mat) (hd : 0 < mat.n_frames_dirty)
    (hb : (mat_cb_of u fi).map (fun cb => decide (mat.mat_cbuffer_index < cb.length)) = some true) :
    (update_mat_cbuffers_step fi u k).materials[k]?
        = some { mat with n_frames_dirty := mat.n_frames_dirty - 1 }
    ∧ mat_record (update_mat_cbuffers_step fi u k) fi mat.mat_cbuffer_index
        = some (material_constants mat) := by
  rcases update_mat_cbuffers_step_cases fi u k with ⟨hn, _⟩ | ⟨mat', hmat', _, h⟩
  · exact absurd hd (hn mat hmat)
  · rw [hmat] at hmat'
    cases hmat'
    rw [h]
    have hlt : k < u.materials.length := by
      by_contra hge
      have : u.materials[k]? = none := List.getElem?_eq_none (Nat.le_of_not_lt hge)
      simp [this] at hmat
    constructor
    · simp [List.getElem?_set, hlt]
    · simp only [mat_cb_of] at hb
      simp only [mat_record, mat_cb_of, List.getElem?_modify]
      cases hfr : u.frame_resources[fi]? with
      | none => simp [hfr] at hb
      | some fr =>
        simp [hfr] at hb
        simp [List.getElem?_set, hb]

theorem update_mat_cbuffers_fold_material (fi : Nat) (t : D3DRenderContext) (n i : Nat)
    (mat : Material) (hmat : t.materials[i]? = some mat) (hd : 0 < mat.n_frames_dirty)
    (huniq : ∀ j, j < n → j ≠ i →
      (t.materials[j]?).map Material.mat_cbuffer_index ≠ some mat.mat_cbuffer_index)
    (hb : (mat_cb_of t fi).map (fun cb => decide (mat.mat_cbuffer_index < cb.length)) = some true) :
    ∀ k, k ≤ n →
      UpdateKeeps t ((List.range k).foldl (update_mat_cbuffers_step fi) t)
      ∧ ((List.range k).foldl (update_mat_cbuffers_step fi) t).all_ritems = t.all_ritems
      ∧ (∀ slot, obj_cb_of ((List.range k).foldl (update_mat_cbuffers_step fi) t) slot
          = obj_cb_of t slot)
      ∧ (∀ slot, slot ≠ fi →
          mat_cb_of ((List.range k).foldl (update_mat_cbuffers_step fi) t) slot = mat_cb_of t slot)
      ∧ (∀ j, k ≤ j →
          ((List.range k).foldl (update_mat_cbuffers_step fi) t).materials[j]? = t.materials[j]?)
      ∧ (i < k →
          ((List.range k).foldl (update_mat_cbuffers_step fi) t).materials[i]?
              = some { mat with n_frames_dirty := mat.n_frames_dirty - 1 }
          ∧ mat_record ((List.range k).foldl (update_mat_cbuffers_step fi) t) fi
              mat.mat_cbuffer_index = some (material_constants mat)) := by
  intro k
  induction k with
  | zero =>
    intro _
    exact ⟨UpdateKeeps.refl t, rfl, fun _ => rfl, fun _ _ => rfl, fun _ _ => rfl,
      fun h => absurd h (Nat.not_lt_zero i)⟩
  | succ k ih =>
    intro hk
    obtain ⟨hkeep, hrit, hocb, hmcb, hrest, hdone⟩ := ih (Nat.le_of_succ_le hk)
    rw [List.range_succ, List.foldl_append]
    simp only [List.foldl_cons, List.foldl_nil]
    generalize (List.range k).foldl (update_mat_cbuffers_step fi) t = u at *
    obtain ⟨o1, o2, o3, o4⟩ := update_mat_cbuffers_step_other fi u k
    refine ⟨hkeep.trans (update_mat_cbuffers_step_keeps fi u k), o3.trans hrit,
      fun slot => (o4 slot).trans (hocb slot),
      fun slot hs => (o2 slot hs).trans (hmcb slot hs), ?_, ?_⟩
    · intro j hj
      rw [o1 j (by omega)]
      exact hrest j (by omega)
    · intro hik
      by_cases hi : i = k
      · subst hi
        have hu : u.materials[i]? = some mat := (hrest i (Nat.le_refl i)).trans hmat
        exact update_mat_cbuffers_step_self fi u i mat hu hd
          (bound_of_length_eq _ _ _ (hkeep.2.2.2.2.2.2 fi) hb)
      · have hlt : i < k := by omega
        obtain ⟨h1, h2⟩ := hdone hlt
        refine ⟨(o1 i hi).trans h1, ?_⟩
        rw [update_mat_cbuffers_step_record_other fi u k mat.mat_cbuffer_index]
        · exact h2
        · intro mk hmk heq
          have hk' : t.materials[k]? = some mk := (hrest k (Nat.le_refl k)).symm.trans hmk
          exact huniq k (by omega) (Ne.symm hi) (by simp [hk', heq])

theorem foldl_invariant {σ ι : Type} (P : σ → Prop) (step : σ → ι → σ)
    (h : ∀ s i, P s → P (step s i)) :
    ∀ (l : List ι) (s : σ), P s → P (l.foldl step s) := by
  intro l
  induction l with
  | nil => intro s hs; exact hs
  | cons i rest ih => intro s hs; exact ih _ (h s i hs)

theorem update_obj_cbuffers_with_keeps (f : RenderItem → ObjectConstants) (t : D3DRenderContext) :
    UpdateKeeps t (update_obj_cbuffers_with f t)
    ∧ (update_obj_cbuffers_with f t).materials = t.materials
    ∧ (∀ slot, mat_cb_of (update_obj_cbuffers_with f t) slot = mat_cb_of t slot)
    ∧ (∀ slot, slot ≠ t.frame_index →
        obj_cb_of (update_obj_cbuffers_with f t) slot = obj_cb_of t slot) := by
  unfold update_obj_cbuffers_with
  apply foldl_invariant
    (fun u => UpdateKeeps t u ∧ u.materials = t.materials
      ∧ (∀ slot, mat_cb_of u slot = mat_cb_of t slot)
      ∧ (∀ slot, slot ≠ t.frame_index → obj_cb_of u slot = obj_cb_of t slot))
  · intro u k ⟨h1, h2, h3, h4⟩
    obtain ⟨_, o2, o3, o4⟩ := update_obj_cbuffers_step_other f t.frame_index u k
    exact ⟨h1.trans (update_obj_cbuffers_step_keeps f _ u k), o3.trans h2,
      fun slot => (o4 slot).trans (h3 slot), fun slot hs => (o2 slot hs).trans (h4 slot hs)⟩
  · exact ⟨UpdateKeeps.refl t, rfl, fun _ => rfl, fun _ _ => rfl⟩

theorem update_mat_cbuffers_keeps (n : Nat) (t : D3DRenderContext) :
    UpdateKeeps t (update_mat_cbuffers n t)
    ∧ (update_mat_cbuffers n t).all_ritems = t.all_ritems
    ∧ (∀ slot, obj_cb_of (update_mat_cbuffers n t) slot = obj_cb_of t slot)
    ∧ (∀ slot, slot ≠ t.frame_index →
        mat_cb_of (update_mat_cbuffers n t) slot = mat_cb_of t slot) := by
  unfold update_mat_cbuffers
  apply foldl_invariant
    (fun u => UpdateKeeps t u ∧ u.all_ritems = t.all_ritems
      ∧ (∀ slot, obj_cb_of u slot = obj_cb_of t slot)
      ∧ (∀ slot, slot ≠ t.frame_index → mat_cb_of u slot = mat_cb_of t slot))
  · intro u k ⟨h1, h2, h3, h4⟩
    obtain ⟨_, o2, o3, o4⟩ := update_mat_cbuffers_step_other t.frame_index u k
    exact ⟨h1.trans (update_mat_cbuffers_step_keeps _ u k), o3.trans h2,
      fun slot => (o4 slot).trans (h3 slot), fun slot hs => (o2 slot hs).trans (h4 slot hs)⟩
  · exact ⟨UpdateKeeps.refl t, rfl, fun _ => rfl, fun _ _ => rfl⟩

/-- One turn's updates, for a dirty initialized render item whose record index
no other item within `size` uses and lies inside the slot's buffer: its
counter drops by one, the record of the current slot holds its constants, and
the object buffers of the other slots are as before. -/
theorem cbuffer_updates_item (f : RenderItem → ObjectConstants) (n : Nat) (t : D3DRenderContext)
    (i : Nat) (it : RenderItem) (hi : i < t.all_ritems.size)
    (hit : t.all_ritems.ritems[i]? = some it) (hd : 0 < it.n_frames_dirty)
    (hinit : it.initialized = true)
    (huniq : ∀ j, j < t.all_ritems.size → j ≠ i →
      (t.all_ritems.ritems[j]?).map RenderItem.obj_cbuffer_index ≠ some it.obj_cbuffer_index)
    (hb : (obj_cb_of t t.frame_index).map
      (fun cb => decide (it.obj_cbuffer_index < cb.length)) = some true) :
    UpdateKeeps t (cbuffer_updates f n t)
    ∧ (cbuffer_updates f n t).all_ritems.ritems[i]?
        = some { it with n_frames_dirty := it.n_frames_dirty - 1 }
    ∧ obj_record (cbuffer_updates f n t) t.frame_index it.obj_cbuffer_index = some (f it)
    ∧ (∀ slot, slot ≠ t.frame_index → obj_cb_of (cbuffer_updates f n t) slot = obj_cb_of t slot) := by
  obtain ⟨a1, _, _, a4, _, a6⟩ := update_obj_cbuffers_fold_item f t.frame_index t
    t.all_ritems.size i it hit hd hinit huniq hb t.all_ritems.size (Nat.le_refl _)
  obtain ⟨a6, a7⟩ := a6 hi
  obtain ⟨b1, b2, b3, _⟩ := update_mat_cbuffers_keeps n (update_obj_cbuffers_with f t)
  unfold cbuffer_updates
  refine ⟨a1.trans b1, ?_, ?_, ?_⟩
  · rw [b2]; exact a6
  · simp only [obj_record] at a7 ⊢
    rw [b3]; exact a7
  · intro slot hs
    rw [b3]; exact a4 slot hs

/-- One turn's updates, for a dirty material whose record index no other
material uses and lies inside the slot's buffer. -/
theorem cbuffer_updates_material (f : RenderItem → ObjectConstants) (n : Nat)
    (t : D3DRenderContext) (i : Nat) (mat : Material) (hi : i < n)
    (hmat : t.materials[i]? = some mat) (hd : 0 < mat.n_frames_dirty)
    (huniq : ∀ j, j < n → j ≠ i →
      (t.materials[j]?).map Material.mat_cbuffer_index ≠ some mat.mat_cbuffer_index)
    (hb : (mat_cb_of t t.frame_index).map
      (fun cb => decide (mat.mat_cbuffer_index < cb.length)) = some true) :
    UpdateKeeps t (cbuffer_updates f n t)
    ∧ (cbuffer_updates f n t).materials[i]?
        = some { mat with n_frames_dirty := mat.n_frames_dirty - 1 }
    ∧ mat_record (cbuffer_updates f n t) t.frame_index mat.mat_cbuffer_index
        = some (material_constants mat)
    ∧ (∀ slot, slot ≠ t.frame_index → mat_cb_of (cbuffer_updates f n t) slot = mat_cb_of t slot) := by
  obtain ⟨b1, b2, b3, _⟩ := update_obj_cbuffers_with_keeps f t
  have hfi : (update_obj_cbuffers_with f t).frame_index = t.frame_index := b1.1
  obtain ⟨a1, _, _, a4, _, a6⟩ := update_mat_cbuffers_fold_material t.frame_index
    (update_obj_cbuffers_with f t) n i mat (by rw [b2]; exact hmat) hd
    (by rw [b2]; exact huniq) (by rw [b3]; exact hb) n (Nat.le_refl _)
  obtain ⟨a6, a7⟩ := a6 hi
  unfold cbuffer_updates update_mat_cbuffers
  simp only [hfi]
  refine ⟨b1.trans a1, a6, a7, ?_⟩
  intro slot hs
  rw [a4 slot hs]; exact b3 slot

theorem move_to_next_frame_effect_cb (N : Nat) (t : D3DRenderContext) :
    (∀ slot, obj_cb_of (move_to_next_frame_effect N t) slot = obj_cb_of t slot)
    ∧ (∀ slot, mat_cb_of (move_to_next_frame_effect N t) slot = mat_cb_of t slot) := by
  constructor
  · intro slot
    simp only [obj_cb_of, move_to_next_frame_effect, List.getElem?_modify]
    cases t.frame_resources[slot]? with
    | none => rfl
    | some fr => by_cases hs : t.frame_index = slot <;> simp [hs]
  · intro slot
    simp only [mat_cb_of, move_to_next_frame_effect, List.getElem?_modify]
    cases t.frame_resources[slot]? with
    | none => rfl
    | some fr => by_cases hs : t.frame_index = slot <;> simp [hs]

theorem draw_main_keeps (t : D3DRenderContext) :
    (draw_main t).all_ritems = t.all_ritems ∧ (draw_main t).materials = t.materials
    ∧ (draw_main t).frame_resources = t.frame_resources
    ∧ (draw_main t).frame_index = t.frame_index := by
  simp [draw_main, D3DRenderContext.record, D3DRenderContext.ExecuteCommandLists]

theorem stenciling_turn_like (N : Nat) :
    TurnLike N Stenciling.object_constants Stenciling._COUNT_MATERIAL
      (Stenciling.frame_effect N) := by
  intro t
  have hfi : (cbuffer_updates Stenciling.object_constants Stenciling._COUNT_MATERIAL t).frame_index
      = t.frame_index :=
    ((update_obj_cbuffers_with_keeps _ t).1.trans (update_mat_cbuffers_keeps _ _).1).1
  obtain ⟨h1, h2⟩ := move_to_next_frame_effect_cb N
    (draw_main (Stenciling.update_cbuffers t))
  obtain ⟨d1, d2, d3, d4⟩ := draw_main_keeps (Stenciling.update_cbuffers t)
  have hu : Stenciling.update_cbuffers t
      = Stenciling.update_pass_cbuffers
          (cbuffer_updates Stenciling.object_constants Stenciling._COUNT_MATERIAL t) := rfl
  have p1 : (Stenciling.update_cbuffers t).all_ritems
      = (cbuffer_updates Stenciling.object_constants Stenciling._COUNT_MATERIAL t).all_ritems := by
    rw [hu]; simp [Stenciling.update_pass_cbuffers, D3DRenderContext.record]
  have p2 : (Stenciling.update_cbuffers t).materials
      = (cbuffer_updates Stenciling.object_constants Stenciling._COUNT_MATERIAL t).materials := by
    rw [hu]; simp [Stenciling.update_pass_cbuffers, D3DRenderContext.record]
  have p3 : (Stenciling.update_cbuffers t).frame_resources
      = (cbuffer_updates Stenciling.object_constants
          Stenciling._COUNT_MATERIAL t).frame_resources := by
    rw [hu]; simp [Stenciling.update_pass_cbuffers, D3DRenderContext.record]
  have p4 : (Stenciling.update_cbuffers t).frame_index
      = (cbuffer_updates Stenciling.object_constants Stenciling._COUNT_MATERIAL t).frame_index := by
    rw [hu]; simp [Stenciling.update_pass_cbuffers, D3DRenderContext.record]
  refine ⟨?_, ?_, ?_, ?_, ?_⟩
  · simp only [Stenciling.frame_effect, move_to_next_frame_effect, d1, p1]
  · simp only [Stenciling.frame_effect, move_to_next_frame_effect, d2, p2]
  · intro slot
    have : obj_cb_of (Stenciling.frame_effect N t) slot
        = obj_cb_of (move_to_next_frame_effect N (draw_main (Stenciling.update_cbuffers t))) slot := by
      simp only [Stenciling.frame_effect, obj_cb_of]
    rw [this, h1 slot]
    simp only [obj_cb_of, d3, p3]
  · intro slot
    have : mat_cb_of (Stenciling.frame_effect N t) slot
        = mat_cb_of (move_to_next_frame_effect N (draw_main (Stenciling.update_cbuffers t))) slot := by
      simp only [Stenciling.frame_effect, mat_cb_of]
    rw [this, h2 slot]
    simp only [mat_cb_of, d3, p3]
  · simp only [Stenciling.frame_effect, move_to_next_frame_effect, d4, p4, hfi]

theorem bezier_turn_like (N : Nat) :
    TurnLike N Bezier.object_constants Bezier._COUNT_MATERIAL (Bezier.frame_effect N) := by
  intro t
  have hfi : (cbuffer_updates Bezier.object_constants Bezier._COUNT_MATERIAL t).frame_index
      = t.frame_index :=
    ((update_obj_cbuffers_with_keeps _ t).1.trans (update_mat_cbuffers_keeps _ _).1).1
  obtain ⟨h1, h2⟩ := move_to_next_frame_effect_cb N (draw_main (Bezier.update_cbuffers t))
  obtain ⟨d1, d2, d3, d4⟩ := draw_main_keeps (Bezier.update_cbuffers t)
  have hu : Bezier.update_cbuffers t
      = Bezier.update_pass_cbuffers
          (cbuffer_updates Bezier.object_constants Bezier._COUNT_MATERIAL t) := rfl
  have p1 : (Bezier.update_cbuffers t).all_ritems
      = (cbuffer_updates Bezier.object_constants Bezier._COUNT_MATERIAL t).all_ritems := by
    rw [hu]; simp [Bezier.update_pass_cbuffers, D3DRenderContext.record]
  have p2 : (Bezier.update_cbuffers t).materials
      = (cbuffer_updates Bezier.object_constants Bezier._COUNT_MATERIAL t).materials := by
    rw [hu]; simp [Bezier.update_pass_cbuffers, D3DRenderContext.record]
  have p3 : (Bezier.update_cbuffers t).frame_resources
      = (cbuffer_updates Bezier.object_constants Bezier._COUNT_MATERIAL t).frame_resources := by
    rw [hu]; simp [Bezier.update_pass_cbuffers, D3DRenderContext.record]
  have p4 : (Bezier.update_cbuffers t).frame_index
      = (cbuffer_updates Bezier.object_constants Bezier._COUNT_MATERIAL t).frame_index := by
    rw [hu]; simp [Bezier.update_pass_cbuffers, D3DRenderContext.record]
  refine ⟨?_, ?_, ?_, ?_, ?_⟩
  · simp only [Bezier.frame_effect, move_to_next_frame_effect, d1, p1]
  · simp only [Bezier.frame_effect, move_to_next_frame_effect, d2, p2]
  · intro slot
    rw [Bezier.frame_effect, h1 slot]
    simp only [obj_cb_of, d3, p3]
  · intro slot
    rw [Bezier.frame_effect, h2 slot]
    simp only [mat_cb_of, d3, p3]
  · simp only [Bezier.frame_effect, move_to_next_frame_effect, d4, p4, hfi]

/-! ## Round robin -/

theorem next_slot (N a j : Nat) (hU : N < UINT_SIZE) (hN : 0 < N) :
    ((a + j) % N + 1) % UINT_SIZE % N = (a + (j + 1)) % N := by
  have h1 : (a + j) % N < N := Nat.mod_lt _ hN
  rw [Nat.mod_eq_of_lt (by omega : (a + j) % N + 1 < UINT_SIZE), Nat.mod_add_mod]
  rfl

theorem mod_cases (N x : Nat) (hx : x < 2 * N) :
    (x < N ∧ x % N = x) ∨ (N ≤ x ∧ x % N = x - N) := by
  by_cases h : x < N
  · exact Or.inl ⟨h, Nat.mod_eq_of_lt h⟩
  · right
    refine ⟨Nat.le_of_not_lt h, ?_⟩
    rw [Nat.mod_eq_sub_mod (Nat.le_of_not_lt h)]
    exact Nat.mod_eq_of_lt (by omega)

theorem slot_ne (N a m j : Nat) (ha : a < N) (hm : m < j) (hj : j < N) :
    (a + m) % N ≠ (a + j) % N := by
  rcases mod_cases N (a + m) (by omega) with ⟨_, h1⟩ | ⟨_, h1⟩ <;>
  rcases mod_cases N (a + j) (by omega) with ⟨_, h2⟩ | ⟨_, h2⟩ <;>
  rw [h1, h2] <;> omega

theorem slot_covered (N a slot : Nat) (ha : a < N) (hs : slot < N) :
    ∃ m, m < N ∧ (a + m) % N = slot := by
  by_cases h : a ≤ slot
  · exact ⟨slot - a, by omega, by
      rw [show a + (slot - a) = slot by omega]; exact Nat.mod_eq_of_lt hs⟩
  · exact ⟨slot + N - a, by omega, by
      rw [show a + (slot + N - a) = slot + N by omega, Nat.add_mod_right]
      exact Nat.mod_eq_of_lt hs⟩

theorem slot_recurs (N a k : Nat) (ha : a < N) : (a + k) % N = a ↔ N ∣ k := by
  constructor
  · intro h
    have h1 : (a + k) % N = (a + 0) % N := by rw [h, Nat.add_zero, Nat.mod_eq_of_lt ha]
    have h2 : k % N = 0 % N := Nat.ModEq.add_left_cancel' a h1
    exact Nat.dvd_of_mod_eq_zero (by simpa using h2)
  · intro ⟨q, hq⟩
    rw [hq, Nat.add_mul_mod_self_left]
    exact Nat.mod_eq_of_lt ha

theorem iterate_frame_index (N : Nat) (f : RenderItem → ObjectConstants) (n : Nat)
    (F : D3DRenderContext → D3DRenderContext) (hF : TurnLike N f n F)
    (hN : 0 < N) (hU : N < UINT_SIZE) (s : D3DRenderContext) (hfi : s.frame_index < N) :
    ∀ j, (Nat.iterate F j s).frame_index = (s.frame_index + j) % N := by
  intro j
  induction j with
  | zero => exact (Nat.mod_eq_of_lt hfi).symm
  | succ j ih =>
    rw [Function.iterate_succ_apply', (hF _).2.2.2.2, ih]
    exact next_slot N _ j hU hN

/-! ## Propagation of a dirty record over the frame slots -/

theorem item_propagation (N : Nat) (f : RenderItem → ObjectConstants) (n : Nat)
    (F : D3DRenderContext → D3DRenderContext) (hF : TurnLike N f n F)
    (hf : ∀ (it : RenderItem) (d : Int), f { it with n_frames_dirty := d } = f it)
    (hN : 0 < N) (hU : N < UINT_SIZE) (s : D3DRenderContext) (hfi : s.frame_index < N)
    (i : Nat) (item : RenderItem) (hi : i < s.all_ritems.size)
    (hitem : s.all_ritems.ritems[i]? = some item) (hinit : item.initialized = true)
    (hdirty : item.n_frames_dirty = (N : Int))
    (huniq : ∀ j, j < s.all_ritems.size → j ≠ i →
      (s.all_ritems.ritems[j]?).map RenderItem.obj_cbuffer_index ≠ some item.obj_cbuffer_index)
    (hb : ∀ slot, slot < N → (obj_cb_of s slot).map
      (fun cb => decide (item.obj_cbuffer_index < cb.length)) = some true) :
    ∀ j, j ≤ N →
      (Nat.iterate F j s).all_ritems.size = s.all_ritems.size
      ∧ (∀ j' : Nat, ((Nat.iterate F j s).all_ritems.ritems[j']?).map RenderItem.obj_cbuffer_index
          = (s.all_ritems.ritems[j']?).map RenderItem.obj_cbuffer_index)
      ∧ (∀ slot, (obj_cb_of (Nat.iterate F j s) slot).map List.length
          = (obj_cb_of s slot).map List.length)
      ∧ (Nat.iterate F j s).all_ritems.ritems[i]?
          = some { item with n_frames_dirty := (N : Int) - (j : Int) }
      ∧ (∀ m, m < j →
          obj_record (Nat.iterate F j s) ((s.frame_index + m) % N) item.obj_cbuffer_index
            = some (f item))
      ∧ (∀ slot, (∀ m, m < j → slot ≠ (s.frame_index + m) % N) →
          obj_cb_of (Nat.iterate F j s) slot = obj_cb_of s slot) := by
  intro j
  induction j with
  | zero =>
    intro _
    refine ⟨rfl, fun _ => rfl, fun _ => rfl, ?_, fun m hm => absurd hm (Nat.not_lt_zero m),
      fun _ _ => rfl⟩
    rw [Function.iterate_zero, id_eq, hitem, ← hdirty]
    simp
  | succ j ih =>
    intro hj
    obtain ⟨i1, i2, i3, i4, i5, i6⟩ := ih (Nat.le_of_succ_le hj)
    have hidx := iterate_frame_index N f n F hF hN hU s hfi j
    rw [Function.iterate_succ_apply']
    generalize Nat.iterate F j s = u at *
    have hslot : (s.frame_index + j) % N < N := Nat.mod_lt _ hN
    obtain ⟨k1, k2, k3, k4⟩ := cbuffer_updates_item f n u i
      { item with n_frames_dirty := (N : Int) - (j : Int) } (by rw [i1]; exact hi) i4
      (by show (0 : Int) < (N : Int) - (j : Int); omega) hinit
      (by intro j' hj' hne; rw [i2]; rw [i1] at hj'; exact huniq j' hj' hne)
      (by rw [hidx]; exact bound_of_length_eq _ _ _ (i3 _) (hb _ hslot))
    obtain ⟨f1, _, f3, _, _⟩ := hF u
    obtain ⟨_, u2, u3, _, _, u6, _⟩ := k1
    refine ⟨by rw [f1, u2, i1], fun j' => by rw [f1, u3, i2],
      fun slot => by rw [f3, u6, i3], ?_, ?_, ?_⟩
    · rw [f1, k2]
      simp only [Option.some.injEq]
      have : (N : Int) - (j : Int) - 1 = (N : Int) - ((j + 1 : Nat) : Int) := by
        push_cast; ring
      rw [this]
    · intro m hm
      by_cases hmj : m = j
      · subst hmj
        simp only [obj_record, f3]
        have := k3
        simp only [obj_record, hidx] at this
        rw [this, hf]
      · have hlt : m < j := by omega
        have hne : (s.frame_index + m) % N ≠ u.frame_index := by
          rw [hidx]; exact slot_ne N _ _ _ hfi hlt (by omega)
        have := i5 m hlt
        simp only [obj_record] at this ⊢
        rw [f3, k4 _ hne]
        exact this
    · intro slot hs
      have hne : slot ≠ u.frame_index := by
        rw [hidx]; exact hs j (Nat.lt_succ_self j)
      rw [f3, k4 _ hne]
      exact i6 slot (fun m hm => hs m (by omega))

theorem material_propagation (N : Nat) (f : RenderItem → ObjectConstants) (n : Nat)
    (F : D3DRenderContext → D3DRenderContext) (hF : TurnLike N f n F)
    (hN : 0 < N) (hU : N < UINT_SIZE) (s : D3DRenderContext) (hfi : s.frame_index < N)
    (i : Nat) (mat : Material) (hi : i < n)
    (hmat : s.materials[i]? = some mat)
    (hdirty : mat.n_frames_dirty = (N : Int))
    (huniq : ∀ j, j < n → j ≠ i →
      (s.materials[j]?).map Material.mat_cbuffer_index ≠ some mat.mat_cbuffer_index)
    (hb : ∀ slot, slot < N → (mat_cb_of s slot).map
      (fun cb => decide (mat.mat_cbuffer_index < cb.length)) = some true) :
    ∀ j, j ≤ N →
      (∀ j' : Nat, ((Nat.iterate F j s).materials[j']?).map Material.mat_cbuffer_index
          = (s.materials[j']?).map Material.mat_cbuffer_index)
      ∧ (∀ slot, (mat_cb_of (Nat.iterate F j s) slot).map List.length
          = (mat_cb_of s slot).map List.length)
      ∧ (Nat.iterate F j s).materials[i]?
          = some { mat with n_frames_dirty := (N : Int) - (j : Int) }
      ∧ (∀ m, m < j →
          mat_record (Nat.iterate F j s) ((s.frame_index + m) % N) mat.mat_cbuffer_index
            = some (material_constants mat))
      ∧ (∀ slot, (∀ m, m < j → slot ≠ (s.frame_index + m) % N) →
          mat_cb_of (Nat.iterate F j s) slot = mat_cb_of s slot) := by
  intro j
  induction j with
  | zero =>
    intro _
    refine ⟨fun _ => rfl, fun _ => rfl, ?_, fun m hm => absurd hm (Nat.not_lt_zero m),
      fun _ _ => rfl⟩
    rw [Function.iterate_zero, id_eq, hmat, ← hdirty]
    simp
  | succ j ih =>
    intro hj
    obtain ⟨i2, i3, i4, i5, i6⟩ := ih (Nat.le_of_succ_le hj)
    have hidx := iterate_frame_index N f n F hF hN hU s hfi j
    rw [Function.iterate_succ_apply']
    generalize Nat.iterate F j s = u at *
    have hslot : (s.frame_index + j) % N < N := Nat.mod_lt _ hN
    obtain ⟨k1, k2, k3, k4⟩ := cbuffer_updates_material f n u i
      { mat with n_frames_dirty := (N : Int) - (j : Int) } hi i4
      (by show (0 : Int) < (N : Int) - (j : Int); omega)
      (by intro j' hj' hne; rw [i2]; exact huniq j' hj' hne)
      (by rw [hidx]; exact bound_of_length_eq _ _ _ (i3 _) (hb _ hslot))
    obtain ⟨_, f2, _, f4, _⟩ := hF u
    obtain ⟨_, _, _, u4, _, _, u7⟩ := k1
    refine ⟨fun j' => by rw [f2, u4, i2], fun slot => by rw [f4, u7, i3], ?_, ?_, ?_⟩
    · rw [f2, k2]
      simp only [Option.some.injEq]
      have : (N : Int) - (j : Int) - 1 = (N : Int) - ((j + 1 : Nat) : Int) := by
        push_cast; ring
      rw [this]
    · intro m hm
      by_cases hmj : m = j
      · subst hmj
        simp only [mat_record, f4]
        have := k3
        simp only [mat_record, hidx] at this
        rw [this]
        rfl
      · have hlt : m < j := by omega
        have hne : (s.frame_index + m) % N ≠ u.frame_index := by
          rw [hidx]; exact slot_ne N _ _ _ hfi hlt (by omega)
        have := i5 m hlt
        simp only [mat_record] at this ⊢
        rw [f4, k4 _ hne]
        exact this
    · intro slot hs
      have hne : slot ≠ u.frame_index := by
        rw [hidx]; exact hs j (Nat.lt_succ_self j)
      rw [f4, k4 _ hne]
      exact i6 slot (fun m hm => hs m (by omega))

end D3D

namespace D3D

/-! ## Runs from the start-up state -/

theorem gpu_retire_all (k : Nat) (s : D3DRenderContext) (h : s.cmd_queue.length ≤ k) :
    gpu_retire k s = gpu_retire s.cmd_queue.length s := by
  rw [gpu_retire_min k s, Nat.min_eq_right h]

theorem gpu_retire_log (k : Nat) (s : D3DRenderContext) : (gpu_retire k s).log = s.log := rfl

theorem gpu_retire_main_current_fence (k : Nat) (s : D3DRenderContext) :
    (gpu_retire k s).main_current_fence = s.main_current_fence := rfl

theorem stenciling_startup_run (gpu : Nat) (gs : List (Nat × Nat)) :
    ∃ j, (startup NUM_QUEUING_FRAMES Stenciling._COUNT_RENDERITEM Stenciling._COUNT_MATERIAL gpu).bind
          (run_frames (Stenciling.frame NUM_QUEUING_FRAMES) gs)
        = some (gpu_retire j (Stenciling.after_frames gs.length)) := by
  rw [startup_eq]
  exact stenciling_run_frames_spec _ gs _

theorem bezier_startup_run (gpu : Nat) (gs : List (Nat × Nat)) :
    ∃ j, (startup NUM_QUEUING_FRAMES Bezier._COUNT_RENDERITEM Bezier._COUNT_MATERIAL gpu).bind
          (run_frames (Bezier.frame NUM_QUEUING_FRAMES) gs)
        = some (gpu_retire j (Bezier.after_frames gs.length)) := by
  rw [startup_eq]
  exact bezier_run_frames_spec _ gs _

theorem stenciling_after_three_frames :
    (Stenciling.update_cbuffers (Stenciling.after_frames 3)).frame_index = 0
    ∧ (Stenciling.update_cbuffers (Stenciling.after_frames 3)).fence_of 0 = 2
    ∧ (Stenciling.update_cbuffers (Stenciling.after_frames 3)).fence_completed ≤ 1
    ∧ (∀ cmd ∈ (Stenciling.update_cbuffers (Stenciling.after_frames 3)).cmd_queue,
        cmd.retire 0 ≤ 1) := by
  refine ⟨by decide, by decide, by decide, by decide⟩

/-! ## The claims -/

/-- C1 (violated by the code).  Start-up, then three turns of the stenciling
loop under any GPU progress: in the fourth turn `draw_main` runs with
`frame_index = 0` and resets the allocator of slot 0 while the completed value
of the fence is below `frame_resources[0].fence` (which is 2; no `Signal` has
carried more than 1). -/
theorem C1_reset_before_stored_fence_reached (gpu : Nat) (g0 g1 g2 : Nat × Nat) (k : Nat) :
    ∃ s, (startup NUM_QUEUING_FRAMES Stenciling._COUNT_RENDERITEM Stenciling._COUNT_MATERIAL gpu).bind
          (run_frames (Stenciling.frame NUM_QUEUING_FRAMES) [g0, g1, g2]) = some s
      ∧ (Stenciling.update_cbuffers (gpu_retire k s)).frame_index = 0
      ∧ (draw_main (Stenciling.update_cbuffers (gpu_retire k s))).log
          = (Stenciling.update_cbuffers (gpu_retire k s)).log
            ++ [Event.alloc_reset (Allocator.frame 0), Event.list_reset (Allocator.frame 0),
              Event.execute (Allocator.frame 0), Event.present]
      ∧ (Stenciling.update_cbuffers (gpu_retire k s)).fence_of 0 = 2
      ∧ (Stenciling.update_cbuffers (gpu_retire k s)).fence_completed
          < (Stenciling.update_cbuffers (gpu_retire k s)).fence_of 0 := by
  obtain ⟨j, hj⟩ := stenciling_startup_run gpu [g0, g1, g2]
  refine ⟨_, hj, ?_⟩
  rw [gpu_retire_add, stenciling_update_cbuffers_gpu]
  obtain ⟨h1, h2, h3, h4⟩ := stenciling_after_three_frames
  simp only [List.length_cons, List.length_nil]
  generalize Stenciling.update_cbuffers (Stenciling.after_frames (0 + 1 + 1 + 1)) = X at h1 h2 h3 h4 ⊢
  have hidx : (gpu_retire (j + k) X).frame_index = 0 := h1
  have hf : (gpu_retire (j + k) X).fence_of 0 = 2 := h2
  refine ⟨hidx, ?_, hf, ?_⟩
  · simp only [draw_main, D3DRenderContext.record, D3DRenderContext.ExecuteCommandLists, hidx,
      List.append_assoc, List.cons_append, List.nil_append]
  · rw [hf]
    apply Nat.lt_succ_of_le
    exact gpu_steps_le 1 (j + k) X.cmd_queue X.fence_completed h3 h4

/-- C4 (violated by the code).  The first `move_to_next_frame` call of either
sample, under any GPU progress: it is entered with `frame_index = 0`, leaves
`frame_index = 1`, and the value it tests and waits for is
`frame_resources[0].fence` (1), the fence value of the slot just submitted;
the fence value of slot 1, the slot used next, is 0 and is not looked at. -/
theorem C4_wait_targets_submitted_slot (gpu : Nat) :
    (∃ s1 r, Stenciling.move_to_next_frame NUM_QUEUING_FRAMES gpu
          (draw_main (Stenciling.update_cbuffers (Stenciling.after_frames 0))) = some (s1, r)
        ∧ (draw_main (Stenciling.update_cbuffers (Stenciling.after_frames 0))).frame_index = 0
        ∧ s1.frame_index = 1
        ∧ s1.log = (draw_main (Stenciling.update_cbuffers (Stenciling.after_frames 0))).log
            ++ [Event.signal 1, Event.wait_slot 0 1]
        ∧ (draw_main (Stenciling.update_cbuffers (Stenciling.after_frames 0))).fence_of 1 = 0)
    ∧ (∃ s1, Bezier.move_to_next_frame NUM_QUEUING_FRAMES gpu
          (draw_main (Bezier.update_cbuffers (Bezier.after_frames 0))) = some s1
        ∧ (draw_main (Bezier.update_cbuffers (Bezier.after_frames 0))).frame_index = 0
        ∧ s1.frame_index = 1
        ∧ s1.log = (draw_main (Bezier.update_cbuffers (Bezier.after_frames 0))).log
            ++ [Event.signal 1, Event.wait_slot 0 1]
        ∧ (draw_main (Bezier.update_cbuffers (Bezier.after_frames 0))).fence_of 1 = 0) := by
  constructor
  · obtain ⟨j, hj, _⟩ := stenciling_move_to_next_frame_spec NUM_QUEUING_FRAMES gpu
      (draw_main (Stenciling.update_cbuffers (Stenciling.after_frames 0)))
    refine ⟨_, _, hj, by decide, ?_, ?_, by decide⟩
    · rw [gpu_retire_frame_index]
      decide
    · rw [gpu_retire_log]
      decide
  · obtain ⟨j, hj, _⟩ := bezier_move_to_next_frame_spec NUM_QUEUING_FRAMES gpu
      (draw_main (Bezier.update_cbuffers (Bezier.after_frames 0)))
    refine ⟨_, hj, by decide, ?_, ?_, by decide⟩
    · rw [gpu_retire_frame_index]
      decide
    · rw [gpu_retire_log]
      decide

/-- C5 (violated by the code).  The first `move_to_next_frame` call of either
sample, under any GPU progress: the `Signal` it schedules carries 1, and the
value it stores in `frame_resources[0].fence`, the slot it submitted, is 2. -/
theorem C5_stored_fence_is_not_signaled_value (gpu : Nat) :
    (∃ s1 r, Stenciling.move_to_next_frame NUM_QUEUING_FRAMES gpu
          (draw_main (Stenciling.update_cbuffers (Stenciling.after_frames 0))) = some (s1, r)
        ∧ signaled_values (s1.log.drop
            (draw_main (Stenciling.update_cbuffers (Stenciling.after_frames 0))).log.length) = [1]
        ∧ s1.fence_of 0 = 2)
    ∧ (∃ s1, Bezier.move_to_next_frame NUM_QUEUING_FRAMES gpu
          (draw_main (Bezier.update_cbuffers (Bezier.after_frames 0))) = some s1
        ∧ signaled_values (s1.log.drop
            (draw_main (Bezier.update_cbuffers (Bezier.after_frames 0))).log.length) = [1]
        ∧ s1.fence_of 0 = 2) := by
  constructor
  · obtain ⟨j, hj, _⟩ := stenciling_move_to_next_frame_spec NUM_QUEUING_FRAMES gpu
      (draw_main (Stenciling.update_cbuffers (Stenciling.after_frames 0)))
    refine ⟨_, _, hj, ?_, ?_⟩
    · rw [gpu_retire_log]
      decide
    · rw [gpu_retire_fence_of]
      decide
  · obtain ⟨j, hj, _⟩ := bezier_move_to_next_frame_spec NUM_QUEUING_FRAMES gpu
      (draw_main (Bezier.update_cbuffers (Bezier.after_frames 0)))
    refine ⟨_, hj, ?_, ?_⟩
    · rw [gpu_retire_log]
      decide
    · rw [gpu_retire_fence_of]
      decide

/-- C6 (violated by the code).  Start-up and two turns of the stenciling loop,
under any GPU progress: the values passed to `Signal` are 1 (the start-up
flush), 1, 0, which is not a non-decreasing sequence; and once the GPU has
retired the queue the completed value of the fence, 1 after start-up, is 0. -/
theorem C6_signaled_values_decrease (gpu : Nat) (g0 g1 : Nat × Nat) :
    ∃ s, (startup NUM_QUEUING_FRAMES Stenciling._COUNT_RENDERITEM Stenciling._COUNT_MATERIAL gpu).bind
          (run_frames (Stenciling.frame NUM_QUEUING_FRAMES) [g0, g1]) = some s
      ∧ signaled_values s.log = [1, 1, 0]
      ∧ ¬ (signaled_values s.log).Pairwise (fun a b => a ≤ b)
      ∧ (startup_state NUM_QUEUING_FRAMES Stenciling._COUNT_RENDERITEM
          Stenciling._COUNT_MATERIAL).fence_completed = 1
      ∧ (gpu_retire 4 s).fence_completed = 0 := by
  obtain ⟨j, hj⟩ := stenciling_startup_run gpu [g0, g1]
  simp only [List.length_cons, List.length_nil] at hj
  refine ⟨_, hj, ?_, ?_, by decide, ?_⟩
  · rw [gpu_retire_log]
    decide
  · rw [gpu_retire_log]
    decide
  · have hlen : (Stenciling.after_frames (0 + 1 + 1)).cmd_queue.length = 4 := by decide
    rw [gpu_retire_add, gpu_retire_all _ _ (by omega), hlen]
    decide

/-- C7 (violated by the code).  From the start-up state, under any GPU
progress, the first three `move_to_next_frame` calls of either sample signal
the fence values 1, 0, 0 (the stored fence values of slots 0, 1, 2), not 1, 2, 3. -/
theorem C7_first_three_signals (gpu : Nat) (g0 g1 g2 : Nat × Nat) :
    (∃ s, (startup NUM_QUEUING_FRAMES Stenciling._COUNT_RENDERITEM Stenciling._COUNT_MATERIAL gpu).bind
          (run_frames (Stenciling.frame NUM_QUEUING_FRAMES) [g0, g1, g2]) = some s
      ∧ signaled_values (s.log.drop (startup_state NUM_QUEUING_FRAMES Stenciling._COUNT_RENDERITEM
          Stenciling._COUNT_MATERIAL).log.length) = [1, 0, 0])
    ∧ (∃ s, (startup NUM_QUEUING_FRAMES Bezier._COUNT_RENDERITEM Bezier._COUNT_MATERIAL gpu).bind
          (run_frames (Bezier.frame NUM_QUEUING_FRAMES) [g0, g1, g2]) = some s
      ∧ signaled_values (s.log.drop (startup_state NUM_QUEUING_FRAMES Bezier._COUNT_RENDERITEM
          Bezier._COUNT_MATERIAL).log.length) = [1, 0, 0]) := by
  constructor
  · obtain ⟨j, hj⟩ := stenciling_startup_run gpu [g0, g1, g2]
    simp only [List.length_cons, List.length_nil] at hj
    refine ⟨_, hj, ?_⟩
    rw [gpu_retire_log]
    decide
  · obtain ⟨j, hj⟩ := bezier_startup_run gpu [g0, g1, g2]
    simp only [List.length_cons, List.length_nil] at hj
    refine ⟨_, hj, ?_⟩
    rw [gpu_retire_log]
    decide

/-- C8 (violated by the code).  Start-up and three turns of the stenciling
loop.  Under any GPU progress during them, if the GPU has retired the queue
when the fourth turn begins, `draw_main` resets the allocator of slot 0 while
the completed value of the fence is 0.  And when the GPU retires nothing
during the three turns they do not block: the fourth turn begins with the
command list of frame 0 still at the head of the queue (the completed value,
1, is the one the start-up flush waited for). -/
theorem C8_completed_value_at_reuse_of_slot_zero (gpu : Nat) (g0 g1 g2 : Nat × Nat) :
    (∃ s, (startup NUM_QUEUING_FRAMES Stenciling._COUNT_RENDERITEM Stenciling._COUNT_MATERIAL gpu).bind
          (run_frames (Stenciling.frame NUM_QUEUING_FRAMES) [g0, g1, g2]) = some s
      ∧ (Stenciling.update_cbuffers (gpu_retire 6 s)).frame_index = 0
      ∧ (draw_main (Stenciling.update_cbuffers (gpu_retire 6 s))).log
          = (Stenciling.update_cbuffers (gpu_retire 6 s)).log
            ++ [Event.alloc_reset (Allocator.frame 0), Event.list_reset (Allocator.frame 0),
              Event.execute (Allocator.frame 0), Event.present]
      ∧ (Stenciling.update_cbuffers (gpu_retire 6 s)).fence_completed = 0)
    ∧ ((startup NUM_QUEUING_FRAMES Stenciling._COUNT_RENDERITEM Stenciling._COUNT_MATERIAL gpu).bind
          (run_frames (Stenciling.frame NUM_QUEUING_FRAMES) [(0, 0), (0, 0), (0, 0)])).map
        (fun s => ((Stenciling.update_cbuffers s).frame_index,
          (Stenciling.update_cbuffers s).fence_completed,
          (Stenciling.update_cbuffers s).cmd_queue.head?))
        = some (0, 1, some (QueueCmd.execute (Allocator.frame 0))) := by
  constructor
  · obtain ⟨j, hj⟩ := stenciling_startup_run gpu [g0, g1, g2]
    simp only [List.length_cons, List.length_nil] at hj
    refine ⟨_, hj, ?_⟩
    have hlen : (Stenciling.after_frames (0 + 1 + 1 + 1)).cmd_queue.length = 6 := by decide
    rw [gpu_retire_add, gpu_retire_all _ _ (by omega), hlen]
    have hidx : (Stenciling.update_cbuffers
        (gpu_retire 6 (Stenciling.after_frames (0 + 1 + 1 + 1)))).frame_index = 0 := by decide
    refine ⟨hidx, ?_, by decide⟩
    simp only [draw_main, D3DRenderContext.record, D3DRenderContext.ExecuteCommandLists, hidx,
      List.append_assoc, List.cons_append, List.nil_append]
  · rw [startup_eq]
    decide

/-- C9 (violated by the code).  Tessellation sample: after start-up and four
turns of the loop, under any GPU progress, the value 2 has been signaled while
`main_current_fence` is 1.  Stenciling sample: after start-up, a frame, a
resize and a frame, the values signaled are 1, 1, 3, 4, 0 while
`main_current_fence` is 1. -/
theorem C9_signaled_value_exceeds_main_current_fence (gpu : Nat) (g0 g1 g2 g3 : Nat × Nat) :
    (∃ s, (startup NUM_QUEUING_FRAMES Bezier._COUNT_RENDERITEM Bezier._COUNT_MATERIAL gpu).bind
          (run_frames (Bezier.frame NUM_QUEUING_FRAMES) [g0, g1, g2, g3]) = some s
      ∧ signaled_values s.log = [1, 1, 0, 0, 2]
      ∧ s.main_current_fence = 1)
    ∧ ((startup NUM_QUEUING_FRAMES Stenciling._COUNT_RENDERITEM Stenciling._COUNT_MATERIAL gpu).bind
          (run_loop (Stenciling.frame NUM_QUEUING_FRAMES)
            [LoopOp.frame 0 0, LoopOp.resize 0 0, LoopOp.frame 0 0])).map
        (fun s => (signaled_values s.log, s.main_current_fence))
        = some ([1, 1, 3, 4, 0], 1) := by
  constructor
  · obtain ⟨j, hj⟩ := bezier_startup_run gpu [g0, g1, g2, g3]
    simp only [List.length_cons, List.length_nil] at hj
    refine ⟨_, hj, ?_, ?_⟩
    · rw [gpu_retire_log]
      decide
    · rw [gpu_retire_main_current_fence]
      decide
  · rw [startup_eq]
    decide

/-- C10 (violated by the code).  Under any GPU progress: the second frame
submission of the stenciling sample takes `main_current_fence` from 2 to 1,
and the first frame submission of the tessellation sample leaves it at 1. -/
theorem C10_main_current_fence_across_frame (gpu : Nat) (g0 g1 : Nat × Nat) :
    (∃ s1 s2, (startup NUM_QUEUING_FRAMES Stenciling._COUNT_RENDERITEM
            Stenciling._COUNT_MATERIAL gpu).bind
          (run_frames (Stenciling.frame NUM_QUEUING_FRAMES) [g0]) = some s1
      ∧ Stenciling.frame NUM_QUEUING_FRAMES g1 s1 = some s2
      ∧ s1.main_current_fence = 2 ∧ s2.main_current_fence = 1)
    ∧ (∃ s0 s1, startup NUM_QUEUING_FRAMES Bezier._COUNT_RENDERITEM Bezier._COUNT_MATERIAL gpu
          = some s0
      ∧ Bezier.frame NUM_QUEUING_FRAMES g0 s0 = some s1
      ∧ s0.main_current_fence = 1 ∧ s1.main_current_fence = 1) := by
  constructor
  · obtain ⟨j, hj⟩ := stenciling_startup_run gpu [g0]
    simp only [List.length_cons, List.length_nil] at hj
    obtain ⟨j1, hj1⟩ := stenciling_frame_spec NUM_QUEUING_FRAMES g1
      (gpu_retire j (Stenciling.after_frames (0 + 1)))
    obtain ⟨k1, hk1⟩ := stenciling_frame_effect_gpu NUM_QUEUING_FRAMES j
      (Stenciling.after_frames (0 + 1))
    refine ⟨_, _, hj, hj1, ?_, ?_⟩
    · rw [gpu_retire_main_current_fence]
      decide
    · rw [hk1, gpu_retire_main_current_fence, gpu_retire_main_current_fence]
      decide
  · obtain ⟨j1, hj1⟩ := bezier_frame_spec NUM_QUEUING_FRAMES g0
      (startup_state NUM_QUEUING_FRAMES Bezier._COUNT_RENDERITEM Bezier._COUNT_MATERIAL)
    refine ⟨_, _, startup_eq _ _ _ gpu, hj1, by decide, ?_⟩
    rw [gpu_retire_main_current_fence]
    decide

end D3D

namespace D3D

/-- C3.  In both samples `move_to_next_frame` returns and sets `frame_index` to
`(frame_index + 1) mod N`; hence after any run of turns of the main loop, under
any GPU progress, `frame_index` is the start index plus the number of turns,
mod `N` (round robin), and it is back at the start index exactly when the
number of turns is a multiple of `N`. -/
theorem C3_round_robin (N : Nat) (hN : 0 < N) (hU : N < UINT_SIZE) (s : D3DRenderContext)
    (hfi : s.frame_index < N) :
    (∀ gpu, ∃ s1 r, Stenciling.move_to_next_frame N gpu s = some (s1, r)
        ∧ s1.frame_index = (s.frame_index + 1) % N)
    ∧ (∀ gpu, ∃ s1, Bezier.move_to_next_frame N gpu s = some s1
        ∧ s1.frame_index = (s.frame_index + 1) % N)
    ∧ (∀ gs, ∃ s1, run_frames (Stenciling.frame N) gs s = some s1
        ∧ s1.frame_index = (s.frame_index + gs.length) % N
        ∧ (s1.frame_index = s.frame_index ↔ N ∣ gs.length))
    ∧ (∀ gs, ∃ s1, run_frames (Bezier.frame N) gs s = some s1
        ∧ s1.frame_index = (s.frame_index + gs.length) % N
        ∧ (s1.frame_index = s.frame_index ↔ N ∣ gs.length)) := by
  have h1 : (s.frame_index + 1) % UINT_SIZE % N = (s.frame_index + 1) % N := by
    rw [Nat.mod_eq_of_lt (by omega : s.frame_index + 1 < UINT_SIZE)]
  refine ⟨?_, ?_, ?_, ?_⟩
  · intro gpu
    obtain ⟨j, hj, _⟩ := stenciling_move_to_next_frame_spec N gpu s
    exact ⟨_, _, hj, h1⟩
  · intro gpu
    obtain ⟨j, hj, _⟩ := bezier_move_to_next_frame_spec N gpu s
    exact ⟨_, hj, h1⟩
  · intro gs
    obtain ⟨j, hj⟩ := stenciling_run_frames_spec N gs s
    have h := iterate_frame_index N _ _ _ (stenciling_turn_like N) hN hU s hfi gs.length
    refine ⟨_, hj, h, ?_⟩
    rw [gpu_retire_frame_index, h]
    exact slot_recurs N _ _ hfi
  · intro gs
    obtain ⟨j, hj⟩ := bezier_run_frames_spec N gs s
    have h := iterate_frame_index N _ _ _ (bezier_turn_like N) hN hU s hfi gs.length
    refine ⟨_, hj, h, ?_⟩
    rw [gpu_retire_frame_index, h]
    exact slot_recurs N _ _ hfi

/-- C3 at the samples' `N = 3`, from the start-up state: four turns of the
stenciling loop lead to slot 1, and slot 0 does not recur after four turns. -/
theorem C3_round_robin_witness :
    (0 < NUM_QUEUING_FRAMES ∧ NUM_QUEUING_FRAMES < UINT_SIZE
      ∧ (startup_state NUM_QUEUING_FRAMES Stenciling._COUNT_RENDERITEM
          Stenciling._COUNT_MATERIAL).frame_index < NUM_QUEUING_FRAMES)
    ∧ ∃ s1, run_frames (Stenciling.frame NUM_QUEUING_FRAMES) [(0, 0), (1, 0), (0, 2), (3, 1)]
          (startup_state NUM_QUEUING_FRAMES Stenciling._COUNT_RENDERITEM
            Stenciling._COUNT_MATERIAL) = some s1
        ∧ s1.frame_index = 1 ∧ s1.frame_index ≠ 0 :=
  ⟨⟨by decide, by decide, by decide⟩, by
    obtain ⟨s1, h1, h2, _⟩ := (C3_round_robin NUM_QUEUING_FRAMES (by decide) (by decide)
      (startup_state NUM_QUEUING_FRAMES Stenciling._COUNT_RENDERITEM Stenciling._COUNT_MATERIAL)
      (by decide)).2.2.1 [(0, 0), (1, 0), (0, 2), (3, 1)]
    have h3 : s1.frame_index = 1 := by rw [h2]; decide
    exact ⟨s1, h1, h3, by rw [h3]; decide⟩⟩

theorem sample_run_frames_spec (smp : Sample) (N : Nat) (gs : List (Nat × Nat))
    (s : D3DRenderContext) :
    ∃ j, run_frames (smp.frame N) gs s
      = some (gpu_retire j (Nat.iterate (smp.frame_effect N) gs.length s)) := by
  cases smp
  · exact stenciling_run_frames_spec N gs s
  · exact bezier_run_frames_spec N gs s

theorem sample_turn_like (smp : Sample) (N : Nat) :
    TurnLike N smp.object_constants smp.count_material (smp.frame_effect N) := by
  cases smp
  · exact stenciling_turn_like N
  · exact bezier_turn_like N

theorem sample_object_constants_dirty (smp : Sample) (it : RenderItem) (d : Int) :
    smp.object_constants { it with n_frames_dirty := d } = smp.object_constants it := by
  cases smp <;> rfl

/-- C2.  In either sample, from a context whose `frame_index` is a slot, under
any GPU progress, a run of turns of the main loop (no other update) returns,
and: for every initialized render item within `all_ritems.size` whose
`n_frames_dirty` is `N`, whose `obj_cbuffer_index` no other item within `size`
has and lies inside every slot's object buffer, after exactly `N` turns the
counter is 0 and the record at that index of each of the `N` slots holds the
item's constants, and after fewer than `N` turns the counter is `N` minus the
number of turns and some slot still holds the record it held before; the same
for every material within `_COUNT_MATERIAL` whose `n_frames_dirty` is `N`. -/
theorem C2_dirty_count_propagation (smp : Sample) (N : Nat) (hN : 0 < N) (hU : N < UINT_SIZE)
    (s : D3DRenderContext) (hfi : s.frame_index < N) (gs : List (Nat × Nat)) :
    ∃ s1, run_frames (smp.frame N) gs s = some s1
      ∧ (∀ (i : Nat) (item : RenderItem), i < s.all_ritems.size →
          s.all_ritems.ritems[i]? = some item → item.initialized = true →
          item.n_frames_dirty = (N : Int) →
          (∀ j, j < s.all_ritems.size → j ≠ i →
            (s.all_ritems.ritems[j]?).map RenderItem.obj_cbuffer_index
              ≠ some item.obj_cbuffer_index) →
          (∀ slot, slot < N → (obj_cb_of s slot).map
            (fun cb => decide (item.obj_cbuffer_index < cb.length)) = some true) →
          (gs.length = N →
            s1.all_ritems.ritems[i]? = some { item with n_frames_dirty := 0 }
            ∧ ∀ slot, slot < N →
                obj_record s1 slot item.obj_cbuffer_index = some (smp.object_constants item))
          ∧ (gs.length < N →
            s1.all_ritems.ritems[i]?
                = some { item with n_frames_dirty := (N : Int) - (gs.length : Int) }
            ∧ ∃ slot, slot < N
                ∧ obj_record s1 slot item.obj_cbuffer_index
                    = obj_record s slot item.obj_cbuffer_index))
      ∧ (∀ (k : Nat) (mat : Material), k < smp.count_material →
          s.materials[k]? = some mat → mat.n_frames_dirty = (N : Int) →
          (∀ j, j < smp.count_material → j ≠ k →
            (s.materials[j]?).map Material.mat_cbuffer_index ≠ some mat.mat_cbuffer_index) →
          (∀ slot, slot < N → (mat_cb_of s slot).map
            (fun cb => decide (mat.mat_cbuffer_index < cb.length)) = some true) →
          (gs.length = N →
            s1.materials[k]? = some { mat with n_frames_dirty := 0 }
            ∧ ∀ slot, slot < N →
                mat_record s1 slot mat.mat_cbuffer_index = some (material_constants mat))
          ∧ (gs.length < N →
            s1.materials[k]?
                = some { mat with n_frames_dirty := (N : Int) - (gs.length : Int) }
            ∧ ∃ slot, slot < N
                ∧ mat_record s1 slot mat.mat_cbuffer_index
                    = mat_record s slot mat.mat_cbuffer_index)) := by
  obtain ⟨g, hg⟩ := sample_run_frames_spec smp N gs s
  refine ⟨_, hg, ?_, ?_⟩
  · intro i item hi hitem hinit hdirty huniq hb
    have key := fun j hj => item_propagation N smp.object_constants smp.count_material
      (smp.frame_effect N) (sample_turn_like smp N) (sample_object_constants_dirty smp)
      hN hU s hfi i item hi hitem hinit hdirty huniq hb j hj
    constructor
    · intro hlen
      obtain ⟨_, _, _, k4, k5, _⟩ := key gs.length (by omega)
      constructor
      · show (Nat.iterate (smp.frame_effect N) gs.length s).all_ritems.ritems[i]? = _
        rw [k4, hlen]
        simp
      · intro slot hslot
        obtain ⟨m, hm, hms⟩ := slot_covered N s.frame_index slot hfi hslot
        have := k5 m (by omega)
        rw [hms] at this
        exact this
    · intro hlen
      obtain ⟨_, _, _, k4, _, k6⟩ := key gs.length (by omega)
      refine ⟨k4, (s.frame_index + gs.length) % N, Nat.mod_lt _ hN, ?_⟩
      have := k6 ((s.frame_index + gs.length) % N)
        (fun m hm => Ne.symm (slot_ne N _ _ _ hfi hm hlen))
      show (obj_cb_of (Nat.iterate (smp.frame_effect N) gs.length s) _).bind _ = _
      rw [this]
      rfl
  · intro k mat hk hmat hdirty huniq hb
    have key := fun j hj => material_propagation N smp.object_constants smp.count_material
      (smp.frame_effect N) (sample_turn_like smp N) hN hU s hfi k mat hk hmat hdirty huniq hb j hj
    constructor
    · intro hlen
      obtain ⟨_, _, k4, k5, _⟩ := key gs.length (by omega)
      constructor
      · show (Nat.iterate (smp.frame_effect N) gs.length s).materials[k]? = _
        rw [k4, hlen]
        simp
      · intro slot hslot
        obtain ⟨m, hm, hms⟩ := slot_covered N s.frame_index slot hfi hslot
        have := k5 m (by omega)
        rw [hms] at this
        exact this
    · intro hlen
      obtain ⟨_, _, k4, _, k6⟩ := key gs.length (by omega)
      refine ⟨k4, (s.frame_index + gs.length) % N, Nat.mod_lt _ hN, ?_⟩
      have := k6 ((s.frame_index + gs.length) % N)
        (fun m hm => Ne.symm (slot_ne N _ _ _ hfi hm hlen))
      show (mat_cb_of (Nat.iterate (smp.frame_effect N) gs.length s) _).bind _ = _
      rw [this]
      rfl

/-- C2 on the stenciling scene at `N = 3`: after three turns the skull item
(position 3, record 2) and the skull material (position 3, record 3) have
counter 0 and their records are in all three slots. -/
theorem C2_dirty_count_propagation_witness :
    (0 < NUM_QUEUING_FRAMES ∧ NUM_QUEUING_FRAMES < UINT_SIZE
      ∧ Stenciling.scene_state.frame_index < NUM_QUEUING_FRAMES)
    ∧ ∃ s1, run_frames (Sample.stenciling.frame NUM_QUEUING_FRAMES) [(0, 0), (1, 0), (0, 2)]
          Stenciling.scene_state = some s1
        ∧ (s1.all_ritems.ritems[3]?).map RenderItem.n_frames_dirty = some 0
        ∧ (∀ slot, slot < NUM_QUEUING_FRAMES → obj_record s1 slot 2
            = some (Stenciling.object_constants
                { obj_cbuffer_index := 2, mat := 3, n_frames_dirty := 3, initialized := true }))
        ∧ (s1.materials[3]?).map Material.n_frames_dirty = some 0
        ∧ (∀ slot, slot < NUM_QUEUING_FRAMES → mat_record s1 slot 3
            = some (material_constants
                { mat_cbuffer_index := 3, diffuse_srvheap_index := 3, n_frames_dirty := 3 })) :=
  ⟨⟨by decide, by decide, by decide⟩, by
    obtain ⟨s1, h1, h2, h3⟩ := C2_dirty_count_propagation Sample.stenciling NUM_QUEUING_FRAMES
      (by decide) (by decide) Stenciling.scene_state (by decide) [(0, 0), (1, 0), (0, 2)]
    obtain ⟨a1, a2⟩ := (h2 3
      { obj_cbuffer_index := 2, mat := 3, n_frames_dirty := 3, initialized := true }
      (by decide) (by decide) (by decide) (by decide) (by decide) (by decide)).1 (by decide)
    obtain ⟨b1, b2⟩ := (h3 3
      { mat_cbuffer_index := 3, diffuse_srvheap_index := 3, n_frames_dirty := 3 }
      (by decide) (by decide) (by decide) (by decide) (by decide)).1 (by decide)
    exact ⟨s1, h1, by rw [a1]; rfl, a2, by rw [b1]; rfl, b2⟩⟩

end D3D

namespace D3D

/-! ## Flush and resize -/

theorem flush_command_queue_eq (gpu : Nat) (s : D3DRenderContext) :
    flush_command_queue gpu s
      = wait_for_fence (gpu_retire gpu (flush_command_queue_effect s))
          ((s.main_current_fence + 1) % UINT64_SIZE) := by
  simp only [flush_command_queue, flush_command_queue_effect, D3DRenderContext.Signal,
    D3DRenderContext.record, gpu_retire, List.append_assoc, List.cons_append, List.nil_append]

theorem d3d_resize_eq (g1 g2 : Nat) (s : D3DRenderContext) :
    d3d_resize g1 g2 s
      = if s.device && s.direct_cmd_list_alloc && s.swapchain then
          (flush_command_queue g1 s).bind (fun s1 => flush_command_queue g2 (d3d_resize_body s1))
        else some s := by
  unfold d3d_resize
  split
  · cases flush_command_queue g1 s <;> rfl
  · rfl

theorem d3d_resize_body_gpu (k : Nat) (s : D3DRenderContext) :
    d3d_resize_body (gpu_retire k s)
      = gpu_retire (min k s.cmd_queue.length) (d3d_resize_body s) := by
  rw [gpu_retire_min k s]
  have h : min k s.cmd_queue.length ≤ s.cmd_queue.length := Nat.min_le_right _ _
  simp [d3d_resize_body, D3DRenderContext.record, D3DRenderContext.ExecuteCommandLists,
    gpu_retire, gpu_steps_append _ _ _ _ h, NUM_BACKBUFFERS, List.range_succ]

theorem d3d_resize_spec (g1 g2 : Nat) (s : D3DRenderContext) :
    ∃ j, d3d_resize g1 g2 s = some (gpu_retire j (d3d_resize_effect s)) := by
  rw [d3d_resize_eq]
  unfold d3d_resize_effect
  split
  · obtain ⟨j1, h1, _⟩ := flush_command_queue_spec g1 s
    rw [h1, Option.some_bind, d3d_resize_body_gpu]
    obtain ⟨j2, h2, _⟩ := flush_command_queue_spec g2
      (gpu_retire (min j1 (flush_command_queue_effect s).cmd_queue.length)
        (d3d_resize_body (flush_command_queue_effect s)))
    rw [h2, flush_command_queue_effect_gpu, gpu_retire_add]
    exact ⟨_, rfl⟩
  · exact ⟨0, rfl⟩

theorem move_to_next_frame_effect_fence_of (N : Nat) (s : D3DRenderContext) (slot : Nat) :
    (move_to_next_frame_effect N s).fence_of slot
      = if slot = s.frame_index ∧ slot < s.frame_resources.length then
          (s.fence_of s.frame_index + 1) % UINT64_SIZE
        else s.fence_of slot := by
  simp only [D3DRenderContext.fence_of, move_to_next_frame_effect, List.getElem?_modify]
  by_cases hlen : slot < s.frame_resources.length
  · rw [List.getElem?_eq_getElem hlen]
    by_cases hs : s.frame_index = slot
    · subst hs
      simp [hlen]
    · have hs2 : ¬ slot = s.frame_index := fun h => hs h.symm
      simp [hs, hs2]
  · rw [List.getElem?_eq_none (Nat.le_of_not_lt hlen)]
    simp [hlen]

theorem flush_command_queue_effect_keeps (s : D3DRenderContext) :
    (flush_command_queue_effect s).frame_index = s.frame_index
    ∧ (flush_command_queue_effect s).frame_resources = s.frame_resources
    ∧ (flush_command_queue_effect s).all_ritems = s.all_ritems
    ∧ (flush_command_queue_effect s).materials = s.materials
    ∧ (flush_command_queue_effect s).main_current_fence = (s.main_current_fence + 1) % UINT64_SIZE
    ∧ (flush_command_queue_effect s).log
        = s.log ++ [Event.signal ((s.main_current_fence + 1) % UINT64_SIZE),
            Event.wait_main ((s.main_current_fence + 1) % UINT64_SIZE)] := by
  simp [flush_command_queue_effect]

theorem d3d_resize_body_keeps (s : D3DRenderContext) :
    (d3d_resize_body s).frame_index = s.frame_index
    ∧ (d3d_resize_body s).frame_resources = s.frame_resources
    ∧ (d3d_resize_body s).all_ritems = s.all_ritems
    ∧ (d3d_resize_body s).materials = s.materials
    ∧ (d3d_resize_body s).main_current_fence = s.main_current_fence
    ∧ (d3d_resize_body s).log
        = s.log ++ [Event.list_reset Allocator.direct, Event.release_render_target 0,
            Event.release_render_target 1, Event.release_depth_stencil, Event.resize_buffers,
            Event.execute Allocator.direct] := by
  simp [d3d_resize_body, D3DRenderContext.record, D3DRenderContext.ExecuteCommandLists,
    NUM_BACKBUFFERS, List.range_succ]

theorem gpu_retire_same_slots (k : Nat) (s : D3DRenderContext) : SameSlots (gpu_retire k s) s :=
  ⟨rfl, rfl, rfl, rfl⟩

theorem d3d_resize_effect_keeps (s : D3DRenderContext) :
    SameSlots (d3d_resize_effect s) s
    ∧ (d3d_resize_effect s).main_current_fence
        = if s.device && s.direct_cmd_list_alloc && s.swapchain then
            ((s.main_current_fence + 1) % UINT64_SIZE + 1) % UINT64_SIZE
          else s.main_current_fence := by
  unfold d3d_resize_effect
  split
  · obtain ⟨a1, a2, a3, a4, a5, _⟩ := flush_command_queue_effect_keeps s
    obtain ⟨b1, b2, b3, b4, b5, _⟩ := d3d_resize_body_keeps (flush_command_queue_effect s)
    obtain ⟨c1, c2, c3, c4, c5, _⟩ :=
      flush_command_queue_effect_keeps (d3d_resize_body (flush_command_queue_effect s))
    refine ⟨⟨?_, ?_, ?_, ?_⟩, ?_⟩
    · rw [c1, b1, a1]
    · rw [c2, b2, a2]
    · rw [c3, b3, a3]
    · rw [c4, b4, a4]
    · rw [c5, b5, a5]
  · exact ⟨⟨rfl, rfl, rfl, rfl⟩, rfl⟩

/-! ## Runs from contexts that agree on the slots and the scene -/

theorem foldl_related {σ ι : Type} (R : σ → σ → Prop) (step : σ → ι → σ)
    (h : ∀ s t i, R s t → R (step s i) (step t i)) :
    ∀ (l : List ι) (s t : σ), R s t → R (l.foldl step s) (l.foldl step t) := by
  intro l
  induction l with
  | nil => intro s t hs; exact hs
  | cons i rest ih => intro s t hs; exact ih _ _ (h s t i hs)

theorem update_obj_cbuffers_step_same (f : RenderItem → ObjectConstants) (fi : Nat)
    (u v : D3DRenderContext) (k : Nat) (h : SameSlots u v) :
    SameSlots (update_obj_cbuffers_step f fi u k) (update_obj_cbuffers_step f fi v k) := by
  obtain ⟨h1, h2, h3, h4⟩ := h
  simp only [update_obj_cbuffers_step, h3, h2]
  cases v.all_ritems.ritems[k]? with
  | none => exact ⟨h1, h2, h3, h4⟩
  | some item =>
    simp only []
    split
    · exact ⟨h1, rfl, rfl, h4⟩
    · exact ⟨h1, h2, h3, h4⟩

theorem update_mat_cbuffers_step_same (fi : Nat) (u v : D3DRenderContext) (k : Nat)
    (h : SameSlots u v) :
    SameSlots (update_mat_cbuffers_step fi u k) (update_mat_cbuffers_step fi v k) := by
  obtain ⟨h1, h2, h3, h4⟩ := h
  simp only [update_mat_cbuffers_step, h4, h2]
  cases v.materials[k]? with
  | none => exact ⟨h1, h2, h3, h4⟩
  | some mat =>
    simp only []
    split
    · exact ⟨h1, rfl, h3, rfl⟩
    · exact ⟨h1, h2, h3, h4⟩

theorem cbuffer_updates_same (f : RenderItem → ObjectConstants) (n : Nat)
    (u v : D3DRenderContext) (h : SameSlots u v) :
    SameSlots (cbuffer_updates f n u) (cbuffer_updates f n v) := by
  have ho : SameSlots (update_obj_cbuffers_with f u) (update_obj_cbuffers_with f v) := by
    unfold update_obj_cbuffers_with
    simp only []
    rw [h.1, h.2.2.1]
    exact foldl_related SameSlots _ (fun a b i hab => update_obj_cbuffers_step_same f _ a b i hab)
      _ u v h
  unfold cbuffer_updates update_mat_cbuffers
  simp only []
  rw [ho.1]
  exact foldl_related SameSlots _ (fun a b i hab => update_mat_cbuffers_step_same _ a b i hab)
    _ _ _ ho

theorem move_to_next_frame_effect_same (N : Nat) (u v : D3DRenderContext) (h : SameSlots u v) :
    SameSlots (move_to_next_frame_effect N u) (move_to_next_frame_effect N v) := by
  obtain ⟨h1, h2, h3, h4⟩ := h
  simp only [SameSlots, move_to_next_frame_effect, D3DRenderContext.fence_of, h1, h2, h3, h4,
    and_self]

theorem draw_main_same (u v : D3DRenderContext) (h : SameSlots u v) :
    SameSlots (draw_main u) (draw_main v) := by
  obtain ⟨a1, a2, a3, a4⟩ := draw_main_keeps u
  obtain ⟨b1, b2, b3, b4⟩ := draw_main_keeps v
  exact ⟨by rw [a4, b4, h.1], by rw [a3, b3, h.2.1], by rw [a1, b1, h.2.2.1],
    by rw [a2, b2, h.2.2.2]⟩

theorem same_slots_symm {u v : D3DRenderContext} (h : SameSlots u v) : SameSlots v u :=
  ⟨h.1.symm, h.2.1.symm, h.2.2.1.symm, h.2.2.2.symm⟩

theorem same_slots_trans {u v w : D3DRenderContext} (h1 : SameSlots u v) (h2 : SameSlots v w) :
    SameSlots u w :=
  ⟨h1.1.trans h2.1, h1.2.1.trans h2.2.1, h1.2.2.1.trans h2.2.2.1, h1.2.2.2.trans h2.2.2.2⟩

theorem record_same (u : D3DRenderContext) (e : Event) : SameSlots (u.record e) u :=
  ⟨rfl, rfl, rfl, rfl⟩

theorem stenciling_update_cbuffers_same (t : D3DRenderContext) :
    SameSlots (Stenciling.update_cbuffers t)
      (cbuffer_updates Stenciling.object_constants Stenciling._COUNT_MATERIAL t) := by
  unfold Stenciling.update_cbuffers Stenciling.update_pass_cbuffers cbuffer_updates
    Stenciling.update_obj_cbuffers
  exact same_slots_trans (record_same _ _) (record_same _ _)

theorem bezier_update_cbuffers_same (t : D3DRenderContext) :
    SameSlots (Bezier.update_cbuffers t)
      (cbuffer_updates Bezier.object_constants Bezier._COUNT_MATERIAL t) := by
  unfold Bezier.update_cbuffers Bezier.update_pass_cbuffers cbuffer_updates
    Bezier.update_obj_cbuffers
  exact record_same _ _

theorem set_main_current_fence_same (u : D3DRenderContext) (v : Nat) :
    SameSlots { u with main_current_fence := v } u :=
  ⟨rfl, rfl, rfl, rfl⟩

theorem sample_frame_effect_same (smp : Sample) (N : Nat) (u v : D3DRenderContext)
    (h : SameSlots u v) : SameSlots (smp.frame_effect N u) (smp.frame_effect N v) := by
  cases smp with
  | stenciling =>
    have hc := cbuffer_updates_same Stenciling.object_constants Stenciling._COUNT_MATERIAL u v h
    have hp : SameSlots (Stenciling.update_cbuffers u) (Stenciling.update_cbuffers v) :=
      same_slots_trans (same_slots_trans (stenciling_update_cbuffers_same u) hc)
        (same_slots_symm (stenciling_update_cbuffers_same v))
    have hm := move_to_next_frame_effect_same N _ _ (draw_main_same _ _ hp)
    unfold Sample.frame_effect Stenciling.frame_effect
    simp only []
    exact same_slots_trans (same_slots_trans (set_main_current_fence_same _ _) hm)
      (same_slots_symm (set_main_current_fence_same _ _))
  | bezier =>
    have hc := cbuffer_updates_same Bezier.object_constants Bezier._COUNT_MATERIAL u v h
    have hp : SameSlots (Bezier.update_cbuffers u) (Bezier.update_cbuffers v) :=
      same_slots_trans (same_slots_trans (bezier_update_cbuffers_same u) hc)
        (same_slots_symm (bezier_update_cbuffers_same v))
    exact move_to_next_frame_effect_same N _ _ (draw_main_same _ _ hp)

theorem sample_iterate_same (smp : Sample) (N : Nat) :
    ∀ (n : Nat) (u v : D3DRenderContext), SameSlots u v →
      SameSlots (Nat.iterate (smp.frame_effect N) n u) (Nat.iterate (smp.frame_effect N) n v) := by
  intro n
  induction n with
  | zero => intro u v h; exact h
  | succ n ih =>
    intro u v h
    simp only [Function.iterate_succ, Function.comp]
    exact ih _ _ (sample_frame_effect_same smp N u v h)

/-! ## Reading the command list of `draw_main` -/

theorem list_state_append (a b : List DrawCmd) (st : ListState) :
    list_state st (a ++ b) = list_state (list_state st a) b := by
  simp [list_state, List.foldl_append]

theorem executed_draws_append (a b : List DrawCmd) :
    ∀ st : ListState,
      executed_draws st (a ++ b) = executed_draws st a ++ executed_draws (list_state st a) b := by
  induction a with
  | nil => intro st; rfl
  | cons c rest ih =>
    intro st
    cases c <;> simp [executed_draws, list_state, DrawCmd.apply, ih]

theorem range_filterMap_getElem {α : Type} (l : List α) (n : Nat) :
    (List.range n).filterMap (fun i => l[i]?) = l.take n := by
  induction n with
  | zero => rfl
  | succ n ih =>
    rw [List.range_succ, List.filterMap_append, ih, List.take_succ]
    cases h : l[n]? <;> simp [List.filterMap_cons, h]

/-- The commands `draw_render_items` records for the entry at one position. -/
theorem draw_render_items_indices (sizes : DrawSizes) (materials : List Material)
    (o m : GpuAddress) (arr : RenderItemArray) (f : Nat → List DrawCmd)
    (hf : ∀ i, f i = match arr.ritems[i]? with
      | none => []
      | some item =>
        if item.initialized then
          [DrawCmd.IASetVertexBuffers, DrawCmd.IASetIndexBuffer, DrawCmd.IASetPrimitiveTopology,
           DrawCmd.SetGraphicsRootDescriptorTable 0 (sizes.cbv_srv_uav_descriptor_size
             * (Material_at materials item.mat).diffuse_srvheap_index % UINT64_SIZE),
           DrawCmd.SetGraphicsRootConstantBufferView 1
             { o with offset := o.offset
                + item.obj_cbuffer_index * (sizes.sizeof_ObjectConstants % UINT_SIZE) % UINT64_SIZE },
           DrawCmd.SetGraphicsRootConstantBufferView 3
             { m with offset := m.offset
                + (Material_at materials item.mat).mat_cbuffer_index
                    * (sizes.sizeof_MaterialConstants % UINT_SIZE) % UINT64_SIZE },
           DrawCmd.DrawIndexedInstanced item.index_count 1 item.start_index_loc
             item.base_vertex_loc 0]
        else []) :
    ∀ (is : List Nat) (st : ListState),
      executed_draws st (is.flatMap f)
          = ((is.filterMap (fun i => arr.ritems[i]?)).filter (fun item => item.initialized)).map
              (item_draw sizes materials o m st.pso st.stencil_ref st.pass_cb)
        ∧ (list_state st (is.flatMap f)).pso = st.pso
        ∧ (list_state st (is.flatMap f)).stencil_ref = st.stencil_ref
        ∧ (list_state st (is.flatMap f)).pass_cb = st.pass_cb := by
  intro is
  induction is with
  | nil => intro st; exact ⟨rfl, rfl, rfl, rfl⟩
  | cons i rest ih =>
    intro st
    rw [List.flatMap_cons, executed_draws_append, list_state_append, hf i]
    cases hi : arr.ritems[i]? with
    | none =>
      simp only [List.filterMap_cons, hi]
      exact ih st
    | some item =>
      simp only [List.filterMap_cons, hi]
      by_cases hinit : item.initialized = true
      · simp only [hinit, if_true, List.filter_cons]
        obtain ⟨h1, h2, h3, h4⟩ := ih (list_state st
          [DrawCmd.IASetVertexBuffers, DrawCmd.IASetIndexBuffer, DrawCmd.IASetPrimitiveTopology,
           DrawCmd.SetGraphicsRootDescriptorTable 0 (sizes.cbv_srv_uav_descriptor_size
             * (Material_at materials item.mat).diffuse_srvheap_index % UINT64_SIZE),
           DrawCmd.SetGraphicsRootConstantBufferView 1
             { o with offset := o.offset
                + item.obj_cbuffer_index * (sizes.sizeof_ObjectConstants % UINT_SIZE) % UINT64_SIZE },
           DrawCmd.SetGraphicsRootConstantBufferView 3
             { m with offset := m.offset
                + (Material_at materials item.mat).mat_cbuffer_index
                    * (sizes.sizeof_MaterialConstants % UINT_SIZE) % UINT64_SIZE },
           DrawCmd.DrawIndexedInstanced item.index_count 1 item.start_index_loc
             item.base_vertex_loc 0])
        rw [h1, h2, h3, h4]
        simp [executed_draws, list_state, DrawCmd.apply, item_draw]
      · have hfalse : item.initialized = false := by simpa using hinit
        simp only [hfalse, Bool.false_eq_true, if_false, List.filter_cons]
        exact ih st

theorem draw_render_items_draws (sizes : DrawSizes) (materials : List Material)
    (o m : GpuAddress) (arr : RenderItemArray) (fi : Nat) (st : ListState) :
    executed_draws st (draw_render_items sizes materials o m arr fi)
        = (drawn_items arr).map (item_draw sizes materials o m st.pso st.stencil_ref st.pass_cb)
      ∧ (list_state st (draw_render_items sizes materials o m arr fi)).pso = st.pso
      ∧ (list_state st (draw_render_items sizes materials o m arr fi)).stencil_ref = st.stencil_ref
      ∧ (list_state st (draw_render_items sizes materials o m arr fi)).pass_cb = st.pass_cb := by
  have h := draw_render_items_indices sizes materials o m arr _ (fun i => rfl)
    (List.range arr.size) st
  rw [range_filterMap_getElem] at h
  exact h

theorem list_state_nil (st : ListState) : list_state st [] = st := rfl

theorem list_state_cons (st : ListState) (c : DrawCmd) (cs : List DrawCmd) :
    list_state st (c :: cs) = list_state (c.apply st) cs := rfl

theorem executed_draws_draw_render_items (sizes : DrawSizes) (materials : List Material)
    (o m : GpuAddress) (arr : RenderItemArray) (fi : Nat) (st : ListState) :
    executed_draws st (draw_render_items sizes materials o m arr fi)
      = (drawn_items arr).map (item_draw sizes materials o m st.pso st.stencil_ref st.pass_cb) :=
  (draw_render_items_draws sizes materials o m arr fi st).1

theorem draw_render_items_pso (sizes : DrawSizes) (materials : List Material)
    (o m : GpuAddress) (arr : RenderItemArray) (fi : Nat) (st : ListState) :
    (list_state st (draw_render_items sizes materials o m arr fi)).pso = st.pso :=
  (draw_render_items_draws sizes materials o m arr fi st).2.1

theorem draw_render_items_stencil_ref (sizes : DrawSizes) (materials : List Material)
    (o m : GpuAddress) (arr : RenderItemArray) (fi : Nat) (st : ListState) :
    (list_state st (draw_render_items sizes materials o m arr fi)).stencil_ref = st.stencil_ref :=
  (draw_render_items_draws sizes materials o m arr fi st).2.2.1

theorem draw_render_items_pass_cb (sizes : DrawSizes) (materials : List Material)
    (o m : GpuAddress) (arr : RenderItemArray) (fi : Nat) (st : ListState) :
    (list_state st (draw_render_items sizes materials o m arr fi)).pass_cb = st.pass_cb :=
  (draw_render_items_draws sizes materials o m arr fi st).2.2.2

/-- The draw calls of the stenciling `draw_main`, batch by batch, each with the
pipeline state, the stencil reference and the pass buffer address it runs
with. -/
theorem stenciling_draw_main_draws (sizes : DrawSizes) (layers : Stenciling.RenderLayers)
    (s : D3DRenderContext) :
    executed_draws {} (Stenciling.draw_main_commands sizes layers s)
      = (drawn_items layers.opaque_ritems).map
          (item_draw sizes s.materials ⟨s.frame_index, CBuffer.obj, 0⟩ ⟨s.frame_index, CBuffer.mat, 0⟩
            (some Stenciling.LAYER_OPAQUE) none (some ⟨s.frame_index, CBuffer.pass, 0⟩))
        ++ (drawn_items layers.mirrors_ritems).map
          (item_draw sizes s.materials ⟨s.frame_index, CBuffer.obj, 0⟩ ⟨s.frame_index, CBuffer.mat, 0⟩
            (some Stenciling.LAYER_MIRRORS) (some 1) (some ⟨s.frame_index, CBuffer.pass, 0⟩))
        ++ (drawn_items layers.reflected_ritems).map
          (item_draw sizes s.materials ⟨s.frame_index, CBuffer.obj, 0⟩ ⟨s.frame_index, CBuffer.mat, 0⟩
            (some Stenciling.LAYER_REFLECTIONS) (some 1)
            (some ⟨s.frame_index, CBuffer.pass, 1 * sizes.sizeof_PassConstants⟩))
        ++ (drawn_items layers.reflected_shadow_ritems).map
          (item_draw sizes s.materials ⟨s.frame_index, CBuffer.obj, 0⟩ ⟨s.frame_index, CBuffer.mat, 0⟩
            (some Stenciling.LAYER_SHADOW) (some 1)
            (some ⟨s.frame_index, CBuffer.pass, 1 * sizes.sizeof_PassConstants⟩))
        ++ (drawn_items layers.transparent_ritems).map
          (item_draw sizes s.materials ⟨s.frame_index, CBuffer.obj, 0⟩ ⟨s.frame_index, CBuffer.mat, 0⟩
            (some Stenciling.LAYER_TRANSPARENT) (some 0) (some ⟨s.frame_index, CBuffer.pass, 0⟩))
        ++ (drawn_items layers.shadow_ritems).map
          (item_draw sizes s.materials ⟨s.frame_index, CBuffer.obj, 0⟩ ⟨s.frame_index, CBuffer.mat, 0⟩
            (some Stenciling.LAYER_SHADOW) (some 0) (some ⟨s.frame_index, CBuffer.pass, 0⟩)) := by
  simp only [Stenciling.draw_main_commands, executed_draws_append, list_state_append,
    executed_draws_draw_render_items, draw_render_items_pso, draw_render_items_stencil_ref,
    draw_render_items_pass_cb, list_state_cons, list_state_nil]
  simp [executed_draws, DrawCmd.apply, draw_render_items_pso, draw_render_items_stencil_ref,
    draw_render_items_pass_cb]

/-! ## The history of one turn of the main loop -/

theorem update_obj_cbuffers_with_log (f : RenderItem → ObjectConstants) (s : D3DRenderContext) :
    ∃ ws, (update_obj_cbuffers_with f s).log = s.log ++ ws
      ∧ ∀ e ∈ ws, ∃ k, e = Event.memcpy s.frame_index CBuffer.obj k := by
  unfold update_obj_cbuffers_with
  simp only []
  apply foldl_invariant
    (fun u : D3DRenderContext => ∃ ws, u.log = s.log ++ ws
      ∧ ∀ e ∈ ws, ∃ k, e = Event.memcpy s.frame_index CBuffer.obj k)
  · intro u i hu
    obtain ⟨ws, hlog, hws⟩ := hu
    rcases update_obj_cbuffers_step_cases f s.frame_index u i with ⟨_, h⟩ | ⟨it, _, _, _, h⟩
    · rw [h]; exact ⟨ws, hlog, hws⟩
    · rw [h]
      refine ⟨ws ++ [Event.memcpy s.frame_index CBuffer.obj it.obj_cbuffer_index], ?_, ?_⟩
      · simp only [hlog, List.append_assoc]
      · intro e he
        rcases List.mem_append.mp he with h1 | h1
        · exact hws e h1
        · exact ⟨it.obj_cbuffer_index, List.mem_singleton.mp h1⟩
  · exact ⟨[], by simp, by simp⟩

theorem update_mat_cbuffers_log (n : Nat) (s : D3DRenderContext) :
    ∃ ws, (update_mat_cbuffers n s).log = s.log ++ ws
      ∧ ∀ e ∈ ws, ∃ k, e = Event.memcpy s.frame_index CBuffer.mat k := by
  unfold update_mat_cbuffers
  simp only []
  apply foldl_invariant
    (fun u : D3DRenderContext => ∃ ws, u.log = s.log ++ ws
      ∧ ∀ e ∈ ws, ∃ k, e = Event.memcpy s.frame_index CBuffer.mat k)
  · intro u i hu
    obtain ⟨ws, hlog, hws⟩ := hu
    rcases update_mat_cbuffers_step_cases s.frame_index u i with ⟨_, h⟩ | ⟨mat, _, _, h⟩
    · rw [h]; exact ⟨ws, hlog, hws⟩
    · rw [h]
      refine ⟨ws ++ [Event.memcpy s.frame_index CBuffer.mat mat.mat_cbuffer_index], ?_, ?_⟩
      · simp only [hlog, List.append_assoc]
      · intro e he
        rcases List.mem_append.mp he with h1 | h1
        · exact hws e h1
        · exact ⟨mat.mat_cbuffer_index, List.mem_singleton.mp h1⟩
  · exact ⟨[], by simp, by simp⟩

theorem cbuffer_updates_log (f : RenderItem → ObjectConstants) (n : Nat) (s : D3DRenderContext) :
    (cbuffer_updates f n s).frame_index = s.frame_index
    ∧ (∀ slot, (cbuffer_updates f n s).fence_of slot = s.fence_of slot)
    ∧ ∃ ws, (cbuffer_updates f n s).log = s.log ++ ws
      ∧ ∀ e ∈ ws, ∃ b k, e = Event.memcpy s.frame_index b k ∧ b ≠ CBuffer.pass := by
  have ko := update_obj_cbuffers_with_keeps f s
  have km := update_mat_cbuffers_keeps n (update_obj_cbuffers_with f s)
  obtain ⟨w1, h1, hw1⟩ := update_obj_cbuffers_with_log f s
  obtain ⟨w2, h2, hw2⟩ := update_mat_cbuffers_log n (update_obj_cbuffers_with f s)
  have hfi : (update_obj_cbuffers_with f s).frame_index = s.frame_index := ko.1.1
  refine ⟨km.1.1.trans ko.1.1, ?_, w1 ++ w2, ?_, ?_⟩
  · intro slot
    exact (km.1.2.2.2.2.1 slot).trans (ko.1.2.2.2.2.1 slot)
  · unfold cbuffer_updates
    rw [h2, h1, List.append_assoc]
  · intro e he
    rcases List.mem_append.mp he with h | h
    · obtain ⟨k, hk⟩ := hw1 e h
      exact ⟨CBuffer.obj, k, hk, by decide⟩
    · obtain ⟨k, hk⟩ := hw2 e h
      rw [hfi] at hk
      exact ⟨CBuffer.mat, k, hk, by decide⟩

theorem move_to_next_frame_effect_log (N : Nat) (t : D3DRenderContext) :
    (move_to_next_frame_effect N t).log
      = t.log ++ [Event.signal (t.fence_of t.frame_index),
          Event.wait_slot t.frame_index (t.fence_of t.frame_index)] := rfl

theorem draw_main_log (t : D3DRenderContext) :
    (draw_main t).log
      = t.log ++ [Event.alloc_reset (Allocator.frame t.frame_index),
          Event.list_reset (Allocator.frame t.frame_index),
          Event.execute (Allocator.frame t.frame_index), Event.present] := by
  simp [draw_main, D3DRenderContext.record, D3DRenderContext.ExecuteCommandLists]

theorem draw_main_fence_of (t : D3DRenderContext) (slot : Nat) :
    (draw_main t).fence_of slot = t.fence_of slot := by
  simp only [D3DRenderContext.fence_of, (draw_main_keeps t).2.2.1]

theorem stenciling_update_cbuffers_log (s : D3DRenderContext) :
    (Stenciling.update_cbuffers s).frame_index = s.frame_index
    ∧ (∀ slot, (Stenciling.update_cbuffers s).fence_of slot = s.fence_of slot)
    ∧ ∃ ws, (Stenciling.update_cbuffers s).log
          = s.log ++ (ws ++ [Event.memcpy s.frame_index CBuffer.pass 0,
              Event.memcpy s.frame_index CBuffer.pass 1])
      ∧ ∀ e ∈ ws, ∃ b k, e = Event.memcpy s.frame_index b k ∧ b ≠ CBuffer.pass := by
  obtain ⟨hfi, hf, ws, hlog, hws⟩ :=
    cbuffer_updates_log Stenciling.object_constants Stenciling._COUNT_MATERIAL s
  have hsame := stenciling_update_cbuffers_same s
  refine ⟨hsame.1.trans hfi, ?_, ws, ?_, hws⟩
  · intro slot
    rw [← hf slot]
    simp only [D3DRenderContext.fence_of, hsame.2.1]
  · unfold Stenciling.update_cbuffers Stenciling.update_pass_cbuffers Stenciling.update_obj_cbuffers
    unfold cbuffer_updates at hlog hfi
    simp only [D3DRenderContext.record, hlog, hfi, List.append_assoc, List.cons_append,
      List.nil_append]

theorem bezier_update_cbuffers_log (s : D3DRenderContext) :
    (Bezier.update_cbuffers s).frame_index = s.frame_index
    ∧ (∀ slot, (Bezier.update_cbuffers s).fence_of slot = s.fence_of slot)
    ∧ ∃ ws, (Bezier.update_cbuffers s).log
          = s.log ++ (ws ++ [Event.memcpy s.frame_index CBuffer.pass 0])
      ∧ ∀ e ∈ ws, ∃ b k, e = Event.memcpy s.frame_index b k ∧ b ≠ CBuffer.pass := by
  obtain ⟨hfi, hf, ws, hlog, hws⟩ :=
    cbuffer_updates_log Bezier.object_constants Bezier._COUNT_MATERIAL s
  have hsame := bezier_update_cbuffers_same s
  refine ⟨hsame.1.trans hfi, ?_, ws, ?_, hws⟩
  · intro slot
    rw [← hf slot]
    simp only [D3DRenderContext.fence_of, hsame.2.1]
  · unfold Bezier.update_cbuffers Bezier.update_pass_cbuffers Bezier.update_obj_cbuffers
    unfold cbuffer_updates at hlog hfi
    simp only [D3DRenderContext.record, hlog, hfi, List.append_assoc, List.cons_append,
      List.nil_append]

/-- The history of one turn of either loop: the constant buffer writes, all to
the slot at the frame index of entry, then the calls of `draw_main` and
`move_to_next_frame`. -/
theorem sample_frame_effect_log (smp : Sample) (N : Nat) (s : D3DRenderContext) :
    ∃ ws, (smp.frame_effect N s).log
          = s.log ++ (ws ++ turn_events s.frame_index (s.fence_of s.frame_index))
      ∧ (∀ e ∈ ws, ∃ b k, e = Event.memcpy s.frame_index b k)
      ∧ Event.memcpy s.frame_index CBuffer.pass 0 ∈ ws := by
  cases smp with
  | stenciling =>
    obtain ⟨hfi, hf, ws, hlog, hws⟩ := stenciling_update_cbuffers_log s
    refine ⟨ws ++ [Event.memcpy s.frame_index CBuffer.pass 0,
      Event.memcpy s.frame_index CBuffer.pass 1], ?_, ?_, by simp⟩
    · have h1 : (Sample.stenciling.frame_effect N s).log
          = (move_to_next_frame_effect N (draw_main (Stenciling.update_cbuffers s))).log := rfl
      rw [h1, move_to_next_frame_effect_log, draw_main_log, (draw_main_keeps _).2.2.2,
        draw_main_fence_of, hfi, hf, hlog]
      simp only [turn_events, List.append_assoc, List.cons_append, List.nil_append]
    · intro e he
      rcases List.mem_append.mp he with h | h
      · obtain ⟨b, k, hk, _⟩ := hws e h
        exact ⟨b, k, hk⟩
      · simp only [List.mem_cons, List.mem_singleton, List.not_mem_nil, or_false] at h
        rcases h with h | h
        · exact ⟨CBuffer.pass, 0, h⟩
        · exact ⟨CBuffer.pass, 1, h⟩
  | bezier =>
    obtain ⟨hfi, hf, ws, hlog, hws⟩ := bezier_update_cbuffers_log s
    refine ⟨ws ++ [Event.memcpy s.frame_index CBuffer.pass 0], ?_, ?_, by simp⟩
    · have h1 : (Sample.bezier.frame_effect N s).log
          = (move_to_next_frame_effect N (draw_main (Bezier.update_cbuffers s))).log := rfl
      rw [h1, move_to_next_frame_effect_log, draw_main_log, (draw_main_keeps _).2.2.2,
        draw_main_fence_of, hfi, hf, hlog]
      simp only [turn_events, List.append_assoc, List.cons_append, List.nil_append]
    · intro e he
      rcases List.mem_append.mp he with h | h
      · obtain ⟨b, k, hk, _⟩ := hws e h
        exact ⟨b, k, hk⟩
      · exact ⟨CBuffer.pass, 0, List.mem_singleton.mp h⟩

theorem sample_frame_spec (smp : Sample) (N : Nat) (g : Nat × Nat) (s : D3DRenderContext) :
    ∃ j, smp.frame N g s = some (gpu_retire j (smp.frame_effect N s)) := by
  cases smp with
  | stenciling => exact stenciling_frame_spec N g s
  | bezier => exact bezier_frame_spec N g s

theorem sample_frame_effect_frame_index (smp : Sample) (N : Nat) (s : D3DRenderContext) :
    (smp.frame_effect N s).frame_index = (s.frame_index + 1) % UINT_SIZE % N := by
  have h := (sample_turn_like smp N s).2.2.2.2
  exact h

/-! ## The slots named by the command list -/

theorem draw_render_items_slots (sizes : DrawSizes) (materials : List Material)
    (o m : GpuAddress) (arr : RenderItemArray) (fi : Nat) :
    ∀ c ∈ draw_render_items sizes materials o m arr fi, ∀ i ∈ c.slots,
      i = o.slot ∨ i = m.slot := by
  intro c hc i hi
  simp only [draw_render_items, List.mem_flatMap, List.mem_range] at hc
  obtain ⟨k, _, hk⟩ := hc
  cases hit : arr.ritems[k]? with
  | none => simp [hit] at hk
  | some item =>
    simp only [hit] at hk
    by_cases hinit : item.initialized = true
    · simp only [hinit, if_true, List.mem_cons, List.mem_singleton, List.not_mem_nil,
        or_false] at hk
      rcases hk with h | h | h | h | h | h | h <;> subst h <;>
        simp [DrawCmd.slots] at hi <;> simp [hi]
    · simp [hinit] at hk

theorem stenciling_draw_main_slots (sizes : DrawSizes) (layers : Stenciling.RenderLayers)
    (s : D3DRenderContext) :
    ∀ c ∈ Stenciling.draw_main_commands sizes layers s, ∀ i ∈ c.slots, i = s.frame_index := by
  intro c hc i hi
  have hitems : ∀ arr, c ∈ draw_render_items sizes s.materials
      ⟨s.frame_index, CBuffer.obj, 0⟩ ⟨s.frame_index, CBuffer.mat, 0⟩ arr s.frame_index →
      i = s.frame_index := by
    intro arr h
    rcases draw_render_items_slots sizes s.materials _ _ arr s.frame_index c h i hi with h1 | h1
    · exact h1
    · exact h1
  simp only [Stenciling.draw_main_commands, List.mem_append, List.mem_cons, List.mem_singleton,
    List.not_mem_nil, or_false] at hc
  rcases hc with ((((((((((((h | h) | h) | h) | h) | h) | h) | h) | h) | h) | h) | h) | h)
  all_goals first
    | exact hitems _ h
    | (rcases h with h | h | h | h | h | h | h | h | h | h <;> subst h <;>
        simp [DrawCmd.slots] at hi <;> exact hi)
    | (rcases h with h | h | h <;> subst h <;> simp [DrawCmd.slots] at hi <;> exact hi)
    | (rcases h with h | h <;> subst h <;> simp [DrawCmd.slots] at hi <;> exact hi)
    | (subst h; simp [DrawCmd.slots] at hi)

theorem bezier_draw_main_slots (sizes : DrawSizes) (layers : Bezier.RenderLayers)
    (global_tess_switch : Int) (global_imgui_enabled : Bool) (s : D3DRenderContext) :
    ∀ c ∈ Bezier.draw_main_commands sizes layers global_tess_switch global_imgui_enabled s,
      ∀ i ∈ c.slots, i = s.frame_index := by
  intro c hc i hi
  have hitems : ∀ arr, c ∈ draw_render_items sizes s.materials
      ⟨s.frame_index, CBuffer.obj, 0⟩ ⟨s.frame_index, CBuffer.mat, 0⟩ arr s.frame_index →
      i = s.frame_index := by
    intro arr h
    rcases draw_render_items_slots sizes s.materials _ _ arr s.frame_index c h i hi with h1 | h1
    · exact h1
    · exact h1
  simp only [Bezier.draw_main_commands, List.mem_append, List.mem_cons, List.mem_singleton,
    List.not_mem_nil, or_false] at hc
  rcases hc with ((((h | h) | h) | h) | h)
  · rcases h with h | h | h | h | h | h | h | h | h | h <;> subst h <;>
      simp [DrawCmd.slots] at hi <;> exact hi
  · split at h
    · rcases List.mem_cons.mp h with h | h
      · subst h; simp [DrawCmd.slots] at hi
      · exact hitems _ h
    · simp at h
  · split at h
    · rcases List.mem_cons.mp h with h | h
      · subst h; simp [DrawCmd.slots] at hi
      · exact hitems _ h
    · simp at h
  · split at h
    · rw [List.mem_singleton] at h
      subst h; simp [DrawCmd.slots] at hi
    · simp at h
  · rcases h with h | h <;> subst h <;> simp [DrawCmd.slots] at hi

/-! ## Order of the batches -/

theorem index_lt_of_pairwise {α : Type} (r : α → Nat) (l : List α)
    (hl : l.Pairwise (fun a b => r a ≤ r b)) (i j : Nat) (a b : α)
    (hi : l[i]? = some a) (hj : l[j]? = some b) (hr : r a < r b) : i < j := by
  by_contra hge
  rcases Nat.eq_or_lt_of_le (Nat.le_of_not_lt hge) with h | h
  · subst h
    rw [hi] at hj
    cases hj
    omega
  · obtain ⟨h1, e1⟩ := List.getElem?_eq_some.mp hi
    obtain ⟨h2, e2⟩ := List.getElem?_eq_some.mp hj
    have h3 := (List.pairwise_iff_getElem.mp hl) j i h2 h1 h
    rw [e1, e2] at h3
    omega

theorem pairwise_block {α : Type} (r : α → Nat) (k : Nat) (l : List α)
    (h : ∀ a ∈ l, r a = k) : l.Pairwise (fun a b => r a ≤ r b) :=
  List.pairwise_of_forall_mem_list (fun a ha b hb => by rw [h a ha, h b hb])

theorem pairwise_blocks {α : Type} (r : α → Nat) (k : Nat) (l₁ l₂ : List α)
    (h1 : l₁.Pairwise (fun a b => r a ≤ r b)) (hle : ∀ a ∈ l₁, r a ≤ k)
    (h2 : ∀ b ∈ l₂, r b = k + 1) :
    (l₁ ++ l₂).Pairwise (fun a b => r a ≤ r b) ∧ ∀ a ∈ l₁ ++ l₂, r a ≤ k + 1 := by
  constructor
  · rw [List.pairwise_append]
    refine ⟨h1, pairwise_block r (k + 1) l₂ h2, ?_⟩
    intro a ha b hb
    rw [h2 b hb]
    exact Nat.le_succ_of_le (hle a ha)
  · intro a ha
    rcases List.mem_append.mp ha with h | h
    · exact Nat.le_succ_of_le (hle a h)
    · exact Nat.le_of_eq (h2 a h)

theorem item_draw_pso (sizes : DrawSizes) (materials : List Material) (o m : GpuAddress)
    (pso stencil_ref : Option Nat) (pass_cb : Option GpuAddress) (items : List RenderItem) :
    ∀ d ∈ items.map (item_draw sizes materials o m pso stencil_ref pass_cb),
      d.state.pso = pso ∧ d.state.stencil_ref = stencil_ref ∧ d.state.pass_cb = pass_cb := by
  intro d hd
  obtain ⟨item, _, rfl⟩ := List.mem_map.mp hd
  exact ⟨rfl, rfl, rfl⟩

theorem item_draw_batch_of (sizes : DrawSizes) (materials : List Material) (o m : GpuAddress)
    (pso stencil_ref : Option Nat) (pass_cb : Option GpuAddress) (items : List RenderItem)
    (k : Nat)
    (hk : Stenciling.batch_of
      { state := { pso := pso, stencil_ref := stencil_ref }, index_count := 0,
        start_index_loc := 0, base_vertex_loc := 0 } = k) :
    ∀ d ∈ items.map (item_draw sizes materials o m pso stencil_ref pass_cb),
      Stenciling.batch_of d = k := by
  intro d hd
  obtain ⟨item, _, rfl⟩ := List.mem_map.mp hd
  rw [← hk]
  rfl

/-- The draw calls of the stenciling `draw_main` come batch after batch. -/
theorem stenciling_draws_pairwise (sizes : DrawSizes) (layers : Stenciling.RenderLayers)
    (s : D3DRenderContext) :
    (executed_draws {} (Stenciling.draw_main_commands sizes layers s)).Pairwise
      (fun a b => Stenciling.batch_of a ≤ Stenciling.batch_of b) := by
  rw [stenciling_draw_main_draws]
  have b0 := item_draw_batch_of sizes s.materials ⟨s.frame_index, CBuffer.obj, 0⟩
    ⟨s.frame_index, CBuffer.mat, 0⟩ (some Stenciling.LAYER_OPAQUE) none
    (some ⟨s.frame_index, CBuffer.pass, 0⟩) (drawn_items layers.opaque_ritems) 0 (by decide)
  have b1 := item_draw_batch_of sizes s.materials ⟨s.frame_index, CBuffer.obj, 0⟩
    ⟨s.frame_index, CBuffer.mat, 0⟩ (some Stenciling.LAYER_MIRRORS) (some 1)
    (some ⟨s.frame_index, CBuffer.pass, 0⟩) (drawn_items layers.mirrors_ritems) 1 (by decide)
  have b2 := item_draw_batch_of sizes s.materials ⟨s.frame_index, CBuffer.obj, 0⟩
    ⟨s.frame_index, CBuffer.mat, 0⟩ (some Stenciling.LAYER_REFLECTIONS) (some 1)
    (some ⟨s.frame_index, CBuffer.pass, 1 * sizes.sizeof_PassConstants⟩)
    (drawn_items layers.reflected_ritems) 2 (by decide)
  have b3 := item_draw_batch_of sizes s.materials ⟨s.frame_index, CBuffer.obj, 0⟩
    ⟨s.frame_index, CBuffer.mat, 0⟩ (some Stenciling.LAYER_SHADOW) (some 1)
    (some ⟨s.frame_index, CBuffer.pass, 1 * sizes.sizeof_PassConstants⟩)
    (drawn_items layers.reflected_shadow_ritems) 3 (by decide)
  have b4 := item_draw_batch_of sizes s.materials ⟨s.frame_index, CBuffer.obj, 0⟩
    ⟨s.frame_index, CBuffer.mat, 0⟩ (some Stenciling.LAYER_TRANSPARENT) (some 0)
    (some ⟨s.frame_index, CBuffer.pass, 0⟩) (drawn_items layers.transparent_ritems) 4 (by decide)
  have b5 := item_draw_batch_of sizes s.materials ⟨s.frame_index, CBuffer.obj, 0⟩
    ⟨s.frame_index, CBuffer.mat, 0⟩ (some Stenciling.LAYER_SHADOW) (some 0)
    (some ⟨s.frame_index, CBuffer.pass, 0⟩) (drawn_items layers.shadow_ritems) 5 (by decide)
  have p0 := pairwise_block Stenciling.batch_of 0 _ b0
  have p1 := pairwise_blocks Stenciling.batch_of 0 _ _ p0 (fun a ha => Nat.le_of_eq (b0 a ha)) b1
  have p2 := pairwise_blocks Stenciling.batch_of 1 _ _ p1.1 p1.2 b2
  have p3 := pairwise_blocks Stenciling.batch_of 2 _ _ p2.1 p2.2 b3
  have p4 := pairwise_blocks Stenciling.batch_of 3 _ _ p3.1 p3.2 b4
  have p5 := pairwise_blocks Stenciling.batch_of 4 _ _ p4.1 p4.2 b5
  exact p5.1

theorem item_draw_batch_pass (sizes : DrawSizes) (materials : List Material) (o m : GpuAddress)
    (pso stencil_ref : Option Nat) (pass_cb : Option GpuAddress) (items : List RenderItem)
    (k : Nat)
    (hk : Stenciling.batch_of
      { state := { pso := pso, stencil_ref := stencil_ref }, index_count := 0,
        start_index_loc := 0, base_vertex_loc := 0 } = k) :
    (items.map (item_draw sizes materials o m pso stencil_ref pass_cb)).map
        (fun d => (Stenciling.batch_of d, d.state.pass_cb))
      = List.replicate items.length (k, pass_cb) := by
  rw [List.map_map, ← List.map_const']
  apply List.map_congr_left
  intro item _
  show (Stenciling.batch_of (item_draw sizes materials o m pso stencil_ref pass_cb item), pass_cb)
    = (k, pass_cb)
  rw [← hk]
  rfl

/-! ## Runs of frames and resizes -/

theorem d3d_resize_effect_gpu (k : Nat) (s : D3DRenderContext) :
    ∃ k1, d3d_resize_effect (gpu_retire k s) = gpu_retire k1 (d3d_resize_effect s) := by
  unfold d3d_resize_effect
  have hg : ((gpu_retire k s).device && (gpu_retire k s).direct_cmd_list_alloc
      && (gpu_retire k s).swapchain) = (s.device && s.direct_cmd_list_alloc && s.swapchain) := rfl
  rw [hg]
  split
  · rw [flush_command_queue_effect_gpu, d3d_resize_body_gpu, flush_command_queue_effect_gpu]
    exact ⟨_, rfl⟩
  · exact ⟨k, rfl⟩

theorem loop_effect_gpu (F : D3DRenderContext → D3DRenderContext)
    (hF : ∀ k s, ∃ k1, F (gpu_retire k s) = gpu_retire k1 (F s)) :
    ∀ (ops : List LoopOp) (k : Nat) (s : D3DRenderContext),
      ∃ k1, loop_effect F ops (gpu_retire k s) = gpu_retire k1 (loop_effect F ops s) := by
  intro ops
  induction ops with
  | nil => intro k s; exact ⟨k, rfl⟩
  | cons op ops ih =>
    intro k s
    cases op with
    | frame g1 g2 =>
      obtain ⟨k1, hk1⟩ := hF k s
      obtain ⟨k2, hk2⟩ := ih k1 (F s)
      exact ⟨k2, by simp only [loop_effect, hk1, hk2]⟩
    | resize g1 g2 =>
      obtain ⟨k1, hk1⟩ := d3d_resize_effect_gpu k s
      obtain ⟨k2, hk2⟩ := ih k1 (d3d_resize_effect s)
      exact ⟨k2, by simp only [loop_effect, hk1, hk2]⟩

theorem run_loop_spec (frame : Nat × Nat → D3DRenderContext → Option D3DRenderContext)
    (F : D3DRenderContext → D3DRenderContext)
    (hF : ∀ k s, ∃ k1, F (gpu_retire k s) = gpu_retire k1 (F s))
    (hframe : ∀ g s, ∃ j, frame g s = some (gpu_retire j (F s))) :
    ∀ (ops : List LoopOp) (s : D3DRenderContext),
      ∃ j, run_loop frame ops s = some (gpu_retire j (loop_effect F ops s)) := by
  intro ops
  induction ops with
  | nil => intro s; exact ⟨0, rfl⟩
  | cons op ops ih =>
    intro s
    cases op with
    | frame g1 g2 =>
      obtain ⟨j, hj⟩ := hframe (g1, g2) s
      obtain ⟨j1, hj1⟩ := ih (gpu_retire j (F s))
      obtain ⟨k1, hk1⟩ := loop_effect_gpu F hF ops j (F s)
      refine ⟨k1 + j1, ?_⟩
      simp only [run_loop, hj, hj1, hk1, gpu_retire_add, loop_effect]
    | resize g1 g2 =>
      obtain ⟨j, hj⟩ := d3d_resize_spec g1 g2 s
      obtain ⟨j1, hj1⟩ := ih (gpu_retire j (d3d_resize_effect s))
      obtain ⟨k1, hk1⟩ := loop_effect_gpu F hF ops j (d3d_resize_effect s)
      refine ⟨k1 + j1, ?_⟩
      simp only [run_loop, hj, hj1, hk1, gpu_retire_add, loop_effect]

theorem sample_frame_effect_gpu (smp : Sample) (N : Nat) (k : Nat) (s : D3DRenderContext) :
    ∃ k1, smp.frame_effect N (gpu_retire k s) = gpu_retire k1 (smp.frame_effect N s) := by
  cases smp with
  | stenciling => exact stenciling_frame_effect_gpu N k s
  | bezier => exact bezier_frame_effect_gpu N k s

theorem sample_run_loop_spec (smp : Sample) (N : Nat) (ops : List LoopOp) (s : D3DRenderContext) :
    ∃ j, run_loop (smp.frame N) ops s
      = some (gpu_retire j (loop_effect (smp.frame_effect N) ops s)) :=
  run_loop_spec _ _ (sample_frame_effect_gpu smp N) (sample_frame_spec smp N) ops s

/-! ## The waits of a history -/

theorem slot_waits_append (a b : List Event) :
    ∀ last : Option Nat,
      slot_waits last (a ++ b) = slot_waits last a ++ slot_waits (last_signaled last a) b := by
  induction a with
  | nil => intro last; rfl
  | cons e rest ih =>
    intro last
    cases e <;> simp [slot_waits, last_signaled, ih]

theorem last_signaled_append (a b : List Event) :
    ∀ last : Option Nat,
      last_signaled last (a ++ b) = last_signaled (last_signaled last a) b := by
  induction a with
  | nil => intro last; rfl
  | cons e rest ih =>
    intro last
    cases e <;> simp [last_signaled, ih]

theorem slot_waits_memcpy (slot : Nat) :
    ∀ (ws : List Event) (last : Option Nat),
      (∀ e ∈ ws, ∃ b k, e = Event.memcpy slot b k) →
      slot_waits last ws = [] ∧ last_signaled last ws = last := by
  intro ws
  induction ws with
  | nil => intro last _; exact ⟨rfl, rfl⟩
  | cons e rest ih =>
    intro last h
    obtain ⟨b, k, rfl⟩ := h e (List.mem_cons_self _ _)
    have hrest := ih last (fun e he => h e (List.mem_cons_of_mem _ he))
    simpa [slot_waits, last_signaled] using hrest

/-- The waits of one turn of either loop: one, for the value just signaled. -/
theorem sample_frame_effect_waits (smp : Sample) (N : Nat) (s : D3DRenderContext) :
    ∃ new, (smp.frame_effect N s).log = s.log ++ new
      ∧ ∀ last, slot_waits last new = [(s.fence_of s.frame_index, some (s.fence_of s.frame_index))] := by
  obtain ⟨ws, hlog, hws, _⟩ := sample_frame_effect_log smp N s
  refine ⟨_, hlog, ?_⟩
  intro last
  obtain ⟨h1, h2⟩ := slot_waits_memcpy s.frame_index ws last hws
  rw [slot_waits_append, h1, h2]
  rfl

theorem d3d_resize_effect_waits (s : D3DRenderContext) :
    ∃ new, (d3d_resize_effect s).log = s.log ++ new ∧ ∀ last, slot_waits last new = [] := by
  unfold d3d_resize_effect
  split
  · obtain ⟨_, _, _, _, a5, a6⟩ := flush_command_queue_effect_keeps s
    obtain ⟨_, _, _, _, b5, b6⟩ := d3d_resize_body_keeps (flush_command_queue_effect s)
    obtain ⟨_, _, _, _, _, c6⟩ := flush_command_queue_effect_keeps
      (d3d_resize_body (flush_command_queue_effect s))
    refine ⟨_, by rw [c6, b6, a6, List.append_assoc, List.append_assoc], ?_⟩
    intro last
    rfl
  · exact ⟨[], by simp, fun _ => rfl⟩

theorem loop_effect_waits (smp : Sample) (N : Nat) :
    ∀ (ops : List LoopOp) (s : D3DRenderContext),
      ∃ new, (loop_effect (smp.frame_effect N) ops s).log = s.log ++ new
        ∧ ∀ last, (slot_waits last new).length = (ops.filter LoopOp.is_frame).length
          ∧ ∀ p ∈ slot_waits last new, p.2 = some p.1 := by
  intro ops
  induction ops with
  | nil => intro s; exact ⟨[], by simp [loop_effect], fun _ => ⟨rfl, by simp [slot_waits]⟩⟩
  | cons op ops ih =>
    intro s
    cases op with
    | frame g1 g2 =>
      obtain ⟨n1, h1, w1⟩ := sample_frame_effect_waits smp N s
      obtain ⟨n2, h2, w2⟩ := ih (smp.frame_effect N s)
      refine ⟨n1 ++ n2, by simp only [loop_effect, h2, h1, List.append_assoc], ?_⟩
      intro last
      rw [slot_waits_append, w1 last]
      obtain ⟨c2, g2⟩ := w2 (last_signaled last n1)
      constructor
      · simp [c2, LoopOp.is_frame, Nat.add_comm]
      · intro p hp
        rcases List.mem_append.mp hp with h | h
        · rw [List.mem_singleton.mp h]
        · exact g2 p h
    | resize g1 g2 =>
      obtain ⟨n1, h1, w1⟩ := d3d_resize_effect_waits s
      obtain ⟨n2, h2, w2⟩ := ih (d3d_resize_effect s)
      refine ⟨n1 ++ n2, by simp only [loop_effect, h2, h1, List.append_assoc], ?_⟩
      intro last
      rw [slot_waits_append, w1 last, List.nil_append]
      obtain ⟨c2, g2⟩ := w2 (last_signaled last n1)
      exact ⟨by simp [c2, LoopOp.is_frame], g2⟩

theorem startup_state_log (N n_obj n_mat : Nat) :
    (startup_state N n_obj n_mat).log
      = [Event.execute Allocator.direct, Event.signal 1, Event.wait_main 1] := by
  simp [startup_state, gpu_retire, flush_command_queue_effect,
    D3DRenderContext.ExecuteCommandLists, D3DRenderContext.set_fence, RenderContext_Init,
    UINT64_SIZE]

/-! ## The dirty counters after an update -/

theorem update_obj_cbuffers_step_counter (f : RenderItem → ObjectConstants) (fi : Nat)
    (u : D3DRenderContext) (k : Nat) :
    (∀ j, j ≠ k → (update_obj_cbuffers_step f fi u k).all_ritems.ritems[j]?
        = u.all_ritems.ritems[j]?)
    ∧ (update_obj_cbuffers_step f fi u k).all_ritems.ritems[k]?
        = (u.all_ritems.ritems[k]?).map RenderItem.after_update := by
  refine ⟨(update_obj_cbuffers_step_other f fi u k).1, ?_⟩
  rcases update_obj_cbuffers_step_cases f fi u k with ⟨hno, h⟩ | ⟨it, hit, hd, hinit, h⟩
  · rw [h]
    cases hk : u.all_ritems.ritems[k]? with
    | none => rfl
    | some it =>
      have := hno it hk
      simp [RenderItem.after_update, this]
  · rw [h, hit]
    have hlen : k < u.all_ritems.ritems.length := by
      by_contra hge
      rw [List.getElem?_eq_none (Nat.le_of_not_lt hge)] at hit
      cases hit
    simp [List.getElem?_set, hlen, RenderItem.after_update, hd, hinit]

theorem update_obj_cbuffers_with_counter (f : RenderItem → ObjectConstants)
    (t : D3DRenderContext) (j : Nat) :
    (update_obj_cbuffers_with f t).all_ritems.ritems[j]?
      = if j < t.all_ritems.size then (t.all_ritems.ritems[j]?).map RenderItem.after_update
        else t.all_ritems.ritems[j]? := by
  unfold update_obj_cbuffers_with
  simp only []
  generalize t.all_ritems.size = n
  induction n generalizing j with
  | zero => simp
  | succ n ih =>
    rw [List.range_succ, List.foldl_append, List.foldl_cons, List.foldl_nil]
    obtain ⟨h1, h2⟩ := update_obj_cbuffers_step_counter f t.frame_index
      ((List.range n).foldl (update_obj_cbuffers_step f t.frame_index) t) n
    by_cases hj : j = n
    · subst hj
      rw [h2, ih]
      simp
    · rw [h1 j hj, ih]
      by_cases hlt : j < n
      · simp [hlt, Nat.lt_succ_of_lt hlt]
      · have : ¬ j < n + 1 := by omega
        simp [hlt, this]

theorem update_mat_cbuffers_step_counter (fi : Nat) (u : D3DRenderContext) (k : Nat) :
    (∀ j, j ≠ k → (update_mat_cbuffers_step fi u k).materials[j]? = u.materials[j]?)
    ∧ (update_mat_cbuffers_step fi u k).materials[k]?
        = (u.materials[k]?).map Material.after_update := by
  refine ⟨(update_mat_cbuffers_step_other fi u k).1, ?_⟩
  rcases update_mat_cbuffers_step_cases fi u k with ⟨hno, h⟩ | ⟨mat, hmat, hd, h⟩
  · rw [h]
    cases hk : u.materials[k]? with
    | none => rfl
    | some mat =>
      have := hno mat hk
      simp [Material.after_update, this]
  · rw [h, hmat]
    have hlen : k < u.materials.length := by
      by_contra hge
      rw [List.getElem?_eq_none (Nat.le_of_not_lt hge)] at hmat
      cases hmat
    simp [List.getElem?_set, hlen, Material.after_update, hd]

theorem update_mat_cbuffers_counter (n : Nat) (t : D3DRenderContext) (j : Nat) :
    (update_mat_cbuffers n t).materials[j]?
      = if j < n then (t.materials[j]?).map Material.after_update else t.materials[j]? := by
  unfold update_mat_cbuffers
  simp only []
  induction n generalizing j with
  | zero => simp
  | succ n ih =>
    rw [List.range_succ, List.foldl_append, List.foldl_cons, List.foldl_nil]
    obtain ⟨h1, h2⟩ := update_mat_cbuffers_step_counter t.frame_index
      ((List.range n).foldl (update_mat_cbuffers_step t.frame_index) t) n
    by_cases hj : j = n
    · subst hj
      rw [h2, ih]
      simp
    · rw [h1 j hj, ih]
      by_cases hlt : j < n
      · simp [hlt, Nat.lt_succ_of_lt hlt]
      · have : ¬ j < n + 1 := by omega
        simp [hlt, this]

theorem cbuffer_updates_counters (f : RenderItem → ObjectConstants) (n : Nat)
    (s : D3DRenderContext) :
    (cbuffer_updates f n s).all_ritems = (update_obj_cbuffers_with f s).all_ritems
    ∧ (∀ j : Nat, (cbuffer_updates f n s).materials[j]? = (update_mat_cbuffers n s).materials[j]?)
    ∧ (update_obj_cbuffers_with f s).all_ritems.size = s.all_ritems.size := by
  refine ⟨(update_mat_cbuffers_keeps n (update_obj_cbuffers_with f s)).2.1, ?_,
    (update_obj_cbuffers_with_keeps f s).1.2.1⟩
  intro j
  unfold cbuffer_updates
  rw [update_mat_cbuffers_counter, update_mat_cbuffers_counter,
    (update_obj_cbuffers_with_keeps f s).2.1]

theorem sample_frame_effect_counters (smp : Sample) (N : Nat) (s : D3DRenderContext) :
    (smp.frame_effect N s).all_ritems
        = (update_obj_cbuffers_with smp.object_constants s).all_ritems
    ∧ (∀ j : Nat, (smp.frame_effect N s).materials[j]?
        = (update_mat_cbuffers smp.count_material s).materials[j]?) := by
  obtain ⟨h1, h2, _⟩ := sample_turn_like smp N s
  obtain ⟨c1, c2, _⟩ := cbuffer_updates_counters smp.object_constants smp.count_material s
  exact ⟨h1.trans c1, fun j => by rw [h2]; exact c2 j⟩

theorem after_update_item_bounds (M : Int) (it : RenderItem)
    (h : 0 ≤ it.n_frames_dirty ∧ it.n_frames_dirty ≤ M) :
    0 ≤ it.after_update.n_frames_dirty ∧ it.after_update.n_frames_dirty ≤ M := by
  unfold RenderItem.after_update
  split
  · rename_i hc
    simp only []
    omega
  · exact h

theorem after_update_material_bounds (M : Int) (mat : Material)
    (h : 0 ≤ mat.n_frames_dirty ∧ mat.n_frames_dirty ≤ M) :
    0 ≤ mat.after_update.n_frames_dirty ∧ mat.after_update.n_frames_dirty ≤ M := by
  unfold Material.after_update
  split
  · rename_i hc
    simp only []
    omega
  · exact h

/-- The counters stay between 0 and `M` over a turn of either loop. -/
theorem sample_frame_effect_bounds (smp : Sample) (N : Nat) (M : Int) (s : D3DRenderContext)
    (hi : ∀ (i : Nat) (it : RenderItem), s.all_ritems.ritems[i]? = some it →
      0 ≤ it.n_frames_dirty ∧ it.n_frames_dirty ≤ M)
    (hm : ∀ (i : Nat) (mat : Material), s.materials[i]? = some mat →
      0 ≤ mat.n_frames_dirty ∧ mat.n_frames_dirty ≤ M) :
    (∀ (i : Nat) (it : RenderItem), (smp.frame_effect N s).all_ritems.ritems[i]? = some it →
      0 ≤ it.n_frames_dirty ∧ it.n_frames_dirty ≤ M)
    ∧ (∀ (i : Nat) (mat : Material), (smp.frame_effect N s).materials[i]? = some mat →
      0 ≤ mat.n_frames_dirty ∧ mat.n_frames_dirty ≤ M) := by
  obtain ⟨h1, h2⟩ := sample_frame_effect_counters smp N s
  constructor
  · intro i it hit
    rw [h1, update_obj_cbuffers_with_counter] at hit
    split at hit
    · cases h0 : s.all_ritems.ritems[i]? with
      | none => rw [h0] at hit; cases hit
      | some it0 =>
        rw [h0] at hit
        cases hit
        exact after_update_item_bounds M it0 (hi i it0 h0)
    · exact hi i it hit
  · intro i mat hmat
    rw [h2, update_mat_cbuffers_counter] at hmat
    split at hmat
    · cases h0 : s.materials[i]? with
      | none => rw [h0] at hmat; cases hmat
      | some m0 =>
        rw [h0] at hmat
        cases hmat
        exact after_update_material_bounds M m0 (hm i m0 h0)
    · exact hm i mat hmat

theorem sample_iterate_bounds (smp : Sample) (N : Nat) (M : Int) :
    ∀ (n : Nat) (s : D3DRenderContext),
      (∀ (i : Nat) (it : RenderItem), s.all_ritems.ritems[i]? = some it →
        0 ≤ it.n_frames_dirty ∧ it.n_frames_dirty ≤ M) →
      (∀ (i : Nat) (mat : Material), s.materials[i]? = some mat →
        0 ≤ mat.n_frames_dirty ∧ mat.n_frames_dirty ≤ M) →
      (∀ (i : Nat) (it : RenderItem),
          (Nat.iterate (smp.frame_effect N) n s).all_ritems.ritems[i]? = some it →
        0 ≤ it.n_frames_dirty ∧ it.n_frames_dirty ≤ M)
      ∧ (∀ (i : Nat) (mat : Material),
          (Nat.iterate (smp.frame_effect N) n s).materials[i]? = some mat →
        0 ≤ mat.n_frames_dirty ∧ mat.n_frames_dirty ≤ M) := by
  intro n
  induction n with
  | zero => intro s hi hm; exact ⟨hi, hm⟩
  | succ n ih =>
    intro s hi hm
    obtain ⟨a, b⟩ := sample_frame_effect_bounds smp N M s hi hm
    simp only [Function.iterate_succ, Function.comp]
    exact ih _ a b

end D3D

namespace D3D

/-! ## The claims on `move_to_next_frame`, `flush_command_queue` and `d3d_resize` -/

/-- C12.  In both samples `move_to_next_frame` returns, and the stored fence
value of every slot other than the one at the frame index it was called with is
what it was before the call, under any GPU progress; the slot at that index
(when it exists) holds its old value plus one, mod 2^64. -/
theorem C12_only_called_slot_fence_changes (N gpu : Nat) (s : D3DRenderContext) (slot : Nat)
    (hslot : slot ≠ s.frame_index) :
    (∃ s1 r, Stenciling.move_to_next_frame N gpu s = some (s1, r)
        ∧ s1.fence_of slot = s.fence_of slot
        ∧ s1.fence_of s.frame_index
            = if s.frame_index < s.frame_resources.length then
                (s.fence_of s.frame_index + 1) % UINT64_SIZE
              else s.fence_of s.frame_index)
    ∧ (∃ s1, Bezier.move_to_next_frame N gpu s = some s1
        ∧ s1.fence_of slot = s.fence_of slot
        ∧ s1.fence_of s.frame_index
            = if s.frame_index < s.frame_resources.length then
                (s.fence_of s.frame_index + 1) % UINT64_SIZE
              else s.fence_of s.frame_index) := by
  have h1 : ∀ j, (gpu_retire j (move_to_next_frame_effect N s)).fence_of slot = s.fence_of slot := by
    intro j
    rw [gpu_retire_fence_of, move_to_next_frame_effect_fence_of]
    simp [hslot]
  have h2 : ∀ j, (gpu_retire j (move_to_next_frame_effect N s)).fence_of s.frame_index
      = if s.frame_index < s.frame_resources.length then
          (s.fence_of s.frame_index + 1) % UINT64_SIZE
        else s.fence_of s.frame_index := by
    intro j
    rw [gpu_retire_fence_of, move_to_next_frame_effect_fence_of]
    simp
  constructor
  · obtain ⟨j, hj, _⟩ := stenciling_move_to_next_frame_spec N gpu s
    exact ⟨_, _, hj, h1 j, h2 j⟩
  · obtain ⟨j, hj, _⟩ := bezier_move_to_next_frame_spec N gpu s
    exact ⟨_, hj, h1 j, h2 j⟩

/-- C12 at the start-up state of the stenciling sample (slot fences 1, 0, 0,
frame index 0): the call leaves the fence value of slot 1 at 0 and takes that
of slot 0 to 2. -/
theorem C12_only_called_slot_fence_changes_witness :
    1 ≠ (startup_state NUM_QUEUING_FRAMES Stenciling._COUNT_RENDERITEM
          Stenciling._COUNT_MATERIAL).frame_index
    ∧ ∃ s1 r, Stenciling.move_to_next_frame NUM_QUEUING_FRAMES 0
          (startup_state NUM_QUEUING_FRAMES Stenciling._COUNT_RENDERITEM Stenciling._COUNT_MATERIAL)
          = some (s1, r)
        ∧ s1.fence_of 1 = 0 ∧ s1.fence_of 0 = 2 :=
  ⟨by decide, by
    obtain ⟨s1, r, h, h1, h2⟩ := (C12_only_called_slot_fence_changes NUM_QUEUING_FRAMES 0
      (startup_state NUM_QUEUING_FRAMES Stenciling._COUNT_RENDERITEM Stenciling._COUNT_MATERIAL)
      1 (by decide)).1
    exact ⟨s1, r, h, by rw [h1]; decide, by
      have h3 : (startup_state NUM_QUEUING_FRAMES Stenciling._COUNT_RENDERITEM
          Stenciling._COUNT_MATERIAL).frame_index = 0 := by decide
      rw [h3] at h2
      rw [h2]
      decide⟩⟩

/-- C18.  When the increment does not wrap, `flush_command_queue` returns under
any GPU progress, with `main_current_fence` one more than before; the call
appends one `Signal` of that new value to the queue and to the history, then
the wait for it; on return the completed value of the fence is at least
that value; when the completed value read after the `Signal` is already at
least that value the call returns the context as it was at that check, and
`frame_index` and every slot's stored fence value are as before. -/
theorem C18_flush_command_queue (gpu : Nat) (s : D3DRenderContext)
    (hmain : s.main_current_fence + 1 < UINT64_SIZE) :
    ∃ s1 j, flush_command_queue gpu s = some s1
      ∧ s1.main_current_fence = s.main_current_fence + 1
      ∧ s1 = gpu_retire j
          { s with
            main_current_fence := s.main_current_fence + 1
            cmd_queue := s.cmd_queue ++ [QueueCmd.signal (s.main_current_fence + 1)]
            log := s.log ++ [Event.signal (s.main_current_fence + 1),
              Event.wait_main (s.main_current_fence + 1)] }
      ∧ s1.log = s.log ++ [Event.signal (s.main_current_fence + 1),
          Event.wait_main (s.main_current_fence + 1)]
      ∧ s.main_current_fence + 1 ≤ s1.fence_completed
      ∧ ((gpu_retire gpu (s.Signal (s.main_current_fence + 1))).fence_completed
            < s.main_current_fence + 1
          ∨ (s1.cmd_queue = (gpu_retire gpu (s.Signal (s.main_current_fence + 1))).cmd_queue
            ∧ s1.fence_completed
                = (gpu_retire gpu (s.Signal (s.main_current_fence + 1))).fence_completed))
      ∧ s1.frame_index = s.frame_index
      ∧ (∀ slot, s1.fence_of slot = s.fence_of slot) := by
  have hm : (s.main_current_fence + 1) % UINT64_SIZE = s.main_current_fence + 1 :=
    Nat.mod_eq_of_lt hmain
  obtain ⟨j, hj, hle⟩ := flush_command_queue_spec gpu s
  have heff : flush_command_queue_effect s
      = { s with
          main_current_fence := s.main_current_fence + 1
          cmd_queue := s.cmd_queue ++ [QueueCmd.signal (s.main_current_fence + 1)]
          log := s.log ++ [Event.signal (s.main_current_fence + 1),
            Event.wait_main (s.main_current_fence + 1)] } := by
    simp only [flush_command_queue_effect, hm]
  rw [hm] at hle
  by_cases hc : (gpu_retire gpu (s.Signal (s.main_current_fence + 1))).fence_completed
      < s.main_current_fence + 1
  · refine ⟨_, j, hj, ?_, ?_, ?_, hle, Or.inl hc, rfl, fun slot => rfl⟩
    · rw [gpu_retire_main_current_fence, heff]
    · rw [heff]
    · rw [gpu_retire_log, heff]
  · have hq : flush_command_queue gpu s = some (gpu_retire gpu (flush_command_queue_effect s)) := by
      rw [flush_command_queue_eq, hm]
      unfold wait_for_fence
      have hc2 : ¬ (gpu_retire gpu (flush_command_queue_effect s)).fence_completed
          < s.main_current_fence + 1 := by
        simpa [gpu_retire, flush_command_queue_effect, D3DRenderContext.Signal, hm] using hc
      simp only [hc2, if_false]
    refine ⟨_, gpu, hq, ?_, ?_, ?_, ?_, Or.inr ⟨?_, ?_⟩, rfl, fun slot => rfl⟩
    · rw [gpu_retire_main_current_fence, heff]
    · rw [heff]
    · rw [gpu_retire_log, heff]
    · have hc3 := Nat.le_of_not_lt hc
      simpa [gpu_retire, flush_command_queue_effect, D3DRenderContext.Signal, hm] using hc3
    · simp [gpu_retire, flush_command_queue_effect, D3DRenderContext.Signal, hm]
    · simp [gpu_retire, flush_command_queue_effect, D3DRenderContext.Signal, hm]

/-- C18 at the start-up state of the stenciling sample, where
`main_current_fence` is 1: the flush returns and leaves it at 2. -/
theorem C18_flush_command_queue_witness :
    (startup_state NUM_QUEUING_FRAMES Stenciling._COUNT_RENDERITEM
        Stenciling._COUNT_MATERIAL).main_current_fence + 1 < UINT64_SIZE
    ∧ ∃ s1, flush_command_queue 0
          (startup_state NUM_QUEUING_FRAMES Stenciling._COUNT_RENDERITEM Stenciling._COUNT_MATERIAL)
          = some s1
        ∧ s1.main_current_fence = 2 :=
  ⟨by decide, by
    obtain ⟨s1, j, h, h1, _⟩ := C18_flush_command_queue 0
      (startup_state NUM_QUEUING_FRAMES Stenciling._COUNT_RENDERITEM Stenciling._COUNT_MATERIAL)
      (by decide)
    exact ⟨s1, h, by rw [h1]; decide⟩⟩

/-- C17.  For every context and GPU progress, either the guard of `d3d_resize`
holds, the first `flush_command_queue` returns with the completed value at
least the value it signaled, the rest of the function runs from that context
and returns, and the calls of the function are, in this order: `Signal` and
wait of the first flush, `Reset` of the direct command list, release of render
targets 0 and 1, release of the depth-stencil buffer, `ResizeBuffers`,
`ExecuteCommandLists` of the resize list, `Signal` and wait of the second
flush; or the guard fails and the function returns the context it was given. -/
theorem C17_resize_order (g1 g2 : Nat) (s : D3DRenderContext) :
    ((s.device && s.direct_cmd_list_alloc && s.swapchain) = true
      ∧ ∃ s0 s1, flush_command_queue g1 s = some s0
          ∧ (s.main_current_fence + 1) % UINT64_SIZE ≤ s0.fence_completed
          ∧ flush_command_queue g2 (d3d_resize_body s0) = some s1
          ∧ d3d_resize g1 g2 s = some s1
          ∧ ((s.main_current_fence + 1) % UINT64_SIZE + 1) % UINT64_SIZE ≤ s1.fence_completed
          ∧ s1.log = s.log ++
              [Event.signal ((s.main_current_fence + 1) % UINT64_SIZE),
               Event.wait_main ((s.main_current_fence + 1) % UINT64_SIZE),
               Event.list_reset Allocator.direct,
               Event.release_render_target 0,
               Event.release_render_target 1,
               Event.release_depth_stencil,
               Event.resize_buffers,
               Event.execute Allocator.direct,
               Event.signal (((s.main_current_fence + 1) % UINT64_SIZE + 1) % UINT64_SIZE),
               Event.wait_main (((s.main_current_fence + 1) % UINT64_SIZE + 1) % UINT64_SIZE)])
    ∨ ((s.device && s.direct_cmd_list_alloc && s.swapchain) = false
        ∧ d3d_resize g1 g2 s = some s) := by
  by_cases hg : (s.device && s.direct_cmd_list_alloc && s.swapchain) = true
  · left
    refine ⟨hg, ?_⟩
    obtain ⟨j1, h1, hle1⟩ := flush_command_queue_spec g1 s
    obtain ⟨j2, h2, hle2⟩ := flush_command_queue_spec g2
      (d3d_resize_body (gpu_retire j1 (flush_command_queue_effect s)))
    have hres : d3d_resize g1 g2 s
        = some (gpu_retire j2 (flush_command_queue_effect
            (d3d_resize_body (gpu_retire j1 (flush_command_queue_effect s))))) := by
      rw [d3d_resize_eq, if_pos hg, h1, Option.some_bind, h2]
    obtain ⟨_, _, _, _, a5, a6⟩ := flush_command_queue_effect_keeps s
    obtain ⟨_, _, _, _, b5, b6⟩ :=
      d3d_resize_body_keeps (gpu_retire j1 (flush_command_queue_effect s))
    obtain ⟨_, _, _, _, _, c6⟩ := flush_command_queue_effect_keeps
      (d3d_resize_body (gpu_retire j1 (flush_command_queue_effect s)))
    rw [gpu_retire_main_current_fence, a5] at b5
    rw [gpu_retire_log, a6] at b6
    rw [b5] at hle2 c6
    refine ⟨_, _, h1, hle1, h2, hres, hle2, ?_⟩
    rw [gpu_retire_log, c6, b6]
    simp only [List.append_assoc, List.cons_append, List.nil_append]
  · right
    have hg2 : (s.device && s.direct_cmd_list_alloc && s.swapchain) = false := by
      simpa using hg
    refine ⟨hg2, ?_⟩
    rw [d3d_resize_eq, if_neg hg]

/-- C15.  When `main_current_fence` is at least two increments below 2^64,
`d3d_resize` returns under any GPU progress, with `frame_index` and every
slot's stored fence value as before and `main_current_fence` not below its
value before; and any run of turns of either sample's main loop from the
context after the resize returns, with the same `frame_index`, stored fence
values, frame resources, render items and materials as the same run from the
context before the resize. -/
theorem C15_resize_keeps_slots (smp : Sample) (N g1 g2 : Nat) (s : D3DRenderContext)
    (hmain : s.main_current_fence + 2 < UINT64_SIZE) :
    ∃ s1, d3d_resize g1 g2 s = some s1
      ∧ s1.frame_index = s.frame_index
      ∧ (∀ slot, s1.fence_of slot = s.fence_of slot)
      ∧ s.main_current_fence ≤ s1.main_current_fence
      ∧ ∀ gs gs1 : List (Nat × Nat), gs1.length = gs.length →
          ∃ t t1, run_frames (smp.frame N) gs s = some t
            ∧ run_frames (smp.frame N) gs1 s1 = some t1
            ∧ t1.frame_index = t.frame_index
            ∧ (∀ slot, t1.fence_of slot = t.fence_of slot)
            ∧ SameSlots t1 t := by
  obtain ⟨j, hj⟩ := d3d_resize_spec g1 g2 s
  obtain ⟨hsame, hm⟩ := d3d_resize_effect_keeps s
  have hs1 : SameSlots (gpu_retire j (d3d_resize_effect s)) s :=
    same_slots_trans (gpu_retire_same_slots j _) hsame
  refine ⟨_, hj, hs1.1, ?_, ?_, ?_⟩
  · intro slot
    simp only [D3DRenderContext.fence_of, hs1.2.1]
  · rw [gpu_retire_main_current_fence, hm]
    split
    · rw [Nat.mod_eq_of_lt (by omega : s.main_current_fence + 1 < UINT64_SIZE),
        Nat.mod_eq_of_lt (by omega : s.main_current_fence + 1 + 1 < UINT64_SIZE)]
      omega
    · exact Nat.le_refl _
  · intro gs gs1 hlen
    obtain ⟨k, hk⟩ := sample_run_frames_spec smp N gs s
    obtain ⟨k1, hk1⟩ := sample_run_frames_spec smp N gs1 (gpu_retire j (d3d_resize_effect s))
    rw [hlen] at hk1
    have hit := sample_iterate_same smp N gs.length _ _ hs1
    have hfin : SameSlots
        (gpu_retire k1 (Nat.iterate (smp.frame_effect N) gs.length
          (gpu_retire j (d3d_resize_effect s))))
        (gpu_retire k (Nat.iterate (smp.frame_effect N) gs.length s)) :=
      same_slots_trans (same_slots_trans (gpu_retire_same_slots k1 _) hit)
        (same_slots_symm (gpu_retire_same_slots k _))
    refine ⟨_, _, hk, hk1, hfin.1, ?_, hfin⟩
    intro slot
    simp only [D3DRenderContext.fence_of, hfin.2.1]

/-- C15 at the start-up state of the stenciling sample: a resize, then four
turns of the loop, end at frame index 1 as four turns without the resize do. -/
theorem C15_resize_keeps_slots_witness :
    (startup_state NUM_QUEUING_FRAMES Stenciling._COUNT_RENDERITEM
        Stenciling._COUNT_MATERIAL).main_current_fence + 2 < UINT64_SIZE
    ∧ ∃ s1 t1, d3d_resize 0 0
          (startup_state NUM_QUEUING_FRAMES Stenciling._COUNT_RENDERITEM Stenciling._COUNT_MATERIAL)
          = some s1
        ∧ s1.frame_index = 0
        ∧ run_frames (Stenciling.frame NUM_QUEUING_FRAMES) [(0, 0), (1, 0), (0, 2), (3, 1)] s1
            = some t1
        ∧ t1.frame_index = 1 :=
  ⟨by decide, by
    obtain ⟨s1, h, h1, _, _, h4⟩ := C15_resize_keeps_slots Sample.stenciling NUM_QUEUING_FRAMES 0 0
      (startup_state NUM_QUEUING_FRAMES Stenciling._COUNT_RENDERITEM Stenciling._COUNT_MATERIAL)
      (by decide)
    obtain ⟨t, t1, ht, ht1, hfi, _⟩ := h4 [(0, 0), (0, 0), (0, 0), (0, 0)]
      [(0, 0), (1, 0), (0, 2), (3, 1)] rfl
    obtain ⟨k, hk⟩ := stenciling_run_frames_spec NUM_QUEUING_FRAMES
      [(0, 0), (0, 0), (0, 0), (0, 0)]
      (startup_state NUM_QUEUING_FRAMES Stenciling._COUNT_RENDERITEM Stenciling._COUNT_MATERIAL)
    have hte : t = gpu_retire k (Stenciling.after_frames 4) :=
      Option.some.inj (ht.symm.trans hk)
    refine ⟨s1, t1, h, by rw [h1]; decide, ht1, ?_⟩
    rw [hfi, hte, gpu_retire_frame_index]
    decide⟩

/-- C16 (violated by the code).  Tessellation sample, start-up and five turns
of the loop, then the drain of `d3d_resize`: under any GPU progress the values
signaled are 1, 1, 0, 0, 2, 1 and then 2 by the drain, a value the fourth turn
had signaled already; when the GPU retires only what the waits force, the
completed value is 2 when the drain tests it, so the drain returns at once
with the command list of the fifth turn still in the queue.  Stenciling
sample, start-up, a frame, a resize, a frame, then the drain of a second
resize: the values signaled are 1, 1, 3, 4, 0 and then 2, the completed value
is 4, and the drain returns with the command list of the second frame still
in the queue. -/
theorem C16_resize_drain_signals_stale_value (gpu gf : Nat) (g0 g1 g2 g3 g4 : Nat × Nat) :
    (∃ s s1, (startup NUM_QUEUING_FRAMES Bezier._COUNT_RENDERITEM Bezier._COUNT_MATERIAL gpu).bind
          (run_frames (Bezier.frame NUM_QUEUING_FRAMES) [g0, g1, g2, g3, g4]) = some s
      ∧ flush_command_queue gf s = some s1
      ∧ signaled_values s.log = [1, 1, 0, 0, 2, 1]
      ∧ signaled_values s1.log = [1, 1, 0, 0, 2, 1, 2])
    ∧ (((startup NUM_QUEUING_FRAMES Bezier._COUNT_RENDERITEM Bezier._COUNT_MATERIAL 0).bind
          (run_frames (Bezier.frame NUM_QUEUING_FRAMES)
            [(0, 0), (0, 0), (0, 0), (0, 0), (0, 0)])).bind (flush_command_queue 0)).map
        (fun s1 => (s1.cmd_queue, s1.fence_completed))
        = some ([QueueCmd.execute (Allocator.frame 1), QueueCmd.signal 1, QueueCmd.signal 2], 2)
    ∧ (((startup NUM_QUEUING_FRAMES Stenciling._COUNT_RENDERITEM Stenciling._COUNT_MATERIAL 0).bind
          (run_loop (Stenciling.frame NUM_QUEUING_FRAMES)
            [LoopOp.frame 0 0, LoopOp.resize 0 0, LoopOp.frame 0 0])).bind
          (flush_command_queue 0)).map
        (fun s1 => (signaled_values s1.log, s1.cmd_queue, s1.fence_completed))
        = some ([1, 1, 3, 4, 0, 2],
            [QueueCmd.execute (Allocator.frame 1), QueueCmd.signal 0, QueueCmd.signal 2], 4) := by
  refine ⟨?_, ?_, ?_⟩
  · obtain ⟨j, hj⟩ := bezier_startup_run gpu [g0, g1, g2, g3, g4]
    simp only [List.length_cons, List.length_nil] at hj
    obtain ⟨j1, hj1, _⟩ := flush_command_queue_spec gf
      (gpu_retire j (Bezier.after_frames (0 + 1 + 1 + 1 + 1 + 1)))
    refine ⟨_, _, hj, hj1, ?_, ?_⟩
    · rw [gpu_retire_log]
      decide
    · rw [gpu_retire_log, flush_command_queue_effect_gpu, gpu_retire_log]
      decide
  · rw [startup_eq]
    decide
  · rw [startup_eq]
    decide

/-! ## The claims on the turn of the main loop and on `draw_main` -/

/-- C14.  A turn of either main loop, entered with frame index `i` under any
GPU progress, returns, and its history is: constant buffer writes, every one
to a buffer of slot `i` (the write of pass record 0 among them); then the
`Reset` of the allocator of slot `i` and of the list, `ExecuteCommandLists`
and `Present` of `draw_main`; then `Signal` and the wait of
`move_to_next_frame`.  `draw_main` is called with `frame_index` still `i`, and
every allocator and constant buffer named by a call it records is of slot `i`;
`frame_index` is `(i + 1) mod N` after the turn. -/
theorem C14_writes_precede_submit (N : Nat) (g : Nat × Nat) (s : D3DRenderContext)
    (sizes : DrawSizes) (layers : Stenciling.RenderLayers) (tess_layers : Bezier.RenderLayers)
    (global_tess_switch : Int) (global_imgui_enabled : Bool) :
    (∃ s1 ws, Stenciling.frame N g s = some s1
      ∧ s1.log = s.log ++ ws
          ++ [Event.alloc_reset (Allocator.frame s.frame_index),
              Event.list_reset (Allocator.frame s.frame_index),
              Event.execute (Allocator.frame s.frame_index), Event.present,
              Event.signal (s.fence_of s.frame_index),
              Event.wait_slot s.frame_index (s.fence_of s.frame_index)]
      ∧ (∀ e ∈ ws, ∃ b k, e = Event.memcpy s.frame_index b k)
      ∧ Event.memcpy s.frame_index CBuffer.pass 0 ∈ ws
      ∧ (Stenciling.update_cbuffers (gpu_retire g.1 s)).frame_index = s.frame_index
      ∧ DrawCmd.Reset (Allocator.frame s.frame_index) Stenciling.LAYER_OPAQUE
          ∈ Stenciling.draw_main_commands sizes layers
              (Stenciling.update_cbuffers (gpu_retire g.1 s))
      ∧ (∀ c ∈ Stenciling.draw_main_commands sizes layers
              (Stenciling.update_cbuffers (gpu_retire g.1 s)),
          ∀ i ∈ c.slots, i = s.frame_index)
      ∧ s1.frame_index = (s.frame_index + 1) % UINT_SIZE % N)
    ∧ (∃ s1 ws, Bezier.frame N g s = some s1
      ∧ s1.log = s.log ++ ws
          ++ [Event.alloc_reset (Allocator.frame s.frame_index),
              Event.list_reset (Allocator.frame s.frame_index),
              Event.execute (Allocator.frame s.frame_index), Event.present,
              Event.signal (s.fence_of s.frame_index),
              Event.wait_slot s.frame_index (s.fence_of s.frame_index)]
      ∧ (∀ e ∈ ws, ∃ b k, e = Event.memcpy s.frame_index b k)
      ∧ Event.memcpy s.frame_index CBuffer.pass 0 ∈ ws
      ∧ (Bezier.update_cbuffers (gpu_retire g.1 s)).frame_index = s.frame_index
      ∧ DrawCmd.Reset (Allocator.frame s.frame_index) Bezier.LAYER_BASIC_TESS
          ∈ Bezier.draw_main_commands sizes tess_layers global_tess_switch global_imgui_enabled
              (Bezier.update_cbuffers (gpu_retire g.1 s))
      ∧ (∀ c ∈ Bezier.draw_main_commands sizes tess_layers global_tess_switch
              global_imgui_enabled (Bezier.update_cbuffers (gpu_retire g.1 s)),
          ∀ i ∈ c.slots, i = s.frame_index)
      ∧ s1.frame_index = (s.frame_index + 1) % UINT_SIZE % N) := by
  constructor
  · obtain ⟨j, hj⟩ := sample_frame_spec Sample.stenciling N g s
    obtain ⟨ws, hlog, hws, hpass⟩ := sample_frame_effect_log Sample.stenciling N s
    have hfi : (Stenciling.update_cbuffers (gpu_retire g.1 s)).frame_index = s.frame_index :=
      (stenciling_update_cbuffers_log (gpu_retire g.1 s)).1
    refine ⟨_, ws, hj, ?_, hws, hpass, hfi, ?_, ?_, ?_⟩
    · rw [gpu_retire_log, hlog]
      simp only [turn_events, List.append_assoc]
    · simp [Stenciling.draw_main_commands, hfi]
    · intro c hc i hi
      rw [← hfi]
      exact stenciling_draw_main_slots sizes layers _ c hc i hi
    · rw [gpu_retire_frame_index]
      exact sample_frame_effect_frame_index Sample.stenciling N s
  · obtain ⟨j, hj⟩ := sample_frame_spec Sample.bezier N g s
    obtain ⟨ws, hlog, hws, hpass⟩ := sample_frame_effect_log Sample.bezier N s
    have hfi : (Bezier.update_cbuffers (gpu_retire g.1 s)).frame_index = s.frame_index :=
      (bezier_update_cbuffers_log (gpu_retire g.1 s)).1
    refine ⟨_, ws, hj, ?_, hws, hpass, hfi, ?_, ?_, ?_⟩
    · rw [gpu_retire_log, hlog]
      simp only [turn_events, List.append_assoc]
    · simp [Bezier.draw_main_commands, hfi]
    · intro c hc i hi
      rw [← hfi]
      exact bezier_draw_main_slots sizes tess_layers _ _ _ c hc i hi
    · rw [gpu_retire_frame_index]
      exact sample_frame_effect_frame_index Sample.bezier N s

/-- C19.  For every content of the render-item arrays, the draw calls of the
command list the stenciling `draw_main` records are, in this order: those of
the opaque items (pipeline state OPAQUE), of the mirrors (MIRRORS, stencil
reference 1), of the reflected items (REFLECTIONS, stencil reference 1), of the
reflected shadow (SHADOW, stencil reference 1), of the transparent mirror
(TRANSPARENT, stencil reference 0) and of the shadow (SHADOW, stencil
reference 0), one per initialized item of the array; so every draw call with
the MIRRORS state comes before every one with REFLECTIONS, which comes before
every one with TRANSPARENT. -/
theorem C19_batch_order (sizes : DrawSizes) (layers : Stenciling.RenderLayers)
    (s : D3DRenderContext) :
    executed_draws {} (Stenciling.draw_main_commands sizes layers s)
      = (drawn_items layers.opaque_ritems).map
          (item_draw sizes s.materials ⟨s.frame_index, CBuffer.obj, 0⟩ ⟨s.frame_index, CBuffer.mat, 0⟩
            (some Stenciling.LAYER_OPAQUE) none (some ⟨s.frame_index, CBuffer.pass, 0⟩))
        ++ (drawn_items layers.mirrors_ritems).map
          (item_draw sizes s.materials ⟨s.frame_index, CBuffer.obj, 0⟩ ⟨s.frame_index, CBuffer.mat, 0⟩
            (some Stenciling.LAYER_MIRRORS) (some 1) (some ⟨s.frame_index, CBuffer.pass, 0⟩))
        ++ (drawn_items layers.reflected_ritems).map
          (item_draw sizes s.materials ⟨s.frame_index, CBuffer.obj, 0⟩ ⟨s.frame_index, CBuffer.mat, 0⟩
            (some Stenciling.LAYER_REFLECTIONS) (some 1)
            (some ⟨s.frame_index, CBuffer.pass, 1 * sizes.sizeof_PassConstants⟩))
        ++ (drawn_items layers.reflected_shadow_ritems).map
          (item_draw sizes s.materials ⟨s.frame_index, CBuffer.obj, 0⟩ ⟨s.frame_index, CBuffer.mat, 0⟩
            (some Stenciling.LAYER_SHADOW) (some 1)
            (some ⟨s.frame_index, CBuffer.pass, 1 * sizes.sizeof_PassConstants⟩))
        ++ (drawn_items layers.transparent_ritems).map
          (item_draw sizes s.materials ⟨s.frame_index, CBuffer.obj, 0⟩ ⟨s.frame_index, CBuffer.mat, 0⟩
            (some Stenciling.LAYER_TRANSPARENT) (some 0) (some ⟨s.frame_index, CBuffer.pass, 0⟩))
        ++ (drawn_items layers.shadow_ritems).map
          (item_draw sizes s.materials ⟨s.frame_index, CBuffer.obj, 0⟩ ⟨s.frame_index, CBuffer.mat, 0⟩
            (some Stenciling.LAYER_SHADOW) (some 0) (some ⟨s.frame_index, CBuffer.pass, 0⟩))
    ∧ (executed_draws {} (Stenciling.draw_main_commands sizes layers s)).Pairwise
        (fun a b => Stenciling.batch_of a ≤ Stenciling.batch_of b)
    ∧ ∀ (i j : Nat) (a b : Draw),
        (executed_draws {} (Stenciling.draw_main_commands sizes layers s))[i]? = some a →
        (executed_draws {} (Stenciling.draw_main_commands sizes layers s))[j]? = some b →
        ((a.state.pso = some Stenciling.LAYER_MIRRORS
            ∧ b.state.pso = some Stenciling.LAYER_REFLECTIONS)
          ∨ (a.state.pso = some Stenciling.LAYER_REFLECTIONS
            ∧ b.state.pso = some Stenciling.LAYER_TRANSPARENT)
          ∨ (a.state.pso = some Stenciling.LAYER_MIRRORS
            ∧ b.state.pso = some Stenciling.LAYER_TRANSPARENT)) →
        i < j := by
  refine ⟨stenciling_draw_main_draws sizes layers s,
    stenciling_draws_pairwise sizes layers s, ?_⟩
  intro i j a b hi hj hab
  apply index_lt_of_pairwise Stenciling.batch_of _ (stenciling_draws_pairwise sizes layers s)
    i j a b hi hj
  rcases hab with ⟨ha, hb⟩ | ⟨ha, hb⟩ | ⟨ha, hb⟩ <;>
    simp [Stenciling.batch_of, ha, hb, Stenciling.LAYER_OPAQUE, Stenciling.LAYER_MIRRORS,
      Stenciling.LAYER_REFLECTIONS, Stenciling.LAYER_SHADOW, Stenciling.LAYER_TRANSPARENT]

/-- C20.  When `2 * sizeof(PassConstants)` fits a `UINT`:
`update_main_pass_cbuffers` writes `sizeof(PassConstants)` bytes at offset 0
and `update_reflected_pass_cbuffers` as many at offset
`1 * sizeof(PassConstants)`, both in the pass buffer of slot `frame_index`;
the draw calls of `draw_main` run, batch by batch, with the pass buffer view
at offset 0 of that slot (opaque, mirrors), at the offset of the reflected
record (reflected, reflected shadow) and at offset 0 again (transparent,
shadow); the two records do not overlap and both end within the
`pass_cb_size * pass_count` bytes requested for the buffer, which is
`2 * sizeof(PassConstants)`. -/
theorem C20_reflected_pass_record (sizes : DrawSizes) (layers : Stenciling.RenderLayers)
    (s : D3DRenderContext) (hsize : 2 * sizes.sizeof_PassConstants < UINT_SIZE) :
    Stenciling.update_main_pass_cbuffers sizes s
        = { slot := s.frame_index, buffer := CBuffer.pass, offset := 0,
            size := sizes.sizeof_PassConstants }
    ∧ Stenciling.update_reflected_pass_cbuffers sizes s
        = { slot := s.frame_index, buffer := CBuffer.pass,
            offset := 1 * sizes.sizeof_PassConstants, size := sizes.sizeof_PassConstants }
    ∧ (executed_draws {} (Stenciling.draw_main_commands sizes layers s)).map
          (fun d => (Stenciling.batch_of d, d.state.pass_cb))
        = List.replicate (drawn_items layers.opaque_ritems).length
            (0, some ⟨s.frame_index, CBuffer.pass, 0⟩)
          ++ List.replicate (drawn_items layers.mirrors_ritems).length
            (1, some ⟨s.frame_index, CBuffer.pass, 0⟩)
          ++ List.replicate (drawn_items layers.reflected_ritems).length
            (2, some ⟨s.frame_index, CBuffer.pass,
              (Stenciling.update_reflected_pass_cbuffers sizes s).offset⟩)
          ++ List.replicate (drawn_items layers.reflected_shadow_ritems).length
            (3, some ⟨s.frame_index, CBuffer.pass,
              (Stenciling.update_reflected_pass_cbuffers sizes s).offset⟩)
          ++ List.replicate (drawn_items layers.transparent_ritems).length
            (4, some ⟨s.frame_index, CBuffer.pass, 0⟩)
          ++ List.replicate (drawn_items layers.shadow_ritems).length
            (5, some ⟨s.frame_index, CBuffer.pass, 0⟩)
    ∧ (Stenciling.update_main_pass_cbuffers sizes s).offset
          + (Stenciling.update_main_pass_cbuffers sizes s).size
        ≤ (Stenciling.update_reflected_pass_cbuffers sizes s).offset
    ∧ (Stenciling.update_reflected_pass_cbuffers sizes s).offset
          + (Stenciling.update_reflected_pass_cbuffers sizes s).size
        ≤ Stenciling.pass_cb_bytes sizes
    ∧ Stenciling.pass_cb_bytes sizes = 2 * sizes.sizeof_PassConstants := by
  have hbytes : Stenciling.pass_cb_bytes sizes = 2 * sizes.sizeof_PassConstants := by
    unfold Stenciling.pass_cb_bytes
    simp only []
    rw [Nat.mod_eq_of_lt (by omega : sizes.sizeof_PassConstants < UINT_SIZE),
      Nat.mod_eq_of_lt (by omega : sizes.sizeof_PassConstants * 2 < UINT_SIZE)]
    omega
  refine ⟨rfl, rfl, ?_, ?_, ?_, hbytes⟩
  · rw [stenciling_draw_main_draws]
    simp only [List.map_append]
    rw [item_draw_batch_pass _ _ _ _ _ _ _ _ 0 (by decide),
      item_draw_batch_pass _ _ _ _ _ _ _ _ 1 (by decide),
      item_draw_batch_pass _ _ _ _ _ _ _ _ 2 (by decide),
      item_draw_batch_pass _ _ _ _ _ _ _ _ 3 (by decide),
      item_draw_batch_pass _ _ _ _ _ _ _ _ 4 (by decide),
      item_draw_batch_pass _ _ _ _ _ _ _ _ 5 (by decide)]
    rfl
  · simp [Stenciling.update_main_pass_cbuffers, Stenciling.update_reflected_pass_cbuffers]
  · rw [hbytes]
    simp only [Stenciling.update_reflected_pass_cbuffers]
    omega

/-- C20 with `sizeof(PassConstants) = 512`, one initialized reflected item and
one initialized transparent item, at the start-up state (frame index 0): the
reflected draw runs with the pass buffer view at byte 512 of slot 0, the
transparent draw with the view at byte 0, and the buffer has 1024 bytes. -/
theorem C20_reflected_pass_record_witness :
    2 * (DrawSizes.mk 256 256 512 32).sizeof_PassConstants < UINT_SIZE
    ∧ (executed_draws {} (Stenciling.draw_main_commands (DrawSizes.mk 256 256 512 32)
          { reflected_ritems := { ritems := [{ initialized := true }], size := 1 },
            transparent_ritems := { ritems := [{ initialized := true }], size := 1 } }
          (startup_state NUM_QUEUING_FRAMES Stenciling._COUNT_RENDERITEM
            Stenciling._COUNT_MATERIAL))).map
          (fun d => (Stenciling.batch_of d, d.state.pass_cb))
        = [(2, some ⟨0, CBuffer.pass, 512⟩), (4, some ⟨0, CBuffer.pass, 0⟩)]
    ∧ Stenciling.pass_cb_bytes (DrawSizes.mk 256 256 512 32) = 1024 :=
  ⟨by decide, by
    obtain ⟨_, _, h3, _, _, h6⟩ := C20_reflected_pass_record (DrawSizes.mk 256 256 512 32)
      { reflected_ritems := { ritems := [{ initialized := true }], size := 1 },
        transparent_ritems := { ritems := [{ initialized := true }], size := 1 } }
      (startup_state NUM_QUEUING_FRAMES Stenciling._COUNT_RENDERITEM Stenciling._COUNT_MATERIAL)
      (by decide)
    exact ⟨h3.trans (by decide), h6.trans (by decide)⟩⟩

/-- C11.  In either sample, with any number of frame slots, start-up followed
by any list of frames and resizes under any GPU progress returns, and in its
history there is one wait of `move_to_next_frame` per frame, each for a value
that is at most (indeed equal to) the value of the latest `Signal` call before
it: the value waited for has been scheduled on the queue. -/
theorem C11_wait_value_was_signaled (smp : Sample) (N n_obj n_mat gpu : Nat)
    (ops : List LoopOp) :
    ∃ s, (startup N n_obj n_mat gpu).bind (run_loop (smp.frame N) ops) = some s
      ∧ (slot_waits none s.log).length = (ops.filter LoopOp.is_frame).length
      ∧ ∀ p ∈ slot_waits none s.log, ∃ w, p.2 = some w ∧ p.1 ≤ w ∧ p.1 = w := by
  obtain ⟨j, hj⟩ := sample_run_loop_spec smp N ops (startup_state N n_obj n_mat)
  obtain ⟨new, hlog, hw⟩ := loop_effect_waits smp N ops (startup_state N n_obj n_mat)
  refine ⟨_, by rw [startup_eq]; exact hj, ?_, ?_⟩
  · rw [gpu_retire_log, hlog, startup_state_log, slot_waits_append]
    exact (hw _).1
  · intro p hp
    rw [gpu_retire_log, hlog, startup_state_log, slot_waits_append] at hp
    have h := (hw _).2 p (by simpa [slot_waits] using hp)
    exact ⟨p.1, h, Nat.le_refl _, rfl⟩

/-! ## The claim on the dirty counters -/

/-- C13.  In either sample: `update_obj_cbuffers` leaves every render item
among the first `size` of `all_ritems` with its counter lowered by one when the
counter is positive and the item is initialized (as every item the samples
create is), and unchanged otherwise, so a counter at 0 stays 0;
`update_mat_cbuffers` does the same to every material below `_COUNT_MATERIAL`;
a turn of the main loop returns under any GPU progress and does to the
counters what these two updates do; and when all counters are between 0 and a
bound `M` (such as `NUM_QUEUING_FRAMES`), they are between 0 and `M` after any
run of turns. -/
theorem C13_dirty_counter_decrement (smp : Sample) (N : Nat) (M : Int) (s : D3DRenderContext) :
    (∀ (i : Nat) (it : RenderItem), i < s.all_ritems.size →
        s.all_ritems.ritems[i]? = some it →
        ∃ it1, (update_obj_cbuffers_with smp.object_constants s).all_ritems.ritems[i]? = some it1
          ∧ it1.n_frames_dirty
              = (if 0 < it.n_frames_dirty ∧ it.initialized = true then it.n_frames_dirty - 1
                 else it.n_frames_dirty)
          ∧ (it.initialized = true → 0 < it.n_frames_dirty →
              it1.n_frames_dirty = it.n_frames_dirty - 1)
          ∧ (it.n_frames_dirty = 0 → it1.n_frames_dirty = 0))
    ∧ (∀ (i : Nat) (mat : Material), i < smp.count_material → s.materials[i]? = some mat →
        ∃ mat1, (update_mat_cbuffers smp.count_material s).materials[i]? = some mat1
          ∧ mat1.n_frames_dirty
              = (if 0 < mat.n_frames_dirty then mat.n_frames_dirty - 1 else mat.n_frames_dirty)
          ∧ (mat.n_frames_dirty = 0 → mat1.n_frames_dirty = 0))
    ∧ (∀ g : Nat × Nat, ∃ s1, smp.frame N g s = some s1
        ∧ s1.all_ritems = (update_obj_cbuffers_with smp.object_constants s).all_ritems
        ∧ ∀ j : Nat, s1.materials[j]? = (update_mat_cbuffers smp.count_material s).materials[j]?)
    ∧ ((∀ (i : Nat) (it : RenderItem), s.all_ritems.ritems[i]? = some it →
          0 ≤ it.n_frames_dirty ∧ it.n_frames_dirty ≤ M) →
       (∀ (i : Nat) (mat : Material), s.materials[i]? = some mat →
          0 ≤ mat.n_frames_dirty ∧ mat.n_frames_dirty ≤ M) →
       ∀ gs : List (Nat × Nat), ∃ s2, run_frames (smp.frame N) gs s = some s2
        ∧ (∀ (i : Nat) (it : RenderItem), s2.all_ritems.ritems[i]? = some it →
            0 ≤ it.n_frames_dirty ∧ it.n_frames_dirty ≤ M)
        ∧ (∀ (i : Nat) (mat : Material), s2.materials[i]? = some mat →
            0 ≤ mat.n_frames_dirty ∧ mat.n_frames_dirty ≤ M)) := by
  refine ⟨?_, ?_, ?_, ?_⟩
  · intro i it hi hit
    refine ⟨it.after_update, ?_, ?_, ?_, ?_⟩
    · rw [update_obj_cbuffers_with_counter, if_pos hi, hit]
      rfl
    · unfold RenderItem.after_update
      split <;> rfl
    · intro hinit hd
      simp [RenderItem.after_update, hinit, hd]
    · intro h0
      have hno : ¬ (0 < it.n_frames_dirty ∧ it.initialized = true) := by
        intro hc
        omega
      simp [RenderItem.after_update, hno, h0]
  · intro i mat hi hmat
    refine ⟨mat.after_update, ?_, ?_, ?_⟩
    · rw [update_mat_cbuffers_counter, if_pos hi, hmat]
      rfl
    · unfold Material.after_update
      split <;> rfl
    · intro h0
      have hno : ¬ 0 < mat.n_frames_dirty := by omega
      simp [Material.after_update, hno, h0]
  · intro g
    obtain ⟨j, hj⟩ := sample_frame_spec smp N g s
    obtain ⟨h1, h2⟩ := sample_frame_effect_counters smp N s
    exact ⟨_, hj, h1, h2⟩
  · intro hi hm gs
    obtain ⟨j, hj⟩ := sample_run_frames_spec smp N gs s
    obtain ⟨a, b⟩ := sample_iterate_bounds smp N M gs.length s hi hm
    exact ⟨_, hj, a, b⟩

end D3D

namespace D3D

/-! ## The stored fence values over runs -/

theorem update_obj_cbuffers_with_length (f : RenderItem → ObjectConstants) (s : D3DRenderContext) :
    (update_obj_cbuffers_with f s).frame_resources.length = s.frame_resources.length := by
  unfold update_obj_cbuffers_with
  simp only []
  apply foldl_invariant
    (fun u : D3DRenderContext => u.frame_resources.length = s.frame_resources.length)
  · intro u i hu
    rcases update_obj_cbuffers_step_cases f s.frame_index u i with ⟨_, h⟩ | ⟨it, _, _, _, h⟩
    · rw [h]; exact hu
    · rw [h]
      simp only [List.length_modify]
      exact hu
  · rfl

theorem update_mat_cbuffers_length (n : Nat) (s : D3DRenderContext) :
    (update_mat_cbuffers n s).frame_resources.length = s.frame_resources.length := by
  unfold update_mat_cbuffers
  simp only []
  apply foldl_invariant
    (fun u : D3DRenderContext => u.frame_resources.length = s.frame_resources.length)
  · intro u i hu
    rcases update_mat_cbuffers_step_cases s.frame_index u i with ⟨_, h⟩ | ⟨mat, _, _, h⟩
    · rw [h]; exact hu
    · rw [h]
      simp only [List.length_modify]
      exact hu
  · rfl

theorem cbuffer_updates_length (f : RenderItem → ObjectConstants) (n : Nat) (s : D3DRenderContext) :
    (cbuffer_updates f n s).frame_resources.length = s.frame_resources.length := by
  unfold cbuffer_updates
  rw [update_mat_cbuffers_length, update_obj_cbuffers_with_length]

theorem move_to_next_frame_effect_length (N : Nat) (s : D3DRenderContext) :
    (move_to_next_frame_effect N s).frame_resources.length = s.frame_resources.length := by
  simp [move_to_next_frame_effect]

theorem sample_update_cbuffers_facts (smp : Sample) (N : Nat) (s : D3DRenderContext) :
    ∃ t, smp.frame_effect N s = { move_to_next_frame_effect N t with
          main_current_fence := (smp.frame_effect N s).main_current_fence }
      ∧ t.frame_index = s.frame_index
      ∧ (∀ slot, t.fence_of slot = s.fence_of slot)
      ∧ t.frame_resources.length = s.frame_resources.length := by
  cases smp with
  | stenciling =>
    refine ⟨draw_main (Stenciling.update_cbuffers s), rfl, ?_, ?_, ?_⟩
    · rw [(draw_main_keeps _).2.2.2]
      exact (stenciling_update_cbuffers_log s).1
    · intro slot
      rw [draw_main_fence_of]
      exact (stenciling_update_cbuffers_log s).2.1 slot
    · rw [(draw_main_keeps _).2.2.1, (stenciling_update_cbuffers_same s).2.1]
      exact cbuffer_updates_length _ _ s
  | bezier =>
    refine ⟨draw_main (Bezier.update_cbuffers s), rfl, ?_, ?_, ?_⟩
    · rw [(draw_main_keeps _).2.2.2]
      exact (bezier_update_cbuffers_log s).1
    · intro slot
      rw [draw_main_fence_of]
      exact (bezier_update_cbuffers_log s).2.1 slot
    · rw [(draw_main_keeps _).2.2.1, (bezier_update_cbuffers_same s).2.1]
      exact cbuffer_updates_length _ _ s

theorem sample_frame_effect_fence_of (smp : Sample) (N : Nat) (s : D3DRenderContext)
    (slot : Nat) :
    (smp.frame_effect N s).fence_of slot
      = if slot = s.frame_index ∧ slot < s.frame_resources.length then
          (s.fence_of s.frame_index + 1) % UINT64_SIZE
        else s.fence_of slot := by
  obtain ⟨t, ht, hfi, hf, hlen⟩ := sample_update_cbuffers_facts smp N s
  have h1 : (smp.frame_effect N s).fence_of slot = (move_to_next_frame_effect N t).fence_of slot := by
    rw [ht]
    rfl
  rw [h1, move_to_next_frame_effect_fence_of, hfi, hlen, hf, hf]

theorem sample_frame_effect_length (smp : Sample) (N : Nat) (s : D3DRenderContext) :
    (smp.frame_effect N s).frame_resources.length = s.frame_resources.length := by
  obtain ⟨t, ht, _, _, hlen⟩ := sample_update_cbuffers_facts smp N s
  have h1 : (smp.frame_effect N s).frame_resources
      = (move_to_next_frame_effect N t).frame_resources := by
    rw [ht]
  rw [h1, move_to_next_frame_effect_length, hlen]

/-- Three calls from frame index 0 with three slots: every slot's stored fence
value goes up by one. -/
theorem fences_after_three (F : D3DRenderContext → D3DRenderContext)
    (hfi : ∀ t, (F t).frame_index = (t.frame_index + 1) % UINT_SIZE % 3)
    (hlen : ∀ t, (F t).frame_resources.length = t.frame_resources.length)
    (hf : ∀ t slot, (F t).fence_of slot
      = if slot = t.frame_index ∧ slot < t.frame_resources.length then
          (t.fence_of t.frame_index + 1) % UINT64_SIZE
        else t.fence_of slot)
    (s : D3DRenderContext) (h0 : s.frame_index = 0) (h3 : s.frame_resources.length = 3) :
    (F (F (F s))).frame_index = 0 ∧ (F (F (F s))).frame_resources.length = 3
    ∧ (F (F (F s))).fence_of 0 = (s.fence_of 0 + 1) % UINT64_SIZE
    ∧ (F (F (F s))).fence_of 1 = (s.fence_of 1 + 1) % UINT64_SIZE
    ∧ (F (F (F s))).fence_of 2 = (s.fence_of 2 + 1) % UINT64_SIZE := by
  have a1 : (F s).frame_index = 1 := by rw [hfi, h0]; decide
  have a2 : (F (F s)).frame_index = 2 := by rw [hfi, a1]; decide
  have a3 : (F (F (F s))).frame_index = 0 := by rw [hfi, a2]; decide
  have l1 : (F s).frame_resources.length = 3 := by rw [hlen, h3]
  have l2 : (F (F s)).frame_resources.length = 3 := by rw [hlen, l1]
  have l3 : (F (F (F s))).frame_resources.length = 3 := by rw [hlen, l2]
  have e1 : ∀ slot, (F s).fence_of slot
      = if slot = 0 ∧ slot < 3 then (s.fence_of 0 + 1) % UINT64_SIZE else s.fence_of slot := by
    intro slot; rw [hf, h0, h3]
  have e2 : ∀ slot, (F (F s)).fence_of slot
      = if slot = 1 ∧ slot < 3 then ((F s).fence_of 1 + 1) % UINT64_SIZE
        else (F s).fence_of slot := by
    intro slot; rw [hf, a1, l1]
  have e3 : ∀ slot, (F (F (F s))).fence_of slot
      = if slot = 2 ∧ slot < 3 then ((F (F s)).fence_of 2 + 1) % UINT64_SIZE
        else (F (F s)).fence_of slot := by
    intro slot; rw [hf, a2, l2]
  refine ⟨a3, l3, ?_, ?_, ?_⟩
  · simp [e3, e2, e1]
  · simp [e3, e2, e1]
  · simp [e3, e2, e1]

theorem fences_after_3k (F : D3DRenderContext → D3DRenderContext)
    (hfi : ∀ t, (F t).frame_index = (t.frame_index + 1) % UINT_SIZE % 3)
    (hlen : ∀ t, (F t).frame_resources.length = t.frame_resources.length)
    (hf : ∀ t slot, (F t).fence_of slot
      = if slot = t.frame_index ∧ slot < t.frame_resources.length then
          (t.fence_of t.frame_index + 1) % UINT64_SIZE
        else t.fence_of slot)
    (s : D3DRenderContext) (h0 : s.frame_index = 0) (h3 : s.frame_resources.length = 3) :
    ∀ k : Nat, s.fence_of 0 + k < UINT64_SIZE → s.fence_of 1 + k < UINT64_SIZE →
      s.fence_of 2 + k < UINT64_SIZE →
      (Nat.iterate F (3 * k) s).frame_index = 0
      ∧ (Nat.iterate F (3 * k) s).frame_resources.length = 3
      ∧ (Nat.iterate F (3 * k) s).fence_of 0 = s.fence_of 0 + k
      ∧ (Nat.iterate F (3 * k) s).fence_of 1 = s.fence_of 1 + k
      ∧ (Nat.iterate F (3 * k) s).fence_of 2 = s.fence_of 2 + k := by
  intro k
  induction k with
  | zero => intro _ _ _; exact ⟨h0, h3, rfl, rfl, rfl⟩
  | succ k ih =>
    intro b0 b1 b2
    obtain ⟨i0, i3, f0, f1, f2⟩ := ih (by omega) (by omega) (by omega)
    have hstep : Nat.iterate F (3 * (k + 1)) s = F (F (F (Nat.iterate F (3 * k) s))) := by
      have h : 3 * (k + 1) = 3 + 3 * k := by omega
      rw [h, Function.iterate_add_apply]
      rfl
    obtain ⟨c0, c3, g0, g1, g2⟩ := fences_after_three F hfi hlen hf _ i0 i3
    rw [hstep]
    refine ⟨c0, c3, ?_, ?_, ?_⟩
    · rw [g0, f0, Nat.mod_eq_of_lt (by omega)]; omega
    · rw [g1, f1, Nat.mod_eq_of_lt (by omega)]; omega
    · rw [g2, f2, Nat.mod_eq_of_lt (by omega)]; omega

theorem startup_state_slots (n_obj n_mat : Nat) :
    (startup_state 3 n_obj n_mat).frame_index = 0
    ∧ (startup_state 3 n_obj n_mat).frame_resources.length = 3
    ∧ (startup_state 3 n_obj n_mat).fence_of 0 = 1
    ∧ (startup_state 3 n_obj n_mat).fence_of 1 = 0
    ∧ (startup_state 3 n_obj n_mat).fence_of 2 = 0 := by
  simp [startup_state, gpu_retire, flush_command_queue_effect,
    D3DRenderContext.ExecuteCommandLists, D3DRenderContext.set_fence, RenderContext_Init,
    D3DRenderContext.fence_of, UINT64_SIZE, List.replicate, List.modify]

theorem move_to_next_frame_effect_frame_index (N : Nat) (t : D3DRenderContext) :
    (move_to_next_frame_effect N t).frame_index = (t.frame_index + 1) % UINT_SIZE % N := rfl

theorem move_to_next_frame_calls_spec (N : Nat) (gs : List (Nat × Nat)) (s : D3DRenderContext) :
    ∃ j, run_frames (fun g t => Bezier.move_to_next_frame N g.1 t) gs s
      = some (gpu_retire j (Nat.iterate (move_to_next_frame_effect N) gs.length s)) :=
  run_frames_spec _ _ (fun k t => ⟨_, move_to_next_frame_effect_gpu N k t⟩)
    (fun g t => by
      obtain ⟨j, hj, _⟩ := bezier_move_to_next_frame_spec N g.1 t
      exact ⟨j, hj⟩) gs s

/-! ## The bounds of `frame_index` and `backbuffer_index` -/

theorem d3d_resize_effect_backbuffer_index (s : D3DRenderContext) :
    (d3d_resize_effect s).backbuffer_index
      = if s.device && s.direct_cmd_list_alloc && s.swapchain then 0 else s.backbuffer_index := by
  unfold d3d_resize_effect
  split
  · simp [flush_command_queue_effect, d3d_resize_body, D3DRenderContext.record,
      D3DRenderContext.ExecuteCommandLists]
  · rfl

theorem sample_frame_effect_bounds_index (smp : Sample) (N : Nat) (hN : 0 < N)
    (s : D3DRenderContext) :
    (smp.frame_effect N s).frame_index < N
    ∧ (smp.frame_effect N s).backbuffer_index < NUM_BACKBUFFERS := by
  constructor
  · rw [sample_frame_effect_frame_index]
    exact Nat.mod_lt _ hN
  · obtain ⟨t, ht, _⟩ := sample_update_cbuffers_facts smp N s
    have h : (smp.frame_effect N s).backbuffer_index
        = (t.backbuffer_index + 1) % UINT_SIZE % NUM_BACKBUFFERS := by
      rw [ht]
      rfl
    rw [h]
    exact Nat.mod_lt _ (by decide)

theorem loop_effect_bounds_index (smp : Sample) (N : Nat) (hN : 0 < N) :
    ∀ (ops : List LoopOp) (s : D3DRenderContext),
      s.frame_index < N → s.backbuffer_index < NUM_BACKBUFFERS → s.frame_resources.length = N →
      (loop_effect (smp.frame_effect N) ops s).frame_index < N
      ∧ (loop_effect (smp.frame_effect N) ops s).backbuffer_index < NUM_BACKBUFFERS
      ∧ (loop_effect (smp.frame_effect N) ops s).frame_resources.length = N := by
  intro ops
  induction ops with
  | nil => intro s h1 h2 h3; exact ⟨h1, h2, h3⟩
  | cons op ops ih =>
    intro s h1 h2 h3
    cases op with
    | frame g1 g2 =>
      obtain ⟨a, b⟩ := sample_frame_effect_bounds_index smp N hN s
      exact ih _ a b (by rw [sample_frame_effect_length, h3])
    | resize g1 g2 =>
      obtain ⟨hsame, _⟩ := d3d_resize_effect_keeps s
      refine ih _ (by rw [hsame.1]; exact h1) ?_ (by rw [hsame.2.1]; exact h3)
      rw [d3d_resize_effect_backbuffer_index]
      split
      · decide
      · exact h2

theorem startup_state_bounds_index (N n_obj n_mat : Nat) :
    (startup_state N n_obj n_mat).frame_index = 0
    ∧ (startup_state N n_obj n_mat).backbuffer_index = 0
    ∧ (startup_state N n_obj n_mat).frame_resources.length = N := by
  simp [startup_state, gpu_retire, flush_command_queue_effect,
    D3DRenderContext.ExecuteCommandLists, D3DRenderContext.set_fence, RenderContext_Init]

/-! ## What `update_obj_cbuffers` leaves alone -/

theorem update_obj_cbuffers_fold_counter (f : RenderItem → ObjectConstants) (fi : Nat)
    (t : D3DRenderContext) (n j : Nat) :
    ((List.range n).foldl (update_obj_cbuffers_step f fi) t).all_ritems.ritems[j]?
      = if j < n then (t.all_ritems.ritems[j]?).map RenderItem.after_update
        else t.all_ritems.ritems[j]? := by
  induction n generalizing j with
  | zero => simp
  | succ n ih =>
    rw [List.range_succ, List.foldl_append, List.foldl_cons, List.foldl_nil]
    obtain ⟨h1, h2⟩ := update_obj_cbuffers_step_counter f fi
      ((List.range n).foldl (update_obj_cbuffers_step f fi) t) n
    by_cases hj : j = n
    · subst hj
      rw [h2, ih]
      simp
    · rw [h1 j hj, ih]
      by_cases hlt : j < n
      · simp [hlt, Nat.lt_succ_of_lt hlt]
      · have : ¬ j < n + 1 := by omega
        simp [hlt, this]

/-- A record of the current slot that no dirty, initialized item among the
first `n` points to is left as it was by the first `n` passes of the loop. -/
theorem update_obj_cbuffers_fold_record_unchanged (f : RenderItem → ObjectConstants) (fi : Nat)
    (t : D3DRenderContext) (c : Nat) :
    ∀ n : Nat,
      (∀ (j : Nat) (it : RenderItem), j < n → t.all_ritems.ritems[j]? = some it →
        0 < it.n_frames_dirty → it.initialized = true → it.obj_cbuffer_index ≠ c) →
      obj_record ((List.range n).foldl (update_obj_cbuffers_step f fi) t) fi c
        = obj_record t fi c := by
  intro n
  induction n with
  | zero => intro _; rfl
  | succ n ih =>
    intro h
    rw [List.range_succ, List.foldl_append, List.foldl_cons, List.foldl_nil]
    have hprev := ih (fun j it hj => h j it (Nat.lt_succ_of_lt hj))
    have hn : ((List.range n).foldl (update_obj_cbuffers_step f fi) t).all_ritems.ritems[n]?
        = t.all_ritems.ritems[n]? := by
      rw [update_obj_cbuffers_fold_counter]
      simp
    rcases update_obj_cbuffers_step_cases f fi
      ((List.range n).foldl (update_obj_cbuffers_step f fi) t) n with ⟨_, hs⟩ | ⟨it, hit, hd, hinit, _⟩
    · rw [hs]; exact hprev
    · rw [update_obj_cbuffers_step_record_other f fi _ n c, hprev]
      intro it1 hit1
      rw [hit] at hit1
      cases hit1
      rw [hn] at hit
      exact h n it (Nat.lt_succ_self n) hit hd hinit

/-! ## The calls of `draw_render_items` -/

theorem range_flatMap_getElem {α β : Type} (l : List α) (p : α → Bool) (B : α → List β)
    (f : Nat → List β)
    (hnone : ∀ i, l[i]? = none → f i = [])
    (hsome : ∀ i a, l[i]? = some a → f i = if p a = true then B a else [])
    (n : Nat) :
    (List.range n).flatMap f = ((l.take n).filter p).flatMap B := by
  induction n with
  | zero => simp
  | succ n ih =>
    rw [List.range_succ, List.flatMap_append, ih, List.take_succ, List.filter_append,
      List.flatMap_append, List.flatMap_singleton]
    cases h : l[n]? with
    | none => simp [hnone n h]
    | some a =>
      rw [hsome n a h]
      by_cases hp : p a = true
      · simp [hp]
      · simp [hp]

theorem draw_render_items_eq (sizes : DrawSizes) (materials : List Material)
    (o m : GpuAddress) (arr : RenderItemArray) (fi : Nat)
    (hobj : sizes.sizeof_ObjectConstants < UINT_SIZE)
    (hmat : sizes.sizeof_MaterialConstants < UINT_SIZE)
    (hidx : ∀ item ∈ drawn_items arr,
      item.obj_cbuffer_index * sizes.sizeof_ObjectConstants < UINT64_SIZE
      ∧ (Material_at materials item.mat).mat_cbuffer_index * sizes.sizeof_MaterialConstants
          < UINT64_SIZE) :
    draw_render_items sizes materials o m arr fi
      = (drawn_items arr).flatMap (item_commands sizes materials o m) := by
  unfold draw_render_items
  simp only []
  rw [range_flatMap_getElem arr.ritems (fun item => item.initialized)
    (fun item =>
      [DrawCmd.IASetVertexBuffers, DrawCmd.IASetIndexBuffer, DrawCmd.IASetPrimitiveTopology,
       DrawCmd.SetGraphicsRootDescriptorTable 0
         (sizes.cbv_srv_uav_descriptor_size
           * (Material_at materials item.mat).diffuse_srvheap_index % UINT64_SIZE),
       DrawCmd.SetGraphicsRootConstantBufferView 1
         { o with offset := o.offset
            + item.obj_cbuffer_index * (sizes.sizeof_ObjectConstants % UINT_SIZE)
                % UINT64_SIZE },
       DrawCmd.SetGraphicsRootConstantBufferView 3
         { m with offset := m.offset
            + (Material_at materials item.mat).mat_cbuffer_index
                * (sizes.sizeof_MaterialConstants % UINT_SIZE) % UINT64_SIZE },
       DrawCmd.DrawIndexedInstanced item.index_count 1 item.start_index_loc
         item.base_vertex_loc 0])
    _ (fun i h => by simp only [h]) (fun i a h => by simp only [h]) arr.size]
  show (drawn_items arr).flatMap _ = _
  apply List.flatMap_congr
  intro item hitem
  obtain ⟨h1, h2⟩ := hidx item hitem
  simp only [item_commands, Nat.mod_eq_of_lt hobj, Nat.mod_eq_of_lt hmat, Nat.mod_eq_of_lt h1,
    Nat.mod_eq_of_lt h2]

theorem draw_calls_flatMap_item_commands (sizes : DrawSizes) (materials : List Material)
    (o m : GpuAddress) (items : List RenderItem) :
    draw_calls (items.flatMap (item_commands sizes materials o m))
      = items.map (fun item =>
          DrawCmd.DrawIndexedInstanced item.index_count 1 item.start_index_loc
            item.base_vertex_loc 0) := by
  induction items with
  | nil => rfl
  | cons item rest ih =>
    rw [List.flatMap_cons, List.map_cons, ← ih]
    simp [draw_calls, item_commands, List.filter_append, List.filter_cons]

/-! ## Record indices and the buffers -/

theorem update_keeps_indices {t u : D3DRenderContext} (h : UpdateKeeps t u) :
    obj_indices u = obj_indices t ∧ mat_indices u = mat_indices t := by
  obtain ⟨_, _, h3, h4, _⟩ := h
  constructor
  · apply List.ext_getElem?
    intro j
    simp only [obj_indices, List.getElem?_map]
    exact h3 j
  · apply List.ext_getElem?
    intro j
    simp only [mat_indices, List.getElem?_map]
    exact h4 j

theorem update_keeps_fit {t u : D3DRenderContext} (h : UpdateKeeps t u) (n_obj n_mat : Nat)
    (ht : CBuffersFit n_obj n_mat t) : CBuffersFit n_obj n_mat u := by
  obtain ⟨ho, hm⟩ := update_keeps_indices h
  obtain ⟨_, _, _, _, _, h6, h7⟩ := h
  obtain ⟨a, b, c, d⟩ := ht
  refine ⟨by rw [ho]; exact a, by rw [hm]; exact b, ?_, ?_⟩
  · intro slot cb hcb
    have h := h6 slot
    rw [hcb] at h
    cases ht : obj_cb_of t slot with
    | none => rw [ht] at h; simp at h
    | some cb1 =>
      rw [ht] at h
      simp only [Option.map_some', Option.some.injEq] at h
      rw [h]
      exact c slot cb1 ht
  · intro slot cb hcb
    have h := h7 slot
    rw [hcb] at h
    cases ht : mat_cb_of t slot with
    | none => rw [ht] at h; simp at h
    | some cb1 =>
      rw [ht] at h
      simp only [Option.map_some', Option.some.injEq] at h
      rw [h]
      exact d slot cb1 ht

theorem update_obj_cbuffers_with_writes (f : RenderItem → ObjectConstants) (s : D3DRenderContext) :
    ∃ ws, (update_obj_cbuffers_with f s).log = s.log ++ ws
      ∧ ∀ e ∈ ws, ∃ k ∈ obj_indices s, e = Event.memcpy s.frame_index CBuffer.obj k := by
  unfold update_obj_cbuffers_with
  simp only []
  have key := foldl_invariant
    (fun u : D3DRenderContext => UpdateKeeps s u ∧ ∃ ws, u.log = s.log ++ ws
      ∧ ∀ e ∈ ws, ∃ k ∈ obj_indices s, e = Event.memcpy s.frame_index CBuffer.obj k)
    (update_obj_cbuffers_step f s.frame_index) ?_ (List.range s.all_ritems.size) s
    ⟨UpdateKeeps.refl s, [], by simp, by simp⟩
  · exact key.2
  · intro u i hu
    obtain ⟨hk, ws, hlog, hws⟩ := hu
    refine ⟨hk.trans (update_obj_cbuffers_step_keeps f _ u i), ?_⟩
    rcases update_obj_cbuffers_step_cases f s.frame_index u i with ⟨_, h⟩ | ⟨it, hit, _, _, h⟩
    · rw [h]; exact ⟨ws, hlog, hws⟩
    · rw [h]
      refine ⟨ws ++ [Event.memcpy s.frame_index CBuffer.obj it.obj_cbuffer_index], ?_, ?_⟩
      · simp only [hlog, List.append_assoc]
      · intro e he
        rcases List.mem_append.mp he with h1 | h1
        · exact hws e h1
        · refine ⟨it.obj_cbuffer_index, ?_, List.mem_singleton.mp h1⟩
          rw [← (update_keeps_indices hk).1]
          exact List.mem_map.mpr ⟨it, List.getElem?_mem hit, rfl⟩

theorem update_mat_cbuffers_writes (n : Nat) (s : D3DRenderContext) :
    ∃ ws, (update_mat_cbuffers n s).log = s.log ++ ws
      ∧ ∀ e ∈ ws, ∃ k ∈ mat_indices s, e = Event.memcpy s.frame_index CBuffer.mat k := by
  unfold update_mat_cbuffers
  simp only []
  have key := foldl_invariant
    (fun u : D3DRenderContext => UpdateKeeps s u ∧ ∃ ws, u.log = s.log ++ ws
      ∧ ∀ e ∈ ws, ∃ k ∈ mat_indices s, e = Event.memcpy s.frame_index CBuffer.mat k)
    (update_mat_cbuffers_step s.frame_index) ?_ (List.range n) s
    ⟨UpdateKeeps.refl s, [], by simp, by simp⟩
  · exact key.2
  · intro u i hu
    obtain ⟨hk, ws, hlog, hws⟩ := hu
    refine ⟨hk.trans (update_mat_cbuffers_step_keeps _ u i), ?_⟩
    rcases update_mat_cbuffers_step_cases s.frame_index u i with ⟨_, h⟩ | ⟨mat, hmat, _, h⟩
    · rw [h]; exact ⟨ws, hlog, hws⟩
    · rw [h]
      refine ⟨ws ++ [Event.memcpy s.frame_index CBuffer.mat mat.mat_cbuffer_index], ?_, ?_⟩
      · simp only [hlog, List.append_assoc]
      · intro e he
        rcases List.mem_append.mp he with h1 | h1
        · exact hws e h1
        · refine ⟨mat.mat_cbuffer_index, ?_, List.mem_singleton.mp h1⟩
          rw [← (update_keeps_indices hk).2]
          exact List.mem_map.mpr ⟨mat, List.getElem?_mem hmat, rfl⟩

theorem cbuffer_updates_keeps_all (f : RenderItem → ObjectConstants) (n : Nat)
    (s : D3DRenderContext) : UpdateKeeps s (cbuffer_updates f n s) :=
  (update_obj_cbuffers_with_keeps f s).1.trans
    (update_mat_cbuffers_keeps n (update_obj_cbuffers_with f s)).1

theorem cbuffer_updates_writes (f : RenderItem → ObjectConstants) (n n_obj n_mat : Nat)
    (s : D3DRenderContext) (hs : CBuffersFit n_obj n_mat s) :
    ∃ ws, (cbuffer_updates f n s).log = s.log ++ ws
      ∧ ∀ e ∈ ws, write_within n_obj n_mat e = true := by
  have ko := (update_obj_cbuffers_with_keeps f s).1
  obtain ⟨w1, h1, hw1⟩ := update_obj_cbuffers_with_writes f s
  obtain ⟨w2, h2, hw2⟩ := update_mat_cbuffers_writes n (update_obj_cbuffers_with f s)
  refine ⟨w1 ++ w2, ?_, ?_⟩
  · unfold cbuffer_updates
    rw [h2, h1, List.append_assoc]
  · intro e he
    rcases List.mem_append.mp he with h | h
    · obtain ⟨k, hk, rfl⟩ := hw1 e h
      simpa [write_within] using hs.1 k hk
    · obtain ⟨k, hk, rfl⟩ := hw2 e h
      rw [(update_keeps_indices ko).2] at hk
      simpa [write_within] using hs.2.1 k hk

theorem all_within_append {n_obj n_mat : Nat} {a b : List Event}
    (ha : ∀ e ∈ a, write_within n_obj n_mat e = true)
    (hb : ∀ e ∈ b, write_within n_obj n_mat e = true) :
    ∀ e ∈ a ++ b, write_within n_obj n_mat e = true := by
  intro e he
  rcases List.mem_append.mp he with h | h
  · exact ha e h
  · exact hb e h

theorem sample_frame_effect_writes (smp : Sample) (N n_obj n_mat : Nat) (s : D3DRenderContext)
    (hs : CBuffersFit n_obj n_mat s) :
    ∃ new, (smp.frame_effect N s).log = s.log ++ new
      ∧ ∀ e ∈ new, write_within n_obj n_mat e = true := by
  cases smp with
  | stenciling =>
    obtain ⟨ws, hlog, hws⟩ :=
      cbuffer_updates_writes Stenciling.object_constants Stenciling._COUNT_MATERIAL n_obj n_mat s hs
    have h1 : (Sample.stenciling.frame_effect N s).log
        = (move_to_next_frame_effect N (draw_main (Stenciling.update_cbuffers s))).log := rfl
    have h2 : (Stenciling.update_cbuffers s).log
        = s.log ++ (ws ++ [Event.memcpy s.frame_index CBuffer.pass 0,
            Event.memcpy s.frame_index CBuffer.pass 1]) := by
      have hfi := (cbuffer_updates_log Stenciling.object_constants Stenciling._COUNT_MATERIAL s).1
      unfold Stenciling.update_cbuffers Stenciling.update_pass_cbuffers
        Stenciling.update_obj_cbuffers
      unfold cbuffer_updates at hlog hfi
      simp only [D3DRenderContext.record, hlog, hfi, List.append_assoc, List.cons_append,
        List.nil_append]
    rw [h1, move_to_next_frame_effect_log, draw_main_log, h2]
    simp only [List.append_assoc]
    refine ⟨_, rfl, ?_⟩
    refine all_within_append hws (all_within_append ?_ (all_within_append ?_ ?_))
    · intro e he
      simp only [List.mem_cons, List.mem_singleton, List.not_mem_nil, or_false] at he
      rcases he with rfl | rfl <;> rfl
    · intro e he
      simp only [List.mem_cons, List.mem_singleton, List.not_mem_nil, or_false] at he
      rcases he with rfl | rfl | rfl | rfl <;> rfl
    · intro e he
      simp only [List.mem_cons, List.mem_singleton, List.not_mem_nil, or_false] at he
      rcases he with rfl | rfl <;> rfl
  | bezier =>
    obtain ⟨ws, hlog, hws⟩ :=
      cbuffer_updates_writes Bezier.object_constants Bezier._COUNT_MATERIAL n_obj n_mat s hs
    have h1 : (Sample.bezier.frame_effect N s).log
        = (move_to_next_frame_effect N (draw_main (Bezier.update_cbuffers s))).log := rfl
    have h2 : (Bezier.update_cbuffers s).log
        = s.log ++ (ws ++ [Event.memcpy s.frame_index CBuffer.pass 0]) := by
      have hfi := (cbuffer_updates_log Bezier.object_constants Bezier._COUNT_MATERIAL s).1
      unfold Bezier.update_cbuffers Bezier.update_pass_cbuffers Bezier.update_obj_cbuffers
      unfold cbuffer_updates at hlog hfi
      simp only [D3DRenderContext.record, hlog, hfi, List.append_assoc, List.cons_append,
        List.nil_append]
    rw [h1, move_to_next_frame_effect_log, draw_main_log, h2]
    simp only [List.append_assoc]
    refine ⟨_, rfl, ?_⟩
    refine all_within_append hws (all_within_append ?_ (all_within_append ?_ ?_))
    · intro e he
      simp only [List.mem_cons, List.mem_singleton, List.not_mem_nil, or_false] at he
      subst he
      rfl
    · intro e he
      simp only [List.mem_cons, List.mem_singleton, List.not_mem_nil, or_false] at he
      rcases he with rfl | rfl | rfl | rfl <;> rfl
    · intro e he
      simp only [List.mem_cons, List.mem_singleton, List.not_mem_nil, or_false] at he
      rcases he with rfl | rfl <;> rfl

theorem same_slots_fit {s t : D3DRenderContext} (h : SameSlots s t) (n_obj n_mat : Nat)
    (ht : CBuffersFit n_obj n_mat t) : CBuffersFit n_obj n_mat s := by
  obtain ⟨_, h2, h3, h4⟩ := h
  unfold CBuffersFit obj_indices mat_indices obj_cb_of mat_cb_of at *
  rw [h2, h3, h4]
  exact ht

theorem sample_frame_effect_fit (smp : Sample) (N n_obj n_mat : Nat) (s : D3DRenderContext)
    (hs : CBuffersFit n_obj n_mat s) : CBuffersFit n_obj n_mat (smp.frame_effect N s) := by
  obtain ⟨t1, t2, t3, t4, _⟩ := sample_turn_like smp N s
  have hc := update_keeps_fit
    (cbuffer_updates_keeps_all smp.object_constants smp.count_material s) n_obj n_mat hs
  unfold CBuffersFit obj_indices mat_indices at *
  rw [t1, t2]
  refine ⟨hc.1, hc.2.1, ?_, ?_⟩
  · intro slot cb h
    rw [t3] at h
    exact hc.2.2.1 slot cb h
  · intro slot cb h
    rw [t4] at h
    exact hc.2.2.2 slot cb h

theorem d3d_resize_effect_writes (n_obj n_mat : Nat) (s : D3DRenderContext) :
    ∃ new, (d3d_resize_effect s).log = s.log ++ new
      ∧ ∀ e ∈ new, write_within n_obj n_mat e = true := by
  unfold d3d_resize_effect
  split
  · obtain ⟨_, _, _, _, a5, a6⟩ := flush_command_queue_effect_keeps s
    obtain ⟨_, _, _, _, b5, b6⟩ := d3d_resize_body_keeps (flush_command_queue_effect s)
    obtain ⟨_, _, _, _, _, c6⟩ := flush_command_queue_effect_keeps
      (d3d_resize_body (flush_command_queue_effect s))
    refine ⟨_, by rw [c6, b6, a6, List.append_assoc, List.append_assoc], ?_⟩
    refine all_within_append ?_ (all_within_append ?_ ?_)
    · intro e he
      simp only [List.mem_cons, List.mem_singleton, List.not_mem_nil, or_false] at he
      rcases he with rfl | rfl <;> rfl
    · intro e he
      simp only [List.mem_cons, List.mem_singleton, List.not_mem_nil, or_false] at he
      rcases he with rfl | rfl | rfl | rfl | rfl | rfl <;> rfl
    · intro e he
      simp only [List.mem_cons, List.mem_singleton, List.not_mem_nil, or_false] at he
      rcases he with rfl | rfl <;> rfl
  · exact ⟨[], by simp, by simp⟩

theorem loop_effect_fit (smp : Sample) (N n_obj n_mat : Nat) :
    ∀ (ops : List LoopOp) (s : D3DRenderContext), CBuffersFit n_obj n_mat s →
      (∀ e ∈ s.log, write_within n_obj n_mat e = true) →
      CBuffersFit n_obj n_mat (loop_effect (smp.frame_effect N) ops s)
      ∧ (∀ e ∈ (loop_effect (smp.frame_effect N) ops s).log, write_within n_obj n_mat e = true)
      ∧ obj_indices (loop_effect (smp.frame_effect N) ops s) = obj_indices s
      ∧ mat_indices (loop_effect (smp.frame_effect N) ops s) = mat_indices s := by
  intro ops
  induction ops with
  | nil => intro s h1 h2; exact ⟨h1, h2, rfl, rfl⟩
  | cons op ops ih =>
    intro s h1 h2
    cases op with
    | frame g1 g2 =>
      obtain ⟨new, hlog, hnew⟩ := sample_frame_effect_writes smp N n_obj n_mat s h1
      obtain ⟨a, b, c, d⟩ := ih (smp.frame_effect N s) (sample_frame_effect_fit smp N n_obj n_mat s h1)
        (by rw [hlog]; exact all_within_append h2 hnew)
      obtain ⟨t1, t2, _⟩ := sample_turn_like smp N s
      obtain ⟨i1, i2⟩ := update_keeps_indices
        (cbuffer_updates_keeps_all smp.object_constants smp.count_material s)
      refine ⟨a, b, c.trans ?_, d.trans ?_⟩
      · unfold obj_indices at *
        rw [t1]; exact i1
      · unfold mat_indices at *
        rw [t2]; exact i2
    | resize g1 g2 =>
      obtain ⟨new, hlog, hnew⟩ := d3d_resize_effect_writes n_obj n_mat s
      have hsame := (d3d_resize_effect_keeps s).1
      obtain ⟨a, b, c, d⟩ := ih (d3d_resize_effect s) (same_slots_fit hsame n_obj n_mat h1)
        (by rw [hlog]; exact all_within_append h2 hnew)
      refine ⟨a, b, c.trans ?_, d.trans ?_⟩
      · unfold obj_indices; rw [hsame.2.2.1]
      · unfold mat_indices; rw [hsame.2.2.2]

theorem scene_context_fit (N n_obj n_mat : Nat) (all_ritems : RenderItemArray)
    (materials : List Material)
    (ho : ∀ k ∈ all_ritems.ritems.map RenderItem.obj_cbuffer_index, k < n_obj)
    (hm : ∀ k ∈ materials.map Material.mat_cbuffer_index, k < n_mat) :
    CBuffersFit n_obj n_mat (scene_context N n_obj n_mat all_ritems materials)
    ∧ ∀ e ∈ (scene_context N n_obj n_mat all_ritems materials).log,
        write_within n_obj n_mat e = true := by
  have hfr : (scene_context N n_obj n_mat all_ritems materials).frame_resources
      = (startup_state N n_obj n_mat).frame_resources := rfl
  have hlog : (scene_context N n_obj n_mat all_ritems materials).log
      = (startup_state N n_obj n_mat).log := rfl
  have hst : ∀ (slot : Nat) (fr : FrameResource),
      (startup_state N n_obj n_mat).frame_resources[slot]? = some fr →
      fr.obj_cb.length = n_obj ∧ fr.mat_cb.length = n_mat := by
    intro slot fr h
    have h0 : ∃ v, (startup_state N n_obj n_mat).frame_resources
        = (RenderContext_Init N n_obj n_mat).frame_resources.modify
            (fun fr => { fr with fence := v }) 0 := ⟨_, rfl⟩
    obtain ⟨v, h0⟩ := h0
    rw [h0, List.getElem?_modify] at h
    simp only [RenderContext_Init, List.getElem?_replicate] at h
    by_cases hlt : slot < N
    · by_cases h00 : 0 = slot
      · simp [hlt, h00] at h
        subst h
        simp
      · simp [hlt, h00] at h
        subst h
        simp
    · simp [hlt] at h
  refine ⟨⟨ho, hm, ?_, ?_⟩, ?_⟩
  · intro slot cb h
    unfold obj_cb_of at h
    rw [hfr] at h
    cases hfr1 : (startup_state N n_obj n_mat).frame_resources[slot]? with
    | none => rw [hfr1] at h; simp at h
    | some fr =>
      rw [hfr1] at h
      simp only [Option.map_some', Option.some.injEq] at h
      rw [← h]
      exact (hst slot fr hfr1).1
  · intro slot cb h
    unfold mat_cb_of at h
    rw [hfr] at h
    cases hfr1 : (startup_state N n_obj n_mat).frame_resources[slot]? with
    | none => rw [hfr1] at h; simp at h
    | some fr =>
      rw [hfr1] at h
      simp only [Option.map_some', Option.some.injEq] at h
      rw [← h]
      exact (hst slot fr hfr1).2
  · rw [hlog, startup_state_log]
    intro e he
    simp only [List.mem_cons, List.mem_singleton, List.not_mem_nil, or_false] at he
    rcases he with rfl | rfl | rfl <;> rfl

theorem scene_run_fit (smp : Sample) (N n_obj n_mat : Nat) (all_ritems : RenderItemArray)
    (materials : List Material) (ops : List LoopOp)
    (ho : ∀ k ∈ all_ritems.ritems.map RenderItem.obj_cbuffer_index, k < n_obj)
    (hm : ∀ k ∈ materials.map Material.mat_cbuffer_index, k < n_mat) :
    ∃ s, run_loop (smp.frame N) ops (scene_context N n_obj n_mat all_ritems materials) = some s
      ∧ (∀ e ∈ s.log, write_within n_obj n_mat e = true)
      ∧ CBuffersFit n_obj n_mat s
      ∧ obj_indices s = all_ritems.ritems.map RenderItem.obj_cbuffer_index
      ∧ mat_indices s = materials.map Material.mat_cbuffer_index := by
  obtain ⟨j, hj⟩ := sample_run_loop_spec smp N ops (scene_context N n_obj n_mat all_ritems materials)
  obtain ⟨h1, h2⟩ := scene_context_fit N n_obj n_mat all_ritems materials ho hm
  obtain ⟨a, b, c, d⟩ := loop_effect_fit smp N n_obj n_mat ops _ h1 h2
  exact ⟨_, hj, b, same_slots_fit (gpu_retire_same_slots j _) n_obj n_mat a, c, d⟩

/-! ## The scene the samples create -/

theorem stenciling_created_obj_indices (Identity4x4 reflected_floor_world : XMFLOAT4X4)
    (room_geom skull_geom : MeshGeometry) :
    (Stenciling.created_scene Identity4x4 reflected_floor_world room_geom
      skull_geom).1.ritems.map RenderItem.obj_cbuffer_index = [0, 1, 7, 2, 3, 4, 6, 5] := rfl

theorem mark_material_dirty_indices (materials : List Material) (mat : Nat) :
    (mark_material_dirty materials mat).map Material.mat_cbuffer_index
      = materials.map Material.mat_cbuffer_index := by
  apply List.ext_getElem?
  intro j
  simp only [mark_material_dirty, List.getElem?_map, List.getElem?_modify]
  cases materials[j]? with
  | none => rfl
  | some m => by_cases h : mat = j <;> simp [h]

theorem stenciling_create_materials_indices (Identity4x4 : XMFLOAT4X4) :
    (Stenciling.create_materials Identity4x4
      (List.replicate Stenciling._COUNT_MATERIAL {})).map Material.mat_cbuffer_index
      = [0, 1, 2, 3, 4] := rfl

set_option maxHeartbeats 4000000 in
theorem stenciling_created_mat_indices (Identity4x4 reflected_floor_world : XMFLOAT4X4)
    (room_geom skull_geom : MeshGeometry) :
    (Stenciling.created_scene Identity4x4 reflected_floor_world room_geom
      skull_geom).2.2.map Material.mat_cbuffer_index = [0, 1, 2, 3, 4] := by
  have h : ∃ a b c d, (Stenciling.created_scene Identity4x4 reflected_floor_world room_geom
      skull_geom).2.2
      = mark_material_dirty (mark_material_dirty (mark_material_dirty (mark_material_dirty
          (Stenciling.create_materials Identity4x4
            (List.replicate Stenciling._COUNT_MATERIAL {})) a) b) c) d := ⟨_, _, _, _, rfl⟩
  obtain ⟨a, b, c, d, h⟩ := h
  rw [h]
  simp only [mark_material_dirty_indices]
  exact stenciling_create_materials_indices Identity4x4

theorem bezier_created_obj_indices (Identity4x4 : XMFLOAT4X4) (geom : List MeshGeometry) :
    (Bezier.created_scene Identity4x4 geom).1.ritems.map RenderItem.obj_cbuffer_index
      = [0, 1] := rfl

theorem bezier_created_mat_indices (Identity4x4 : XMFLOAT4X4) (geom : List MeshGeometry) :
    (Bezier.created_scene Identity4x4 geom).2.2.map Material.mat_cbuffer_index = [0] := rfl

/-! ## The blur filter -/

theorem blur_loop_spec (ngroup : Nat → Nat) :
    ∀ (n : Nat) (filter : BlurFilter) (cmds : List BlurCmd),
      blur_loop ngroup n (filter, cmds)
        = ({ filter with
              new_resources_flag := if n = 0 then filter.new_resources_flag else false },
            cmds ++ (List.replicate n (blur_pass ngroup filter)).flatten) := by
  intro n
  induction n with
  | zero => intro filter cmds; simp [blur_loop]
  | succ n ih =>
    intro filter cmds
    rw [blur_loop, ih]
    have hp : blur_pass ngroup { filter with new_resources_flag := false }
        = blur_pass ngroup filter := rfl
    rw [hp]
    by_cases hn : n = 0
    · simp [hn]
    · simp [hn, List.replicate_succ, List.append_assoc]

theorem blur_execute_spec (ngroup : Nat → Nat) (filter : BlurFilter) (n : Nat) :
    BlurFilter_Execute ngroup filter n
      = ({ filter with
            new_resources_flag := if n = 0 then filter.new_resources_flag else false },
          (BlurFilter_Execute ngroup filter 0).2
            ++ (List.replicate n (blur_pass ngroup filter)).flatten) := by
  unfold BlurFilter_Execute
  simp only [blur_loop_spec]
  simp

theorem blur_pass_run (ngroup : Nat → Nat) (filter : BlurFilter) (c : BarrierCheck)
    (h0 : c.blur_map0 = ResourceState.GENERIC_READ)
    (h1 : c.blur_map1 = ResourceState.UNORDERED_ACCESS) :
    (blur_pass ngroup filter).foldl BlurCmd.run c = c := by
  obtain ⟨i, m0, m1, ok⟩ := c
  simp only at h0 h1
  subst h0 h1
  simp [blur_pass, BlurCmd.run, BarrierCheck.move, BarrierCheck.state]

theorem blur_passes_run (ngroup : Nat → Nat) (filter : BlurFilter) (c : BarrierCheck)
    (h0 : c.blur_map0 = ResourceState.GENERIC_READ)
    (h1 : c.blur_map1 = ResourceState.UNORDERED_ACCESS) (n : Nat) :
    (List.replicate n (blur_pass ngroup filter)).flatten.foldl BlurCmd.run c = c := by
  induction n with
  | zero => rfl
  | succ n ih =>
    rw [List.replicate_succ, List.flatten_cons, List.foldl_append,
      blur_pass_run ngroup filter c h0 h1, ih]

/-- A call on fresh blur maps: every barrier matches. -/
theorem execute_and_run_fresh (ngroup : Nat → Nat) (filter : BlurFilter) (n : Nat)
    (hf : filter.new_resources_flag = true)
    (h0 : filter.blur_map0 = ResourceState.COMMON)
    (h1 : filter.blur_map1 = ResourceState.COMMON) :
    execute_and_run ngroup filter ResourceState.RENDER_TARGET n
      = ({ filter with
            new_resources_flag := if n = 0 then true else false
            blur_map0 := ResourceState.GENERIC_READ
            blur_map1 := ResourceState.UNORDERED_ACCESS }, true) := by
  unfold execute_and_run
  simp only [blur_execute_spec ngroup filter n, List.foldl_append]
  have he : (BlurFilter_Execute ngroup filter 0).2.foldl BlurCmd.run
      { input_tex := ResourceState.RENDER_TARGET, blur_map0 := filter.blur_map0,
        blur_map1 := filter.blur_map1 }
      = { input_tex := ResourceState.COPY_SOURCE, blur_map0 := ResourceState.GENERIC_READ,
          blur_map1 := ResourceState.UNORDERED_ACCESS, matched := true } := by
    simp [BlurFilter_Execute, blur_loop, hf, h0, h1, BlurCmd.run, BarrierCheck.move,
      BarrierCheck.state]
  rw [he, blur_passes_run ngroup filter _ rfl rfl, hf]

/-- A call on blur maps that earlier calls have left in `GENERIC_READ` and
`UNORDERED_ACCESS`: the barriers match exactly when the flag is clear. -/
theorem execute_and_run_used (ngroup : Nat → Nat) (filter : BlurFilter) (n : Nat)
    (h0 : filter.blur_map0 = ResourceState.GENERIC_READ)
    (h1 : filter.blur_map1 = ResourceState.UNORDERED_ACCESS) :
    execute_and_run ngroup filter ResourceState.RENDER_TARGET n
      = ({ filter with
            new_resources_flag := if n = 0 then filter.new_resources_flag else false
            blur_map0 := ResourceState.GENERIC_READ
            blur_map1 := ResourceState.UNORDERED_ACCESS }, !filter.new_resources_flag) := by
  unfold execute_and_run
  simp only [blur_execute_spec ngroup filter n, List.foldl_append]
  have he : (BlurFilter_Execute ngroup filter 0).2.foldl BlurCmd.run
      { input_tex := ResourceState.RENDER_TARGET, blur_map0 := filter.blur_map0,
        blur_map1 := filter.blur_map1 }
      = { input_tex := ResourceState.COPY_SOURCE, blur_map0 := ResourceState.GENERIC_READ,
          blur_map1 := ResourceState.UNORDERED_ACCESS,
          matched := !filter.new_resources_flag } := by
    cases hf : filter.new_resources_flag <;>
      simp [BlurFilter_Execute, blur_loop, hf, h0, h1, BlurCmd.run, BarrierCheck.move,
        BarrierCheck.state]
  rw [he, blur_passes_run ngroup filter _ rfl rfl]

theorem execute_calls_positive (ngroup : Nat → Nat) :
    ∀ (counts : List Nat) (filter : BlurFilter),
      ((filter.new_resources_flag = true ∧ filter.blur_map0 = ResourceState.COMMON
          ∧ filter.blur_map1 = ResourceState.COMMON)
        ∨ (filter.new_resources_flag = false ∧ filter.blur_map0 = ResourceState.GENERIC_READ
          ∧ filter.blur_map1 = ResourceState.UNORDERED_ACCESS)) →
      (∀ c ∈ counts, 1 ≤ c) →
      (execute_calls ngroup filter counts).2 = List.replicate counts.length true := by
  intro counts
  induction counts with
  | nil => intro filter _ _; rfl
  | cons n rest ih =>
    intro filter hf hc
    have hn : n ≠ 0 := Nat.one_le_iff_ne_zero.mp (hc n (List.mem_cons_self _ _))
    have hrest : ∀ c ∈ rest, 1 ≤ c := fun c h => hc c (List.mem_cons_of_mem _ h)
    rcases hf with ⟨h, h0, h1⟩ | ⟨h, h0, h1⟩
    · simp only [execute_calls, execute_and_run_fresh ngroup filter n h h0 h1, hn, if_false,
        List.length_cons, List.replicate_succ]
      rw [ih _ (Or.inr ⟨rfl, rfl, rfl⟩) hrest]
    · simp only [execute_calls, execute_and_run_used ngroup filter n h0 h1, hn, if_false, h,
        Bool.not_false, List.length_cons, List.replicate_succ]
      rw [ih _ (Or.inr ⟨rfl, rfl, rfl⟩) hrest]

theorem execute_calls_reach (ngroup : Nat → Nat) :
    ∀ (counts : List Nat) (filter : BlurFilter),
      ((filter.new_resources_flag = true ∧ filter.blur_map0 = ResourceState.COMMON
          ∧ filter.blur_map1 = ResourceState.COMMON)
        ∨ (filter.blur_map0 = ResourceState.GENERIC_READ
          ∧ filter.blur_map1 = ResourceState.UNORDERED_ACCESS)) →
      (((execute_calls ngroup filter counts).1.new_resources_flag = true
          ∧ (execute_calls ngroup filter counts).1.blur_map0 = ResourceState.COMMON
          ∧ (execute_calls ngroup filter counts).1.blur_map1 = ResourceState.COMMON)
        ∨ ((execute_calls ngroup filter counts).1.blur_map0 = ResourceState.GENERIC_READ
          ∧ (execute_calls ngroup filter counts).1.blur_map1 = ResourceState.UNORDERED_ACCESS)) := by
  intro counts
  induction counts with
  | nil => intro filter hf; exact hf
  | cons n rest ih =>
    intro filter hf
    rcases hf with ⟨h, h0, h1⟩ | ⟨h0, h1⟩
    · simp only [execute_calls, execute_and_run_fresh ngroup filter n h h0 h1]
      exact ih _ (Or.inr ⟨rfl, rfl⟩)
    · simp only [execute_calls, execute_and_run_used ngroup filter n h0 h1]
      exact ih _ (Or.inr ⟨rfl, rfl⟩)

/-! ## The Gaussian weights -/

theorem foldl_modify_range {α : Type} (f : α → α) (l : List α) :
    ∀ n : Nat,
      ((List.range n).foldl (fun w i => w.modify f i) l).length = l.length
      ∧ ∀ m : Nat, ((List.range n).foldl (fun w i => w.modify f i) l)[m]?
          = if m < n then (l[m]?).map f else l[m]? := by
  intro n
  induction n with
  | zero => exact ⟨rfl, fun m => by simp⟩
  | succ n ih =>
    rw [List.range_succ, List.foldl_append]
    simp only [List.foldl_cons, List.foldl_nil, List.length_modify, List.getElem?_modify]
    refine ⟨ih.1, ?_⟩
    intro m
    rw [ih.2 m]
    by_cases h1 : n = m
    · subst h1
      simp
    · by_cases h2 : m < n
      · have h3 : m < n + 1 := by omega
        simp [h1, h2, h3]
      · have h3 : ¬ m < n + 1 := by omega
        simp [h1, h2, h3]

theorem foldl_set_sum {α : Type} [AddMonoid α] (v : Nat → α) (l : List α) :
    ∀ n : Nat, n ≤ l.length →
      ((List.range n).foldl
          (fun (acc : List α × α) (j : Nat) =>
            ((acc.1.set j (v j)), acc.2 + (acc.1.set j (v j)).getD j 0)) (l, 0)).1.length
        = l.length
      ∧ (∀ m : Nat, ((List.range n).foldl
          (fun (acc : List α × α) (j : Nat) =>
            ((acc.1.set j (v j)), acc.2 + (acc.1.set j (v j)).getD j 0)) (l, 0)).1[m]?
          = if m < n then some (v m) else l[m]?)
      ∧ ((List.range n).foldl
          (fun (acc : List α × α) (j : Nat) =>
            ((acc.1.set j (v j)), acc.2 + (acc.1.set j (v j)).getD j 0)) (l, 0)).2
        = ((List.range n).map v).sum := by
  intro n
  induction n with
  | zero => intro _; exact ⟨rfl, fun m => by simp, by simp⟩
  | succ n ih =>
    intro hn
    obtain ⟨h1, h2, h3⟩ := ih (by omega)
    rw [List.range_succ, List.foldl_append]
    simp only [List.foldl_cons, List.foldl_nil, List.length_set, List.map_append, List.map_cons,
      List.map_nil, List.sum_append, List.sum_cons, List.sum_nil, add_zero]
    refine ⟨h1, ?_, ?_⟩
    · intro m
      rw [List.getElem?_set, h2 m, h1]
      by_cases h4 : n = m
      · subst h4
        have : n < l.length := by omega
        simp [this]
      · by_cases h5 : m < n
        · have h6 : m < n + 1 := by omega
          simp [h4, h5, h6]
        · have h6 : ¬ m < n + 1 := by omega
          simp [h4, h5, h6]
    · rw [h3]
      congr 1
      rw [List.getD_eq_getElem?_getD, List.getElem?_set, h1]
      have : n < l.length := by omega
      simp [this]

theorem sum_map_div {F : Type} [LinearOrderedField F] (S : F) (g : Nat → F) (l : List Nat) :
    (l.map (fun j => g j / S)).sum = (l.map g).sum / S := by
  induction l with
  | nil => simp
  | cons a rest ih => simp only [List.map_cons, List.sum_cons, ih, add_div]

theorem gauss_sum_pos {F : Type} [LinearOrderedField F] (expf : F → F) (sigma : F) (r : Int)
    (hexp : ∀ x, 0 < expf x) (hr : 0 ≤ r) : 0 < gauss_sum expf sigma r := by
  unfold gauss_sum
  apply List.sum_pos
  · intro x hx
    obtain ⟨j, _, rfl⟩ := List.mem_map.mp hx
    exact hexp _
  · intro h
    have h1 := congrArg List.length h
    simp only [List.length_map, List.length_range, List.length_nil] at h1
    omega

/-- The result of `calc_gauss_weights`, entry by entry. -/
theorem calc_gauss_weights_spec {F : Type} [LinearOrderedField F] [FloorRing F] (expf : F → F)
    (sigma : F) (out_weights : List F) (weight_count : Nat)
    (hcount : (weight_count : Int) = 2 * Int.ceil (2 * sigma) + 1)
    (hlen : weight_count ≤ out_weights.length) :
    ∃ w, calc_gauss_weights expf sigma out_weights weight_count = some w
      ∧ w.length = out_weights.length
      ∧ ∀ m : Nat, w[m]?
          = if m < weight_count then
              some (gauss_term expf sigma (-Int.ceil (2 * sigma) + (m : Int))
                / gauss_sum expf sigma (Int.ceil (2 * sigma)))
            else out_weights[m]? := by
  have hn : (2 * Int.ceil (2 * sigma) + 1).toNat = weight_count := by omega
  have hv : ∀ j : Nat, (-Int.ceil (2 * sigma) + (j : Int) + Int.ceil (2 * sigma)).toNat = j := by
    intro j; omega
  have hterm : ∀ j : Nat,
      expf (-((((-Int.ceil (2 * sigma) + (j : Int) : Int) : F))
          * (((-Int.ceil (2 * sigma) + (j : Int) : Int) : F))) / (2 * sigma * sigma))
        = gauss_term expf sigma (-Int.ceil (2 * sigma) + (j : Int)) := by
    intro j
    unfold gauss_term
    congr 1
    ring
  unfold calc_gauss_weights
  simp only [hn, hlen, and_self, if_true, hv, hterm]
  obtain ⟨a1, a2, a3⟩ := foldl_set_sum
    (fun j : Nat => gauss_term expf sigma (-Int.ceil (2 * sigma) + (j : Int)))
    out_weights weight_count hlen
  obtain ⟨b1, b2⟩ := foldl_modify_range
    (fun v : F => v / ((List.range weight_count).foldl
      (fun (acc : List F × F) (j : Nat) =>
        ((acc.1.set j (gauss_term expf sigma (-Int.ceil (2 * sigma) + (j : Int)))),
          acc.2 + (acc.1.set j (gauss_term expf sigma (-Int.ceil (2 * sigma) + (j : Int)))).getD
            j 0)) (out_weights, 0)).2)
    ((List.range weight_count).foldl
      (fun (acc : List F × F) (j : Nat) =>
        ((acc.1.set j (gauss_term expf sigma (-Int.ceil (2 * sigma) + (j : Int)))),
          acc.2 + (acc.1.set j (gauss_term expf sigma (-Int.ceil (2 * sigma) + (j : Int)))).getD
            j 0)) (out_weights, 0)).1 weight_count
  refine ⟨_, rfl, b1.trans a1, ?_⟩
  intro m
  rw [b2 m, a2 m, a3]
  by_cases hm : m < weight_count
  · simp only [hm, if_true, Option.map_some', gauss_sum, hn]
  · simp only [hm, if_false]

theorem ceil_init_sigma {F : Type} [LinearOrderedField F] [FloorRing F] :
    Int.ceil (2 * (5 / 2 : F)) = 5 := by
  have h : (2 * (5 / 2) : F) = ((5 : Int) : F) := by norm_num
  rw [h, Int.ceil_intCast]

theorem init_weight_count_eq : init_weight_count = 11 := by
  unfold init_weight_count
  simp only [ceil_init_sigma]
  rfl

theorem required_size_eq (sizeof_BlurFilter sizeof_float : Nat)
    (hsize : sizeof_BlurFilter + 11 * sizeof_float < SIZE_T_SIZE) :
    BlurFilter_CalculateRequiredSize sizeof_BlurFilter sizeof_float
      = sizeof_BlurFilter + 11 * sizeof_float := by
  unfold BlurFilter_CalculateRequiredSize
  rw [init_weight_count_eq]
  have h1 : (11 : Int).toNat = 11 := rfl
  rw [h1, Nat.mod_eq_of_lt (a := 11 * sizeof_float) (by omega), Nat.mod_eq_of_lt hsize]

theorem blur_filter_init_spec {F : Type} [LinearOrderedField F] [FloorRing F] (expf : F → F)
    (sizeof_BlurFilter : Nat) (filter : BlurFilter) (floats : List F) (dev w h format : Nat) :
    BlurFilter_Init expf sizeof_BlurFilter filter (some floats) dev w h format
      = match calc_gauss_weights expf (5 / 2) floats 11 with
        | none => InitResult.fault
        | some weights =>
          InitResult.done
            { filter with
              weights := sizeof_BlurFilter, weight_count := 11, blur_radius := 5,
              blur_radius_max := 5, device := dev, width := w, height := h, format := format,
              new_resources_flag := true, blur_map0 := ResourceState.COMMON,
              blur_map1 := ResourceState.COMMON } weights := by
  unfold BlurFilter_Init
  simp only [ceil_init_sigma]
  have h1 : (2 * (5 : Int) + 1).toNat = 11 := rfl
  simp only [h1]
  cases calc_gauss_weights expf (5 / 2) floats 11 with
  | none => rfl
  | some weights => rfl

theorem take_weights_sum {F : Type} [LinearOrderedField F] (w : List F) (n : Nat) (g : Nat → F)
    (S : F) (hS : S ≠ 0) (hsum : ((List.range n).map g).sum = S)
    (hw : ∀ m : Nat, m < n → w[m]? = some (g m / S)) : (w.take n).sum = 1 := by
  have h : w.take n = (List.range n).map (fun j => g j / S) := by
    apply List.ext_getElem?
    intro m
    rw [List.getElem?_take, List.getElem?_map]
    by_cases hm : m < n
    · simp [hm, hw m hm, List.getElem?_range hm]
    · have : (List.range n)[m]? = none :=
        List.getElem?_eq_none (by simp only [List.length_range]; omega)
      simp [hm, this]
  rw [h, sum_map_div, hsum, div_self hS]

end D3D

namespace D3D

/-! ## The claims on the stored fence values and the indices -/

/-- C28.  Absent 64-bit overflow: a call of `move_to_next_frame` (either
sample, any GPU progress) returns and leaves the stored fence value of the slot
at the frame index of entry one higher; and start-up followed by `3 * k` turns
of either main loop, or by `3 * k` bare calls of `move_to_next_frame`, returns
with slot 0 holding `1 + k` and slots 1 and 2 holding `k`. -/
theorem C28_slot_fences_after_3k_calls (smp : Sample) (n_obj n_mat gpu k : Nat)
    (gs : List (Nat × Nat)) (hlen : gs.length = 3 * k) (hk : 1 + k < UINT64_SIZE) :
    (∀ (N gpu1 : Nat) (t : D3DRenderContext), t.frame_index < t.frame_resources.length →
        t.fence_of t.frame_index + 1 < UINT64_SIZE →
        (∃ t1 r, Stenciling.move_to_next_frame N gpu1 t = some (t1, r)
          ∧ t1.fence_of t.frame_index = t.fence_of t.frame_index + 1)
        ∧ (∃ t1, Bezier.move_to_next_frame N gpu1 t = some t1
          ∧ t1.fence_of t.frame_index = t.fence_of t.frame_index + 1))
    ∧ (∃ s, (startup NUM_QUEUING_FRAMES n_obj n_mat gpu).bind
          (run_frames (smp.frame NUM_QUEUING_FRAMES) gs) = some s
        ∧ s.fence_of 0 = 1 + k ∧ s.fence_of 1 = k ∧ s.fence_of 2 = k)
    ∧ (∃ s, (startup NUM_QUEUING_FRAMES n_obj n_mat gpu).bind
          (run_frames (fun g t => Bezier.move_to_next_frame NUM_QUEUING_FRAMES g.1 t) gs) = some s
        ∧ s.fence_of 0 = 1 + k ∧ s.fence_of 1 = k ∧ s.fence_of 2 = k) := by
  obtain ⟨s0, s3, f0, f1, f2⟩ := startup_state_slots n_obj n_mat
  refine ⟨?_, ?_, ?_⟩
  · intro N gpu1 t hfi hno
    have h : ∀ j, (gpu_retire j (move_to_next_frame_effect N t)).fence_of t.frame_index
        = t.fence_of t.frame_index + 1 := by
      intro j
      rw [gpu_retire_fence_of, move_to_next_frame_effect_fence_of, if_pos ⟨rfl, hfi⟩,
        Nat.mod_eq_of_lt hno]
    constructor
    · obtain ⟨j, hj, _⟩ := stenciling_move_to_next_frame_spec N gpu1 t
      exact ⟨_, _, hj, h j⟩
    · obtain ⟨j, hj, _⟩ := bezier_move_to_next_frame_spec N gpu1 t
      exact ⟨_, hj, h j⟩
  · obtain ⟨j, hj⟩ := sample_run_frames_spec smp 3 gs (startup_state 3 n_obj n_mat)
    obtain ⟨_, _, g0, g1, g2⟩ := fences_after_3k (smp.frame_effect 3)
      (sample_frame_effect_frame_index smp 3) (sample_frame_effect_length smp 3)
      (sample_frame_effect_fence_of smp 3) (startup_state 3 n_obj n_mat) s0 s3 k
      (by rw [f0]; exact hk) (by rw [f1]; omega) (by rw [f2]; omega)
    rw [hlen] at hj
    refine ⟨_, by rw [startup_eq]; exact hj, ?_, ?_, ?_⟩
    · rw [gpu_retire_fence_of, g0, f0]
    · rw [gpu_retire_fence_of, g1, f1]; omega
    · rw [gpu_retire_fence_of, g2, f2]; omega
  · obtain ⟨j, hj⟩ := move_to_next_frame_calls_spec 3 gs (startup_state 3 n_obj n_mat)
    obtain ⟨_, _, g0, g1, g2⟩ := fences_after_3k (move_to_next_frame_effect 3)
      (move_to_next_frame_effect_frame_index 3) (move_to_next_frame_effect_length 3)
      (move_to_next_frame_effect_fence_of 3) (startup_state 3 n_obj n_mat) s0 s3 k
      (by rw [f0]; exact hk) (by rw [f1]; omega) (by rw [f2]; omega)
    rw [hlen] at hj
    refine ⟨_, by rw [startup_eq]; exact hj, ?_, ?_, ?_⟩
    · rw [gpu_retire_fence_of, g0, f0]
    · rw [gpu_retire_fence_of, g1, f1]; omega
    · rw [gpu_retire_fence_of, g2, f2]; omega

/-- C28 for the stenciling sample with `k = 2`: after start-up and six turns
the slots hold 3, 2 and 2. -/
theorem C28_slot_fences_after_3k_calls_witness :
    ([(0, 0), (1, 0), (0, 2), (3, 1), (0, 0), (2, 2)] : List (Nat × Nat)).length = 3 * 2
    ∧ 1 + 2 < UINT64_SIZE
    ∧ ∃ s, (startup NUM_QUEUING_FRAMES Stenciling._COUNT_RENDERITEM
            Stenciling._COUNT_MATERIAL 1).bind
          (run_frames (Stenciling.frame NUM_QUEUING_FRAMES)
            [(0, 0), (1, 0), (0, 2), (3, 1), (0, 0), (2, 2)]) = some s
        ∧ s.fence_of 0 = 3 ∧ s.fence_of 1 = 2 ∧ s.fence_of 2 = 2 :=
  ⟨rfl, by decide,
    (C28_slot_fences_after_3k_calls Sample.stenciling Stenciling._COUNT_RENDERITEM
      Stenciling._COUNT_MATERIAL 1 2 [(0, 0), (1, 0), (0, 2), (3, 1), (0, 0), (2, 2)] rfl
      (by decide)).2.1⟩

/-- C26.  With `N > 0` frame slots, in either sample: the context of
`RenderContext_Init` has `frame_index = 0 < N`, `backbuffer_index = 0 <
NUM_BACKBUFFERS` and `N` frame resources; `move_to_next_frame` returns with
both indices below their bounds; `d3d_resize` returns with `frame_index`
unchanged and `backbuffer_index` 0 (guard true) or unchanged (guard false);
and after start-up and any list of frames and resizes, under any GPU
progress, `frame_index < N = frame_resources.length` and `backbuffer_index <
NUM_BACKBUFFERS`. -/
theorem C26_indices_in_bounds (smp : Sample) (N n_obj n_mat : Nat) (hN : 0 < N) :
    ((RenderContext_Init N n_obj n_mat).frame_index < N
      ∧ (RenderContext_Init N n_obj n_mat).backbuffer_index < NUM_BACKBUFFERS
      ∧ (RenderContext_Init N n_obj n_mat).frame_resources.length = N)
    ∧ (∀ (gpu : Nat) (s : D3DRenderContext),
        (∃ s1 r, Stenciling.move_to_next_frame N gpu s = some (s1, r)
          ∧ s1.frame_index < N ∧ s1.backbuffer_index < NUM_BACKBUFFERS
          ∧ s1.frame_resources.length = s.frame_resources.length)
        ∧ (∃ s1, Bezier.move_to_next_frame N gpu s = some s1
          ∧ s1.frame_index < N ∧ s1.backbuffer_index < NUM_BACKBUFFERS
          ∧ s1.frame_resources.length = s.frame_resources.length))
    ∧ (∀ (g1 g2 : Nat) (s : D3DRenderContext), ∃ s1, d3d_resize g1 g2 s = some s1
        ∧ s1.frame_index = s.frame_index
        ∧ s1.frame_resources.length = s.frame_resources.length
        ∧ s1.backbuffer_index
            = if s.device && s.direct_cmd_list_alloc && s.swapchain then 0
              else s.backbuffer_index)
    ∧ (∀ (gpu : Nat) (ops : List LoopOp),
        ∃ s, (startup N n_obj n_mat gpu).bind (run_loop (smp.frame N) ops) = some s
          ∧ s.frame_index < N ∧ s.frame_index < s.frame_resources.length
          ∧ s.backbuffer_index < NUM_BACKBUFFERS) := by
  refine ⟨⟨hN, by simp [RenderContext_Init, NUM_BACKBUFFERS], by simp [RenderContext_Init]⟩,
    ?_, ?_, ?_⟩
  · intro gpu s
    have h : ∀ j, (gpu_retire j (move_to_next_frame_effect N s)).frame_index < N
        ∧ (gpu_retire j (move_to_next_frame_effect N s)).backbuffer_index < NUM_BACKBUFFERS
        ∧ (gpu_retire j (move_to_next_frame_effect N s)).frame_resources.length
            = s.frame_resources.length := by
      intro j
      refine ⟨?_, ?_, ?_⟩
      · rw [gpu_retire_frame_index, move_to_next_frame_effect_frame_index]
        exact Nat.mod_lt _ hN
      · have hb : (gpu_retire j (move_to_next_frame_effect N s)).backbuffer_index
            = (s.backbuffer_index + 1) % UINT_SIZE % NUM_BACKBUFFERS := rfl
        rw [hb]
        exact Nat.mod_lt _ (by decide)
      · exact move_to_next_frame_effect_length N s
    constructor
    · obtain ⟨j, hj, _⟩ := stenciling_move_to_next_frame_spec N gpu s
      exact ⟨_, _, hj, h j⟩
    · obtain ⟨j, hj, _⟩ := bezier_move_to_next_frame_spec N gpu s
      exact ⟨_, hj, h j⟩
  · intro g1 g2 s
    obtain ⟨j, hj⟩ := d3d_resize_spec g1 g2 s
    obtain ⟨hsame, _⟩ := d3d_resize_effect_keeps s
    refine ⟨_, hj, hsame.1, ?_, ?_⟩
    · have h : (gpu_retire j (d3d_resize_effect s)).frame_resources
          = (d3d_resize_effect s).frame_resources := rfl
      rw [h, hsame.2.1]
    · exact d3d_resize_effect_backbuffer_index s
  · intro gpu ops
    obtain ⟨j, hj⟩ := sample_run_loop_spec smp N ops (startup_state N n_obj n_mat)
    obtain ⟨a, b, c⟩ := startup_state_bounds_index N n_obj n_mat
    obtain ⟨h1, h2, h3⟩ := loop_effect_bounds_index smp N hN ops (startup_state N n_obj n_mat)
      (by rw [a]; exact hN) (by rw [b]; decide) c
    refine ⟨gpu_retire j (loop_effect (smp.frame_effect N) ops (startup_state N n_obj n_mat)),
      by rw [startup_eq]; exact hj, h1, ?_, h2⟩
    have h : (gpu_retire j (loop_effect (smp.frame_effect N) ops
        (startup_state N n_obj n_mat))).frame_resources.length = N := h3
    rw [h]
    exact h1

/-- C26 at the samples' three slots: start-up, a frame, a resize and two more
frames of the stenciling loop end with both indices in bounds. -/
theorem C26_indices_in_bounds_witness :
    0 < NUM_QUEUING_FRAMES
    ∧ ∃ s, (startup NUM_QUEUING_FRAMES Stenciling._COUNT_RENDERITEM
            Stenciling._COUNT_MATERIAL 0).bind
          (run_loop (Stenciling.frame NUM_QUEUING_FRAMES)
            [LoopOp.frame 0 0, LoopOp.resize 1 0, LoopOp.frame 0 2, LoopOp.frame 1 1]) = some s
        ∧ s.frame_index < NUM_QUEUING_FRAMES ∧ s.frame_index < s.frame_resources.length
        ∧ s.backbuffer_index < NUM_BACKBUFFERS :=
  ⟨by decide,
    (C26_indices_in_bounds Sample.stenciling NUM_QUEUING_FRAMES Stenciling._COUNT_RENDERITEM
      Stenciling._COUNT_MATERIAL (by decide)).2.2.2 0
      [LoopOp.frame 0 0, LoopOp.resize 1 0, LoopOp.frame 0 2, LoopOp.frame 1 1]⟩

/-- C23.  With one frame slot (`N = 1`), in either sample and under any GPU
progress: a call of `move_to_next_frame` entered with `frame_index = 0`
returns with `frame_index = 0`, its `Signal` and its wait carry the same value
(the stored fence value of slot 0) and on return the completed value of the
fence is at least that value; a turn of the main loop entered with
`frame_index = 0` returns, resets and records with the allocator of slot 0 and
leaves `frame_index = 0`; and start-up followed by any list of frames and
resizes returns with `frame_index = 0`, one wait per frame, each for the value
signaled last before it. -/
theorem C23_single_slot (smp : Sample) (n_obj n_mat gpu : Nat) (ops : List LoopOp) :
    (∀ (gpu1 : Nat) (t : D3DRenderContext), t.frame_index = 0 →
        (∃ t1 r, Stenciling.move_to_next_frame 1 gpu1 t = some (t1, r)
          ∧ t1.frame_index = 0
          ∧ t1.log = t.log ++ [Event.signal (t.fence_of 0), Event.wait_slot 0 (t.fence_of 0)]
          ∧ t.fence_of 0 ≤ t1.fence_completed)
        ∧ (∃ t1, Bezier.move_to_next_frame 1 gpu1 t = some t1
          ∧ t1.frame_index = 0
          ∧ t1.log = t.log ++ [Event.signal (t.fence_of 0), Event.wait_slot 0 (t.fence_of 0)]
          ∧ t.fence_of 0 ≤ t1.fence_completed))
    ∧ (∀ (g : Nat × Nat) (t : D3DRenderContext), t.frame_index = 0 →
        ∃ t1 ws, smp.frame 1 g t = some t1
          ∧ t1.frame_index = 0
          ∧ (∀ e ∈ ws, ∃ b k, e = Event.memcpy 0 b k)
          ∧ t1.log = t.log ++ ws
              ++ [Event.alloc_reset (Allocator.frame 0), Event.list_reset (Allocator.frame 0),
                  Event.execute (Allocator.frame 0), Event.present,
                  Event.signal (t.fence_of 0), Event.wait_slot 0 (t.fence_of 0)])
    ∧ (∃ s, (startup 1 n_obj n_mat gpu).bind (run_loop (smp.frame 1) ops) = some s
        ∧ s.frame_index = 0
        ∧ (slot_waits none s.log).length = (ops.filter LoopOp.is_frame).length
        ∧ ∀ p ∈ slot_waits none s.log, p.2 = some p.1) := by
  refine ⟨?_, ?_, ?_⟩
  · intro gpu1 t ht
    have hfi : ∀ j, (gpu_retire j (move_to_next_frame_effect 1 t)).frame_index = 0 := by
      intro j
      rw [gpu_retire_frame_index, move_to_next_frame_effect_frame_index]
      exact Nat.mod_one _
    have hlog : ∀ j, (gpu_retire j (move_to_next_frame_effect 1 t)).log
        = t.log ++ [Event.signal (t.fence_of 0), Event.wait_slot 0 (t.fence_of 0)] := by
      intro j
      rw [gpu_retire_log, move_to_next_frame_effect_log, ht]
    constructor
    · obtain ⟨j, hj, hle⟩ := stenciling_move_to_next_frame_spec 1 gpu1 t
      rw [ht] at hle
      exact ⟨_, _, hj, hfi j, hlog j, hle⟩
    · obtain ⟨j, hj, hle⟩ := bezier_move_to_next_frame_spec 1 gpu1 t
      rw [ht] at hle
      exact ⟨_, hj, hfi j, hlog j, hle⟩
  · intro g t ht
    obtain ⟨j, hj⟩ := sample_frame_spec smp 1 g t
    obtain ⟨ws, hlog, hws, _⟩ := sample_frame_effect_log smp 1 t
    rw [ht] at hlog hws
    refine ⟨_, ws, hj, ?_, hws, ?_⟩
    · rw [gpu_retire_frame_index, sample_frame_effect_frame_index]
      exact Nat.mod_one _
    · rw [gpu_retire_log, hlog]
      simp only [turn_events, List.append_assoc]
  · obtain ⟨j, hj⟩ := sample_run_loop_spec smp 1 ops (startup_state 1 n_obj n_mat)
    obtain ⟨new, hlog, hw⟩ := loop_effect_waits smp 1 ops (startup_state 1 n_obj n_mat)
    obtain ⟨a, b, c⟩ := startup_state_bounds_index 1 n_obj n_mat
    obtain ⟨h1, _, _⟩ := loop_effect_bounds_index smp 1 (by decide) ops
      (startup_state 1 n_obj n_mat) (by rw [a]; decide) (by rw [b]; decide) c
    refine ⟨gpu_retire j (loop_effect (smp.frame_effect 1) ops (startup_state 1 n_obj n_mat)),
      by rw [startup_eq]; exact hj, ?_, ?_, ?_⟩
    · rw [gpu_retire_frame_index]
      omega
    · rw [gpu_retire_log, hlog, startup_state_log, slot_waits_append]
      exact (hw _).1
    · intro p hp
      rw [gpu_retire_log, hlog, startup_state_log, slot_waits_append] at hp
      exact (hw _).2 p (by simpa [slot_waits] using hp)

/-! ## The claims on the constant buffers -/

/-- C27.  In either sample, for an item of `all_ritems` whose counter is 0 or
which is not initialized, and whose record index no other item among the first
`size` uses: `update_obj_cbuffers` leaves the object buffers of all slots other
than `frame_index` and the material buffers of all slots as they were, writes
(if at all) only object records of slot `frame_index`, leaves the record of
that item in slot `frame_index` as it was, and leaves the item, counter
included, as it was. -/
theorem C27_update_obj_cbuffers_frame (smp : Sample) (s : D3DRenderContext) (i : Nat)
    (it : RenderItem) (hit : s.all_ritems.ritems[i]? = some it)
    (hclean : it.n_frames_dirty = 0 ∨ it.initialized = false)
    (huniq : ∀ j, j < s.all_ritems.size → j ≠ i →
      (s.all_ritems.ritems[j]?).map RenderItem.obj_cbuffer_index ≠ some it.obj_cbuffer_index) :
    (∀ slot, slot ≠ s.frame_index →
        obj_cb_of (update_obj_cbuffers_with smp.object_constants s) slot = obj_cb_of s slot)
    ∧ (∀ slot, mat_cb_of (update_obj_cbuffers_with smp.object_constants s) slot
        = mat_cb_of s slot)
    ∧ (∃ ws, (update_obj_cbuffers_with smp.object_constants s).log = s.log ++ ws
        ∧ ∀ e ∈ ws, ∃ k, e = Event.memcpy s.frame_index CBuffer.obj k)
    ∧ obj_record (update_obj_cbuffers_with smp.object_constants s) s.frame_index
          it.obj_cbuffer_index
        = obj_record s s.frame_index it.obj_cbuffer_index
    ∧ (update_obj_cbuffers_with smp.object_constants s).all_ritems.ritems[i]? = some it := by
  obtain ⟨_, _, k3, k4⟩ := update_obj_cbuffers_with_keeps smp.object_constants s
  have hnot : ¬ (0 < it.n_frames_dirty ∧ it.initialized = true) := by
    rintro ⟨hd, hinit⟩
    rcases hclean with h | h
    · omega
    · rw [h] at hinit; cases hinit
  refine ⟨k4, k3, update_obj_cbuffers_with_log _ s, ?_, ?_⟩
  · unfold update_obj_cbuffers_with
    simp only []
    apply update_obj_cbuffers_fold_record_unchanged
    intro j other hj hother hd hinit
    by_cases hji : j = i
    · subst hji
      rw [hit] at hother
      cases hother
      exact absurd ⟨hd, hinit⟩ hnot
    · have h := huniq j hj hji
      rw [hother] at h
      intro heq
      exact h (by rw [← heq]; rfl)
  · rw [update_obj_cbuffers_with_counter, hit]
    have hsame : it.after_update = it := by
      unfold RenderItem.after_update
      rw [if_neg hnot]
    split <;> simp [hsame]

/-- C27 on a context with a clean item (record 0) and a dirty one (record 1)
at frame index 0 of two slots: the update leaves record 0 of slot 0 and the
clean item as they were. -/
theorem C27_update_obj_cbuffers_frame_witness :
    obj_record (update_obj_cbuffers_with Sample.stenciling.object_constants
        { frame_resources :=
            [{ obj_cb := [{ grid_spatial_step := 7 }, {}] }, { obj_cb := [{}, {}] }],
          all_ritems :=
            { size := 2,
              ritems := [{ obj_cbuffer_index := 0, n_frames_dirty := 0, initialized := true },
                         { obj_cbuffer_index := 1, n_frames_dirty := 3, initialized := true }] } })
        0 0
      = some { grid_spatial_step := 7 } :=
  ((C27_update_obj_cbuffers_frame Sample.stenciling
      { frame_resources :=
          [{ obj_cb := [{ grid_spatial_step := 7 }, {}] }, { obj_cb := [{}, {}] }],
        all_ritems :=
          { size := 2,
            ritems := [{ obj_cbuffer_index := 0, n_frames_dirty := 0, initialized := true },
                       { obj_cbuffer_index := 1, n_frames_dirty := 3, initialized := true }] } }
      0 { obj_cbuffer_index := 0, n_frames_dirty := 0, initialized := true }
      rfl (Or.inl rfl) (by decide)).2.2.2.1).trans (by decide)

/-! ## The claim on `draw_render_items` -/

/-- C21.  When the two `sizeof` values fit a `UINT` and no product of a record
index and a record size wraps at 64 bits: the calls `draw_render_items` records
are, for each initialized item among the first `size` entries of the array, in
array order, the block of that item (input assembler calls, texture table,
object constants at `obj_cbuffer_index * sizeof(ObjectConstants)` bytes from
the base address, material constants at `mat_cbuffer_index *
sizeof(MaterialConstants)` bytes from the base address, then the draw call),
and nothing for the other entries; so the draw calls are one per such item,
in array order. -/
theorem C21_draw_render_items (sizes : DrawSizes) (materials : List Material)
    (object_cbuffer mat_cbuffer : GpuAddress) (ritem_array : RenderItemArray)
    (current_frame_index : Nat)
    (hobj : sizes.sizeof_ObjectConstants < UINT_SIZE)
    (hmat : sizes.sizeof_MaterialConstants < UINT_SIZE)
    (hidx : ∀ item ∈ drawn_items ritem_array,
      item.obj_cbuffer_index * sizes.sizeof_ObjectConstants < UINT64_SIZE
      ∧ (Material_at materials item.mat).mat_cbuffer_index * sizes.sizeof_MaterialConstants
          < UINT64_SIZE) :
    draw_render_items sizes materials object_cbuffer mat_cbuffer ritem_array current_frame_index
      = ((ritem_array.ritems.take ritem_array.size).filter (fun item => item.initialized)).flatMap
          (fun item =>
            [DrawCmd.IASetVertexBuffers, DrawCmd.IASetIndexBuffer,
             DrawCmd.IASetPrimitiveTopology,
             DrawCmd.SetGraphicsRootDescriptorTable 0
               (sizes.cbv_srv_uav_descriptor_size
                 * (Material_at materials item.mat).diffuse_srvheap_index % UINT64_SIZE),
             DrawCmd.SetGraphicsRootConstantBufferView 1
               { object_cbuffer with
                 offset := object_cbuffer.offset
                   + item.obj_cbuffer_index * sizes.sizeof_ObjectConstants },
             DrawCmd.SetGraphicsRootConstantBufferView 3
               { mat_cbuffer with
                 offset := mat_cbuffer.offset
                   + (Material_at materials item.mat).mat_cbuffer_index
                       * sizes.sizeof_MaterialConstants },
             DrawCmd.DrawIndexedInstanced item.index_count 1 item.start_index_loc
               item.base_vertex_loc 0])
    ∧ draw_calls (draw_render_items sizes materials object_cbuffer mat_cbuffer ritem_array
          current_frame_index)
        = ((ritem_array.ritems.take ritem_array.size).filter (fun item => item.initialized)).map
            (fun item =>
              DrawCmd.DrawIndexedInstanced item.index_count 1 item.start_index_loc
                item.base_vertex_loc 0) := by
  have h := draw_render_items_eq sizes materials object_cbuffer mat_cbuffer ritem_array
    current_frame_index hobj hmat hidx
  refine ⟨h, ?_⟩
  rw [h]
  exact draw_calls_flatMap_item_commands sizes materials object_cbuffer mat_cbuffer _

/-- C21 on an array of three entries with `size = 3` whose middle entry is not
initialized, with record size 256: two blocks are recorded, for the first and
the third entry, with the object constants at bytes 512 and 0. -/
theorem C21_draw_render_items_witness :
    draw_render_items (DrawSizes.mk 256 256 512 32)
        [{ mat_cbuffer_index := 1, diffuse_srvheap_index := 2 }]
        ⟨0, CBuffer.obj, 0⟩ ⟨0, CBuffer.mat, 0⟩
        { size := 3,
          ritems := [{ obj_cbuffer_index := 2, index_count := 6, initialized := true },
                     { obj_cbuffer_index := 1, index_count := 9 },
                     { obj_cbuffer_index := 0, index_count := 12, initialized := true }] } 0
      = [DrawCmd.IASetVertexBuffers, DrawCmd.IASetIndexBuffer, DrawCmd.IASetPrimitiveTopology,
         DrawCmd.SetGraphicsRootDescriptorTable 0 64,
         DrawCmd.SetGraphicsRootConstantBufferView 1 ⟨0, CBuffer.obj, 512⟩,
         DrawCmd.SetGraphicsRootConstantBufferView 3 ⟨0, CBuffer.mat, 256⟩,
         DrawCmd.DrawIndexedInstanced 6 1 0 0 0,
         DrawCmd.IASetVertexBuffers, DrawCmd.IASetIndexBuffer, DrawCmd.IASetPrimitiveTopology,
         DrawCmd.SetGraphicsRootDescriptorTable 0 64,
         DrawCmd.SetGraphicsRootConstantBufferView 1 ⟨0, CBuffer.obj, 0⟩,
         DrawCmd.SetGraphicsRootConstantBufferView 3 ⟨0, CBuffer.mat, 256⟩,
         DrawCmd.DrawIndexedInstanced 12 1 0 0 0] :=
  ((C21_draw_render_items (DrawSizes.mk 256 256 512 32)
      [{ mat_cbuffer_index := 1, diffuse_srvheap_index := 2 }]
      ⟨0, CBuffer.obj, 0⟩ ⟨0, CBuffer.mat, 0⟩
      { size := 3,
        ritems := [{ obj_cbuffer_index := 2, index_count := 6, initialized := true },
                   { obj_cbuffer_index := 1, index_count := 9 },
                   { obj_cbuffer_index := 0, index_count := 12, initialized := true }] } 0
      (by decide) (by decide) (by decide)).1).trans (by decide)

/-- C22.  In the stenciling sample `create_render_items` assigns the
`obj_cbuffer_index` values 0, 1, 7, 2, 3, 4, 6, 5 (in `ALL_RENDERITEMS` order)
and `create_materials` the `mat_cbuffer_index` values 0 to 4; in the
tessellation sample the values are 0, 1 and 0.  In both they are pairwise
distinct and below `_COUNT_RENDERITEM` and `_COUNT_MATERIAL`, and `size` is
`_COUNT_RENDERITEM`.  Hence, from the start-up context with buffers sized for
`_COUNT_RENDERITEM` and `_COUNT_MATERIAL` records and this scene, any list of
frames and resizes under any GPU progress returns, every object or material
record it has written has an index below the count, every slot's buffer still
holds that many records, and the indices are the distinct ones assigned. -/
theorem C22_cbuffer_indices_distinct_in_bounds (Identity4x4 reflected_floor_world : XMFLOAT4X4)
    (room_geom skull_geom : MeshGeometry) (geom : List MeshGeometry) (N : Nat)
    (ops : List LoopOp) :
    ((Stenciling.created_scene Identity4x4 reflected_floor_world room_geom
          skull_geom).1.ritems.map RenderItem.obj_cbuffer_index = [0, 1, 7, 2, 3, 4, 6, 5]
      ∧ ((Stenciling.created_scene Identity4x4 reflected_floor_world room_geom
          skull_geom).1.ritems.map RenderItem.obj_cbuffer_index).Nodup
      ∧ (∀ k ∈ (Stenciling.created_scene Identity4x4 reflected_floor_world room_geom
          skull_geom).1.ritems.map RenderItem.obj_cbuffer_index, k < Stenciling._COUNT_RENDERITEM)
      ∧ (Stenciling.created_scene Identity4x4 reflected_floor_world room_geom
          skull_geom).1.size = Stenciling._COUNT_RENDERITEM
      ∧ (Stenciling.created_scene Identity4x4 reflected_floor_world room_geom
          skull_geom).2.2.map Material.mat_cbuffer_index = [0, 1, 2, 3, 4]
      ∧ ((Stenciling.created_scene Identity4x4 reflected_floor_world room_geom
          skull_geom).2.2.map Material.mat_cbuffer_index).Nodup
      ∧ (∀ k ∈ (Stenciling.created_scene Identity4x4 reflected_floor_world room_geom
          skull_geom).2.2.map Material.mat_cbuffer_index, k < Stenciling._COUNT_MATERIAL)
      ∧ ∃ s, run_loop (Stenciling.frame N) ops
            (scene_context N Stenciling._COUNT_RENDERITEM Stenciling._COUNT_MATERIAL
              (Stenciling.created_scene Identity4x4 reflected_floor_world room_geom skull_geom).1
              (Stenciling.created_scene Identity4x4 reflected_floor_world room_geom
                skull_geom).2.2) = some s
          ∧ (∀ e ∈ s.log,
              write_within Stenciling._COUNT_RENDERITEM Stenciling._COUNT_MATERIAL e = true)
          ∧ CBuffersFit Stenciling._COUNT_RENDERITEM Stenciling._COUNT_MATERIAL s
          ∧ obj_indices s = [0, 1, 7, 2, 3, 4, 6, 5] ∧ mat_indices s = [0, 1, 2, 3, 4])
    ∧ ((Bezier.created_scene Identity4x4 geom).1.ritems.map RenderItem.obj_cbuffer_index = [0, 1]
      ∧ ((Bezier.created_scene Identity4x4 geom).1.ritems.map RenderItem.obj_cbuffer_index).Nodup
      ∧ (∀ k ∈ (Bezier.created_scene Identity4x4 geom).1.ritems.map RenderItem.obj_cbuffer_index,
          k < Bezier._COUNT_RENDERITEM)
      ∧ (Bezier.created_scene Identity4x4 geom).1.size = Bezier._COUNT_RENDERITEM
      ∧ (Bezier.created_scene Identity4x4 geom).2.2.map Material.mat_cbuffer_index = [0]
      ∧ ((Bezier.created_scene Identity4x4 geom).2.2.map Material.mat_cbuffer_index).Nodup
      ∧ (∀ k ∈ (Bezier.created_scene Identity4x4 geom).2.2.map Material.mat_cbuffer_index,
          k < Bezier._COUNT_MATERIAL)
      ∧ ∃ s, run_loop (Bezier.frame N) ops
            (scene_context N Bezier._COUNT_RENDERITEM Bezier._COUNT_MATERIAL
              (Bezier.created_scene Identity4x4 geom).1
              (Bezier.created_scene Identity4x4 geom).2.2) = some s
          ∧ (∀ e ∈ s.log, write_within Bezier._COUNT_RENDERITEM Bezier._COUNT_MATERIAL e = true)
          ∧ CBuffersFit Bezier._COUNT_RENDERITEM Bezier._COUNT_MATERIAL s
          ∧ obj_indices s = [0, 1] ∧ mat_indices s = [0]) := by
  have so : (Stenciling.created_scene Identity4x4 reflected_floor_world room_geom
      skull_geom).1.ritems.map RenderItem.obj_cbuffer_index = [0, 1, 7, 2, 3, 4, 6, 5] :=
    stenciling_created_obj_indices Identity4x4 reflected_floor_world room_geom skull_geom
  have sm : (Stenciling.created_scene Identity4x4 reflected_floor_world room_geom
      skull_geom).2.2.map Material.mat_cbuffer_index = [0, 1, 2, 3, 4] :=
    stenciling_created_mat_indices Identity4x4 reflected_floor_world room_geom skull_geom
  have bo : (Bezier.created_scene Identity4x4 geom).1.ritems.map RenderItem.obj_cbuffer_index
      = [0, 1] := bezier_created_obj_indices Identity4x4 geom
  have bm : (Bezier.created_scene Identity4x4 geom).2.2.map Material.mat_cbuffer_index = [0] :=
    bezier_created_mat_indices Identity4x4 geom
  have so1 : ∀ k ∈ (Stenciling.created_scene Identity4x4 reflected_floor_world room_geom
      skull_geom).1.ritems.map RenderItem.obj_cbuffer_index, k < Stenciling._COUNT_RENDERITEM := by
    rw [so]; decide
  have sm1 : ∀ k ∈ (Stenciling.created_scene Identity4x4 reflected_floor_world room_geom
      skull_geom).2.2.map Material.mat_cbuffer_index, k < Stenciling._COUNT_MATERIAL := by
    rw [sm]; decide
  have bo1 : ∀ k ∈ (Bezier.created_scene Identity4x4 geom).1.ritems.map
      RenderItem.obj_cbuffer_index, k < Bezier._COUNT_RENDERITEM := by
    rw [bo]; decide
  have bm1 : ∀ k ∈ (Bezier.created_scene Identity4x4 geom).2.2.map Material.mat_cbuffer_index,
      k < Bezier._COUNT_MATERIAL := by
    rw [bm]; decide
  refine ⟨⟨so, by rw [so]; decide, so1, rfl, sm, by rw [sm]; decide, sm1, ?_⟩,
    ⟨bo, by rw [bo]; decide, bo1, rfl, bm, by rw [bm]; decide, bm1, ?_⟩⟩
  · obtain ⟨s, h1, h2, h3, h4, h5⟩ := scene_run_fit Sample.stenciling N
      Stenciling._COUNT_RENDERITEM Stenciling._COUNT_MATERIAL _ _ ops so1 sm1
    exact ⟨s, h1, h2, h3, h4.trans so, h5.trans sm⟩
  · obtain ⟨s, h1, h2, h3, h4, h5⟩ := scene_run_fit Sample.bezier N
      Bezier._COUNT_RENDERITEM Bezier._COUNT_MATERIAL _ _ ops bo1 bm1
    exact ⟨s, h1, h2, h3, h4.trans bo, h5.trans bm⟩

/-- C24.  The claim fails for a call with `blur_count = 0`: on fresh blur maps
such a call records matching barriers and leaves `blur_map0` in `GENERIC_READ`
and `blur_map1` in `UNORDERED_ACCESS`, but `new_resources_flag` stays set, since
it is cleared only inside the loop; the next call, with any `blur_count`, then
records the barriers `blur_map0: COMMON -> COPY_DEST` and `blur_map1: COMMON ->
UNORDERED_ACCESS`, neither of which names the state its texture is in.  When
every `blur_count` is at least 1, every barrier of every call matches; and
after any sequence of calls, a clear flag comes with `blur_map0` in
`GENERIC_READ` and `blur_map1` in `UNORDERED_ACCESS`. -/
theorem C24_stale_flag_after_zero_blur_count (ngroup : Nat → Nat) (filter : BlurFilter) :
    (execute_and_run ngroup (create_resources_internal filter) ResourceState.RENDER_TARGET 0).2
        = true
    ∧ (execute_and_run ngroup (create_resources_internal filter)
        ResourceState.RENDER_TARGET 0).1.new_resources_flag = true
    ∧ (execute_and_run ngroup (create_resources_internal filter)
        ResourceState.RENDER_TARGET 0).1.blur_map0 = ResourceState.GENERIC_READ
    ∧ (execute_and_run ngroup (create_resources_internal filter)
        ResourceState.RENDER_TARGET 0).1.blur_map1 = ResourceState.UNORDERED_ACCESS
    ∧ (∀ n : Nat,
        BlurCmd.ResourceBarrier BlurResource.blur_map0 ResourceState.COMMON ResourceState.COPY_DEST
          ∈ (BlurFilter_Execute ngroup (execute_and_run ngroup (create_resources_internal filter)
              ResourceState.RENDER_TARGET 0).1 n).2
        ∧ BlurCmd.ResourceBarrier BlurResource.blur_map1 ResourceState.COMMON
            ResourceState.UNORDERED_ACCESS
          ∈ (BlurFilter_Execute ngroup (execute_and_run ngroup (create_resources_internal filter)
              ResourceState.RENDER_TARGET 0).1 n).2
        ∧ (execute_calls ngroup (create_resources_internal filter) [0, n]).2 = [true, false])
    ∧ (∀ counts : List Nat, (∀ c ∈ counts, 1 ≤ c) →
        (execute_calls ngroup (create_resources_internal filter) counts).2
          = List.replicate counts.length true)
    ∧ (∀ counts : List Nat,
        (execute_calls ngroup (create_resources_internal filter) counts).1.new_resources_flag
          = false →
        (execute_calls ngroup (create_resources_internal filter) counts).1.blur_map0
          = ResourceState.GENERIC_READ
        ∧ (execute_calls ngroup (create_resources_internal filter) counts).1.blur_map1
          = ResourceState.UNORDERED_ACCESS) := by
  have h0 := execute_and_run_fresh ngroup (create_resources_internal filter) 0 rfl rfl rfl
  refine ⟨by rw [h0], by rw [h0]; rfl, by rw [h0], by rw [h0], ?_, ?_, ?_⟩
  · intro n
    rw [h0]
    refine ⟨?_, ?_, ?_⟩
    · rw [blur_execute_spec]
      apply List.mem_append_left
      simp [BlurFilter_Execute, blur_loop]
    · rw [blur_execute_spec]
      apply List.mem_append_left
      simp [BlurFilter_Execute, blur_loop]
    · simp only [execute_calls, h0]
      rw [execute_and_run_used ngroup _ n rfl rfl]
      rfl
  · intro counts hc
    exact execute_calls_positive ngroup counts _ (Or.inl ⟨rfl, rfl, rfl⟩) hc
  · intro counts hflag
    rcases execute_calls_reach ngroup counts (create_resources_internal filter)
      (Or.inl ⟨rfl, rfl, rfl⟩) with ⟨h, _, _⟩ | h
    · rw [h] at hflag
      cases hflag
    · exact h

/-- C29.  `BlurFilter_Resize` returns true exactly when `filter` is non-null and
`(w, h)` differs from the stored `(width, height)`; then it stores `w` and `h`,
sets `new_resources_flag` and replaces the blur maps by new textures in the
state `COMMON`, and changes no other field; otherwise the filter is as before.
A second call with the same `(w, h)` returns false and changes nothing. -/
theorem C29_resize_result (filter : Option BlurFilter) (w h : Nat) :
    ((BlurFilter_Resize filter w h).2 = true
        ↔ ∃ f, filter = some f ∧ (f.width ≠ w ∨ f.height ≠ h))
    ∧ (∀ f, filter = some f → (f.width ≠ w ∨ f.height ≠ h) →
        (BlurFilter_Resize filter w h).1
          = some { f with width := w, height := h, new_resources_flag := true,
                          blur_map0 := ResourceState.COMMON, blur_map1 := ResourceState.COMMON })
    ∧ ((BlurFilter_Resize filter w h).2 = false → (BlurFilter_Resize filter w h).1 = filter)
    ∧ (BlurFilter_Resize (BlurFilter_Resize filter w h).1 w h).2 = false
    ∧ (BlurFilter_Resize (BlurFilter_Resize filter w h).1 w h).1
        = (BlurFilter_Resize filter w h).1 := by
  cases filter with
  | none => simp [BlurFilter_Resize]
  | some f =>
    by_cases hc : f.width ≠ w ∨ f.height ≠ h
    · simp [BlurFilter_Resize, hc, create_resources_internal, create_descriptors_internal]
    · have hc1 := hc
      simp only [not_or, not_not] at hc1
      simp [BlurFilter_Resize, hc, hc1.1, hc1.2]

/-- C25.  In exact arithmetic, for `sigma > 0`, `r = ceil(2 sigma)`,
`weight_count = 2r + 1`, an array of at least `weight_count` entries and a
positive `expf`: `r` is at least 1, the divisor `2 sigma^2` is positive, and
`calc_gauss_weights` returns with `out_weights[i + r] = exp(-i^2 / (2 sigma^2))
/ S` for `i = -r .. r`, where `S` is the sum of those exponentials over the
same range; the entries past `weight_count` are as before and the
`weight_count` weights sum to 1. -/
theorem C25_gauss_weights_normalised {F : Type} [LinearOrderedField F] [FloorRing F]
    (expf : F → F) (sigma : F) (out_weights : List F) (weight_count : Nat)
    (hsigma : 0 < sigma) (hexp : ∀ x, 0 < expf x)
    (hcount : (weight_count : Int) = 2 * Int.ceil (2 * sigma) + 1)
    (hlen : weight_count ≤ out_weights.length) :
    1 ≤ Int.ceil (2 * sigma) ∧ 0 < 2 * sigma * sigma
    ∧ ∃ w, calc_gauss_weights expf sigma out_weights weight_count = some w
      ∧ w.length = out_weights.length
      ∧ (∀ i : Int, -Int.ceil (2 * sigma) ≤ i → i ≤ Int.ceil (2 * sigma) →
          w[(i + Int.ceil (2 * sigma)).toNat]?
            = some (gauss_term expf sigma i / gauss_sum expf sigma (Int.ceil (2 * sigma))))
      ∧ w.drop weight_count = out_weights.drop weight_count
      ∧ (w.take weight_count).sum = 1 := by
  have hr : 1 ≤ Int.ceil (2 * sigma) := Int.one_le_ceil_iff.mpr (by positivity)
  obtain ⟨w, h1, h2, h3⟩ := calc_gauss_weights_spec expf sigma out_weights weight_count hcount hlen
  have hn : (2 * Int.ceil (2 * sigma) + 1).toNat = weight_count := by omega
  refine ⟨hr, by positivity, w, h1, h2, ?_, ?_, ?_⟩
  · intro i hi1 hi2
    have hm : (i + Int.ceil (2 * sigma)).toNat < weight_count := by omega
    have hi : -Int.ceil (2 * sigma) + (((i + Int.ceil (2 * sigma)).toNat : Nat) : Int) = i := by
      omega
    rw [h3, if_pos hm, hi]
  · apply List.ext_getElem?
    intro m
    rw [List.getElem?_drop, List.getElem?_drop, h3, if_neg (by omega)]
  · apply take_weights_sum w weight_count
      (fun m : Nat => gauss_term expf sigma (-Int.ceil (2 * sigma) + (m : Int)))
      (gauss_sum expf sigma (Int.ceil (2 * sigma)))
      (ne_of_gt (gauss_sum_pos expf sigma _ hexp (by omega)))
    · unfold gauss_sum
      rw [hn]
    · intro m hm
      rw [h3, if_pos hm]

/-- C25 at the filter's own `sigma = 2.5` over the reals, with the real
exponential and an array of 11 zeros. -/
theorem C25_gauss_weights_normalised_witness :
    (0 : ℝ) < 5 / 2 ∧ (∀ x : ℝ, 0 < Real.exp x)
    ∧ ((11 : Nat) : Int) = 2 * Int.ceil (2 * (5 / 2 : ℝ)) + 1
    ∧ 11 ≤ (List.replicate 11 (0 : ℝ)).length
    ∧ ∃ w, calc_gauss_weights Real.exp (5 / 2) (List.replicate 11 (0 : ℝ)) 11 = some w
      ∧ (w.take 11).sum = 1 := by
  have h1 : (0 : ℝ) < 5 / 2 := by norm_num
  have h3 : ((11 : Nat) : Int) = 2 * Int.ceil (2 * (5 / 2 : ℝ)) + 1 := by
    rw [ceil_init_sigma]
    rfl
  have h4 : 11 ≤ (List.replicate 11 (0 : ℝ)).length := by simp
  obtain ⟨_, _, w, a, _, _, _, b⟩ :=
    C25_gauss_weights_normalised Real.exp (5 / 2) (List.replicate 11 (0 : ℝ)) 11 h1 Real.exp_pos
      h3 h4
  exact ⟨h1, Real.exp_pos, h3, h4, w, a, b⟩

/-- C30.  With `sizeof(BlurFilter) + 11 * sizeof(float)` in the range of
`size_t`: `BlurFilter_CalculateRequiredSize` returns that sum; on a block with
at least the 11 floats after the struct, `BlurFilter_Init` returns the filter
with `weights` at offset `sizeof(BlurFilter)`, `weight_count = 11`,
`blur_radius = 5` and `blur_radius_max = 5`, so that the weight array ends at
the required size; both assertions of `calc_gauss_weights` hold for the call,
the array it fills has the first 11 floats written and the rest as before; on
a block with fewer than 11 floats the call writes outside the block; and with
a null `memory` it returns null with nothing written. -/
theorem C30_init_weights_fit {F : Type} [LinearOrderedField F] [FloorRing F]
    (expf : F → F) (sizeof_BlurFilter sizeof_float : Nat) (filter : BlurFilter)
    (dev w h format : Nat)
    (hsize : sizeof_BlurFilter + 11 * sizeof_float < SIZE_T_SIZE) :
    BlurFilter_CalculateRequiredSize sizeof_BlurFilter sizeof_float
        = sizeof_BlurFilter + 11 * sizeof_float
    ∧ (∀ floats : List F, 11 ≤ floats.length →
        ∃ ret weights,
          BlurFilter_Init expf sizeof_BlurFilter filter (some floats) dev w h format
            = InitResult.done ret weights
          ∧ ret.weights = sizeof_BlurFilter ∧ ret.weight_count = 11
          ∧ ret.blur_radius = 5 ∧ ret.blur_radius_max = 5
          ∧ ret.weights + ret.weight_count * sizeof_float
              = BlurFilter_CalculateRequiredSize sizeof_BlurFilter sizeof_float
          ∧ calc_gauss_weights_asserts ret (5 / 2 : F) ret.weight_count = true
          ∧ calc_gauss_weights expf (5 / 2) floats ret.weight_count = some weights
          ∧ weights.length = floats.length
          ∧ weights.drop 11 = floats.drop 11)
    ∧ (∀ floats : List F, floats.length < 11 →
        BlurFilter_Init expf sizeof_BlurFilter filter (some floats) dev w h format
          = InitResult.fault)
    ∧ BlurFilter_Init expf sizeof_BlurFilter filter none dev w h format = InitResult.null := by
  have hreq := required_size_eq sizeof_BlurFilter sizeof_float hsize
  refine ⟨hreq, ?_, ?_, rfl⟩
  · intro floats hlen
    have hcount : ((11 : Nat) : Int) = 2 * Int.ceil (2 * (5 / 2 : F)) + 1 := by
      rw [ceil_init_sigma]
      rfl
    obtain ⟨weights, h1, h2, h3⟩ := calc_gauss_weights_spec expf (5 / 2) floats 11 hcount hlen
    refine ⟨{ filter with
        weights := sizeof_BlurFilter, weight_count := 11, blur_radius := 5,
        blur_radius_max := 5, device := dev, width := w, height := h, format := format,
        new_resources_flag := true, blur_map0 := ResourceState.COMMON,
        blur_map1 := ResourceState.COMMON }, weights, ?_, rfl, rfl, rfl, rfl, ?_, ?_, h1, h2, ?_⟩
    · rw [blur_filter_init_spec, h1]
    · rw [hreq]
    · unfold calc_gauss_weights_asserts
      simp only [ceil_init_sigma]
      rfl
    · apply List.ext_getElem?
      intro m
      rw [List.getElem?_drop, List.getElem?_drop, h3, if_neg (by omega)]
  · intro floats hlen
    rw [blur_filter_init_spec]
    have hnone : calc_gauss_weights expf (5 / 2) floats 11 = none := by
      unfold calc_gauss_weights
      simp only [ceil_init_sigma]
      have h1 : (2 * (5 : Int) + 1).toNat = 11 := rfl
      rw [h1, if_neg (by omega)]
    rw [hnone]

/-- C30 with a struct of 160 bytes, floats of 4 bytes, the real exponential and
a block of 11 zeros after the struct. -/
theorem C30_init_weights_fit_witness :
    160 + 11 * 4 < SIZE_T_SIZE
    ∧ BlurFilter_CalculateRequiredSize 160 4 = 204
    ∧ (∃ ret weights,
        BlurFilter_Init Real.exp 160 {} (some (List.replicate 11 (0 : ℝ))) 1 800 600 28
          = InitResult.done ret weights
        ∧ ret.weights = 160 ∧ ret.weight_count = 11 ∧ weights.length = 11)
    ∧ BlurFilter_Init Real.exp 160 {} none 1 800 600 28 = InitResult.null := by
  have hsize : 160 + 11 * 4 < SIZE_T_SIZE := by simp [SIZE_T_SIZE]
  obtain ⟨a, b, _, d⟩ := C30_init_weights_fit Real.exp 160 4 {} 1 800 600 28 hsize
  obtain ⟨ret, weights, h1, h2, h3, _, _, _, _, _, h9, _⟩ :=
    b (List.replicate 11 (0 : ℝ)) (by simp)
  exact ⟨hsize, a, ⟨ret, weights, h1, h2, h3, by simpa using h9⟩, d⟩

end D3D
